import Mathlib

/-! # SDL GLES2 render back end

A shallow embedding of `src/render/opengles2/SDL_render_gles2.c`: the program
cache (`GLES2_CacheProgram`), shader selection (`GLES2_SelectProgram`), the
draw-state tracker (`SetDrawState`, `SetCopyState`) and the command batcher
(`GLES2_RunCommandQueue`).

Conventions of the embedding.

* Pointers are natural numbers, `0` is `NULL`.  Program-cache entries live in a
  `Heap`; `SDL_calloc` hands out the address `brk + 1` and never reuses one.
  A function returns `none` when the C code would dereference `NULL` or a freed
  entry, or when a list walk does not end.
* Every OpenGL entry point called through `data->gl...` appends a `GLCall` to
  `gl.log`; what the driver answers (names, link and compile status, uniform
  locations) is read from an `Env`.
* `GLfloat` values are kept as bit patterns; float arithmetic is a field of `Env`.
* The file is modelled with `SDL_HAVE_YUV` defined and
  `USE_VERTEX_BUFFER_OBJECTS` equal to `0`.
-/

/-! ## Constants and plain data -/

/-- The `#define GLES2_MAX_CACHED_PROGRAMS 8` of the source. -/
def GLES2_MAX_CACHED_PROGRAMS : Nat := 8

/-- The enumerator `NUM_GLES2_UNIFORMS` of `GLES2_Uniform`. -/
def NUM_GLES2_UNIFORMS : Nat := 7

/-- Index of `GLES2_UNIFORM_PROJECTION`. -/
def GLES2_UNIFORM_PROJECTION : Nat := 0
/-- Index of `GLES2_UNIFORM_TEXTURE`. -/
def GLES2_UNIFORM_TEXTURE : Nat := 1
/-- Index of `GLES2_UNIFORM_TEXTURE_U`. -/
def GLES2_UNIFORM_TEXTURE_U : Nat := 2
/-- Index of `GLES2_UNIFORM_TEXTURE_V`. -/
def GLES2_UNIFORM_TEXTURE_V : Nat := 3
/-- Index of `GLES2_UNIFORM_TEXEL_SIZE`. -/
def GLES2_UNIFORM_TEXEL_SIZE : Nat := 4
/-- Index of `GLES2_UNIFORM_OFFSET`. -/
def GLES2_UNIFORM_OFFSET : Nat := 5
/-- Index of `GLES2_UNIFORM_MATRIX`. -/
def GLES2_UNIFORM_MATRIX : Nat := 6

/-- Index of `GLES2_ATTRIBUTE_POSITION`. -/
def GLES2_ATTRIBUTE_POSITION : Nat := 0
/-- Index of `GLES2_ATTRIBUTE_COLOR`. -/
def GLES2_ATTRIBUTE_COLOR : Nat := 1
/-- Index of `GLES2_ATTRIBUTE_TEXCOORD`. -/
def GLES2_ATTRIBUTE_TEXCOORD : Nat := 2

/-- A `GLfloat`, identified with its bit pattern (`memcmp` compares these). -/
structure GLfloat where
  bits : Nat
deriving DecidableEq, Repr

/-- The value of a `const float *shader_params`.  The source only ever stores
`NULL`, the address of one texture's `texel_size` array, or one of the constant
matrices returned by `SDL_GetYCbCRtoRGBConversionMatrix`; these are compared
by address. -/
inductive ShaderParams
  | null
  | texel_size (texture : Nat)
  | matrix (table : Nat)
deriving DecidableEq, Repr

/-- The struct `SDL_Rect`. -/
structure SDL_Rect where
  x : Int
  y : Int
  w : Int
  h : Int
deriving DecidableEq, Repr

/-- The struct `SDL_FColor`. -/
structure SDL_FColor where
  r : GLfloat
  g : GLfloat
  b : GLfloat
  a : GLfloat
deriving DecidableEq, Repr

/-- Modelled from the spec: the enum `GLES2_ShaderType` of `SDL_shaders_gles2.h`,
which is not among the sources.  The variants are those named in
`GLES2_SelectProgram`; their order is the one its comparisons
`ftype >= GLES2_SHADER_FRAGMENT_TEXTURE_ABGR_PIXELART` and
`ftype >= GLES2_SHADER_FRAGMENT_TEXTURE_YUV` rely on, with the optional
external shader last. -/
inductive GLES2_ShaderType
  | VERTEX_DEFAULT
  | FRAGMENT_SOLID
  | FRAGMENT_TEXTURE_ABGR
  | FRAGMENT_TEXTURE_ARGB
  | FRAGMENT_TEXTURE_BGR
  | FRAGMENT_TEXTURE_RGB
  | FRAGMENT_TEXTURE_ABGR_PIXELART
  | FRAGMENT_TEXTURE_ARGB_PIXELART
  | FRAGMENT_TEXTURE_BGR_PIXELART
  | FRAGMENT_TEXTURE_RGB_PIXELART
  | FRAGMENT_TEXTURE_YUV
  | FRAGMENT_TEXTURE_NV12_RA
  | FRAGMENT_TEXTURE_NV12_RG
  | FRAGMENT_TEXTURE_NV21_RA
  | FRAGMENT_TEXTURE_NV21_RG
  | FRAGMENT_TEXTURE_EXTERNAL_OES
deriving DecidableEq, Repr

/-- The integer value of a `GLES2_ShaderType` enumerator. -/
def GLES2_ShaderType.toNat : GLES2_ShaderType → Nat
  | .VERTEX_DEFAULT => 0
  | .FRAGMENT_SOLID => 1
  | .FRAGMENT_TEXTURE_ABGR => 2
  | .FRAGMENT_TEXTURE_ARGB => 3
  | .FRAGMENT_TEXTURE_BGR => 4
  | .FRAGMENT_TEXTURE_RGB => 5
  | .FRAGMENT_TEXTURE_ABGR_PIXELART => 6
  | .FRAGMENT_TEXTURE_ARGB_PIXELART => 7
  | .FRAGMENT_TEXTURE_BGR_PIXELART => 8
  | .FRAGMENT_TEXTURE_RGB_PIXELART => 9
  | .FRAGMENT_TEXTURE_YUV => 10
  | .FRAGMENT_TEXTURE_NV12_RA => 11
  | .FRAGMENT_TEXTURE_NV12_RG => 12
  | .FRAGMENT_TEXTURE_NV21_RA => 13
  | .FRAGMENT_TEXTURE_NV21_RG => 14
  | .FRAGMENT_TEXTURE_EXTERNAL_OES => 15

/-- The enum `GLES2_ImageSource`. -/
inductive GLES2_ImageSource
  | INVALID
  | SOLID
  | TEXTURE_ABGR
  | TEXTURE_ARGB
  | TEXTURE_RGB
  | TEXTURE_BGR
  | TEXTURE_YUV
  | TEXTURE_NV12
  | TEXTURE_NV21
  | TEXTURE_EXTERNAL_OES
deriving DecidableEq, Repr

/-- The values of `SDL_ScaleMode` (from `SDL_surface.h`, used by name in the source). -/
inductive SDL_ScaleMode
  | INVALID
  | NEAREST
  | LINEAR
  | PIXELART
deriving DecidableEq, Repr

/-- The values of `SDL_TextureAddressMode` used by name in the source. -/
inductive SDL_TextureAddressMode
  | INVALID
  | AUTO
  | CLAMP
  | WRAP
deriving DecidableEq, Repr

/-- The pixel formats the source distinguishes; `OTHER` stands for every
format that none of its `case` labels names. -/
inductive SDL_PixelFormat
  | BGRA32
  | RGBA32
  | BGRX32
  | RGBX32
  | IYUV
  | YV12
  | NV12
  | NV21
  | EXTERNAL_OES
  | OTHER (code : Nat)
deriving DecidableEq, Repr

/-- The type `SDL_BlendMode` is a `Uint32`. -/
abbrev SDL_BlendMode := Nat

/-- The value `SDL_BLENDMODE_NONE`. -/
def SDL_BLENDMODE_NONE : SDL_BlendMode := 0

/-- The value `SDL_BLENDMODE_INVALID`. -/
def SDL_BLENDMODE_INVALID : SDL_BlendMode := 0x7FFFFFFF

/-- The type `SDL_Colorspace` is an enum whose values are used as numbers. -/
abbrev SDL_Colorspace := Nat

/-- The value `SDL_COLORSPACE_SRGB`. -/
def SDL_COLORSPACE_SRGB : SDL_Colorspace := 0x120005a0

/-- The enum `SDL_BlendFactor`; `OTHER` is any value without a `case` label. -/
inductive SDL_BlendFactor
  | ZERO
  | ONE
  | SRC_COLOR
  | ONE_MINUS_SRC_COLOR
  | SRC_ALPHA
  | ONE_MINUS_SRC_ALPHA
  | DST_COLOR
  | ONE_MINUS_DST_COLOR
  | DST_ALPHA
  | ONE_MINUS_DST_ALPHA
  | OTHER (code : Nat)
deriving DecidableEq, Repr

/-- The enum `SDL_BlendOperation`; `OTHER` is any value without a `case` label. -/
inductive SDL_BlendOperation
  | ADD
  | SUBTRACT
  | REV_SUBTRACT
  | MINIMUM
  | MAXIMUM
  | OTHER (code : Nat)
deriving DecidableEq, Repr

/-- The GL enumerants that `GetBlendFunc` and `GetBlendEquation` return. -/
inductive GLenum
  | GL_ZERO
  | GL_ONE
  | GL_SRC_COLOR
  | GL_ONE_MINUS_SRC_COLOR
  | GL_SRC_ALPHA
  | GL_ONE_MINUS_SRC_ALPHA
  | GL_DST_COLOR
  | GL_ONE_MINUS_DST_COLOR
  | GL_DST_ALPHA
  | GL_ONE_MINUS_DST_ALPHA
  | GL_FUNC_ADD
  | GL_FUNC_SUBTRACT
  | GL_FUNC_REVERSE_SUBTRACT
  | GL_MIN_EXT
  | GL_MAX_EXT
  | GL_INVALID_ENUM
deriving DecidableEq, Repr

/-- Capabilities passed to `glEnable` and `glDisable`. -/
inductive GLCap
  | SCISSOR_TEST
  | BLEND
deriving DecidableEq, Repr

/-- Primitive modes passed to `glDrawArrays`. -/
inductive GLPrim
  | POINTS
  | LINES
  | LINE_STRIP
  | TRIANGLES
deriving DecidableEq, Repr

/-- Texture filter values passed to `glTexParameteri`. -/
inductive GLTexParam
  | MIN_FILTER_NEAREST
  | MAG_FILTER_NEAREST
  | MIN_FILTER_LINEAR
  | MAG_FILTER_LINEAR
  | WRAP_S_CLAMP_TO_EDGE
  | WRAP_S_REPEAT
  | WRAP_T_CLAMP_TO_EDGE
  | WRAP_T_REPEAT
deriving DecidableEq, Repr

/-- One call through a `data->gl...` function pointer, with its arguments. -/
inductive GLCall
  | createProgram (id : Nat)
  | attachShader (program shader : Nat)
  | bindAttribLocation (program index : Nat) (name : String)
  | linkProgram (program : Nat)
  | getProgramiv_LINK_STATUS (program : Nat)
  | deleteProgram (program : Nat)
  | getUniformLocation (program uniform : Nat)
  | useProgram (program : Nat)
  | uniform1i (location : Int) (value : Int)
  | uniformMatrix4fv (location : Int) (m : List GLfloat)
  | uniform3f (location : Int) (params : ShaderParams)
  | uniformMatrix3fv (location : Int) (params : ShaderParams)
  | uniform4f (location : Int) (params : ShaderParams)
  | createShader (id : Nat) (fragment : Bool)
  | shaderSource (id : Nat) (type : GLES2_ShaderType) (attempt : Nat)
  | compileShader (id : Nat)
  | getShaderiv_COMPILE_STATUS (id : Nat)
  | getShaderiv_INFO_LOG_LENGTH (id : Nat)
  | getShaderInfoLog (id : Nat)
  | deleteShader (id : Nat)
  | viewport (x y w h : Int)
  | scissor (x y w h : Int)
  | enable (cap : GLCap)
  | disable (cap : GLCap)
  | enableVertexAttribArray (index : Nat)
  | disableVertexAttribArray (index : Nat)
  | vertexAttribPointer (index size : Nat) (normalized : Bool) (stride : Nat) (pointer : Nat)
  | blendFuncSeparate (srcRGB dstRGB srcAlpha dstAlpha : GLenum)
  | blendEquationSeparate (modeRGB modeAlpha : GLenum)
  | activeTexture (unit : Nat)
  | bindTexture (target texture : Nat)
  | texParameteri (target : Nat) (param : GLTexParam)
  | clearColor (r g b a : GLfloat)
  | clear
  | drawArrays (mode : GLPrim) (first : Int) (count : Int)
  | bindFramebuffer (framebuffer : Nat)
  | framebufferTexture2D (textarget texture : Nat)
  | checkFramebufferStatus
deriving DecidableEq, Repr

/-! ## Context structures -/

/-- The struct `GLES2_ProgramCacheEntry`.  `uniform_locations` has
`NUM_GLES2_UNIFORMS` elements and `projection` has sixteen. -/
structure GLES2_ProgramCacheEntry where
  id : Nat
  vertex_shader : Nat
  fragment_shader : Nat
  uniform_locations : List Int
  projection : List GLfloat
  shader_params : ShaderParams
  prev : Nat
  next : Nat
deriving DecidableEq, Repr

/-- The struct `GLES2_ProgramCache`. -/
structure GLES2_ProgramCache where
  count : Nat
  head : Nat
  tail : Nat
deriving DecidableEq, Repr

/-- The struct `GLES2_DrawStateCache`. -/
structure GLES2_DrawStateCache where
  viewport : SDL_Rect
  viewport_dirty : Bool
  texture : Nat
  target : Nat
  blend : SDL_BlendMode
  cliprect_enabled_dirty : Bool
  cliprect_enabled : Bool
  cliprect_dirty : Bool
  cliprect : SDL_Rect
  texturing : Bool
  texturing_dirty : Bool
  clear_color : SDL_FColor
  clear_color_dirty : Bool
  drawablew : Int
  drawableh : Int
  program : Nat
  shader_params : ShaderParams
  projection : List GLfloat
deriving DecidableEq, Repr

/-- The part of `SDL_Texture` the back end reads, together with the
`GLES2_TextureData` it points to through `internal`. -/
structure SDL_Texture where
  format : SDL_PixelFormat
  colorspace : SDL_Colorspace
  texture : Nat
  texture_type : Nat
  yuv : Bool
  nv12 : Bool
  texture_v : Nat
  texture_u : Nat
  texture_scale_mode : SDL_ScaleMode
  texture_address_mode_u : SDL_TextureAddressMode
  texture_address_mode_v : SDL_TextureAddressMode
  /-- The name `fbo->FBO` of the framebuffer object of a target texture. -/
  fbo : Nat := 0
deriving DecidableEq, Repr

/-- The memory that holds the `GLES2_ProgramCacheEntry` objects: `cells p` is
the live entry at address `p`; `brk` is the last address `SDL_calloc` handed
out; `attempts` counts the calls of `SDL_calloc`. -/
structure Heap where
  cells : Nat → Option GLES2_ProgramCacheEntry
  brk : Nat
  attempts : Nat

/-- What the GL driver has been asked so far: the calls in order, and how many
programs and shaders were created. -/
structure GLDriver where
  log : List GLCall
  programs : Nat
  shaders : Nat
deriving DecidableEq, Repr

/-- The struct `GLES2_RenderData` (the fields the modelled functions use),
with the memory it points into, the textures, the driver and the SDL error
string. -/
structure GLES2_RenderData where
  debug_enabled : Bool
  GL_OES_EGL_image_external_supported : Bool
  GL_EXT_blend_minmax_supported : Bool
  shader_id_cache : GLES2_ShaderType → Nat
  program_cache : GLES2_ProgramCache
  drawstate : GLES2_DrawStateCache
  heap : Heap
  textures : Nat → Option SDL_Texture
  gl : GLDriver
  last_error : String
  window_framebuffer : Nat := 0

/-- Everything the code obtains from outside this file. -/
structure Env where
  /-- Whether the n-th call of `SDL_calloc` returns memory. -/
  callocOk : Nat → Bool
  /-- The name `glCreateProgram` returns at its n-th call. -/
  programName : Nat → Nat
  /-- The `GL_LINK_STATUS` of the n-th created program. -/
  linkStatus : Nat → Bool
  /-- The answer of `glGetUniformLocation` for the n-th created program. -/
  uniformLocation : Nat → Nat → Int
  /-- The name `glCreateShader` returns at its n-th call. -/
  shaderName : Nat → Nat
  /-- The `GL_COMPILE_STATUS` of the n-th created shader. -/
  compileStatus : Nat → Bool
  /-- Whether the n-th created shader has an info log that `SDL_malloc` can hold. -/
  infoLog : Nat → Bool
  /-- Whether `GLES2_GetShader` has a body for the shader type. -/
  shaderBody : GLES2_ShaderType → Bool
  /-- The table `SDL_GetYCbCRtoRGBConversionMatrix (colorspace, 0, 0, 8)` returns, if any. -/
  conversionMatrix : SDL_Colorspace → Option Nat
  /-- The hint `SDL_RENDER_OPENGL_NV12_RG_SHADER`. -/
  nv12_rg_hint : Bool
  /-- The decoder `SDL_GetBlendModeSrcColorFactor`. -/
  srcColorFactor : SDL_BlendMode → SDL_BlendFactor
  /-- The decoder `SDL_GetBlendModeSrcAlphaFactor`. -/
  srcAlphaFactor : SDL_BlendMode → SDL_BlendFactor
  /-- The decoder `SDL_GetBlendModeColorOperation`. -/
  colorOperation : SDL_BlendMode → SDL_BlendOperation
  /-- The decoder `SDL_GetBlendModeDstColorFactor`. -/
  dstColorFactor : SDL_BlendMode → SDL_BlendFactor
  /-- The decoder `SDL_GetBlendModeDstAlphaFactor`. -/
  dstAlphaFactor : SDL_BlendMode → SDL_BlendFactor
  /-- The decoder `SDL_GetBlendModeAlphaOperation`. -/
  alphaOperation : SDL_BlendMode → SDL_BlendOperation
  /-- Conversion of an `int` to `float`. -/
  floatOfInt : Int → GLfloat
  /-- Division of floats. -/
  fdiv : GLfloat → GLfloat → GLfloat
  /-- Product of floats. -/
  fmul : GLfloat → GLfloat → GLfloat
  /-- The comparison `!=` of floats. -/
  fne : GLfloat → GLfloat → Bool
  /-- Sum of floats. -/
  fadd : GLfloat → GLfloat → GLfloat
  /-- Difference of floats. -/
  fsub : GLfloat → GLfloat → GLfloat
  /-- The function `SDL_atan2f (y, x)`. -/
  atan2f : GLfloat → GLfloat → GLfloat
  /-- The function `SDL_cosf`. -/
  cosf : GLfloat → GLfloat
  /-- The function `SDL_sinf`. -/
  sinf : GLfloat → GLfloat

/-! ## Memory of program-cache entries -/

/-- Dereference of an entry pointer; `none` for `NULL` and for freed memory. -/
def Heap.read (h : Heap) (p : Nat) : Option GLES2_ProgramCacheEntry :=
  if p = 0 then none else h.cells p

/-- Store to an entry. -/
def Heap.write (h : Heap) (p : Nat) (e : GLES2_ProgramCacheEntry) : Heap :=
  { h with cells := fun q => if q = p then some e else h.cells q }

/-- An assignment through an entry pointer, `p->field = value`. -/
def Heap.modify (h : Heap) (p : Nat)
    (f : GLES2_ProgramCacheEntry → GLES2_ProgramCacheEntry) : Option Heap :=
  match h.read p with
  | none => none
  | some e => some (h.write p (f e))

/-- The call `SDL_free (p)`: nothing for `NULL`, a fault for memory that is not live. -/
def Heap.free (h : Heap) (p : Nat) : Option Heap :=
  if p = 0 then some h
  else match h.cells p with
    | none => none
    | some _ => some { h with cells := fun q => if q = p then none else h.cells q }

/-- The entry `SDL_calloc (1, sizeof (GLES2_ProgramCacheEntry))` returns: all zero. -/
def GLES2_ProgramCacheEntry.zero : GLES2_ProgramCacheEntry :=
  { id := 0, vertex_shader := 0, fragment_shader := 0,
    uniform_locations := List.replicate NUM_GLES2_UNIFORMS 0,
    projection := List.replicate 16 ⟨0⟩,
    shader_params := ShaderParams.null, prev := 0, next := 0 }

/-- Appends calls to the driver log. -/
def GLES2_RenderData.call (data : GLES2_RenderData) (cs : List GLCall) : GLES2_RenderData :=
  { data with gl := { data.gl with log := data.gl.log ++ cs } }

/-- The entries met when walking `next` from `p`, at most `fuel` of them; the
walk stops at `NULL` and at a pointer that is not live. -/
def Heap.walk (h : Heap) : Nat → Nat → List Nat
  | 0, _ => []
  | fuel + 1, p =>
    match h.read p with
    | none => []
    | some e => p :: h.walk fuel e.next

/-- The addresses of the entries reachable from `program_cache.head`, in list order. -/
def GLES2_RenderData.cached (data : GLES2_RenderData) : List Nat :=
  data.heap.walk data.heap.brk data.program_cache.head

/-- The `(vertex_shader, fragment_shader)` pair stored at an address
(`(0, 0)` where nothing is live). -/
def Heap.key (h : Heap) (p : Nat) : Nat × Nat :=
  match h.read p with
  | none => (0, 0)
  | some e => (e.vertex_shader, e.fragment_shader)

/-- The GL program name stored at an address. -/
def Heap.programId (h : Heap) (p : Nat) : Nat :=
  match h.read p with
  | none => 0
  | some e => e.id

/-- The pairs cached, from the head of the list to its end. -/
def GLES2_RenderData.cachedKeys (data : GLES2_RenderData) : List (Nat × Nat) :=
  data.cached.map data.heap.key

/-! ## `GLES2_CacheProgram` -/

/-- The search loop of `GLES2_CacheProgram` (lines 419-425):
`while (entry) { if (entry->vertex_shader == vertex && entry->fragment_shader == fragment) break; entry = entry->next; }`.
The result is the final value of `entry`; `none` when the walk leaves live
memory or takes more than `fuel` steps. -/
def GLES2_CacheProgram_search (h : Heap) (vertex fragment : Nat) : Nat → Nat → Option Nat
  | 0, _ => none
  | fuel + 1, entry =>
    if entry = 0 then some 0
    else match h.read entry with
      | none => none
      | some e =>
        if e.vertex_shader = vertex ∧ e.fragment_shader = fragment then some entry
        else GLES2_CacheProgram_search h vertex fragment fuel e.next

/-- The hit branch of `GLES2_CacheProgram` (lines 426-440): unlink `entry` and
put it in front unless it is the head already. -/
def GLES2_CacheProgram_hit (data : GLES2_RenderData) (entry : Nat) : Option GLES2_RenderData :=
  if data.program_cache.head = entry then some data
  else do
    let e ← data.heap.read entry
    let h1 ← (if e.next ≠ 0 then data.heap.modify e.next (fun n => { n with prev := e.prev })
              else some data.heap)
    let e1 ← h1.read entry
    let h2 ← (if e1.prev ≠ 0 then h1.modify e1.prev (fun n => { n with next := e1.next })
              else some h1)
    let h3 ← h2.modify entry (fun n => { n with prev := 0, next := data.program_cache.head })
    let h4 ← h3.modify data.program_cache.head (fun n => { n with prev := entry })
    some { data with heap := h4, program_cache := { data.program_cache with head := entry } }

/-- The calls `glUniform1i` and `glUniformMatrix4fv` that follow a successful
link (lines 471-483). -/
def GLES2_CacheProgram_defaults (id : Nat) (locs : List Int) (projection : List GLfloat) :
    List GLCall :=
  [GLCall.useProgram id]
  ++ (if locs.getD GLES2_UNIFORM_TEXTURE_V 0 ≠ -1
      then [GLCall.uniform1i (locs.getD GLES2_UNIFORM_TEXTURE_V 0) 2] else [])
  ++ (if locs.getD GLES2_UNIFORM_TEXTURE_U 0 ≠ -1
      then [GLCall.uniform1i (locs.getD GLES2_UNIFORM_TEXTURE_U 0) 1] else [])
  ++ (if locs.getD GLES2_UNIFORM_TEXTURE 0 ≠ -1
      then [GLCall.uniform1i (locs.getD GLES2_UNIFORM_TEXTURE 0) 0] else [])
  ++ (if locs.getD GLES2_UNIFORM_PROJECTION 0 ≠ -1
      then [GLCall.uniformMatrix4fv (locs.getD GLES2_UNIFORM_PROJECTION 0) projection] else [])

/-- The eviction at the end of `GLES2_CacheProgram` (lines 495-504). -/
def GLES2_CacheProgram_evict (data : GLES2_RenderData) : Option GLES2_RenderData :=
  if data.program_cache.count > GLES2_MAX_CACHED_PROGRAMS then do
    let t ← data.heap.read data.program_cache.tail
    let data1 := data.call [GLCall.deleteProgram t.id]
    let tail := t.prev
    let h1 ← (if tail ≠ 0 then
                (data1.heap.read tail).bind (fun t1 =>
                  (data1.heap.free t1.next).bind (fun h =>
                    h.modify tail (fun n => { n with next := 0 })))
              else some data1.heap)
    some { data1 with heap := h1,
                      program_cache := { data1.program_cache with
                                         tail := tail, count := data1.program_cache.count - 1 } }
  else some data

/-- The calls that create and link a program (lines 451-458). -/
def GLES2_CacheProgram_build (id vertex fragment : Nat) : List GLCall :=
  [GLCall.createProgram id, GLCall.attachShader id vertex, GLCall.attachShader id fragment,
   GLCall.bindAttribLocation id GLES2_ATTRIBUTE_POSITION "a_position",
   GLCall.bindAttribLocation id GLES2_ATTRIBUTE_COLOR "a_color",
   GLCall.bindAttribLocation id GLES2_ATTRIBUTE_TEXCOORD "a_texCoord",
   GLCall.linkProgram id, GLCall.getProgramiv_LINK_STATUS id]

/-- Lines 443-458 of `GLES2_CacheProgram` after a successful `SDL_calloc`: the
zeroed entry at `brk + 1` receives the two shaders and the name of the new
program, which is built and linked. -/
def GLES2_CacheProgram_create (env : Env) (data : GLES2_RenderData) (vertex fragment : Nat) :
    GLES2_RenderData :=
  let entry := data.heap.brk + 1
  let id := env.programName data.gl.programs
  let e0 : GLES2_ProgramCacheEntry :=
    { GLES2_ProgramCacheEntry.zero with
      vertex_shader := vertex, fragment_shader := fragment, id := id }
  ({ data with
      heap := { cells := fun q => if q = entry then some e0 else data.heap.cells q,
                brk := entry, attempts := data.heap.attempts + 1 },
      gl := { data.gl with programs := data.gl.programs + 1 } }).call
    (GLES2_CacheProgram_build id vertex fragment)

/-- The answers of `glGetUniformLocation` for the `n`-th created program
(lines 467-469). -/
def GLES2_CacheProgram_locs (env : Env) (n : Nat) : List Int :=
  (List.range NUM_GLES2_UNIFORMS).map (env.uniformLocation n)

/-- Lines 466-493 of `GLES2_CacheProgram`: the uniform locations of the linked
program `n` are stored, the default uniforms are set, and `entry` becomes the
head of the list. -/
def GLES2_CacheProgram_insert (env : Env) (data1 : GLES2_RenderData) (entry n : Nat) :
    Option GLES2_RenderData :=
  (data1.heap.read entry).bind (fun e =>
    (if data1.program_cache.head ≠ 0 then
       ((data1.heap.write entry
            { e with uniform_locations := GLES2_CacheProgram_locs env n }).modify entry
          (fun e => { e with next := data1.program_cache.head })).bind
         (fun h => h.modify data1.program_cache.head (fun e => { e with prev := entry }))
     else some (data1.heap.write entry
                  { e with uniform_locations := GLES2_CacheProgram_locs env n })).bind
      (fun h3 =>
        some (({ data1 with
                  heap := h3,
                  program_cache :=
                    { count := data1.program_cache.count + 1,
                      head := entry,
                      tail := if data1.program_cache.head ≠ 0 then data1.program_cache.tail
                              else entry } }).call
                ((List.range NUM_GLES2_UNIFORMS).map (GLCall.getUniformLocation e.id)
                  ++ GLES2_CacheProgram_defaults e.id (GLES2_CacheProgram_locs env n)
                       e.projection))))

/-- The miss branch of `GLES2_CacheProgram` (lines 442-505): allocate an entry,
create and link the program, insert the entry at the head, evict. -/
def GLES2_CacheProgram_miss (env : Env) (data : GLES2_RenderData) (vertex fragment : Nat) :
    Option (Nat × GLES2_RenderData) :=
  if env.callocOk data.heap.attempts = false then
    some (0, { data with heap := { data.heap with attempts := data.heap.attempts + 1 } })
  else
    let entry := data.heap.brk + 1
    let data1 := GLES2_CacheProgram_create env data vertex fragment
    if env.linkStatus data.gl.programs = false then
      let data2 := data1.call [GLCall.deleteProgram (env.programName data.gl.programs)]
      (data2.heap.free entry).bind (fun h =>
        some (0, { data2 with heap := h, last_error := "Failed to link shader program" }))
    else
      (GLES2_CacheProgram_insert env data1 entry data.gl.programs).bind (fun data3 =>
        (GLES2_CacheProgram_evict data3).bind (fun data4 => some (entry, data4)))

/-- The function `GLES2_CacheProgram`: the entry for the pair, `0` for `NULL`. -/
def GLES2_CacheProgram (env : Env) (data : GLES2_RenderData) (vertex fragment : Nat) :
    Option (Nat × GLES2_RenderData) :=
  (GLES2_CacheProgram_search data.heap vertex fragment (data.heap.brk + 1)
      data.program_cache.head).bind (fun entry =>
    if entry ≠ 0 then
      (GLES2_CacheProgram_hit data entry).bind (fun data1 => some (entry, data1))
    else GLES2_CacheProgram_miss env data vertex fragment)

/-! ## Initial state -/

/-- The all-zero `GLES2_DrawStateCache`. -/
def GLES2_DrawStateCache.zero : GLES2_DrawStateCache :=
  { viewport := ⟨0, 0, 0, 0⟩, viewport_dirty := false, texture := 0, target := 0,
    blend := 0, cliprect_enabled_dirty := false, cliprect_enabled := false,
    cliprect_dirty := false, cliprect := ⟨0, 0, 0, 0⟩, texturing := false,
    texturing_dirty := false, clear_color := ⟨⟨0⟩, ⟨0⟩, ⟨0⟩, ⟨0⟩⟩, clear_color_dirty := false,
    drawablew := 0, drawableh := 0, program := 0, shader_params := ShaderParams.null,
    projection := List.replicate 16 ⟨0⟩ }

/-- The `GLES2_RenderData` that `SDL_calloc` returns in `GLES2_CreateRenderer`:
every field zero, no entry allocated, no GL call made yet. -/
def GLES2_RenderData.zero : GLES2_RenderData :=
  { debug_enabled := false,
    GL_OES_EGL_image_external_supported := false,
    GL_EXT_blend_minmax_supported := false,
    shader_id_cache := fun _ => 0,
    program_cache := { count := 0, head := 0, tail := 0 },
    drawstate := GLES2_DrawStateCache.zero,
    heap := { cells := fun _ => none, brk := 0, attempts := 0 },
    textures := fun _ => none,
    gl := { log := [], programs := 0, shaders := 0 },
    last_error := "" }

/-- A sequence of `GLES2_CacheProgram` calls, one per `(vertex, fragment)`
request; the result lists what each call returned. -/
def GLES2_CacheProgram_run (env : Env) :
    GLES2_RenderData → List (Nat × Nat) → Option (List Nat × GLES2_RenderData)
  | data, [] => some ([], data)
  | data, (v, f) :: rest =>
    match GLES2_CacheProgram env data v f with
    | none => none
    | some (entry, data1) =>
      match GLES2_CacheProgram_run env data1 rest with
      | none => none
      | some (entries, data2) => some (entry :: entries, data2)

/-- The programs deleted so far, in order: the arguments of the logged
`glDeleteProgram` calls. -/
def deletedPrograms : List GLCall → List Nat
  | [] => []
  | GLCall.deleteProgram id :: cs => id :: deletedPrograms cs
  | _ :: cs => deletedPrograms cs

/-- A driver that links every program; the n-th program is named `100 + n`. -/
def Env.plain : Env :=
  { callocOk := fun _ => true,
    programName := fun n => 100 + n,
    linkStatus := fun _ => true,
    uniformLocation := fun _ u => (u : Int),
    shaderName := fun n => 1 + n,
    compileStatus := fun _ => true,
    infoLog := fun _ => false,
    shaderBody := fun _ => true,
    conversionMatrix := fun _ => none,
    nv12_rg_hint := false,
    srcColorFactor := fun _ => SDL_BlendFactor.ONE,
    srcAlphaFactor := fun _ => SDL_BlendFactor.ONE,
    colorOperation := fun _ => SDL_BlendOperation.ADD,
    dstColorFactor := fun _ => SDL_BlendFactor.ZERO,
    dstAlphaFactor := fun _ => SDL_BlendFactor.ZERO,
    alphaOperation := fun _ => SDL_BlendOperation.ADD,
    floatOfInt := fun i => ⟨i.toNat⟩,
    fdiv := fun a b => ⟨a.bits / b.bits⟩,
    fmul := fun a b => ⟨a.bits * b.bits⟩,
    fne := fun a b => a.bits != b.bits,
    fadd := fun a b => ⟨a.bits + b.bits⟩,
    fsub := fun a b => ⟨a.bits - b.bits⟩,
    atan2f := fun _ _ => ⟨0⟩,
    cosf := fun _ => ⟨0⟩,
    sinf := fun _ => ⟨0⟩ }

/-! ## Well-linked cache lists -/

/-- The list segment `xs`: walking `next` from `p` visits exactly the live
entries `xs`, none of them `NULL`, and arrives at `q`; the `prev` field of
each entry is the address of the entry before it, `prev` for the first. -/
def Heap.seg (h : Heap) : Nat → Nat → List Nat → Nat → Prop
  | _, p, [], q => p = q
  | prev, p, a :: as, q =>
    p = a ∧ a ≠ 0 ∧ ∃ e, h.cells a = some e ∧ e.prev = prev ∧ h.seg a e.next as q

/-- The program cache of `data` is the doubly linked list `xs`: the entries
reachable from `head` are `xs`, pairwise different, properly linked in both
directions and allocated by `SDL_calloc`. -/
def GLES2_RenderData.Linked (data : GLES2_RenderData) (xs : List Nat) : Prop :=
  data.heap.seg 0 data.program_cache.head xs 0 ∧ xs.Nodup ∧ ∀ a ∈ xs, a ≤ data.heap.brk

/-- The invariant of the program cache: a well-linked list `xs` without two
entries for one pair, `tail` one of its entries, `count` zero when the list is
empty, and at most `count` entries with `count` at most
`GLES2_MAX_CACHED_PROGRAMS`. -/
def GLES2_RenderData.CacheInv (data : GLES2_RenderData) (xs : List Nat) : Prop :=
  data.Linked xs ∧ (xs.map data.heap.key).Nodup ∧
  (xs ≠ [] → data.program_cache.tail ∈ xs) ∧
  (xs = [] → data.program_cache.count = 0) ∧
  xs.length ≤ data.program_cache.count ∧
  data.program_cache.count ≤ GLES2_MAX_CACHED_PROGRAMS

/-- The fields of an entry other than its two links. -/
def GLES2_ProgramCacheEntry.payload (e : GLES2_ProgramCacheEntry) : GLES2_ProgramCacheEntry :=
  { e with prev := 0, next := 0 }

/-- The first entry of `xs` that stores the pair, `0` when there is none. -/
def Heap.find (h : Heap) (vertex fragment : Nat) : List Nat → Nat
  | [] => 0
  | a :: as => if h.key a = (vertex, fragment) then a else h.find vertex fragment as


/-! ## Shader compilation and program selection -/

/-- The function `SDL_SetError`: the message becomes the error string (the
callers return `false`). -/
def SDL_SetError (data : GLES2_RenderData) (msg : String) : GLES2_RenderData :=
  { data with last_error := msg }

/-- One pass of the compile loop of `GLES2_CacheShader` (lines 520-558): a
shader is created, given its sources and compiled.  The result is the compile
status, the shader name and the new state. -/
def GLES2_CacheShader_attempt (env : Env) (data : GLES2_RenderData) (type : GLES2_ShaderType)
    (fragment : Bool) (attempt : Nat) : Bool × Nat × GLES2_RenderData :=
  (env.compileStatus data.gl.shaders, env.shaderName data.gl.shaders,
   ({ data with gl := { data.gl with shaders := data.gl.shaders + 1 } }).call
     [GLCall.createShader (env.shaderName data.gl.shaders) fragment,
      GLCall.shaderSource (env.shaderName data.gl.shaders) type attempt,
      GLCall.compileShader (env.shaderName data.gl.shaders),
      GLCall.getShaderiv_COMPILE_STATUS (env.shaderName data.gl.shaders)])

/-- The failure exit of `GLES2_CacheShader` (lines 560-581) for the shader
`id`, the `n`-th created. -/
def GLES2_CacheShader_fail (env : Env) (data : GLES2_RenderData) (type : GLES2_ShaderType)
    (id n : Nat) : Bool × GLES2_RenderData :=
  (false,
   SDL_SetError
     (data.call ([GLCall.getShaderiv_INFO_LOG_LENGTH id]
        ++ (if env.infoLog n then [GLCall.getShaderInfoLog id] else [])
        ++ [GLCall.deleteShader id]))
     ("Failed to load the shader " ++ toString type.toNat))

/-- The function `GLES2_CacheShader`; `fragment` tells whether `shader_type`
is `GL_FRAGMENT_SHADER`.  At most two compile attempts are made; on success
the name of the shader is stored in `shader_id_cache`. -/
def GLES2_CacheShader (env : Env) (data : GLES2_RenderData) (type : GLES2_ShaderType)
    (fragment : Bool) : Bool × GLES2_RenderData :=
  if env.shaderBody type = false then (false, SDL_SetError data "No shader body src")
  else
    let a0 := GLES2_CacheShader_attempt env data type fragment 0
    if a0.1 then
      (true, { a0.2.2 with
               shader_id_cache := fun t => if t = type then a0.2.1 else a0.2.2.shader_id_cache t })
    else
      let a1 := GLES2_CacheShader_attempt env a0.2.2 type fragment 1
      if a1.1 then
        (true, { a1.2.2 with
                 shader_id_cache :=
                   fun t => if t = type then a1.2.1 else a1.2.2.shader_id_cache t })
      else GLES2_CacheShader_fail env a1.2.2 type a1.2.1 (data.gl.shaders + 1)

/-- The `switch (source)` of `GLES2_SelectProgram` (lines 621-696): the
fragment shader type and the shader parameters, or the jump to `fault` with
the error message set on the way, if any. -/
def GLES2_SelectProgram_variant (env : Env) (texture : Nat) (source : GLES2_ImageSource)
    (scale_mode : SDL_ScaleMode) (colorspace : SDL_Colorspace) :
    Except (Option String) (GLES2_ShaderType × ShaderParams) :=
  match source with
  | .SOLID => .ok (.FRAGMENT_SOLID, .null)
  | .TEXTURE_ABGR =>
    if scale_mode = .PIXELART then .ok (.FRAGMENT_TEXTURE_ABGR_PIXELART, .texel_size texture)
    else .ok (.FRAGMENT_TEXTURE_ABGR, .null)
  | .TEXTURE_ARGB =>
    if scale_mode = .PIXELART then .ok (.FRAGMENT_TEXTURE_ARGB_PIXELART, .texel_size texture)
    else .ok (.FRAGMENT_TEXTURE_ARGB, .null)
  | .TEXTURE_RGB =>
    if scale_mode = .PIXELART then .ok (.FRAGMENT_TEXTURE_RGB_PIXELART, .texel_size texture)
    else .ok (.FRAGMENT_TEXTURE_RGB, .null)
  | .TEXTURE_BGR =>
    if scale_mode = .PIXELART then .ok (.FRAGMENT_TEXTURE_BGR_PIXELART, .texel_size texture)
    else .ok (.FRAGMENT_TEXTURE_BGR, .null)
  | .TEXTURE_YUV =>
    match env.conversionMatrix colorspace with
    | none => .error (some "Unsupported YUV colorspace")
    | some m => .ok (.FRAGMENT_TEXTURE_YUV, .matrix m)
  | .TEXTURE_NV12 =>
    match env.conversionMatrix colorspace with
    | none => .error (some "Unsupported YUV colorspace")
    | some m =>
      .ok (if env.nv12_rg_hint then .FRAGMENT_TEXTURE_NV12_RG else .FRAGMENT_TEXTURE_NV12_RA,
           .matrix m)
  | .TEXTURE_NV21 =>
    match env.conversionMatrix colorspace with
    | none => .error (some "Unsupported YUV colorspace")
    | some m =>
      .ok (if env.nv12_rg_hint then .FRAGMENT_TEXTURE_NV21_RG else .FRAGMENT_TEXTURE_NV21_RA,
           .matrix m)
  | .TEXTURE_EXTERNAL_OES => .ok (.FRAGMENT_TEXTURE_EXTERNAL_OES, .null)
  | .INVALID => .error none

/-- The label `fault` of `GLES2_SelectProgram` (lines 767-769). -/
def GLES2_SelectProgram_fault (data : GLES2_RenderData) : Option (Bool × GLES2_RenderData) :=
  some (false, { data with drawstate := { data.drawstate with program := 0 } })

/-- Lines 699-713 of `GLES2_SelectProgram` for one shader type: the cached
name, or, when that is zero, the value of `GLES2_CacheShader`, a `bool`
assigned to the `GLuint`. -/
def GLES2_SelectProgram_shader (env : Env) (data : GLES2_RenderData) (type : GLES2_ShaderType)
    (fragment : Bool) : Nat × GLES2_RenderData :=
  if data.shader_id_cache type ≠ 0 then (data.shader_id_cache type, data)
  else
    ((if (GLES2_CacheShader env data type fragment).1 then 1 else 0),
     (GLES2_CacheShader env data type fragment).2)

/-- The uniform uploads of lines 732-760 for the entry `p` at `program`. -/
def GLES2_SelectProgram_params (data : GLES2_RenderData) (program : Nat)
    (p : GLES2_ProgramCacheEntry) (ftype : GLES2_ShaderType) (shader_params : ShaderParams) :
    GLES2_RenderData :=
  if shader_params ≠ ShaderParams.null ∧ shader_params ≠ p.shader_params then
    let calls : List GLCall :=
      if ftype.toNat ≥ GLES2_ShaderType.FRAGMENT_TEXTURE_YUV.toNat then
        (if p.uniform_locations.getD GLES2_UNIFORM_OFFSET 0 ≠ -1
         then [GLCall.uniform3f (p.uniform_locations.getD GLES2_UNIFORM_OFFSET 0) shader_params]
         else [])
        ++ (if p.uniform_locations.getD GLES2_UNIFORM_MATRIX 0 ≠ -1
            then [GLCall.uniformMatrix3fv (p.uniform_locations.getD GLES2_UNIFORM_MATRIX 0)
                    shader_params]
            else [])
      else if ftype.toNat ≥ GLES2_ShaderType.FRAGMENT_TEXTURE_ABGR_PIXELART.toNat then
        [GLCall.uniform4f (p.uniform_locations.getD GLES2_UNIFORM_TEXEL_SIZE 0) shader_params]
      else []
    { data.call calls with
      heap := data.heap.write program { p with shader_params := shader_params } }
  else data

/-- The test of lines 716-721: whether the current program is the one wanted.
The result is `none` when `drawstate.program` points to freed memory. -/
def GLES2_SelectProgram_current (data : GLES2_RenderData) (vertex fragment : Nat)
    (shader_params : ShaderParams) : Option Bool :=
  if data.drawstate.program = 0 then some false
  else
    match data.heap.read data.drawstate.program with
    | none => none
    | some p =>
      some (decide (p.vertex_shader = vertex ∧ p.fragment_shader = fragment
                    ∧ p.shader_params = shader_params))

/-- Lines 723-766 of `GLES2_SelectProgram`: the program is taken from the
cache, made current and given its parameters. -/
def GLES2_SelectProgram_use (env : Env) (data : GLES2_RenderData) (vertex fragment : Nat)
    (ftype : GLES2_ShaderType) (shader_params : ShaderParams) :
    Option (Bool × GLES2_RenderData) :=
  (GLES2_CacheProgram env data vertex fragment).bind (fun r =>
    if r.1 = 0 then GLES2_SelectProgram_fault r.2
    else
      (r.2.heap.read r.1).bind (fun p =>
        some (true,
          { GLES2_SelectProgram_params (r.2.call [GLCall.useProgram p.id]) r.1 p ftype
              shader_params with
            drawstate :=
              { (GLES2_SelectProgram_params (r.2.call [GLCall.useProgram p.id]) r.1 p ftype
                   shader_params).drawstate with program := r.1 } })))

/-- Lines 698-766 of `GLES2_SelectProgram`, for the fragment shader type and
the shader parameters the `switch` has chosen. -/
def GLES2_SelectProgram_load (env : Env) (data : GLES2_RenderData) (ftype : GLES2_ShaderType)
    (shader_params : ShaderParams) : Option (Bool × GLES2_RenderData) :=
  if (GLES2_SelectProgram_shader env data GLES2_ShaderType.VERTEX_DEFAULT false).1 = 0 then
    GLES2_SelectProgram_fault
      (GLES2_SelectProgram_shader env data GLES2_ShaderType.VERTEX_DEFAULT false).2
  else if (GLES2_SelectProgram_shader env
            (GLES2_SelectProgram_shader env data GLES2_ShaderType.VERTEX_DEFAULT false).2
            ftype true).1 = 0 then
    GLES2_SelectProgram_fault
      (GLES2_SelectProgram_shader env
        (GLES2_SelectProgram_shader env data GLES2_ShaderType.VERTEX_DEFAULT false).2
        ftype true).2
  else
    (GLES2_SelectProgram_current
        (GLES2_SelectProgram_shader env
          (GLES2_SelectProgram_shader env data GLES2_ShaderType.VERTEX_DEFAULT false).2
          ftype true).2
        (GLES2_SelectProgram_shader env data GLES2_ShaderType.VERTEX_DEFAULT false).1
        (GLES2_SelectProgram_shader env
          (GLES2_SelectProgram_shader env data GLES2_ShaderType.VERTEX_DEFAULT false).2
          ftype true).1
        shader_params).bind (fun current =>
      if current then
        some (true,
          (GLES2_SelectProgram_shader env
            (GLES2_SelectProgram_shader env data GLES2_ShaderType.VERTEX_DEFAULT false).2
            ftype true).2)
      else
        GLES2_SelectProgram_use env
          (GLES2_SelectProgram_shader env
            (GLES2_SelectProgram_shader env data GLES2_ShaderType.VERTEX_DEFAULT false).2
            ftype true).2
          (GLES2_SelectProgram_shader env data GLES2_ShaderType.VERTEX_DEFAULT false).1
          (GLES2_SelectProgram_shader env
            (GLES2_SelectProgram_shader env data GLES2_ShaderType.VERTEX_DEFAULT false).2
            ftype true).1
          ftype shader_params)

/-- The function `GLES2_SelectProgram`. -/
def GLES2_SelectProgram (env : Env) (data : GLES2_RenderData) (texture : Nat)
    (source : GLES2_ImageSource) (scale_mode : SDL_ScaleMode) (colorspace : SDL_Colorspace) :
    Option (Bool × GLES2_RenderData) :=
  match GLES2_SelectProgram_variant env texture source scale_mode colorspace with
  | .error none => GLES2_SelectProgram_fault data
  | .error (some msg) => GLES2_SelectProgram_fault (SDL_SetError data msg)
  | .ok variant => GLES2_SelectProgram_load env data variant.1 variant.2

/-! ## Draw state -/

/-- Modelled from the spec: the struct `SDL_RenderCommand` of `SDL_sysrender.h`,
which is not among the sources.  The fields are those the source reads:
`command`, `data.viewport.rect`, `data.cliprect`, `data.draw` and `data.color`;
the members of the C union are kept side by side. -/
inductive SDL_RenderCommandType
  | NO_OP
  | SETVIEWPORT
  | SETCLIPRECT
  | SETDRAWCOLOR
  | CLEAR
  | DRAW_POINTS
  | DRAW_LINES
  | FILL_RECTS
  | COPY
  | COPY_EX
  | GEOMETRY
deriving DecidableEq, Repr

/-- Modelled from the spec: one node of the command list (`SDL_RenderCommand`),
without its `next` pointer: the list is a Lean list. -/
structure SDL_RenderCommand where
  command : SDL_RenderCommandType
  viewport_rect : SDL_Rect
  cliprect_enabled : Bool
  cliprect_rect : SDL_Rect
  first : Nat
  count : Nat
  blend : SDL_BlendMode
  texture : Nat
  texture_scale_mode : SDL_ScaleMode
  texture_address_mode_u : SDL_TextureAddressMode
  texture_address_mode_v : SDL_TextureAddressMode
  color : SDL_FColor
  color_scale : GLfloat
deriving DecidableEq, Repr

/-- The part of `SDL_Renderer` and of its window that `GLES2_RunCommandQueue`
reads: the render target, the size `SDL_GetWindowSizeInPixels` reports,
whether `data->context` is the current context and whether
`SDL_GL_MakeCurrent` succeeds. -/
structure SDL_Renderer where
  target : Nat
  window_w : Int
  window_h : Int
  context_current : Bool
  make_current_ok : Bool
deriving DecidableEq, Repr

/-- The value of `sizeof (SDL_Vertex)`: position, color and texture coordinate. -/
def sizeof_SDL_Vertex : Nat := 32
/-- The value of `sizeof (SDL_VertexSolid)`: position and color. -/
def sizeof_SDL_VertexSolid : Nat := 24
/-- The value of `offsetof (SDL_Vertex, tex_coord)`. -/
def offsetof_tex_coord : Nat := 24
/-- The value of `offsetof (SDL_VertexSolid, position)`. -/
def offsetof_position : Nat := 0
/-- The value of `offsetof (SDL_VertexSolid, color)`. -/
def offsetof_color : Nat := 8

/-- Dereference of an `SDL_Texture *`. -/
def GLES2_RenderData.texture? (data : GLES2_RenderData) (p : Nat) : Option SDL_Texture :=
  if p = 0 then none else data.textures p

/-- The function `GetBlendFunc`. -/
def GetBlendFunc : SDL_BlendFactor → GLenum
  | .ZERO => .GL_ZERO
  | .ONE => .GL_ONE
  | .SRC_COLOR => .GL_SRC_COLOR
  | .ONE_MINUS_SRC_COLOR => .GL_ONE_MINUS_SRC_COLOR
  | .SRC_ALPHA => .GL_SRC_ALPHA
  | .ONE_MINUS_SRC_ALPHA => .GL_ONE_MINUS_SRC_ALPHA
  | .DST_COLOR => .GL_DST_COLOR
  | .ONE_MINUS_DST_COLOR => .GL_ONE_MINUS_DST_COLOR
  | .DST_ALPHA => .GL_DST_ALPHA
  | .ONE_MINUS_DST_ALPHA => .GL_ONE_MINUS_DST_ALPHA
  | .OTHER _ => .GL_INVALID_ENUM

/-- The function `GetBlendEquation`. -/
def GetBlendEquation : SDL_BlendOperation → GLenum
  | .ADD => .GL_FUNC_ADD
  | .SUBTRACT => .GL_FUNC_SUBTRACT
  | .REV_SUBTRACT => .GL_FUNC_REVERSE_SUBTRACT
  | .MINIMUM => .GL_MIN_EXT
  | .MAXIMUM => .GL_MAX_EXT
  | .OTHER _ => .GL_INVALID_ENUM

/-- The value of an expression of type `int`: the low 32 bits of the exact
result, read as a signed number.  (Wrapping after every operation gives the
same value as wrapping once.) -/
def int_wrap (x : Int) : Int :=
  Int.bmod x (2 ^ 32)

/-- Lines 978-989 of `SetDrawState`: the viewport and the projection. -/
def SetDrawState_viewport (env : Env) (data : GLES2_RenderData) : GLES2_RenderData :=
  if data.drawstate.viewport_dirty then
    let vp := data.drawstate.viewport
    let target := data.drawstate.target
    let data1 := data.call
      [GLCall.viewport vp.x
         (if target ≠ 0 then vp.y else int_wrap (data.drawstate.drawableh - vp.y - vp.h))
         vp.w vp.h]
    let projection :=
      if vp.w ≠ 0 ∧ vp.h ≠ 0 then
        ((data.drawstate.projection.set 0 (env.fdiv (env.floatOfInt 2) (env.floatOfInt vp.w))).set 5
          (env.fdiv (env.floatOfInt (if target ≠ 0 then 2 else -2)) (env.floatOfInt vp.h))).set 13
          (env.floatOfInt (if target ≠ 0 then -1 else 1))
      else data.drawstate.projection
    { data1 with drawstate :=
        { data1.drawstate with projection := projection, viewport_dirty := false } }
  else data

/-- Lines 991-1007 of `SetDrawState`: the scissor test and the scissor box. -/
def SetDrawState_cliprect (data : GLES2_RenderData) : GLES2_RenderData :=
  let data1 :=
    if data.drawstate.cliprect_enabled_dirty then
      { data.call [if data.drawstate.cliprect_enabled = false
                   then GLCall.disable GLCap.SCISSOR_TEST
                   else GLCall.enable GLCap.SCISSOR_TEST] with
        drawstate := { data.drawstate with cliprect_enabled_dirty := false } }
    else data
  if data1.drawstate.cliprect_enabled ∧ data1.drawstate.cliprect_dirty then
    let vp := data1.drawstate.viewport
    let rect := data1.drawstate.cliprect
    { data1.call
        [GLCall.scissor (int_wrap (vp.x + rect.x))
           (if data1.drawstate.target ≠ 0 then int_wrap (vp.y + rect.y)
            else int_wrap (data1.drawstate.drawableh - vp.y - rect.y - rect.h))
           rect.w rect.h] with
      drawstate := { data1.drawstate with cliprect_dirty := false } }
  else data1

/-- Lines 1009-1018 of `SetDrawState`: the texture-coordinate array. -/
def SetDrawState_texturing (data : GLES2_RenderData) (texture : Nat) : GLES2_RenderData :=
  if data.drawstate.texturing_dirty ∨ (decide (texture ≠ 0) ≠ data.drawstate.texturing) then
    if texture = 0 then
      { data.call [GLCall.disableVertexAttribArray GLES2_ATTRIBUTE_TEXCOORD] with
        drawstate := { data.drawstate with texturing := false, texturing_dirty := false } }
    else
      { data.call [GLCall.enableVertexAttribArray GLES2_ATTRIBUTE_TEXCOORD] with
        drawstate := { data.drawstate with texturing := true, texturing_dirty := false } }
  else data

/-- Lines 1036-1043 of `SetDrawState`: the projection uniform of the selected
program. -/
def SetDrawState_projection (data : GLES2_RenderData) : Option GLES2_RenderData :=
  match data.heap.read data.drawstate.program with
  | none => none
  | some p =>
    if p.uniform_locations.getD GLES2_UNIFORM_PROJECTION 0 ≠ -1
        ∧ p.projection ≠ data.drawstate.projection then
      some { data.call [GLCall.uniformMatrix4fv
                          (p.uniform_locations.getD GLES2_UNIFORM_PROJECTION 0)
                          data.drawstate.projection] with
             heap := data.heap.write data.drawstate.program
                       { p with projection := data.drawstate.projection } }
    else some data

/-- Lines 1045-1058 of `SetDrawState`: the blend mode. -/
def SetDrawState_blend (env : Env) (data : GLES2_RenderData) (blend : SDL_BlendMode) :
    GLES2_RenderData :=
  if blend ≠ data.drawstate.blend then
    { data.call
        (if blend = SDL_BLENDMODE_NONE then [GLCall.disable GLCap.BLEND]
         else [GLCall.enable GLCap.BLEND,
               GLCall.blendFuncSeparate (GetBlendFunc (env.srcColorFactor blend))
                 (GetBlendFunc (env.dstColorFactor blend))
                 (GetBlendFunc (env.srcAlphaFactor blend))
                 (GetBlendFunc (env.dstAlphaFactor blend)),
               GLCall.blendEquationSeparate (GetBlendEquation (env.colorOperation blend))
                 (GetBlendEquation (env.alphaOperation blend))]) with
      drawstate := { data.drawstate with blend := blend } }
  else data

/-- The stride `SetDrawState` uses for the vertices of a command. -/
def SetDrawState_stride (cmd : SDL_RenderCommand) : Nat :=
  if cmd.texture ≠ 0 then sizeof_SDL_Vertex else sizeof_SDL_VertexSolid

/-- Lines 978-1029 of `SetDrawState`: everything before the program is selected. -/
def SetDrawState_before (env : Env) (data : GLES2_RenderData) (cmd : SDL_RenderCommand)
    (vertices : Nat) : GLES2_RenderData :=
  (SetDrawState_texturing (SetDrawState_cliprect (SetDrawState_viewport env data))
      cmd.texture).call
    (if cmd.texture ≠ 0 then
       [GLCall.vertexAttribPointer GLES2_ATTRIBUTE_TEXCOORD 2 false (SetDrawState_stride cmd)
          (vertices + cmd.first + offsetof_tex_coord)]
     else [])

/-- Lines 1060-1065 of `SetDrawState`: the position and color arrays. -/
def SetDrawState_pointers (cmd : SDL_RenderCommand) (vertices : Nat) : List GLCall :=
  [GLCall.vertexAttribPointer GLES2_ATTRIBUTE_POSITION 2 false (SetDrawState_stride cmd)
     (vertices + cmd.first + offsetof_position),
   GLCall.vertexAttribPointer GLES2_ATTRIBUTE_COLOR 4 true (SetDrawState_stride cmd)
     (vertices + cmd.first + offsetof_color)]

/-- The function `SetDrawState`.  `SDL_assert` is compiled out. -/
def SetDrawState (env : Env) (data : GLES2_RenderData) (cmd : SDL_RenderCommand)
    (imgsrc : GLES2_ImageSource) (vertices : Nat) : Option (Bool × GLES2_RenderData) :=
  (if cmd.texture ≠ 0 then
     ((SetDrawState_before env data cmd vertices).texture? cmd.texture).map
       (fun t => t.colorspace)
   else some SDL_COLORSPACE_SRGB).bind (fun colorspace =>
    (GLES2_SelectProgram env (SetDrawState_before env data cmd vertices) cmd.texture imgsrc
        cmd.texture_scale_mode colorspace).bind (fun r =>
      if r.1 = false then some (false, r.2)
      else
        (SetDrawState_projection r.2).bind (fun data4 =>
          some (true,
            (SetDrawState_blend env data4 cmd.blend).call
              (SetDrawState_pointers cmd vertices)))))

/-- The function `SetTextureScaleMode`, compiled without `OPENGLES_300`. -/
def SetTextureScaleMode (data : GLES2_RenderData) (textype : Nat) (scaleMode : SDL_ScaleMode) :
    Bool × GLES2_RenderData :=
  match scaleMode with
  | .NEAREST =>
    (true, data.call [GLCall.texParameteri textype GLTexParam.MIN_FILTER_NEAREST,
                      GLCall.texParameteri textype GLTexParam.MAG_FILTER_NEAREST])
  | .LINEAR =>
    (true, data.call [GLCall.texParameteri textype GLTexParam.MIN_FILTER_LINEAR,
                      GLCall.texParameteri textype GLTexParam.MAG_FILTER_LINEAR])
  | .PIXELART =>
    (true, data.call [GLCall.texParameteri textype GLTexParam.MIN_FILTER_NEAREST,
                      GLCall.texParameteri textype GLTexParam.MAG_FILTER_NEAREST])
  | .INVALID => (false, SDL_SetError data "Unknown texture scale mode")

/-- The function `SetTextureAddressMode`, with `TranslateAddressMode` inlined:
`WRAP` gives `GL_REPEAT`, everything else `GL_CLAMP_TO_EDGE`. -/
def SetTextureAddressMode (data : GLES2_RenderData) (textype : Nat)
    (addressModeU addressModeV : SDL_TextureAddressMode) : GLES2_RenderData :=
  data.call
    [GLCall.texParameteri textype
       (if addressModeU = .WRAP then GLTexParam.WRAP_S_REPEAT
        else GLTexParam.WRAP_S_CLAMP_TO_EDGE),
     GLCall.texParameteri textype
       (if addressModeV = .WRAP then GLTexParam.WRAP_T_REPEAT
        else GLTexParam.WRAP_T_CLAMP_TO_EDGE)]

/-- The shader choice of `SetCopyState` (lines 1123-1237) from the format of
the render target (`none` when drawing to the window) and the format of the
texture; `none` is the exit `SDL_SetError ("Unsupported texture format")`. -/
def SetCopyState_source (target : Option SDL_PixelFormat) (format : SDL_PixelFormat) :
    Option GLES2_ImageSource :=
  match target with
  | some tf =>
    if tf ≠ format then
      match format with
      | .BGRA32 =>
        match tf with
        | .RGBA32 => some .TEXTURE_ARGB
        | .RGBX32 => some .TEXTURE_ARGB
        | .BGRX32 => some .TEXTURE_ABGR
        | _ => some .TEXTURE_ABGR
      | .RGBA32 =>
        match tf with
        | .BGRA32 => some .TEXTURE_ARGB
        | .BGRX32 => some .TEXTURE_ARGB
        | .RGBX32 => some .TEXTURE_ABGR
        | _ => some .TEXTURE_ABGR
      | .BGRX32 =>
        match tf with
        | .RGBA32 => some .TEXTURE_ARGB
        | .BGRA32 => some .TEXTURE_BGR
        | .RGBX32 => some .TEXTURE_ARGB
        | _ => some .TEXTURE_ABGR
      | .RGBX32 =>
        match tf with
        | .RGBA32 => some .TEXTURE_BGR
        | .BGRA32 => some .TEXTURE_RGB
        | .BGRX32 => some .TEXTURE_ARGB
        | _ => some .TEXTURE_ABGR
      | .IYUV => some .TEXTURE_YUV
      | .YV12 => some .TEXTURE_YUV
      | .NV12 => some .TEXTURE_NV12
      | .NV21 => some .TEXTURE_NV21
      | .EXTERNAL_OES => some .TEXTURE_EXTERNAL_OES
      | .OTHER _ => none
    else some .TEXTURE_ABGR
  | none =>
    match format with
    | .BGRA32 => some .TEXTURE_ARGB
    | .RGBA32 => some .TEXTURE_ABGR
    | .BGRX32 => some .TEXTURE_RGB
    | .RGBX32 => some .TEXTURE_BGR
    | .IYUV => some .TEXTURE_YUV
    | .YV12 => some .TEXTURE_YUV
    | .NV12 => some .TEXTURE_NV12
    | .NV21 => some .TEXTURE_NV21
    | .EXTERNAL_OES => some .TEXTURE_EXTERNAL_OES
    | .OTHER _ => none

/-- Lines 1241-1261 of `SetCopyState`: binding the texture and its planes. -/
def SetCopyState_bind (data : GLES2_RenderData) (texture : Nat) (t : SDL_Texture) :
    GLES2_RenderData :=
  if texture ≠ data.drawstate.texture then
    { data.call
        ((if t.yuv then
            [GLCall.activeTexture 2, GLCall.bindTexture t.texture_type t.texture_v,
             GLCall.activeTexture 1, GLCall.bindTexture t.texture_type t.texture_u,
             GLCall.activeTexture 0]
          else if t.nv12 then
            [GLCall.activeTexture 1, GLCall.bindTexture t.texture_type t.texture_u,
             GLCall.activeTexture 0]
          else [])
         ++ [GLCall.bindTexture t.texture_type t.texture]) with
      drawstate := { data.drawstate with texture := texture } }
  else data

/-- The texture units on which lines 1263-1315 set the parameters of a
texture, in order: the planes first, unit `0` last. -/
def SetCopyState_units (t : SDL_Texture) : List Nat :=
  if t.yuv then [2, 1] else if t.nv12 then [1] else []

/-- The assignment of a texture's `GLES2_TextureData` fields. -/
def GLES2_RenderData.setTexture (data : GLES2_RenderData) (p : Nat) (t : SDL_Texture) :
    GLES2_RenderData :=
  { data with textures := fun q => if q = p then some t else data.textures q }

/-- The calls `glActiveTexture (unit); SetTextureScaleMode (...)` for the
planes of a texture, stopping at the first failure. -/
def SetCopyState_scaleUnits (textype : Nat) (mode : SDL_ScaleMode) :
    GLES2_RenderData → List Nat → Bool × GLES2_RenderData
  | data, [] => (true, data)
  | data, u :: us =>
    if (SetTextureScaleMode (data.call [GLCall.activeTexture u]) textype mode).1 = false then
      SetTextureScaleMode (data.call [GLCall.activeTexture u]) textype mode
    else
      SetCopyState_scaleUnits textype mode
        (SetTextureScaleMode (data.call [GLCall.activeTexture u]) textype mode).2 us

/-- Lines 1263-1291 of `SetCopyState`: the scale mode of the texture.  The
result is `false` at the first `SetTextureScaleMode` that fails. -/
def SetCopyState_scale (data : GLES2_RenderData) (texture : Nat) (t : SDL_Texture)
    (mode : SDL_ScaleMode) : Bool × GLES2_RenderData :=
  if mode ≠ t.texture_scale_mode then
    let r1 := SetCopyState_scaleUnits t.texture_type mode data (SetCopyState_units t)
    if r1.1 = false then r1
    else
      let d2 := if SetCopyState_units t = [] then r1.2 else r1.2.call [GLCall.activeTexture 0]
      let r3 := SetTextureScaleMode d2 t.texture_type mode
      if r3.1 = false then r3
      else (true, r3.2.setTexture texture { t with texture_scale_mode := mode })
  else (true, data)

/-- Lines 1293-1315 of `SetCopyState`: the address modes of the texture. -/
def SetCopyState_address (data : GLES2_RenderData) (texture : Nat) (t : SDL_Texture)
    (u v : SDL_TextureAddressMode) : GLES2_RenderData :=
  if u ≠ t.texture_address_mode_u ∨ v ≠ t.texture_address_mode_v then
    let data1 :=
      (SetCopyState_units t).foldl
        (fun d unit => SetTextureAddressMode (d.call [GLCall.activeTexture unit])
                         t.texture_type u v) data
    let data2 :=
      SetTextureAddressMode
        (if SetCopyState_units t = [] then data1 else data1.call [GLCall.activeTexture 0])
        t.texture_type u v
    data2.setTexture texture { t with texture_address_mode_u := u, texture_address_mode_v := v }
  else data

/-- Lines 1241-1317 of `SetCopyState`: what follows the call of `SetDrawState`
that returned `ret`. -/
def SetCopyState_after (data1 : GLES2_RenderData) (cmd : SDL_RenderCommand) (tex : SDL_Texture)
    (ret : Bool) : Option (Bool × GLES2_RenderData) :=
  ((SetCopyState_bind data1 cmd.texture tex).texture? cmd.texture).bind (fun t2 =>
    if (SetCopyState_scale (SetCopyState_bind data1 cmd.texture tex) cmd.texture t2
          cmd.texture_scale_mode).1 = false then
      some (false,
        (SetCopyState_scale (SetCopyState_bind data1 cmd.texture tex) cmd.texture t2
          cmd.texture_scale_mode).2)
    else
      ((SetCopyState_scale (SetCopyState_bind data1 cmd.texture tex) cmd.texture t2
          cmd.texture_scale_mode).2.texture? cmd.texture).bind (fun t3 =>
        some (ret,
          SetCopyState_address
            (SetCopyState_scale (SetCopyState_bind data1 cmd.texture tex) cmd.texture t2
              cmd.texture_scale_mode).2
            cmd.texture t3 cmd.texture_address_mode_u cmd.texture_address_mode_v)))

/-- The format of the render target that `SetCopyState` reads: `some none`
without a target, `none` when the target pointer is not a texture. -/
def SetCopyState_target (renderer : SDL_Renderer) (data : GLES2_RenderData) :
    Option (Option SDL_PixelFormat) :=
  if renderer.target ≠ 0 then (data.texture? renderer.target).map (fun t => some t.format)
  else some none

/-- The function `SetCopyState`. -/
def SetCopyState (env : Env) (renderer : SDL_Renderer) (data : GLES2_RenderData)
    (cmd : SDL_RenderCommand) (vertices : Nat) : Option (Bool × GLES2_RenderData) :=
  (data.texture? cmd.texture).bind (fun tex =>
    (SetCopyState_target renderer data).bind (fun target_format =>
      match SetCopyState_source target_format tex.format with
      | none => some (false, SDL_SetError data "Unsupported texture format")
      | some sourceType =>
        (SetDrawState env data cmd sourceType vertices).bind (fun r =>
          SetCopyState_after r.2 cmd tex r.1)))

/-- The function `GLES2_InvalidateCachedState`. -/
def GLES2_InvalidateCachedState (data : GLES2_RenderData) : GLES2_RenderData :=
  { data with drawstate :=
      { data.drawstate with
        viewport_dirty := true, texture := 0, blend := SDL_BLENDMODE_INVALID,
        cliprect_enabled_dirty := true, cliprect_dirty := true, texturing_dirty := true,
        clear_color_dirty := true, drawablew := 0, drawableh := 0, program := 0 } }

/-! ## The command queue -/

/-- The conversion `(GLsizei) count` of a `size_t`: the low 32 bits, read as a
signed number.  (The wrap-around of the `size_t` sum itself does not show:
its modulus is a multiple of `2 ^ 32`.) -/
def GLsizei_of_size_t (count : Nat) : Int :=
  Int.bmod count (2 ^ 32)

/-- The function `GL_TranslateError`. -/
def GL_TranslateError (error : Nat) : String :=
  if error = 0x0500 then "GL_INVALID_ENUM"
  else if error = 0x0501 then "GL_INVALID_VALUE"
  else if error = 0x0502 then "GL_INVALID_OPERATION"
  else if error = 0x0505 then "GL_OUT_OF_MEMORY"
  else if error = 0 then "GL_NO_ERROR"
  else "UNKNOWN"

/-- The function `GL_CheckAllErrors` with an empty prefix; `pending` lists
what the successive calls of `glGetError` return before `GL_NO_ERROR`. -/
def GL_CheckAllErrors (data : GLES2_RenderData) (pending : List Nat) : Bool × GLES2_RenderData :=
  if data.debug_enabled = false then (true, data)
  else
    match (pending.takeWhile (fun e => e ≠ 0)).getLast? with
    | none => (true, data)
    | some e => (false, SDL_SetError data ("generic: " ++ GL_TranslateError e))

/-- The function `GLES2_ActivateRenderer`. -/
def GLES2_ActivateRenderer (renderer : SDL_Renderer) (data : GLES2_RenderData) :
    Bool × GLES2_RenderData :=
  if renderer.context_current = false then
    (renderer.make_current_ok, { data with drawstate := { data.drawstate with program := 0 } })
  else (true, data)

/-- The case `SDL_RENDERCMD_SETVIEWPORT` (lines 1387-1396). -/
def GLES2_RunCommandQueue_setviewport (data : GLES2_RenderData) (cmd : SDL_RenderCommand) :
    GLES2_RenderData :=
  if data.drawstate.viewport ≠ cmd.viewport_rect then
    { data with drawstate :=
        { data.drawstate with
          viewport := cmd.viewport_rect, viewport_dirty := true, cliprect_dirty := true } }
  else data

/-- The case `SDL_RENDERCMD_SETCLIPRECT` (lines 1398-1411). -/
def GLES2_RunCommandQueue_setcliprect (data : GLES2_RenderData) (cmd : SDL_RenderCommand) :
    GLES2_RenderData :=
  let data1 :=
    if data.drawstate.cliprect_enabled ≠ cmd.cliprect_enabled then
      { data with drawstate :=
          { data.drawstate with
            cliprect_enabled := cmd.cliprect_enabled, cliprect_enabled_dirty := true } }
    else data
  if data1.drawstate.cliprect ≠ cmd.cliprect_rect then
    { data1 with drawstate :=
        { data1.drawstate with cliprect := cmd.cliprect_rect, cliprect_dirty := true } }
  else data1

/-- Lines 1415-1430 of the case `SDL_RENDERCMD_CLEAR`: the clear color. -/
def GLES2_RunCommandQueue_clear_color (env : Env) (colorswap : Bool) (data : GLES2_RenderData)
    (cmd : SDL_RenderCommand) : GLES2_RenderData :=
  let r := env.fmul (if colorswap then cmd.color.b else cmd.color.r) cmd.color_scale
  let g := env.fmul cmd.color.g cmd.color_scale
  let b := env.fmul (if colorswap then cmd.color.r else cmd.color.b) cmd.color_scale
  let a := cmd.color.a
  if data.drawstate.clear_color_dirty ∨ env.fne r data.drawstate.clear_color.r
      ∨ env.fne g data.drawstate.clear_color.g ∨ env.fne b data.drawstate.clear_color.b
      ∨ env.fne a data.drawstate.clear_color.a then
    { data.call [GLCall.clearColor r g b a] with
      drawstate := { data.drawstate with clear_color := ⟨r, g, b, a⟩,
                                         clear_color_dirty := false } }
  else data

/-- Lines 1432-1435 of the case `SDL_RENDERCMD_CLEAR`: the scissor test is
switched off. -/
def GLES2_RunCommandQueue_clear_scissor (data : GLES2_RenderData) : GLES2_RenderData :=
  if data.drawstate.cliprect_enabled ∨ data.drawstate.cliprect_enabled_dirty then
    { data.call [GLCall.disable GLCap.SCISSOR_TEST] with
      drawstate := { data.drawstate with
                     cliprect_enabled_dirty := data.drawstate.cliprect_enabled } }
  else data

/-- The case `SDL_RENDERCMD_CLEAR` (lines 1413-1439). -/
def GLES2_RunCommandQueue_clear (env : Env) (colorswap : Bool) (data : GLES2_RenderData)
    (cmd : SDL_RenderCommand) : GLES2_RenderData :=
  (GLES2_RunCommandQueue_clear_scissor
    (GLES2_RunCommandQueue_clear_color env colorswap data cmd)).call [GLCall.clear]

/-- The test of the inner loop of the case `SDL_RENDERCMD_DRAW_LINES` (lines
1463-1476): `nextcmd` joins the batch. -/
def GLES2_RunCommandQueue_joinsLines (thisblend : SDL_BlendMode) (nextcmd : SDL_RenderCommand) :
    Bool :=
  decide (nextcmd.command = SDL_RenderCommandType.DRAW_LINES) && decide (nextcmd.count = 2)
    && decide (nextcmd.blend = thisblend)

/-- The test of the inner loop of the cases `SDL_RENDERCMD_DRAW_POINTS` and
`SDL_RENDERCMD_GEOMETRY` (lines 1500-1515): `nextcmd` joins the batch of `cmd`. -/
def GLES2_RunCommandQueue_joinsDraw (cmd nextcmd : SDL_RenderCommand) : Bool :=
  decide (nextcmd.command = cmd.command) && decide (nextcmd.texture = cmd.texture)
    && decide (nextcmd.texture_scale_mode = cmd.texture_scale_mode)
    && decide (nextcmd.texture_address_mode_u = cmd.texture_address_mode_u)
    && decide (nextcmd.texture_address_mode_v = cmd.texture_address_mode_v)
    && decide (nextcmd.blend = cmd.blend)

/-- The sum of the `data.draw.count` fields of some commands. -/
def drawCount (cmds : List SDL_RenderCommand) : Nat :=
  (cmds.map (fun c => c.count)).sum

/-- The state setup of the cases `SDL_RENDERCMD_DRAW_POINTS` and
`SDL_RENDERCMD_GEOMETRY` (lines 1517-1521). -/
def GLES2_RunCommandQueue_setup (env : Env) (renderer : SDL_Renderer) (data : GLES2_RenderData)
    (cmd : SDL_RenderCommand) (vertices : Nat) : Option (Bool × GLES2_RenderData) :=
  if cmd.texture ≠ 0 then SetCopyState env renderer data cmd vertices
  else SetDrawState env data cmd GLES2_ImageSource.SOLID vertices

/-- The image source and the colorspace with which the state setup of a
command comes to `GLES2_SelectProgram`: `SetCopyState` takes them from the
texture and the render target (lines 1119-1239), an untextured command is set
up by `SetDrawState` with `GLES2_IMAGESOURCE_SOLID` (line 1520) and the sRGB
colorspace (line 1031); `none` when the setup stops before. -/
def GLES2_RunCommandQueue_setup_source (renderer : SDL_Renderer) (data : GLES2_RenderData)
    (cmd : SDL_RenderCommand) : Option (GLES2_ImageSource × SDL_Colorspace) :=
  if cmd.texture ≠ 0 then
    (data.texture? cmd.texture).bind (fun tex =>
      (SetCopyState_target renderer data).bind (fun target_format =>
        (SetCopyState_source target_format tex.format).map (fun sourceType =>
          (sourceType, tex.colorspace))))
  else some (GLES2_ImageSource.SOLID, SDL_COLORSPACE_SRGB)

/-- The draw call of the cases `SDL_RENDERCMD_DRAW_POINTS` and
`SDL_RENDERCMD_GEOMETRY` (lines 1523-1529) for the command `cmd` and the
commands `rest` behind it, after a setup that returned `ret`. -/
def GLES2_RunCommandQueue_draw (mode : GLPrim) (cmd : SDL_RenderCommand)
    (rest : List SDL_RenderCommand) (ret : Bool) (data1 : GLES2_RenderData) :
    GLES2_RenderData :=
  if ret then
    data1.call
      [GLCall.drawArrays mode 0
         (GLsizei_of_size_t
            (cmd.count + drawCount (rest.takeWhile (GLES2_RunCommandQueue_joinsDraw cmd))))]
  else data1

/-- The loop `while (cmd)` of `GLES2_RunCommandQueue` (lines 1380-1540) on the
command list.  Each pass handles the first command.  A draw case counts the
commands that follow and join its batch (`takeWhile`); the first argument is
the number of commands still to pass over, which is how `cmd = finalcmd`
skips them.  Next to the final state the result lists, for reference, what
the calls of `SetDrawState` and `SetCopyState` returned, in order. -/
def GLES2_RunCommandQueue_loop (env : Env) (renderer : SDL_Renderer) (colorswap : Bool)
    (vertices : Nat) :
    Nat → GLES2_RenderData → List SDL_RenderCommand → Option (GLES2_RenderData × List Bool)
  | _, data, [] => some (data, [])
  | skip + 1, data, _ :: rest =>
    GLES2_RunCommandQueue_loop env renderer colorswap vertices skip data rest
  | 0, data, cmd :: rest =>
    match cmd.command with
    | .SETDRAWCOLOR => GLES2_RunCommandQueue_loop env renderer colorswap vertices 0 data rest
    | .SETVIEWPORT =>
      GLES2_RunCommandQueue_loop env renderer colorswap vertices 0
        (GLES2_RunCommandQueue_setviewport data cmd) rest
    | .SETCLIPRECT =>
      GLES2_RunCommandQueue_loop env renderer colorswap vertices 0
        (GLES2_RunCommandQueue_setcliprect data cmd) rest
    | .CLEAR =>
      GLES2_RunCommandQueue_loop env renderer colorswap vertices 0
        (GLES2_RunCommandQueue_clear env colorswap data cmd) rest
    | .FILL_RECTS => GLES2_RunCommandQueue_loop env renderer colorswap vertices 0 data rest
    | .COPY => GLES2_RunCommandQueue_loop env renderer colorswap vertices 0 data rest
    | .COPY_EX => GLES2_RunCommandQueue_loop env renderer colorswap vertices 0 data rest
    | .NO_OP => GLES2_RunCommandQueue_loop env renderer colorswap vertices 0 data rest
    | .DRAW_LINES =>
      (SetDrawState env data cmd GLES2_ImageSource.SOLID vertices).bind (fun s =>
        if s.1 = false then
          (GLES2_RunCommandQueue_loop env renderer colorswap vertices 0 s.2 rest).map
            (fun r => (r.1, false :: r.2))
        else if cmd.count > 2 then
          (GLES2_RunCommandQueue_loop env renderer colorswap vertices 0
            (s.2.call [GLCall.drawArrays GLPrim.LINE_STRIP 0 (GLsizei_of_size_t cmd.count)])
            rest).map (fun r => (r.1, true :: r.2))
        else
          (GLES2_RunCommandQueue_loop env renderer colorswap vertices
            (rest.takeWhile (GLES2_RunCommandQueue_joinsLines cmd.blend)).length
            (s.2.call
              [GLCall.drawArrays GLPrim.LINES 0
                 (GLsizei_of_size_t
                    (cmd.count
                      + drawCount (rest.takeWhile (GLES2_RunCommandQueue_joinsLines cmd.blend))))])
            rest).map (fun r => (r.1, true :: r.2)))
    | .DRAW_POINTS =>
      (GLES2_RunCommandQueue_setup env renderer data cmd vertices).bind (fun s =>
        (GLES2_RunCommandQueue_loop env renderer colorswap vertices
          (rest.takeWhile (GLES2_RunCommandQueue_joinsDraw cmd)).length
          (GLES2_RunCommandQueue_draw GLPrim.POINTS cmd rest s.1 s.2) rest).map
          (fun r => (r.1, s.1 :: r.2)))
    | .GEOMETRY =>
      (GLES2_RunCommandQueue_setup env renderer data cmd vertices).bind (fun s =>
        (GLES2_RunCommandQueue_loop env renderer colorswap vertices
          (rest.takeWhile (GLES2_RunCommandQueue_joinsDraw cmd)).length
          (GLES2_RunCommandQueue_draw GLPrim.TRIANGLES cmd rest s.1 s.2) rest).map
          (fun r => (r.1, s.1 :: r.2)))

/-- Lines 1349-1359 of `GLES2_RunCommandQueue`: the target and the size of the
drawable. -/
def GLES2_RunCommandQueue_target (renderer : SDL_Renderer) (data : GLES2_RenderData) :
    GLES2_RenderData :=
  let data1 := { data with drawstate := { data.drawstate with target := renderer.target } }
  if renderer.target = 0 ∧
      (renderer.window_w ≠ data1.drawstate.drawablew
        ∨ renderer.window_h ≠ data1.drawstate.drawableh) then
    { data1 with drawstate :=
        { data1.drawstate with
          viewport_dirty := true, cliprect_dirty := true,
          drawablew := renderer.window_w, drawableh := renderer.window_h } }
  else data1

/-- The value of `colorswap` in `GLES2_RunCommandQueue` (line 1338); `none`
when the target pointer is not a texture. -/
def GLES2_RunCommandQueue_colorswap (renderer : SDL_Renderer) (data : GLES2_RenderData) :
    Option Bool :=
  if renderer.target ≠ 0 then
    (data.texture? renderer.target).map
      (fun t => decide (t.format = SDL_PixelFormat.BGRA32 ∨ t.format = SDL_PixelFormat.BGRX32))
  else some false

/-- The function `GLES2_RunCommandQueue` on the command list `cmds`, with the
vertex data at `vertices`; `pending` is what `glGetError` reports at the final
`GL_CheckError`. -/
def GLES2_RunCommandQueue (env : Env) (renderer : SDL_Renderer) (data : GLES2_RenderData)
    (cmds : List SDL_RenderCommand) (vertices : Nat) (pending : List Nat) :
    Option (Bool × GLES2_RenderData) :=
  (GLES2_RunCommandQueue_colorswap renderer data).bind (fun colorswap =>
    if (GLES2_ActivateRenderer renderer data).1 = false then
      some (false, (GLES2_ActivateRenderer renderer data).2)
    else
      (GLES2_RunCommandQueue_loop env renderer colorswap vertices 0
          (GLES2_RunCommandQueue_target renderer (GLES2_ActivateRenderer renderer data).2)
          cmds).bind (fun r => some (GL_CheckAllErrors r.1 pending)))

/-- The `glDrawArrays` calls of a log, in order: mode and count. -/
def drawCalls : List GLCall → List (GLPrim × Int)
  | [] => []
  | GLCall.drawArrays mode _ count :: cs => (mode, count) :: drawCalls cs
  | _ :: cs => drawCalls cs

/-! ## Sample inputs -/

/-- A driver like `Env.plain` on which no program links. -/
def Env.nolink : Env := { Env.plain with linkStatus := fun _ => false }

/-- A renderer state right after start-up: every shader type compiled (type
number `n` has the name `n + 1`), nothing cached, no texture. -/
def GLES2_RenderData.ready : GLES2_RenderData :=
  { GLES2_RenderData.zero with
    shader_id_cache := fun t => t.toNat + 1,
    gl := { log := [], programs := 0, shaders := 16 } }

/-- A command with every field zero. -/
def SDL_RenderCommand.zero : SDL_RenderCommand :=
  { command := SDL_RenderCommandType.NO_OP, viewport_rect := ⟨0, 0, 0, 0⟩,
    cliprect_enabled := false, cliprect_rect := ⟨0, 0, 0, 0⟩, first := 0, count := 0,
    blend := 0, texture := 0, texture_scale_mode := SDL_ScaleMode.NEAREST,
    texture_address_mode_u := SDL_TextureAddressMode.CLAMP,
    texture_address_mode_v := SDL_TextureAddressMode.CLAMP,
    color := ⟨⟨0⟩, ⟨0⟩, ⟨0⟩, ⟨0⟩⟩, color_scale := ⟨1⟩ }

/-- An untextured `SDL_RENDERCMD_GEOMETRY` command. -/
def SDL_RenderCommand.geometry (first count : Nat) (blend : SDL_BlendMode) : SDL_RenderCommand :=
  { SDL_RenderCommand.zero with
    command := SDL_RenderCommandType.GEOMETRY, first := first, count := count, blend := blend }

/-- An `SDL_RENDERCMD_DRAW_LINES` command. -/
def SDL_RenderCommand.lines (first count : Nat) (blend : SDL_BlendMode) : SDL_RenderCommand :=
  { SDL_RenderCommand.zero with
    command := SDL_RenderCommandType.DRAW_LINES, first := first, count := count, blend := blend }

/-- A renderer that draws to its window, with a current context. -/
def SDL_Renderer.window : SDL_Renderer :=
  { target := 0, window_w := 640, window_h := 480, context_current := true,
    make_current_ok := true }

/-- A cache holding the pair `(1, 2)` at address `2` (the head) and the pair
`(1, 1)` at address `1` (the tail). -/
def GLES2_RenderData.sample : GLES2_RenderData :=
  { GLES2_RenderData.zero with
    program_cache := { count := 2, head := 2, tail := 1 },
    heap :=
      { cells := fun p =>
          if p = 1 then
            some { GLES2_ProgramCacheEntry.zero with
                   id := 100, vertex_shader := 1, fragment_shader := 1, prev := 2 }
          else if p = 2 then
            some { GLES2_ProgramCacheEntry.zero with
                   id := 101, vertex_shader := 1, fragment_shader := 2, next := 1 }
          else none,
        brk := 2, attempts := 2 },
    gl := { log := [], programs := 2, shaders := 0 } }

/-- Requests for eight different pairs, then the first pair again. -/
def lruTrace : List (Nat × Nat) :=
  [(1, 1), (1, 2), (1, 3), (1, 4), (1, 5), (1, 6), (1, 7), (1, 8), (1, 1)]

/-- The cached pairs with the names of their programs, from the head on. -/
def GLES2_RenderData.cachedPrograms (data : GLES2_RenderData) : List ((Nat × Nat) × Nat) :=
  data.cached.map (fun a => (data.heap.key a, data.heap.programId a))

/-! ## Vocabulary of the statements -/

/-- Whether a call is `glDrawArrays`. -/
def GLCall.isDraw : GLCall → Bool
  | .drawArrays _ _ _ => true
  | _ => false

/-- The state `data'` comes after `data` without any drawing: the debug flag
is the same and the log of `data'` is the log of `data` followed by calls none
of which is `glDrawArrays`. -/
def GLES2_RenderData.Extends (data data' : GLES2_RenderData) : Prop :=
  data'.debug_enabled = data.debug_enabled ∧
  ∃ calls : List GLCall, data'.gl.log = data.gl.log ++ calls ∧ ∀ c ∈ calls, c.isDraw = false

/-- The fields on which the draw cases compare commands: texture, scale mode,
the two address modes and the blend mode. -/
def SDL_RenderCommand.batchKey (c : SDL_RenderCommand) :
    Nat × SDL_ScaleMode × SDL_TextureAddressMode × SDL_TextureAddressMode × SDL_BlendMode :=
  (c.texture, c.texture_scale_mode, c.texture_address_mode_u, c.texture_address_mode_v, c.blend)

/-- The lists `runs` are maximal runs of adjacent commands with one key: no run
is empty, the commands of a run agree on the key, and no command agrees with
a command of the next run. -/
def MaximalRuns (runs : List (List SDL_RenderCommand)) : Prop :=
  (∀ r ∈ runs, 0 < r.length ∧ ∀ a ∈ r, ∀ b ∈ r, a.batchKey = b.batchKey) ∧
  runs.Chain' (fun r1 r2 => ∀ a ∈ r1, ∀ b ∈ r2, a.batchKey ≠ b.batchKey)

/-- The primitive the cases `SDL_RENDERCMD_DRAW_POINTS` and
`SDL_RENDERCMD_GEOMETRY` draw (lines 1524-1527). -/
def GLES2_RunCommandQueue_op (kind : SDL_RenderCommandType) : GLPrim :=
  if kind = SDL_RenderCommandType.DRAW_POINTS then GLPrim.POINTS else GLPrim.TRIANGLES

/-- Whether a call is one of `glActiveTexture`, `glBindTexture` and
`glTexParameteri`. -/
def GLCall.isTexture : GLCall → Bool
  | .activeTexture _ => true
  | .bindTexture _ _ => true
  | .texParameteri _ _ => true
  | _ => false

/-- The state `data'` comes after `data` by texture calls only. -/
def GLES2_RenderData.TexExtends (data data' : GLES2_RenderData) : Prop :=
  ∃ calls : List GLCall, data'.gl.log = data.gl.log ++ calls ∧ ∀ c ∈ calls, c.isTexture = true

/-- The addresses of `count` vertices `stride` bytes apart, the first at `base`. -/
def vertexRange (base stride count : Nat) : List Nat :=
  (List.range count).map (fun i => base + i * stride)

/-- Whether a command is one of the three kinds the loop draws. -/
def SDL_RenderCommand.isDraw (cmd : SDL_RenderCommand) : Bool :=
  decide (cmd.command = SDL_RenderCommandType.DRAW_POINTS)
    || decide (cmd.command = SDL_RenderCommandType.DRAW_LINES)
    || decide (cmd.command = SDL_RenderCommandType.GEOMETRY)

/-- The size of the vertices the queue functions write for a command:
`GLES2_QueueDrawPoints` and `GLES2_QueueDrawLines` write `SDL_VertexSolid`
(lines 780 and 815), `GLES2_QueueGeometry` writes `SDL_Vertex` for a texture
and `SDL_VertexSolid` without one (lines 883 and 921). -/
def SDL_RenderCommand.vertexSize (cmd : SDL_RenderCommand) : Nat :=
  if cmd.command = SDL_RenderCommandType.GEOMETRY ∧ cmd.texture ≠ 0 then sizeof_SDL_Vertex
  else sizeof_SDL_VertexSolid

/-- The vertices of a draw command in the vertex buffer at `vertices`:
`data.draw.count` of them from the byte offset `data.draw.first` on, as the
queue function of the command has written them. -/
def SDL_RenderCommand.vertexAddrs (vertices : Nat) (cmd : SDL_RenderCommand) : List Nat :=
  vertexRange (vertices + cmd.first) cmd.vertexSize cmd.count

/-- The draw commands lie one after the other in the vertex buffer. -/
def Consecutive (cmds : List SDL_RenderCommand) : Prop :=
  cmds.Chain' (fun a b => b.first = a.first + a.count * a.vertexSize)

/-- The value of the variable `count` of the draw cases at each draw call the
loop of `GLES2_RunCommandQueue` comes to, in order, before the conversion to
`GLsizei`: the count of the command and of the commands that join its batch
(lines 1455-1476 and 1497-1515).  The first argument is the number of commands
still to pass over, as in `GLES2_RunCommandQueue_loop`. -/
def GLES2_RunCommandQueue_counts : Nat → List SDL_RenderCommand → List Nat
  | _, [] => []
  | skip + 1, _ :: rest => GLES2_RunCommandQueue_counts skip rest
  | 0, cmd :: rest =>
    match cmd.command with
    | .DRAW_LINES =>
      if cmd.count > 2 then cmd.count :: GLES2_RunCommandQueue_counts 0 rest
      else
        (cmd.count + drawCount (rest.takeWhile (GLES2_RunCommandQueue_joinsLines cmd.blend)))
          :: GLES2_RunCommandQueue_counts
              (rest.takeWhile (GLES2_RunCommandQueue_joinsLines cmd.blend)).length rest
    | .DRAW_POINTS =>
      (cmd.count + drawCount (rest.takeWhile (GLES2_RunCommandQueue_joinsDraw cmd)))
        :: GLES2_RunCommandQueue_counts
            (rest.takeWhile (GLES2_RunCommandQueue_joinsDraw cmd)).length rest
    | .GEOMETRY =>
      (cmd.count + drawCount (rest.takeWhile (GLES2_RunCommandQueue_joinsDraw cmd)))
        :: GLES2_RunCommandQueue_counts
            (rest.takeWhile (GLES2_RunCommandQueue_joinsDraw cmd)).length rest
    | _ => GLES2_RunCommandQueue_counts 0 rest

/-- The pointer and stride of the position array after some calls. -/
def positionAfter : Nat × Nat → List GLCall → Nat × Nat
  | ps, [] => ps
  | ps, GLCall.vertexAttribPointer index _ _ stride pointer :: cs =>
    positionAfter (if index = GLES2_ATTRIBUTE_POSITION then (pointer, stride) else ps) cs
  | ps, _ :: cs => positionAfter ps cs

/-- The vertices the `glDrawArrays` calls of a log read, in order; each call
reads the position array as the last `glVertexAttribPointer` for it has set
it, and a negative count draws nothing. -/
def drawnVertices : Nat × Nat → List GLCall → List Nat
  | _, [] => []
  | ps, GLCall.vertexAttribPointer index _ _ stride pointer :: cs =>
    drawnVertices (if index = GLES2_ATTRIBUTE_POSITION then (pointer, stride) else ps) cs
  | ps, GLCall.drawArrays _ first count :: cs =>
    vertexRange (ps.1 + first.toNat * ps.2) ps.2 count.toNat ++ drawnVertices ps cs
  | ps, _ :: cs => drawnVertices ps cs

/-- A state setup that succeeds draws nothing and leaves the position array at
the vertices of its command. -/
def SetsPosition (data data' : GLES2_RenderData) (vertices : Nat) (cmd : SDL_RenderCommand) :
    Prop :=
  ∃ calls : List GLCall, data'.gl.log = data.gl.log ++ calls ∧
    (∀ c ∈ calls, c.isDraw = false) ∧
    ∀ ps, positionAfter ps calls = (vertices + cmd.first, SetDrawState_stride cmd)

/-- The fields of an entry that `GLES2_SelectProgram` compares: the two
shaders and the shader parameters. -/
def GLES2_ProgramCacheEntry.core (e : GLES2_ProgramCacheEntry) : Nat × Nat × ShaderParams :=
  (e.vertex_shader, e.fragment_shader, e.shader_params)

/-- Every live entry of `h'` is a live entry of `h` with the same shaders and
shader parameters. -/
def Heap.Sub (h h' : Heap) : Prop :=
  ∀ y e', h'.cells y = some e' → ∃ e, h.cells y = some e ∧ e.core = e'.core

/-- Whether a call is one of those the draw-state cache is there to save:
`glViewport`, `glScissor`, `glEnable`, `glDisable`, `glBlendFuncSeparate`,
`glBlendEquationSeparate`, `glEnableVertexAttribArray`,
`glDisableVertexAttribArray`, `glBindTexture`, `glTexParameteri` and
`glUseProgram`. -/
def GLCall.isCachedState : GLCall → Bool
  | .viewport _ _ _ _ => true
  | .scissor _ _ _ _ => true
  | .enable _ => true
  | .disable _ => true
  | .blendFuncSeparate _ _ _ _ => true
  | .blendEquationSeparate _ _ => true
  | .enableVertexAttribArray _ => true
  | .disableVertexAttribArray _ => true
  | .bindTexture _ _ => true
  | .texParameteri _ _ => true
  | .useProgram _ => true
  | _ => false

/-- The calls of `SetDrawState` that no cache guards: the three
`glVertexAttribPointer`. -/
def SetDrawState_arrays (cmd : SDL_RenderCommand) (vertices : Nat) : List GLCall :=
  (if cmd.texture ≠ 0 then
     [GLCall.vertexAttribPointer GLES2_ATTRIBUTE_TEXCOORD 2 false (SetDrawState_stride cmd)
        (vertices + cmd.first + offsetof_tex_coord)]
   else [])
  ++ SetDrawState_pointers cmd vertices

/-- The flags of the draw-state cache after lines 978-1018 of `SetDrawState` for
a command: nothing is left to apply. -/
def GLES2_RenderData.Clean (data : GLES2_RenderData) (cmd : SDL_RenderCommand) : Prop :=
  data.drawstate.viewport_dirty = false ∧ data.drawstate.cliprect_enabled_dirty = false ∧
  ¬ (data.drawstate.cliprect_enabled = true ∧ data.drawstate.cliprect_dirty = true) ∧
  data.drawstate.texturing_dirty = false ∧
  data.drawstate.texturing = decide (cmd.texture ≠ 0)

/-- What `GLES2_CacheProgram` leaves alone: the draw-state cache, the shader
names and the textures; and the entries it keeps have their shaders and
shader parameters as before. -/
def GLES2_RenderData.CacheFrame (data data' : GLES2_RenderData) : Prop :=
  data'.drawstate = data.drawstate ∧ data'.shader_id_cache = data.shader_id_cache ∧
  data'.textures = data.textures ∧ data.heap.Sub data'.heap

/-- Nothing is left for `SetDrawState` to apply for the command `cmd` with
the shaders `vertex` and `fragment` and the shader parameters `params`: the
flags are clean, the blend mode is that of the command, and the current
program is the one wanted, with its projection up to date. -/
def GLES2_RenderData.Settled (data : GLES2_RenderData) (cmd : SDL_RenderCommand)
    (vertex fragment : Nat) (params : ShaderParams) : Prop :=
  data.Clean cmd ∧ data.drawstate.blend = cmd.blend ∧ data.drawstate.program ≠ 0 ∧
  ∃ p, data.heap.read data.drawstate.program = some p ∧
    p.vertex_shader = vertex ∧ p.fragment_shader = fragment ∧ p.shader_params = params ∧
    ¬ (p.uniform_locations.getD GLES2_UNIFORM_PROJECTION 0 ≠ -1
        ∧ p.projection ≠ data.drawstate.projection)

/-- What `GLES2_SelectProgram` leaves current after it returns `true`. -/
def GLES2_RenderData.Selected (data : GLES2_RenderData) (vertex fragment : Nat)
    (params : ShaderParams) : Prop :=
  data.drawstate.program ≠ 0 ∧
  ∃ p, data.heap.read data.drawstate.program = some p ∧
    p.vertex_shader = vertex ∧ p.fragment_shader = fragment ∧ p.shader_params = params

/-- Whether the `switch` of `GLES2_SelectProgram` (lines 621-696) gives the
fragment shader type shader parameters: the pixel-art shaders take the texel
size, the YUV shaders the conversion matrix. -/
def GLES2_ShaderType.hasParams : GLES2_ShaderType → Bool
  | .FRAGMENT_TEXTURE_ABGR_PIXELART => true
  | .FRAGMENT_TEXTURE_ARGB_PIXELART => true
  | .FRAGMENT_TEXTURE_BGR_PIXELART => true
  | .FRAGMENT_TEXTURE_RGB_PIXELART => true
  | .FRAGMENT_TEXTURE_YUV => true
  | .FRAGMENT_TEXTURE_NV12_RA => true
  | .FRAGMENT_TEXTURE_NV12_RG => true
  | .FRAGMENT_TEXTURE_NV21_RA => true
  | .FRAGMENT_TEXTURE_NV21_RG => true
  | _ => false

/-- Every live entry of `h'` is a live entry of `h` with the same shaders and
shader parameters, or carries no shader parameters. -/
def Heap.Grows (h h' : Heap) : Prop :=
  ∀ y e', h'.cells y = some e' →
    (∃ e, h.cells y = some e ∧ e.core = e'.core) ∨ e'.shader_params = ShaderParams.null

/-- The program cache is as the driver and `GLES2_SelectProgram` make it: the
compiled shaders have different names (`glCreateShader` gives every shader a
name of its own), and an entry that carries shader parameters has a fragment
shader that takes them (line 759 is the only store to `shader_params`). -/
def GLES2_RenderData.ParamsSound (data : GLES2_RenderData) : Prop :=
  (∀ t t', data.shader_id_cache t ≠ 0 → data.shader_id_cache t = data.shader_id_cache t' →
    t = t') ∧
  ∀ a e, data.heap.cells a = some e → e.shader_params ≠ ShaderParams.null →
    ∃ t, t.hasParams = true ∧ data.shader_id_cache t ≠ 0
      ∧ e.fragment_shader = data.shader_id_cache t

/-- The flags of the draw-state cache that `GLES2_RenderData.Clean` reads. -/
def GLES2_DrawStateCache.flags (ds : GLES2_DrawStateCache) :
    Bool × Bool × Bool × Bool × Bool × Bool :=
  (ds.viewport_dirty, ds.cliprect_enabled_dirty, ds.cliprect_enabled, ds.cliprect_dirty,
   ds.texturing_dirty, ds.texturing)

/-- The fields of a texture that `SetCopyState` never writes and that choose
the shader: the format and the colorspace. -/
def SDL_Texture.kind (t : SDL_Texture) : SDL_PixelFormat × SDL_Colorspace :=
  (t.format, t.colorspace)

/-- What lines 1263-1315 of `SetCopyState` leave alone: the program cache, the
shader names, the draw-state cache, and the format and colorspace of every
texture. -/
def GLES2_RenderData.TexFrame (data data' : GLES2_RenderData) : Prop :=
  data'.heap = data.heap ∧ data'.shader_id_cache = data.shader_id_cache ∧
  data'.drawstate = data.drawstate ∧
  ∀ q, (data'.textures q).map SDL_Texture.kind = (data.textures q).map SDL_Texture.kind

/-- The state `GLES2_RenderData.ready` with one RGBA texture at address `5`,
GL name `9`, not yet given its scale and address modes. -/
def GLES2_RenderData.textured : GLES2_RenderData :=
  { GLES2_RenderData.ready with
    textures := fun q =>
      if q = 5 then
        some { format := SDL_PixelFormat.RGBA32, colorspace := SDL_COLORSPACE_SRGB,
               texture := 9, texture_type := 3553, yuv := false, nv12 := false,
               texture_v := 0, texture_u := 0, texture_scale_mode := SDL_ScaleMode.INVALID,
               texture_address_mode_u := SDL_TextureAddressMode.INVALID,
               texture_address_mode_v := SDL_TextureAddressMode.INVALID }
      else none }

/-- A `SDL_RENDERCMD_GEOMETRY` command that draws the texture at address `5`
with linear filtering and clamped coordinates. -/
def SDL_RenderCommand.textured (first count : Nat) (blend : SDL_BlendMode) : SDL_RenderCommand :=
  { SDL_RenderCommand.geometry first count blend with
    texture := 5, texture_scale_mode := SDL_ScaleMode.LINEAR,
    texture_address_mode_u := SDL_TextureAddressMode.CLAMP,
    texture_address_mode_v := SDL_TextureAddressMode.CLAMP }

/-! ## Blend-mode support and shader start-up -/

/-- The function `GLES2_SupportsBlendMode` (lines 382-410). -/
def GLES2_SupportsBlendMode (env : Env) (data : GLES2_RenderData) (blendMode : SDL_BlendMode) :
    Bool :=
  if GetBlendFunc (env.srcColorFactor blendMode) = GLenum.GL_INVALID_ENUM ∨
     GetBlendFunc (env.srcAlphaFactor blendMode) = GLenum.GL_INVALID_ENUM ∨
     GetBlendEquation (env.colorOperation blendMode) = GLenum.GL_INVALID_ENUM ∨
     GetBlendFunc (env.dstColorFactor blendMode) = GLenum.GL_INVALID_ENUM ∨
     GetBlendFunc (env.dstAlphaFactor blendMode) = GLenum.GL_INVALID_ENUM ∨
     GetBlendEquation (env.alphaOperation blendMode) = GLenum.GL_INVALID_ENUM then false
  else if env.colorOperation blendMode = SDL_BlendOperation.MINIMUM
      ∧ data.GL_EXT_blend_minmax_supported = false then false
  else if env.colorOperation blendMode = SDL_BlendOperation.MAXIMUM
      ∧ data.GL_EXT_blend_minmax_supported = false then false
  else true

/-- The loop of `GLES2_CacheShaders` (lines 594-606) over the shader types
still to compile; it stops at the first `GLES2_CacheShader` that fails. -/
def GLES2_CacheShaders_loop (env : Env) :
    GLES2_RenderData → List GLES2_ShaderType → Bool × GLES2_RenderData
  | data, [] => (true, data)
  | data, shader :: rest =>
    if (GLES2_CacheShader env data shader
          (decide (shader ≠ GLES2_ShaderType.VERTEX_DEFAULT))).1 = false then
      (false, (GLES2_CacheShader env data shader
                (decide (shader ≠ GLES2_ShaderType.VERTEX_DEFAULT))).2)
    else
      GLES2_CacheShaders_loop env
        (GLES2_CacheShader env data shader
          (decide (shader ≠ GLES2_ShaderType.VERTEX_DEFAULT))).2 rest

/-- The function `GLES2_CacheShaders`: every shader type below
`GLES2_SHADER_FRAGMENT_TEXTURE_EXTERNAL_OES` is compiled, in order.  The field
`texcoord_precision_hint`, which only chooses the text of the sources, is left
out. -/
def GLES2_CacheShaders (env : Env) (data : GLES2_RenderData) : Bool × GLES2_RenderData :=
  GLES2_CacheShaders_loop env data
    [.VERTEX_DEFAULT, .FRAGMENT_SOLID, .FRAGMENT_TEXTURE_ABGR, .FRAGMENT_TEXTURE_ARGB,
     .FRAGMENT_TEXTURE_BGR, .FRAGMENT_TEXTURE_RGB, .FRAGMENT_TEXTURE_ABGR_PIXELART,
     .FRAGMENT_TEXTURE_ARGB_PIXELART, .FRAGMENT_TEXTURE_BGR_PIXELART,
     .FRAGMENT_TEXTURE_RGB_PIXELART, .FRAGMENT_TEXTURE_YUV, .FRAGMENT_TEXTURE_NV12_RA,
     .FRAGMENT_TEXTURE_NV12_RG, .FRAGMENT_TEXTURE_NV21_RA, .FRAGMENT_TEXTURE_NV21_RG]

/-! ## The tables the specification speaks of -/

/-- The four packed pixel layouts for which `GLES2_SelectProgram` has a plain
and a pixel-art fragment shader. -/
inductive PixelLayout
  | ABGR
  | ARGB
  | RGB
  | BGR
deriving DecidableEq, Repr

/-- The image source `TEXTURE_X` of a layout `X`. -/
def PixelLayout.source : PixelLayout → GLES2_ImageSource
  | .ABGR => .TEXTURE_ABGR
  | .ARGB => .TEXTURE_ARGB
  | .RGB => .TEXTURE_RGB
  | .BGR => .TEXTURE_BGR

/-- The fragment shader `TEXTURE_X` of a layout `X`. -/
def PixelLayout.plain : PixelLayout → GLES2_ShaderType
  | .ABGR => .FRAGMENT_TEXTURE_ABGR
  | .ARGB => .FRAGMENT_TEXTURE_ARGB
  | .RGB => .FRAGMENT_TEXTURE_RGB
  | .BGR => .FRAGMENT_TEXTURE_BGR

/-- The fragment shader `TEXTURE_X_PIXELART` of a layout `X`. -/
def PixelLayout.pixelart : PixelLayout → GLES2_ShaderType
  | .ABGR => .FRAGMENT_TEXTURE_ABGR_PIXELART
  | .ARGB => .FRAGMENT_TEXTURE_ARGB_PIXELART
  | .RGB => .FRAGMENT_TEXTURE_RGB_PIXELART
  | .BGR => .FRAGMENT_TEXTURE_BGR_PIXELART

/-- The pair of shader names under which the current program is cached,
`none` when `drawstate.program` is `NULL` or not live. -/
def GLES2_RenderData.currentKey (data : GLES2_RenderData) : Option (Nat × Nat) :=
  (data.heap.read data.drawstate.program).map (fun p => (p.vertex_shader, p.fragment_shader))

/-- The format table for a render target whose format differs from that of the
source texture: the `(source, target)` pairs of packed formats that have an
entry, with the variant listed. -/
def packedFormats : List ((SDL_PixelFormat × SDL_PixelFormat) × GLES2_ImageSource) :=
  [((.BGRA32, .RGBA32), .TEXTURE_ARGB), ((.BGRA32, .RGBX32), .TEXTURE_ARGB),
   ((.BGRA32, .BGRX32), .TEXTURE_ABGR),
   ((.RGBA32, .BGRA32), .TEXTURE_ARGB), ((.RGBA32, .BGRX32), .TEXTURE_ARGB),
   ((.RGBA32, .RGBX32), .TEXTURE_ABGR),
   ((.BGRX32, .RGBA32), .TEXTURE_ARGB), ((.BGRX32, .BGRA32), .TEXTURE_BGR),
   ((.BGRX32, .RGBX32), .TEXTURE_ARGB),
   ((.RGBX32, .RGBA32), .TEXTURE_BGR), ((.RGBX32, .BGRA32), .TEXTURE_RGB),
   ((.RGBX32, .BGRX32), .TEXTURE_ARGB)]

/-- The entries of the format table that depend on the source format alone:
the planar and the external formats. -/
def planarFormats : List (SDL_PixelFormat × GLES2_ImageSource) :=
  [(.IYUV, .TEXTURE_YUV), (.YV12, .TEXTURE_YUV), (.NV12, .TEXTURE_NV12),
   (.NV21, .TEXTURE_NV21), (.EXTERNAL_OES, .TEXTURE_EXTERNAL_OES)]

/-- The variant the format table lists for a source format and a target
format, `none` for a pair without an entry. -/
def SetCopyState_table (format target : SDL_PixelFormat) : Option GLES2_ImageSource :=
  match packedFormats.lookup (format, target) with
  | some s => some s
  | none => planarFormats.lookup format

/-- Whether the format is one of the four packed 32-bit formats. -/
def SDL_PixelFormat.isPacked : SDL_PixelFormat → Bool
  | .BGRA32 => true
  | .RGBA32 => true
  | .BGRX32 => true
  | .RGBX32 => true
  | _ => false

/-! ## More sample inputs -/

/-- A custom blend mode: `SDL_ComposeCustomBlendMode (ONE, ZERO, ADD, ONE, ZERO, MINIMUM)`. -/
def blendMode_alphaMinimum : SDL_BlendMode := 0x01240121

/-- A driver like `Env.plain` that decodes the alpha operation of
`blendMode_alphaMinimum` as `SDL_BLENDOPERATION_MINIMUM`. -/
def Env.alphaMinimum : Env :=
  { Env.plain with
    alphaOperation := fun m =>
      if m = blendMode_alphaMinimum then SDL_BlendOperation.MINIMUM else SDL_BlendOperation.ADD }

/-- A state after `GLES2_CacheShaders` on a driver without
`GL_OES_EGL_image_external`: the fifteen shader types below the external one
compiled (type number `n` has the name `n + 1`), the external one not. -/
def GLES2_RenderData.started : GLES2_RenderData :=
  { GLES2_RenderData.zero with
    shader_id_cache := fun t =>
      if t = GLES2_ShaderType.FRAGMENT_TEXTURE_EXTERNAL_OES then 0 else t.toNat + 1,
    gl := { log := [], programs := 0, shaders := 15 } }

/-- A driver like `Env.plain` that fails to compile the sixteenth and the
seventeenth shader it is given (numbers `15` and `16`). -/
def Env.flaky : Env :=
  { Env.plain with compileStatus := fun n => decide (n < 15 ∨ 17 ≤ n) }

/-- The state `GLES2_RenderData.ready` with a BGRA texture at address `5` and
a planar YUV texture at address `6`. -/
def GLES2_RenderData.twoTextures : GLES2_RenderData :=
  { GLES2_RenderData.ready with
    textures := fun q =>
      if q = 5 then
        some { format := SDL_PixelFormat.BGRA32, colorspace := SDL_COLORSPACE_SRGB,
               texture := 9, texture_type := 3553, yuv := false, nv12 := false,
               texture_v := 0, texture_u := 0, texture_scale_mode := SDL_ScaleMode.INVALID,
               texture_address_mode_u := SDL_TextureAddressMode.INVALID,
               texture_address_mode_v := SDL_TextureAddressMode.INVALID }
      else if q = 6 then
        some { format := SDL_PixelFormat.IYUV, colorspace := SDL_COLORSPACE_SRGB,
               texture := 10, texture_type := 3553, yuv := true, nv12 := false,
               texture_v := 11, texture_u := 12, texture_scale_mode := SDL_ScaleMode.INVALID,
               texture_address_mode_u := SDL_TextureAddressMode.INVALID,
               texture_address_mode_v := SDL_TextureAddressMode.INVALID }
      else none }

/-- The state `GLES2_RenderData.started`, of a renderer without
`GL_OES_EGL_image_external`, with the RGBA texture of
`GLES2_RenderData.textured` at address `5`. -/
def GLES2_RenderData.live : GLES2_RenderData :=
  { GLES2_RenderData.started with textures := GLES2_RenderData.textured.textures }

/-- A renderer whose render target is the texture at address `6`. -/
def SDL_Renderer.toTexture : SDL_Renderer :=
  { SDL_Renderer.window with target := 6 }

/-! ## Channel order and alpha of the packed formats -/

/-- Whether a packed format stores blue before red (`BGRA32`, `BGRX32`) or
red before blue (`RGBA32`, `RGBX32`); `none` for the other formats. -/
def SDL_PixelFormat.blueFirst : SDL_PixelFormat → Option Bool
  | .BGRA32 => some true
  | .BGRX32 => some true
  | .RGBA32 => some false
  | .RGBX32 => some false
  | _ => none

/-- Whether a packed format has an alpha channel; `none` for the other formats. -/
def SDL_PixelFormat.hasAlpha : SDL_PixelFormat → Option Bool
  | .BGRA32 => some true
  | .RGBA32 => some true
  | .BGRX32 => some false
  | .RGBX32 => some false
  | _ => none

/-- The channel order of the destination of a copy: that of the render target,
and red before blue for the screen. -/
def destinationBlueFirst : Option SDL_PixelFormat → Option Bool
  | some tf => tf.blueFirst
  | none => some false

/-- Whether a variant for packed textures swaps the red and the blue channel:
`ARGB` and `RGB` do, `ABGR` and `BGR` do not. -/
def GLES2_ImageSource.swapsRedBlue : GLES2_ImageSource → Option Bool
  | .TEXTURE_ARGB => some true
  | .TEXTURE_RGB => some true
  | .TEXTURE_ABGR => some false
  | .TEXTURE_BGR => some false
  | _ => none

/-- Whether a variant forces the alpha of the result to be opaque: `RGB` and
`BGR` do, `ABGR` and `ARGB` pass the alpha of the source through. -/
def GLES2_ImageSource.forcesOpaque : GLES2_ImageSource → Bool
  | .TEXTURE_RGB => true
  | .TEXTURE_BGR => true
  | _ => false

/-- The state `GLES2_RenderData.ready` with a BGRX texture at address `5` and
an RGBA texture at address `6`. -/
def GLES2_RenderData.opaqueSource : GLES2_RenderData :=
  { GLES2_RenderData.ready with
    textures := fun q =>
      if q = 5 then
        some { format := SDL_PixelFormat.BGRX32, colorspace := SDL_COLORSPACE_SRGB,
               texture := 9, texture_type := 3553, yuv := false, nv12 := false,
               texture_v := 0, texture_u := 0, texture_scale_mode := SDL_ScaleMode.INVALID,
               texture_address_mode_u := SDL_TextureAddressMode.INVALID,
               texture_address_mode_v := SDL_TextureAddressMode.INVALID }
      else if q = 6 then
        some { format := SDL_PixelFormat.RGBA32, colorspace := SDL_COLORSPACE_SRGB,
               texture := 10, texture_type := 3553, yuv := false, nv12 := false,
               texture_v := 0, texture_u := 0, texture_scale_mode := SDL_ScaleMode.INVALID,
               texture_address_mode_u := SDL_TextureAddressMode.INVALID,
               texture_address_mode_v := SDL_TextureAddressMode.INVALID }
      else none }

/-! ## Render target, scissor box and scissor test -/

/-- The function `GLES2_SetRenderTarget`; `texture` is `0` for the window, and
`complete` tells whether `glCheckFramebufferStatus` answers
`GL_FRAMEBUFFER_COMPLETE`.  The result is `none` when the pointer is not that
of a texture. -/
def GLES2_SetRenderTarget (data : GLES2_RenderData) (texture : Nat) (complete : Bool) :
    Option (Bool × GLES2_RenderData) :=
  let data1 : GLES2_RenderData :=
    { data with drawstate := { data.drawstate with viewport_dirty := true } }
  if texture = 0 then
    some (true, data1.call [GLCall.bindFramebuffer data1.window_framebuffer])
  else
    (data1.texture? texture).bind (fun t =>
      let data2 := data1.call
        [GLCall.bindFramebuffer t.fbo, GLCall.framebufferTexture2D t.texture_type t.texture,
         GLCall.checkFramebufferStatus]
      if complete = false then
        some (false, SDL_SetError data2 "glFramebufferTexture2D() failed")
      else some (true, data2))

/-- Whether a call concerns clipping or clears: `glScissor`, `glEnable` and
`glDisable` of `GL_SCISSOR_TEST`, and `glClear`. -/
def GLCall.isClip : GLCall → Bool
  | .scissor _ _ _ _ => true
  | .enable GLCap.SCISSOR_TEST => true
  | .disable GLCap.SCISSOR_TEST => true
  | .clear => true
  | _ => false

/-- The fields of the draw-state cache that describe the view: viewport, clip
rectangle, their flags, the target, the size of the drawable and the
projection. -/
def GLES2_DrawStateCache.view (ds : GLES2_DrawStateCache) :
    SDL_Rect × Bool × Bool × Bool × Bool × SDL_Rect × Nat × Int × Int × List GLfloat :=
  (ds.viewport, ds.viewport_dirty, ds.cliprect_enabled_dirty, ds.cliprect_enabled,
   ds.cliprect_dirty, ds.cliprect, ds.target, ds.drawablew, ds.drawableh, ds.projection)

/-- The state `data'` comes after `data` by a step that leaves the view alone:
the view fields are the same and the log of `data'` is the log of `data`
followed by calls none of which concerns clipping or clears. -/
def GLES2_RenderData.Quiet (data data' : GLES2_RenderData) : Prop :=
  data'.drawstate.view = data.drawstate.view ∧
  ∃ calls : List GLCall, data'.gl.log = data.gl.log ++ calls ∧ ∀ c ∈ calls, c.isClip = false

/-- The effect of one call on the scissor test of the driver. -/
def scissorTest_step (s : Option Bool) : GLCall → Option Bool
  | .enable GLCap.SCISSOR_TEST => some true
  | .disable GLCap.SCISSOR_TEST => some false
  | _ => s

/-- Whether the scissor test of the driver is enabled after the calls of a
log: what the last `glEnable` or `glDisable` of `GL_SCISSOR_TEST` set, `none`
when the log has neither. -/
def scissorTest (log : List GLCall) : Option Bool :=
  log.foldl scissorTest_step none

/-- The scissor box most recently given to the driver, if any. -/
def lastScissor : List GLCall → Option (Int × Int × Int × Int)
  | [] => none
  | c :: cs =>
    match lastScissor cs with
    | some r => some r
    | none =>
      match c with
      | .scissor x y w h => some (x, y, w, h)
      | _ => none

/-- The scissor box that belongs to a draw-state cache: the clip rectangle
moved by the origin of the viewport, upside down unless the target is a
texture, in `int` arithmetic. -/
def GLES2_DrawStateCache.scissorBox (ds : GLES2_DrawStateCache) : Int × Int × Int × Int :=
  (int_wrap (ds.viewport.x + ds.cliprect.x),
   (if ds.target ≠ 0 then int_wrap (ds.viewport.y + ds.cliprect.y)
    else int_wrap (ds.drawableh - ds.viewport.y - ds.cliprect.y - ds.cliprect.h)),
   ds.cliprect.w, ds.cliprect.h)

/-- The scissor test of the driver agrees with the cache: when
`cliprect_enabled_dirty` is off, the test is what `cliprect_enabled` says. -/
def GLES2_RenderData.ScissorSync (data : GLES2_RenderData) : Prop :=
  data.drawstate.cliprect_enabled_dirty = false →
    scissorTest data.gl.log = some data.drawstate.cliprect_enabled

/-- Every `glClear` of the log from position `n` on is issued with the scissor
test disabled. -/
def ClearsUnscissored (n : Nat) (log : List GLCall) : Prop :=
  ∀ i, n ≤ i → log.get? i = some GLCall.clear → scissorTest (log.take i) = some false

/-- A `SDL_RENDERCMD_SETVIEWPORT` command. -/
def SDL_RenderCommand.setViewport (rect : SDL_Rect) : SDL_RenderCommand :=
  { SDL_RenderCommand.zero with command := SDL_RenderCommandType.SETVIEWPORT,
                                viewport_rect := rect }

/-- A `SDL_RENDERCMD_SETCLIPRECT` command. -/
def SDL_RenderCommand.setClipRect (enabled : Bool) (rect : SDL_Rect) : SDL_RenderCommand :=
  { SDL_RenderCommand.zero with command := SDL_RenderCommandType.SETCLIPRECT,
                                cliprect_enabled := enabled, cliprect_rect := rect }

/-- A `SDL_RENDERCMD_CLEAR` command. -/
def SDL_RenderCommand.clear : SDL_RenderCommand :=
  { SDL_RenderCommand.zero with command := SDL_RenderCommandType.CLEAR }

/-- A frame: the viewport of the whole drawable, a clip rectangle, and one
untextured triangle. -/
def clippedFrame : List SDL_RenderCommand :=
  [SDL_RenderCommand.setViewport ⟨0, 0, 640, 480⟩,
   SDL_RenderCommand.setClipRect true ⟨10, 20, 100, 50⟩,
   SDL_RenderCommand.geometry 0 3 0]

/-! # WGL: extension strings and pixel formats (`SDL_windowsopengl.c`) -/

/-- Whether the C string `s` begins with the C string `needle`. -/
def startsWith : List Char → List Char → Bool
  | _, [] => true
  | [], _ :: _ => false
  | c :: s, d :: needle => c = d && startsWith s needle

/-- The function `SDL_strstr`: the offset of the first occurrence of `needle`
in `haystack`, `none` for `NULL`. -/
def SDL_strstr : List Char → List Char → Option Nat
  | [], needle => if needle = [] then some 0 else none
  | c :: haystack, needle =>
    if startsWith (c :: haystack) needle then some 0
    else (SDL_strstr haystack needle).map (fun k => k + 1)

/-- The loop `for (;;)` of `HasExtension` (lines 392-407).  Pointers into
`extensions` are offsets; `start` is the offset of the variable `start`.  Each
pass moves `start` forward, so `extensions.length + 1` passes are enough; the
result is `none` if the passes allowed are used up. -/
def HasExtension_loop (extension extensions : List Char) : Nat → Nat → Option Bool
  | 0, _ => none
  | fuel + 1, start =>
    match SDL_strstr (extensions.drop start) extension with
    | none => some false
    | some offset =>
      if (start + offset = start ∨ extensions.get? (start + offset - 1) = some ' ')
          ∧ (extensions.get? (start + offset + extension.length) = some ' '
              ∨ extensions.get? (start + offset + extension.length) = none) then
        some true
      else HasExtension_loop extension extensions fuel (start + offset + extension.length)

/-- The function `HasExtension`; `extensions` is `none` for `NULL`. -/
def HasExtension (extension : List Char) (extensions : Option (List Char)) : Option Bool :=
  if ' ' ∈ extension ∨ extension = [] then some false
  else
    match extensions with
    | none => some false
    | some exts => HasExtension_loop extension exts (exts.length + 1) 0

/-- The fields of `PIXELFORMATDESCRIPTOR` that `WIN_GL_ChoosePixelFormat` reads. -/
structure PIXELFORMATDESCRIPTOR where
  dwFlags : Nat
  iLayerType : Nat
  iPixelType : Nat
  cColorBits : Nat
  cRedBits : Nat
  cGreenBits : Nat
  cBlueBits : Nat
  cAlphaBits : Nat
  cAccumBits : Nat
  cAccumRedBits : Nat
  cAccumGreenBits : Nat
  cAccumBlueBits : Nat
  cAccumAlphaBits : Nat
  cDepthBits : Nat
  cStencilBits : Nat
deriving DecidableEq, Repr

/-- One of the twelve steps `if (pfd.c < target->c) continue; else dist += ...`
on the `unsigned int` `dist`; `none` is `continue`. -/
def WIN_GL_ChoosePixelFormat_add (dist : Option Nat) (have_bits want_bits : Nat) : Option Nat :=
  match dist with
  | none => none
  | some d => if have_bits < want_bits then none else some ((d + (have_bits - want_bits)) % 2 ^ 32)

/-- The body of the loop of `WIN_GL_ChoosePixelFormat` up to the comparison
with `best_dist` (lines 282-360) for a described format: its distance from the
target, `none` where the body runs into a `continue`. -/
def WIN_GL_ChoosePixelFormat_dist (pfd target : PIXELFORMATDESCRIPTOR) : Option Nat :=
  if pfd.dwFlags &&& target.dwFlags ≠ target.dwFlags then none
  else if pfd.iLayerType ≠ target.iLayerType then none
  else if pfd.iPixelType ≠ target.iPixelType then none
  else
    WIN_GL_ChoosePixelFormat_add
      (WIN_GL_ChoosePixelFormat_add
        (WIN_GL_ChoosePixelFormat_add
          (WIN_GL_ChoosePixelFormat_add
            (WIN_GL_ChoosePixelFormat_add
              (WIN_GL_ChoosePixelFormat_add
                (WIN_GL_ChoosePixelFormat_add
                  (WIN_GL_ChoosePixelFormat_add
                    (WIN_GL_ChoosePixelFormat_add
                      (WIN_GL_ChoosePixelFormat_add
                        (WIN_GL_ChoosePixelFormat_add
                          (WIN_GL_ChoosePixelFormat_add (some 0)
                            pfd.cColorBits target.cColorBits)
                          pfd.cRedBits target.cRedBits)
                        pfd.cGreenBits target.cGreenBits)
                      pfd.cBlueBits target.cBlueBits)
                    pfd.cAlphaBits target.cAlphaBits)
                  pfd.cAccumBits target.cAccumBits)
                pfd.cAccumRedBits target.cAccumRedBits)
              pfd.cAccumGreenBits target.cAccumGreenBits)
            pfd.cAccumBlueBits target.cAccumBlueBits)
          pfd.cAccumAlphaBits target.cAccumAlphaBits)
        pfd.cDepthBits target.cDepthBits)
      pfd.cStencilBits target.cStencilBits

/-- The loop of `WIN_GL_ChoosePixelFormat` over the formats from `index` on;
an element `none` is a format `DescribePixelFormat` fails to describe.  The
result is the final value of `best`. -/
def WIN_GL_ChoosePixelFormat_loop (target : PIXELFORMATDESCRIPTOR) :
    List (Option PIXELFORMATDESCRIPTOR) → Nat → Nat → Nat → Nat
  | [], _, best, _ => best
  | none :: rest, index, best, best_dist =>
    WIN_GL_ChoosePixelFormat_loop target rest (index + 1) best best_dist
  | some pfd :: rest, index, best, best_dist =>
    match WIN_GL_ChoosePixelFormat_dist pfd target with
    | none => WIN_GL_ChoosePixelFormat_loop target rest (index + 1) best best_dist
    | some dist =>
      if dist < best_dist then WIN_GL_ChoosePixelFormat_loop target rest (index + 1) index dist
      else WIN_GL_ChoosePixelFormat_loop target rest (index + 1) best best_dist

/-- The value of the variable `best` at the `return` of
`WIN_GL_ChoosePixelFormat`, for the formats of the device context in the order
of their indices `1, 2, ...`. -/
def WIN_GL_ChoosePixelFormat_best (formats : List (Option PIXELFORMATDESCRIPTOR))
    (target : PIXELFORMATDESCRIPTOR) : Nat :=
  WIN_GL_ChoosePixelFormat_loop target formats 1 0 (2 ^ 32 - 1)

/-- The function `WIN_GL_ChoosePixelFormat`, declared `static bool`: the
statement `return best;` converts the index to `bool`. -/
def WIN_GL_ChoosePixelFormat (formats : List (Option PIXELFORMATDESCRIPTOR))
    (target : PIXELFORMATDESCRIPTOR) : Bool :=
  decide (WIN_GL_ChoosePixelFormat_best formats target ≠ 0)

/-- Lines 672-689 of `WIN_GL_SetupWindowInternal`: the argument `pixel_format`
of `SetPixelFormat`, or the error.  `arb` and `arb_noaccel` are what the two
calls of `WIN_GL_ChoosePixelFormatARB` return. -/
def WIN_GL_SetupWindowInternal_pixel_format (arb arb_noaccel accelerated : Int)
    (formats : List (Option PIXELFORMATDESCRIPTOR)) (target : PIXELFORMATDESCRIPTOR) :
    Except String Int :=
  let pixel_format1 := if arb = 0 ∧ accelerated < 0 then arb_noaccel else arb
  let pixel_format2 :=
    if pixel_format1 = 0 then (if WIN_GL_ChoosePixelFormat formats target then 1 else 0)
    else pixel_format1
  if pixel_format2 = 0 then .error "No matching GL pixel format available"
  else .ok pixel_format2

/-- The formats that take part in the choice: those described that have all
the flags of the target, its layer and pixel type, and at least its depths. -/
def PIXELFORMATDESCRIPTOR.qualifies (pfd target : PIXELFORMATDESCRIPTOR) : Bool :=
  pfd.dwFlags &&& target.dwFlags = target.dwFlags
  && pfd.iLayerType = target.iLayerType && pfd.iPixelType = target.iPixelType
  && target.cColorBits ≤ pfd.cColorBits && target.cRedBits ≤ pfd.cRedBits
  && target.cGreenBits ≤ pfd.cGreenBits && target.cBlueBits ≤ pfd.cBlueBits
  && target.cAlphaBits ≤ pfd.cAlphaBits && target.cAccumBits ≤ pfd.cAccumBits
  && target.cAccumRedBits ≤ pfd.cAccumRedBits && target.cAccumGreenBits ≤ pfd.cAccumGreenBits
  && target.cAccumBlueBits ≤ pfd.cAccumBlueBits && target.cAccumAlphaBits ≤ pfd.cAccumAlphaBits
  && target.cDepthBits ≤ pfd.cDepthBits && target.cStencilBits ≤ pfd.cStencilBits

/-- A descriptor with color, depth and stencil depths given and every other
field zero. -/
def PIXELFORMATDESCRIPTOR.simple (color depth stencil : Nat) : PIXELFORMATDESCRIPTOR :=
  { dwFlags := 0, iLayerType := 0, iPixelType := 0, cColorBits := color, cRedBits := 0,
    cGreenBits := 0, cBlueBits := 0, cAlphaBits := 0, cAccumBits := 0, cAccumRedBits := 0,
    cAccumGreenBits := 0, cAccumBlueBits := 0, cAccumAlphaBits := 0, cDepthBits := depth,
    cStencilBits := stencil }

/-! # POSIX directory enumeration (`SDL_sysfsops.c`) -/

/-- The terminating character `'\0'` of a C string. -/
def NUL : Char := Char.ofNat 0

/-- The C string held in a buffer: the characters before the first `'\0'`. -/
def cstring (buf : List Char) : List Char :=
  buf.takeWhile (fun c => c ≠ NUL)

/-- The loop of lines 51-53 of `SDL_SYS_EnumerateDirectory`,
`while ((pathwithseplen >= 0) && (pathwithsep[pathwithseplen] == '/')) pathwithsep[pathwithseplen--] = '\0';`.
The second argument is `pathwithseplen + 1`; the result is the buffer and the
final value of `pathwithseplen`. -/
def SDL_SYS_EnumerateDirectory_trim (buf : List Char) : Nat → List Char × Int
  | 0 => (buf, -1)
  | k + 1 =>
    if buf.get? k = some '/' then SDL_SYS_EnumerateDirectory_trim (buf.set k NUL) k
    else (buf, (k : Int))

/-- The values of `SDL_EnumerationResult`. -/
inductive SDL_EnumerationResult
  | SDL_ENUM_CONTINUE
  | SDL_ENUM_SUCCESS
  | SDL_ENUM_FAILURE
deriving DecidableEq, Repr

/-- The loop over `readdir` of lines 72-78: the callback is called for every
entry but `.` and `..` while it answers `SDL_ENUM_CONTINUE`.  The result is the
final `result` and the calls made, as pairs of directory prefix and name. -/
def SDL_SYS_EnumerateDirectory_entries
    (cb : List Char → List Char → SDL_EnumerationResult) (dirname : List Char) :
    List (List Char) → SDL_EnumerationResult × List (List Char × List Char)
  | [] => (SDL_EnumerationResult.SDL_ENUM_CONTINUE, [])
  | name :: rest =>
    if name = ['.'] ∨ name = ['.', '.'] then SDL_SYS_EnumerateDirectory_entries cb dirname rest
    else if cb dirname name = SDL_EnumerationResult.SDL_ENUM_CONTINUE then
      ((SDL_SYS_EnumerateDirectory_entries cb dirname rest).1,
       (dirname, name) :: (SDL_SYS_EnumerateDirectory_entries cb dirname rest).2)
    else (cb dirname name, [(dirname, name)])

/-- What a call of `SDL_SYS_EnumerateDirectory` does: its return value, the
name it gave to `opendir` (`none` if it did not get there), and its calls of
the callback. -/
structure EnumerateDirectoryRun where
  result : Bool
  opened : Option (List Char)
  calls : List (List Char × List Char)
deriving DecidableEq, Repr

/-- The function `SDL_SYS_EnumerateDirectory`, not compiled for Android.
`asprintf_ok` tells whether `SDL_asprintf` succeeds; `opendir` gives the
entries `readdir` will list for a directory name, `none` where `opendir`
fails. -/
def SDL_SYS_EnumerateDirectory (asprintf_ok : Bool)
    (opendir : List Char → Option (List (List Char)))
    (cb : List Char → List Char → SDL_EnumerationResult) (path : List Char) :
    EnumerateDirectoryRun :=
  if asprintf_ok = false then { result := false, opened := none, calls := [] }
  else
    let trimmed := SDL_SYS_EnumerateDirectory_trim (path ++ ['/', NUL]) (path.length + 1)
    match opendir (cstring trimmed.1) with
    | none => { result := false, opened := some (cstring trimmed.1), calls := [] }
    | some entries =>
      let buf := (trimmed.1.set (trimmed.2 + 1).toNat '/').set (trimmed.2 + 2).toNat NUL
      let r := SDL_SYS_EnumerateDirectory_entries cb (cstring buf) entries
      { result := decide (r.1 ≠ SDL_EnumerationResult.SDL_ENUM_FAILURE),
        opened := some (cstring trimmed.1), calls := r.2 }

/-- A file system that has the directories `/` and `/tmp`, each with the
entries `.`, `..` and `a`; `opendir` fails for every other name, the empty
name included. -/
def sampleOpendir (name : List Char) : Option (List (List Char)) :=
  if name = ['/'] ∨ name = ['/', 't', 'm', 'p'] then some [['.'], ['.', '.'], ['a']]
  else none

/-! # XSettings notifications (`SDL_x11settings.c`) -/

/-- The values of `XSettingsAction`. -/
inductive XSettingsAction
  | XSETTINGS_ACTION_NEW
  | XSETTINGS_ACTION_CHANGED
  | XSETTINGS_ACTION_DELETED
deriving DecidableEq, Repr

/-- The values of `XSettingsType`. -/
inductive XSettingsType
  | XSETTINGS_TYPE_INT
  | XSETTINGS_TYPE_STRING
  | XSETTINGS_TYPE_COLOR
deriving DecidableEq, Repr

/-- The fields of `XSettingsSetting` that `X11_XsettingsNotify` reads. -/
structure XSettingsSetting where
  type : XSettingsType
  v_int : Int
deriving DecidableEq, Repr

/-- The macro `SDL_XSETTINGS_GDK_WINDOW_SCALING_FACTOR`. -/
def SDL_XSETTINGS_GDK_WINDOW_SCALING_FACTOR : String := "Gdk/WindowScalingFactor"

/-- The macro `SDL_XSETTINGS_XFT_DPI`. -/
def SDL_XSETTINGS_XFT_DPI : String := "Xft/DPI"

/-- Modelled from the spec: the displays of an `SDL_VideoDevice`, each
standing for its content scale, which is what `SDL_SetDisplayContentScale` of
`SDL_video.c` sets. -/
structure SDL_VideoDevice where
  displays : List GLfloat
deriving DecidableEq, Repr

/-- The function `X11_XsettingsNotify`; `data` is `none` for a `NULL` device.
The result is the device after the call. -/
def X11_XsettingsNotify (env : Env) (name : String) (action : XSettingsAction)
    (setting : XSettingsSetting) (data : Option SDL_VideoDevice) : Option SDL_VideoDevice :=
  if name ≠ SDL_XSETTINGS_GDK_WINDOW_SCALING_FACTOR ∨ name ≠ SDL_XSETTINGS_XFT_DPI then data
  else if setting.type ≠ XSettingsType.XSETTINGS_TYPE_INT then data
  else
    let scale_factor : GLfloat :=
      match action with
      | .XSETTINGS_ACTION_NEW =>
        if name = SDL_XSETTINGS_XFT_DPI then
          env.fdiv (env.fdiv (env.floatOfInt setting.v_int) (env.floatOfInt 1024))
            (env.floatOfInt 96)
        else env.floatOfInt setting.v_int
      | .XSETTINGS_ACTION_CHANGED =>
        if name = SDL_XSETTINGS_XFT_DPI then
          env.fdiv (env.fdiv (env.floatOfInt setting.v_int) (env.floatOfInt 1024))
            (env.floatOfInt 96)
        else env.floatOfInt setting.v_int
      | .XSETTINGS_ACTION_DELETED => env.floatOfInt 1
    data.map (fun device => { device with displays := device.displays.map (fun _ => scale_factor) })

/-- The total excess of a format over the target: the sum of the twelve
differences of bit depths. -/
def PIXELFORMATDESCRIPTOR.excess (pfd target : PIXELFORMATDESCRIPTOR) : Nat :=
  (pfd.cColorBits - target.cColorBits) + (pfd.cRedBits - target.cRedBits)
  + (pfd.cGreenBits - target.cGreenBits) + (pfd.cBlueBits - target.cBlueBits)
  + (pfd.cAlphaBits - target.cAlphaBits) + (pfd.cAccumBits - target.cAccumBits)
  + (pfd.cAccumRedBits - target.cAccumRedBits) + (pfd.cAccumGreenBits - target.cAccumGreenBits)
  + (pfd.cAccumBlueBits - target.cAccumBlueBits)
  + (pfd.cAccumAlphaBits - target.cAccumAlphaBits)
  + (pfd.cDepthBits - target.cDepthBits) + (pfd.cStencilBits - target.cStencilBits)

/-! ## The shaders of a renderer that exists -/

/-- Lines 2218-2220 and 2271-2279 of `GLES2_CreateRenderer`, with
`GL_TEXTURE_EXTERNAL_OES` defined: `GLES2_CacheShaders`, then, when
`SDL_GL_ExtensionSupported ("GL_OES_EGL_image_external")` answers `ext`, the
flag is set and the external shader compiled.  The result `false` is the jump
to `error`: no renderer is created. -/
def GLES2_CreateRenderer_shaders (env : Env) (ext : Bool) (data : GLES2_RenderData) :
    Bool × GLES2_RenderData :=
  if (GLES2_CacheShaders env data).1 = false then (false, (GLES2_CacheShaders env data).2)
  else if ext then
    GLES2_CacheShader env
      { (GLES2_CacheShaders env data).2 with GL_OES_EGL_image_external_supported := true }
      GLES2_ShaderType.FRAGMENT_TEXTURE_EXTERNAL_OES true
  else (true, (GLES2_CacheShaders env data).2)

/-- The format switch of `GLES2_CreateTexture` (lines 1606-1634): whether the
function goes on to create a texture of the format, rather than return with
"Texture format not supported". -/
def GLES2_CreateTexture_format (data : GLES2_RenderData) : SDL_PixelFormat → Bool
  | .BGRA32 => true
  | .RGBA32 => true
  | .BGRX32 => true
  | .RGBX32 => true
  | .IYUV => true
  | .YV12 => true
  | .NV12 => true
  | .NV21 => true
  | .EXTERNAL_OES => data.GL_OES_EGL_image_external_supported
  | .OTHER _ => false

/-- Whether a call belongs to the compilation of a shader: the calls that
`GLES2_CacheShader` makes. -/
def GLCall.isCompile : GLCall → Bool
  | .createShader _ _ => true
  | .shaderSource _ _ _ => true
  | .compileShader _ => true
  | .getShaderiv_COMPILE_STATUS _ => true
  | .getShaderiv_INFO_LOG_LENGTH _ => true
  | .getShaderInfoLog _ => true
  | .deleteShader _ => true
  | _ => false

/-- The state of the shaders: their names, the number of shaders created so
far, and whether the external image extension is there. -/
def GLES2_RenderData.shaderState (data : GLES2_RenderData) :
    (GLES2_ShaderType → Nat) × Nat × Bool :=
  (data.shader_id_cache, data.gl.shaders, data.GL_OES_EGL_image_external_supported)

/-- The state `data'` comes after `data` without any compilation: the state of
the shaders is the same, the textures have their formats, and the log of
`data'` is the log of `data` followed by calls none of which belongs to the
compilation of a shader. -/
def GLES2_RenderData.NoCompile (data data' : GLES2_RenderData) : Prop :=
  data'.shaderState = data.shaderState ∧
  (∀ q, (data'.textures q).map SDL_Texture.format = (data.textures q).map SDL_Texture.format) ∧
  ∃ calls : List GLCall, data'.gl.log = data.gl.log ++ calls ∧ ∀ c ∈ calls, c.isCompile = false

/-- The state of a renderer that exists, as far as shaders go.  Every shader
type below the external one is compiled, or `GLES2_CreateRenderer` would have
failed at line 2219; so is the external one when the extension is there, or
it would have failed at line 2275; and every texture has a format with which
`GLES2_CreateTexture` creates one. -/
def GLES2_RenderData.Live (data : GLES2_RenderData) : Prop :=
  (∀ t, t ≠ GLES2_ShaderType.FRAGMENT_TEXTURE_EXTERNAL_OES → data.shader_id_cache t ≠ 0) ∧
  (data.GL_OES_EGL_image_external_supported = true →
    data.shader_id_cache GLES2_ShaderType.FRAGMENT_TEXTURE_EXTERNAL_OES ≠ 0) ∧
  ∀ p t, data.textures p = some t → GLES2_CreateTexture_format data t.format = true

/-! ## Queueing a line strip -/

/-- The struct `SDL_FPoint`. -/
structure SDL_FPoint where
  x : GLfloat
  y : GLfloat
deriving DecidableEq, Repr

/-- The struct `SDL_VertexSolid`. -/
structure SDL_VertexSolid where
  position : SDL_FPoint
  color : SDL_FColor
deriving DecidableEq, Repr

/-- The constant `0.5f`. -/
def GLfloat.half : GLfloat := ⟨0x3F000000⟩
/-- The constant `0.25f`. -/
def GLfloat.quarter : GLfloat := ⟨0x3E800000⟩

/-- The test `colorswap` of the queue functions: the render target is a texture
of format BGRA32 or BGRX32.  A target that is not a texture of the renderer is
a fault. -/
def GLES2_QueueDraw_colorswap (data : GLES2_RenderData) (renderer : SDL_Renderer) :
    Option Bool :=
  if renderer.target ≠ 0 then
    (data.texture? renderer.target).bind fun t =>
      some (decide (t.format = SDL_PixelFormat.BGRA32 ∨ t.format = SDL_PixelFormat.BGRX32))
  else some false

/-- The color the queue functions write to every vertex: the draw color with
red, green and blue multiplied by `color_scale`, red and blue exchanged under
`colorswap`. -/
def GLES2_QueueDraw_color (env : Env) (colorswap : Bool) (cmd : SDL_RenderCommand) :
    SDL_FColor :=
  let color : SDL_FColor :=
    { r := env.fmul cmd.color.r cmd.color_scale,
      g := env.fmul cmd.color.g cmd.color_scale,
      b := env.fmul cmd.color.b cmd.color_scale,
      a := cmd.color.a }
  if colorswap then { color with r := color.b, b := color.r } else color

/-- The loop of `GLES2_QueueDrawLines` (lines 848-861) over the points from the
second on; `prevx` and `prevy` are the position of the vertex written last. -/
def GLES2_QueueDrawLines_loop (env : Env) (color : SDL_FColor) :
    GLfloat → GLfloat → List SDL_FPoint → List SDL_VertexSolid
  | _, _, [] => []
  | prevx, prevy, point :: points =>
    let xstart := prevx
    let ystart := prevy
    let xend := env.fadd point.x GLfloat.half
    let yend := env.fadd point.y GLfloat.half
    let deltax := env.fsub xend xstart
    let deltay := env.fsub yend ystart
    let angle := env.atan2f deltay deltax
    let prevx := env.fadd xend (env.fmul (env.cosf angle) GLfloat.quarter)
    let prevy := env.fadd yend (env.fmul (env.sinf angle) GLfloat.quarter)
    { position := { x := prevx, y := prevy }, color := color } ::
      GLES2_QueueDrawLines_loop env color prevx prevy points

/-- The function `GLES2_QueueDrawLines` (lines 810-865); `count` is the length
of `points`.  `SDL_AllocateRenderVertices` is not among the sources: `alloc` is
its answer, the offset it stores in `cmd->data.draw.first`, or `none` when it
returns `NULL`.  The result is the value returned, the command, and the
vertices written.  Without a first point the read of `points->x` is a fault. -/
def GLES2_QueueDrawLines (env : Env) (data : GLES2_RenderData) (renderer : SDL_Renderer)
    (alloc : Option Nat) (cmd : SDL_RenderCommand) (points : List SDL_FPoint) :
    Option (Bool × SDL_RenderCommand × List SDL_VertexSolid) :=
  (GLES2_QueueDraw_colorswap data renderer).bind fun colorswap =>
    match alloc with
    | none => some (false, cmd, [])
    | some first =>
      let color := GLES2_QueueDraw_color env colorswap cmd
      match points with
      | [] => none
      | point :: rest =>
        let prevx := env.fadd GLfloat.half point.x
        let prevy := env.fadd GLfloat.half point.y
        some (true, { cmd with first := first, count := points.length },
          { position := { x := prevx, y := prevy }, color := color } ::
            GLES2_QueueDrawLines_loop env color prevx prevy rest)

/-- A float arithmetic that is the one of IEEE 754 binary32 on the operands
that the line from (0, 0) to (10, 0) needs, and the one of `Env.plain` on all
others.  The values are bit patterns: `0x3F000000` is 0.5, `0x41200000` is 10,
`0x41280000` is 10.5, `0x412C0000` is 10.75, `0x3E800000` is 0.25 and
`0x3F800000` is 1. -/
def Env.binary32 : Env :=
  { Env.plain with
    fadd := fun a b =>
      if a.bits = 0x3F000000 ∧ b.bits = 0 then ⟨0x3F000000⟩
      else if a.bits = 0 ∧ b.bits = 0x3F000000 then ⟨0x3F000000⟩
      else if a.bits = 0x41200000 ∧ b.bits = 0x3F000000 then ⟨0x41280000⟩
      else if a.bits = 0x41280000 ∧ b.bits = 0x3E800000 then ⟨0x412C0000⟩
      else Env.plain.fadd a b,
    fsub := fun a b =>
      if a.bits = 0x41280000 ∧ b.bits = 0x3F000000 then ⟨0x41200000⟩
      else if a.bits = 0x3F000000 ∧ b.bits = 0x3F000000 then ⟨0⟩
      else Env.plain.fsub a b,
    fmul := fun a b =>
      if a.bits = 0x3F800000 ∧ b.bits = 0x3E800000 then ⟨0x3E800000⟩
      else if a.bits = 0 ∧ b.bits = 0x3E800000 then ⟨0⟩
      else Env.plain.fmul a b,
    atan2f := fun y x =>
      if y.bits = 0 ∧ x.bits = 0x41200000 then ⟨0⟩ else Env.plain.atan2f y x,
    cosf := fun a => if a.bits = 0 then ⟨0x3F800000⟩ else Env.plain.cosf a,
    sinf := fun a => if a.bits = 0 then ⟨0⟩ else Env.plain.sinf a }

/-- The values of the float operations that the line from (0, 0) to (10, 0)
needs.  Each is exact in IEEE 754 binary32: the sums `0.5 + 0`, `10 + 0.5`,
`0 + 0.5`, `10.5 + 0.25` and `0.5 + 0`, the differences `10.5 - 0.5` and
`0.5 - 0.5`, the products `1 * 0.25` and `0 * 0.25`; and `atan2f (0, 10)` is
`0`, `cosf (0)` is `1`, `sinf (0)` is `0`. -/
def Env.ExactOnLine (env : Env) : Prop :=
  env.fadd GLfloat.half ⟨0⟩ = GLfloat.half ∧
  env.fadd ⟨0x41200000⟩ GLfloat.half = ⟨0x41280000⟩ ∧
  env.fadd ⟨0⟩ GLfloat.half = GLfloat.half ∧
  env.fsub ⟨0x41280000⟩ GLfloat.half = ⟨0x41200000⟩ ∧
  env.fsub GLfloat.half GLfloat.half = ⟨0⟩ ∧
  env.atan2f ⟨0⟩ ⟨0x41200000⟩ = ⟨0⟩ ∧
  env.cosf ⟨0⟩ = ⟨0x3F800000⟩ ∧
  env.sinf ⟨0⟩ = ⟨0⟩ ∧
  env.fmul ⟨0x3F800000⟩ GLfloat.quarter = GLfloat.quarter ∧
  env.fmul ⟨0⟩ GLfloat.quarter = ⟨0⟩ ∧
  env.fadd ⟨0x41280000⟩ GLfloat.quarter = ⟨0x412C0000⟩
/-! ## Basic facts about the heap -/

theorem Heap.read_of_cells {h : Heap} {p : Nat} {e : GLES2_ProgramCacheEntry}
    (hp : p ≠ 0) (hc : h.cells p = some e) : h.read p = some e := by
  simp [Heap.read, hp, hc]

theorem Heap.modify_of_cells {h : Heap} {p : Nat} {e : GLES2_ProgramCacheEntry}
    (f : GLES2_ProgramCacheEntry → GLES2_ProgramCacheEntry)
    (hp : p ≠ 0) (hc : h.cells p = some e) : h.modify p f = some (h.write p (f e)) := by
  simp [Heap.modify, Heap.read_of_cells hp hc]

theorem Heap.write_cells (h : Heap) (p q : Nat) (e : GLES2_ProgramCacheEntry) :
    (h.write p e).cells q = if q = p then some e else h.cells q := rfl

theorem Heap.write_same (h : Heap) (p : Nat) (e : GLES2_ProgramCacheEntry) :
    (h.write p e).cells p = some e := by simp [Heap.write]

theorem Heap.write_other (h : Heap) {p q : Nat} (e : GLES2_ProgramCacheEntry) (hq : q ≠ p) :
    (h.write p e).cells q = h.cells q := by simp [Heap.write, hq]

theorem Heap.seg_frame {h h' : Heap} :
    ∀ (xs : List Nat) (prev p q : Nat), (∀ a ∈ xs, h'.cells a = h.cells a) →
      h.seg prev p xs q → h'.seg prev p xs q
  | [], _, _, _, _, hs => hs
  | a :: as, prev, p, q, hf, hs => by
    obtain ⟨hp, ha, e, he, hprev, hrest⟩ := hs
    refine ⟨hp, ha, e, ?_, hprev, ?_⟩
    · rw [hf a (List.mem_cons_self a as)]; exact he
    · exact Heap.seg_frame as a e.next q (fun b hb => hf b (List.mem_cons_of_mem a hb)) hrest

theorem Heap.seg_nonzero {h : Heap} :
    ∀ (xs : List Nat) (prev p q : Nat), h.seg prev p xs q → ∀ a ∈ xs, a ≠ 0
  | [], _, _, _, _, _, ha => by simp at ha
  | b :: bs, _, _, q, hs, a, ha => by
    obtain ⟨_, hb, e, _, _, hrest⟩ := hs
    rcases List.mem_cons.mp ha with rfl | hmem
    · exact hb
    · exact Heap.seg_nonzero bs b e.next q hrest a hmem

theorem Heap.seg_live {h : Heap} :
    ∀ (xs : List Nat) (prev p q : Nat), h.seg prev p xs q → ∀ a ∈ xs, ∃ e, h.cells a = some e
  | [], _, _, _, _, _, ha => by simp at ha
  | b :: bs, _, _, q, hs, a, ha => by
    obtain ⟨_, _, e, he, _, hrest⟩ := hs
    rcases List.mem_cons.mp ha with rfl | hmem
    · exact ⟨e, he⟩
    · exact Heap.seg_live bs b e.next q hrest a hmem

theorem Heap.walk_of_seg {h : Heap} :
    ∀ (xs : List Nat) (prev p fuel : Nat), h.seg prev p xs 0 → xs.length ≤ fuel →
      h.walk fuel p = xs
  | [], _, p, fuel, hs, _ => by
    have hp : p = 0 := hs
    subst hp
    cases fuel <;> simp [Heap.walk, Heap.read]
  | a :: as, _, p, fuel, hs, hlen => by
    obtain ⟨hp, ha, e, he, _, hrest⟩ := hs
    subst hp
    cases fuel with
    | zero => simp at hlen
    | succ k =>
      have hk : as.length ≤ k := by simpa using hlen
      simp [Heap.walk, Heap.read_of_cells ha he, Heap.walk_of_seg as p e.next k hrest hk]

theorem Heap.head_of_seg {h : Heap} {xs : List Nat} {prev p q : Nat}
    (hs : h.seg prev p xs q) (hne : xs ≠ []) : p = xs.head hne := by
  cases xs with
  | nil => exact absurd rfl hne
  | cons a as => exact hs.1

theorem Nodup_length_le_of_bound :
    ∀ (n : Nat) (xs : List Nat), xs.Nodup → (∀ a ∈ xs, a ≠ 0 ∧ a ≤ n) → xs.length ≤ n := by
  intro n xs hnd hb
  have hsub : xs.toFinset ⊆ Finset.Icc 1 n := by
    intro a ha
    have := hb a (List.mem_toFinset.mp ha)
    simp [Finset.mem_Icc]; omega
  have hcard := Finset.card_le_card hsub
  rw [List.toFinset_card_of_nodup hnd] at hcard
  simpa using hcard

theorem GLES2_RenderData.cached_of_Linked {data : GLES2_RenderData} {xs : List Nat}
    (hl : data.Linked xs) : data.cached = xs := by
  obtain ⟨hs, hnd, hb⟩ := hl
  have hlen : xs.length ≤ data.heap.brk :=
    Nodup_length_le_of_bound _ xs hnd
      (fun a ha => ⟨Heap.seg_nonzero xs _ _ _ hs a ha, hb a ha⟩)
  exact Heap.walk_of_seg xs 0 _ _ hs hlen

theorem Heap.search_of_seg {h : Heap} (vertex fragment : Nat) :
    ∀ (xs : List Nat) (prev p fuel : Nat), h.seg prev p xs 0 → xs.length < fuel →
      GLES2_CacheProgram_search h vertex fragment fuel p = some (h.find vertex fragment xs)
  | [], _, p, fuel, hs, hlen => by
    have hp : p = 0 := hs
    subst hp
    cases fuel with
    | zero => simp at hlen
    | succ k => simp [GLES2_CacheProgram_search, Heap.find]
  | a :: as, _, p, fuel, hs, hlen => by
    obtain ⟨hp, ha, e, he, _, hrest⟩ := hs
    subst hp
    cases fuel with
    | zero => simp at hlen
    | succ k =>
      have hk : as.length < k := by simpa using hlen
      have hkey : h.key p = (e.vertex_shader, e.fragment_shader) := by
        simp [Heap.key, Heap.read_of_cells ha he]
      by_cases hm : e.vertex_shader = vertex ∧ e.fragment_shader = fragment
      · simp [GLES2_CacheProgram_search, Heap.find, Heap.read_of_cells ha he, ha, hm, hkey]
      · have hm' : ¬ ((e.vertex_shader, e.fragment_shader) = (vertex, fragment)) := by
          simpa [Prod.ext_iff] using hm
        simp [GLES2_CacheProgram_search, Heap.find, Heap.read_of_cells ha he, ha, hm, hkey, hm',
          Heap.search_of_seg vertex fragment as p e.next k hrest hk]

theorem Heap.find_eq_zero {h : Heap} (vertex fragment : Nat) :
    ∀ (xs : List Nat), (vertex, fragment) ∉ xs.map h.key → h.find vertex fragment xs = 0
  | [], _ => rfl
  | a :: as, hn => by
    have h1 : h.key a ≠ (vertex, fragment) := fun hk => hn (by simp [hk])
    have h2 : (vertex, fragment) ∉ as.map h.key := fun hk => hn (by simp [List.mem_map] at hk ⊢; right; exact hk)
    simp [Heap.find, h1, Heap.find_eq_zero vertex fragment as h2]

theorem Heap.find_mem {h : Heap} (vertex fragment : Nat) :
    ∀ (xs : List Nat), (vertex, fragment) ∈ xs.map h.key →
      h.find vertex fragment xs ∈ xs ∧ h.key (h.find vertex fragment xs) = (vertex, fragment)
  | [], hm => by simp at hm
  | a :: as, hm => by
    by_cases hk : h.key a = (vertex, fragment)
    · simp [Heap.find, hk]
    · have hm' : (vertex, fragment) ∈ as.map h.key := by
        simp only [List.map_cons, List.mem_cons] at hm
        rcases hm with hm | hm
        · exact absurd hm.symm hk
        · exact hm
      have ih := Heap.find_mem vertex fragment as hm'
      simp only [Heap.find, hk, if_false]
      exact ⟨List.mem_cons_of_mem a ih.1, ih.2⟩

/-! ## Pointer surgery on list segments -/

/-- Re-pointing the `prev` field of the first entry of a segment. -/
theorem Heap.seg_setPrev {h : Heap} (b : Nat) :
    ∀ (post : List Nat) (prev0 c : Nat), h.seg prev0 c post 0 → post.Nodup →
      ∃ h1 : Heap,
        (if c ≠ 0 then h.modify c (fun n => { n with prev := b }) else some h) = some h1 ∧
        h1.seg b c post 0 ∧
        (∀ y, y ≠ c → h1.cells y = h.cells y) ∧
        (c = 0 ∨ c ∈ post) ∧
        (∀ y, (h1.cells y).map GLES2_ProgramCacheEntry.payload
              = (h.cells y).map GLES2_ProgramCacheEntry.payload) ∧
        h1.brk = h.brk ∧ h1.attempts = h.attempts
  | [], _, c, hs, _ => by
    have hc : c = 0 := hs
    subst hc
    exact ⟨h, by simp, rfl, fun _ _ => rfl, Or.inl rfl, fun _ => rfl, rfl, rfl⟩
  | x :: rest, _, c, hs, hnd => by
    obtain ⟨hc, hx, ex, hex, _, hrest⟩ := hs
    subst hc
    have hxr : c ∉ rest := (List.nodup_cons.mp hnd).1
    refine ⟨h.write c { ex with prev := b }, ?_, ?_, ?_, Or.inr (List.mem_cons_self c rest), ?_,
      rfl, rfl⟩
    · simp [hx, Heap.modify_of_cells _ hx hex]
    · refine ⟨rfl, hx, { ex with prev := b }, Heap.write_same _ _ _, rfl, ?_⟩
      exact Heap.seg_frame rest c ex.next 0
        (fun a ha => Heap.write_other _ _ (fun hac => hxr (hac ▸ ha))) hrest
    · intro y hy
      exact Heap.write_other _ _ hy
    · intro y
      by_cases hy : y = c
      · subst hy
        simp [Heap.write_same, hex, GLES2_ProgramCacheEntry.payload]
      · rw [Heap.write_other _ _ hy]

/-- Taking the entry `a` out of a segment, as lines 428-433 do: the entry after
`a` gets `a->prev` as its `prev`, the entry before `a` gets `a->next` as its `next`. -/
theorem Heap.seg_unlink {h : Heap} {a : Nat} {ea : GLES2_ProgramCacheEntry}
    (hea : h.cells a = some ea) :
    ∀ (pre : List Nat) (prev p : Nat) (post : List Nat), pre ≠ [] →
      (pre ++ a :: post).Nodup → h.seg prev p (pre ++ a :: post) 0 →
      ∃ h1 h2 : Heap,
        (if ea.next ≠ 0 then h.modify ea.next (fun n => { n with prev := ea.prev })
         else some h) = some h1 ∧
        h1.read a = some ea ∧
        ea.prev ≠ 0 ∧
        h1.modify ea.prev (fun n => { n with next := ea.next }) = some h2 ∧
        h2.seg prev p (pre ++ post) 0 ∧
        (∀ y, y ≠ ea.next → y ≠ ea.prev → h2.cells y = h.cells y) ∧
        ea.prev ∈ pre ∧ (ea.next = 0 ∨ ea.next ∈ post) ∧
        (∀ y, (h2.cells y).map GLES2_ProgramCacheEntry.payload
              = (h.cells y).map GLES2_ProgramCacheEntry.payload) ∧
        h2.brk = h.brk ∧ h2.attempts = h.attempts
  | [], _, _, _, hne, _, _ => absurd rfl hne
  | [x], prev, p, post, _, hnd, hs => by
    obtain ⟨hp, hx, ex, hex, hexprev, hrest⟩ := hs
    subst hp
    obtain ⟨hnext, ha, ea', hea', heaprev, hpost⟩ := hrest
    have heq : ea' = ea := by rw [hea] at hea'; exact (Option.some.inj hea').symm
    subst heq
    have hnd' : (p :: a :: post).Nodup := by simpa using hnd
    have hpa : p ≠ a := by
      intro hpa; subst hpa; simp at hnd'
    have hppost : p ∉ post := fun hm => by
      have := (List.nodup_cons.mp hnd').1
      exact this (List.mem_cons_of_mem a hm)
    have hapost : a ∉ post := (List.nodup_cons.mp (List.nodup_cons.mp hnd').2).1
    have hndpost : post.Nodup := (List.nodup_cons.mp (List.nodup_cons.mp hnd').2).2
    obtain ⟨h1, hh1, hseg1, hfr1, hcpost, hpay1, hbrk1, hatt1⟩ :=
      Heap.seg_setPrev ea'.prev post a ea'.next hpost hndpost
    have hca : a ≠ ea'.next := by
      rcases hcpost with h0 | hm
      · rw [h0]; exact ha
      · exact fun hc => hapost (hc ▸ hm)
    have hcp : p ≠ ea'.next := by
      rcases hcpost with h0 | hm
      · rw [h0]; exact hx
      · exact fun hc => hppost (hc ▸ hm)
    have h1a : h1.cells a = some ea' := by rw [hfr1 a hca]; exact hea
    have h1p : h1.cells p = some ex := by rw [hfr1 p hcp]; exact hex
    refine ⟨h1, h1.write p { ex with next := ea'.next }, hh1, Heap.read_of_cells ha h1a, ?_, ?_, ?_,
      ?_, ?_, hcpost, ?_, ?_, ?_⟩
    · rw [heaprev]; exact hx
    · rw [heaprev]; exact Heap.modify_of_cells _ hx h1p
    · refine ⟨rfl, hx, { ex with next := ea'.next }, Heap.write_same _ _ _, hexprev, ?_⟩
      have : h1.seg p ea'.next post 0 := by rw [heaprev] at hseg1; exact hseg1
      exact Heap.seg_frame post p ea'.next 0
        (fun b hb => Heap.write_other _ _ (fun hbp => hppost (hbp ▸ hb))) this
    · intro y hy1 hy2
      rw [heaprev] at hy2
      rw [Heap.write_other _ _ hy2, hfr1 y hy1]
    · rw [heaprev]; exact List.mem_singleton_self p
    · intro y
      by_cases hy : y = p
      · subst hy
        simp [Heap.write_same, hex, GLES2_ProgramCacheEntry.payload]
      · rw [Heap.write_other _ _ hy, hpay1 y]
    · exact hbrk1
    · exact hatt1
  | x :: y :: pre, prev, p, post, _, hnd, hs => by
    obtain ⟨hp, hx, ex, hex, hexprev, hrest⟩ := hs
    subst hp
    have hnd' : (p :: ((y :: pre) ++ a :: post)).Nodup := by simpa using hnd
    have hpn : p ∉ (y :: pre) ++ a :: post := (List.nodup_cons.mp hnd').1
    obtain ⟨h1, h2, hh1, hr1, hprev0, hh2, hseg2, hfr2, hprevmem, hnextmem, hpay2, hbrk2, hatt2⟩ :=
      Heap.seg_unlink hea (y :: pre) p ex.next post (by simp) (List.nodup_cons.mp hnd').2 hrest
    have hp1 : p ≠ ea.next := by
      rcases hnextmem with h0 | hm
      · rw [h0]; exact hx
      · intro hc
        exact hpn (List.mem_append_right _ (List.mem_cons_of_mem a (hc ▸ hm)))
    have hp2 : p ≠ ea.prev := fun hc => hpn (List.mem_append_left _ (hc ▸ hprevmem))
    refine ⟨h1, h2, hh1, hr1, hprev0, hh2, ?_, hfr2, List.mem_cons_of_mem p hprevmem, hnextmem,
      hpay2, hbrk2, hatt2⟩
    refine ⟨rfl, hx, ex, ?_, hexprev, ?_⟩
    · rw [hfr2 p hp1 hp2]; exact hex
    · simpa using hseg2

/-- Dropping the entry `t` and everything behind it, as the eviction of lines
497-502 does: `t` is freed and the entry before it gets `NULL` as its `next`. -/
theorem Heap.seg_cut {h : Heap} {t : Nat} {et : GLES2_ProgramCacheEntry}
    (het : h.cells t = some et) :
    ∀ (pre : List Nat) (prev p : Nat) (post : List Nat), pre ≠ [] →
      (pre ++ t :: post).Nodup → h.seg prev p (pre ++ t :: post) 0 →
      ∃ (ep : GLES2_ProgramCacheEntry) (h1 h2 : Heap),
        et.prev ≠ 0 ∧ h.read et.prev = some ep ∧
        h.free ep.next = some h1 ∧
        h1.modify et.prev (fun n => { n with next := 0 }) = some h2 ∧
        h2.seg prev p pre 0 ∧
        (∀ y, y ≠ t → y ≠ et.prev → h2.cells y = h.cells y) ∧
        et.prev ∈ pre ∧
        (∀ y, y ≠ t → (h2.cells y).map GLES2_ProgramCacheEntry.payload
              = (h.cells y).map GLES2_ProgramCacheEntry.payload) ∧
        h2.brk = h.brk ∧ h2.attempts = h.attempts
  | [], _, _, _, hne, _, _ => absurd rfl hne
  | [x], prev, p, post, _, hnd, hs => by
    obtain ⟨hp, hx, ex, hex, hexprev, hrest⟩ := hs
    subst hp
    obtain ⟨hnext, ht, et', het', hetprev, _⟩ := hrest
    have heq : et' = et := by rw [het] at het'; exact (Option.some.inj het').symm
    subst heq
    have hnd' : (p :: t :: post).Nodup := by simpa using hnd
    have hpt : p ≠ t := by
      intro hpt; subst hpt; simp at hnd'
    let h1 : Heap := { h with cells := fun q => if q = t then none else h.cells q }
    have hfree : h.free ex.next = some h1 := by
      simp [Heap.free, hnext, ht, het, h1]
    have h1p : h1.cells p = some ex := by simp [h1, hpt, hex]
    refine ⟨ex, h1, h1.write p { ex with next := 0 }, ?_, ?_, hfree, ?_, ?_, ?_, ?_, ?_, rfl, rfl⟩
    · rw [hetprev]; exact hx
    · rw [hetprev]; exact Heap.read_of_cells hx hex
    · rw [hetprev]; exact Heap.modify_of_cells _ hx h1p
    · exact ⟨rfl, hx, { ex with next := 0 }, Heap.write_same _ _ _, hexprev, rfl⟩
    · intro y hy1 hy2
      rw [hetprev] at hy2
      rw [Heap.write_other _ _ hy2]
      simp [h1, hy1]
    · rw [hetprev]; exact List.mem_singleton_self p
    · intro y hyt
      by_cases hy : y = p
      · subst hy
        simp [Heap.write_same, hex, GLES2_ProgramCacheEntry.payload]
      · rw [Heap.write_other _ _ hy]
        simp [h1, hyt]
  | x :: y :: pre, prev, p, post, _, hnd, hs => by
    obtain ⟨hp, hx, ex, hex, hexprev, hrest⟩ := hs
    subst hp
    have hnd' : (p :: ((y :: pre) ++ t :: post)).Nodup := by simpa using hnd
    have hpn : p ∉ (y :: pre) ++ t :: post := (List.nodup_cons.mp hnd').1
    obtain ⟨ep, h1, h2, hprev0, hrd, hfree, hmod, hseg2, hfr2, hprevmem, hpay2, hbrk2, hatt2⟩ :=
      Heap.seg_cut het (y :: pre) p ex.next post (by simp) (List.nodup_cons.mp hnd').2 hrest
    have hp1 : p ≠ t := fun hc =>
      hpn (List.mem_append_right _ (hc ▸ List.mem_cons_self t post))
    have hp2 : p ≠ et.prev := fun hc => hpn (List.mem_append_left _ (hc ▸ hprevmem))
    refine ⟨ep, h1, h2, hprev0, hrd, hfree, hmod, ?_, hfr2, List.mem_cons_of_mem p hprevmem,
      hpay2, hbrk2, hatt2⟩
    refine ⟨rfl, hx, ex, ?_, hexprev, hseg2⟩
    rw [hfr2 p hp1 hp2]; exact hex

theorem GLES2_CacheProgram_hit_spec (data : GLES2_RenderData) (pre post : List Nat) (a : Nat)
    (hl : data.Linked (pre ++ a :: post)) :
    ∃ data' : GLES2_RenderData,
      GLES2_CacheProgram_hit data a = some data' ∧
      data'.Linked (a :: (pre ++ post)) ∧
      data' = { data with heap := data'.heap,
                          program_cache := { data.program_cache with head := a } } ∧
      data'.heap.brk = data.heap.brk ∧ data'.heap.attempts = data.heap.attempts ∧
      (∀ y, (data'.heap.cells y).map GLES2_ProgramCacheEntry.payload
            = (data.heap.cells y).map GLES2_ProgramCacheEntry.payload) := by
  obtain ⟨hs, hnd, hb⟩ := hl
  have ha0 : a ≠ 0 := Heap.seg_nonzero _ _ _ _ hs a (by simp)
  obtain ⟨ea, hea⟩ := Heap.seg_live _ _ _ _ hs a (by simp)
  cases pre with
  | nil =>
    have hhead : data.program_cache.head = a := hs.1
    refine ⟨data, by simp [GLES2_CacheProgram_hit, hhead], ⟨by simpa using hs, by simpa using hnd,
      by simpa using hb⟩, ?_, rfl, rfl, fun _ => rfl⟩
    cases data with
    | mk d1 d2 d3 d4 pc d6 d7 d8 d9 d10 =>
      cases pc
      simp at hhead
      simp [hhead]
  | cons x pre' =>
    have hhead : data.program_cache.head = x := hs.1
    have hx0 : x ≠ 0 := Heap.seg_nonzero _ _ _ _ hs x (by simp)
    have hxa : x ≠ a := by
      intro hxa; subst hxa; simp at hnd
    have hane : a ∉ (x :: pre') ++ post := by
      intro hm
      have h1 := List.nodup_append.mp hnd
      rcases List.mem_append.mp hm with hm | hm
      · exact h1.2.2 hm (List.mem_cons_self a post)
      · exact (List.nodup_cons.mp h1.2.1).1 hm
    obtain ⟨h1, h2, hh1, hr1, hprev0, hh2, hseg2, hfr2, hprevmem, hnextmem, hpay2, hbrk2, hatt2⟩ :=
      Heap.seg_unlink hea (x :: pre') 0 data.program_cache.head post (by simp) hnd hs
    have hndz : ((x :: pre') ++ post).Nodup := by
      have h1 := List.nodup_append.mp hnd
      refine List.nodup_append.mpr ⟨h1.1, (List.nodup_cons.mp h1.2.1).2, ?_⟩
      intro b hb1 hb2
      exact h1.2.2 hb1 (List.mem_cons_of_mem a hb2)
    have han : a ≠ ea.next := by
      rcases hnextmem with h0 | hm
      · rw [h0]; exact ha0
      · intro hc
        exact hane (List.mem_append_right _ (hc ▸ hm))
    have hap : a ≠ ea.prev := fun hc => hane (List.mem_append_left _ (hc ▸ hprevmem))
    have h2a : h2.cells a = some ea := by rw [hfr2 a han hap]; exact hea
    let e3 : GLES2_ProgramCacheEntry := { ea with prev := 0, next := data.program_cache.head }
    have hseg3 : (h2.write a e3).seg 0 data.program_cache.head ((x :: pre') ++ post) 0 :=
      Heap.seg_frame _ _ _ _ (fun b hb => Heap.write_other _ _ (fun hba => hane (hba ▸ hb))) hseg2
    obtain ⟨h4, hh4, hseg4, hfr4, _, hpay4, hbrk4, hatt4⟩ :=
      Heap.seg_setPrev a _ _ _ hseg3 hndz
    have hhead0 : data.program_cache.head ≠ 0 := by rw [hhead]; exact hx0
    rw [if_pos hhead0] at hh4
    have hne : ¬ data.program_cache.head = a := by rw [hhead]; exact hxa
    have h4a : h4.cells a = some e3 := by
      rw [hfr4 a (fun hc => hne hc.symm)]; exact Heap.write_same _ _ _
    refine ⟨{ data with heap := h4, program_cache := { data.program_cache with head := a } },
      ?_, ⟨?_, ?_, ?_⟩, rfl, ?_, ?_, ?_⟩
    · have hrd : data.heap.read a = some ea := Heap.read_of_cells ha0 hea
      have hm3 : h2.modify a (fun n => { n with prev := 0, next := data.program_cache.head })
          = some (h2.write a e3) := Heap.modify_of_cells _ ha0 h2a
      simp only [GLES2_CacheProgram_hit, if_neg hne, hrd, Option.bind_eq_bind, Option.some_bind,
        hh1, hr1, hh2, hm3, hh4, if_pos hprev0]
    · exact ⟨rfl, ha0, e3, h4a, rfl, hseg4⟩
    · exact List.nodup_cons.mpr ⟨hane, hndz⟩
    · intro b hb'
      have : b ∈ (x :: pre') ++ a :: post := by
        rcases List.mem_cons.mp hb' with rfl | hm
        · simp
        · rcases List.mem_append.mp hm with hm | hm
          · exact List.mem_append_left _ hm
          · exact List.mem_append_right _ (List.mem_cons_of_mem a hm)
      have hle := hb b this
      show b ≤ h4.brk
      rw [hbrk4]; show b ≤ h2.brk; rw [hbrk2]; exact hle
    · show h4.brk = _; rw [hbrk4]; show h2.brk = _; exact hbrk2
    · show h4.attempts = _; rw [hatt4]; show h2.attempts = _; exact hatt2
    · intro y
      show (h4.cells y).map _ = _
      rw [hpay4 y, ← hpay2 y]
      by_cases hy : y = a
      · subst hy
        simp [Heap.write_same, h2a, e3, GLES2_ProgramCacheEntry.payload]
      · rw [Heap.write_other _ _ hy]

theorem deletedPrograms_append (xs ys : List GLCall) :
    deletedPrograms (xs ++ ys) = deletedPrograms xs ++ deletedPrograms ys := by
  induction xs with
  | nil => rfl
  | cons c cs ih => cases c <;> simp [deletedPrograms, ih]

theorem deletedPrograms_getUniformLocation (id : Nat) (us : List Nat) :
    deletedPrograms (us.map (GLCall.getUniformLocation id)) = [] := by
  induction us with
  | nil => rfl
  | cons u us ih => simp [deletedPrograms, ih]

theorem deletedPrograms_defaults (id : Nat) (locs : List Int) (m : List GLfloat) :
    deletedPrograms (GLES2_CacheProgram_defaults id locs m) = [] := by
  unfold GLES2_CacheProgram_defaults
  simp only [deletedPrograms_append]
  split_ifs <;> simp [deletedPrograms]

theorem GLES2_CacheProgram_miss_nomem (env : Env) (data : GLES2_RenderData) (vertex fragment : Nat)
    (hc : env.callocOk data.heap.attempts = false) :
    GLES2_CacheProgram_miss env data vertex fragment
      = some (0, { data with heap := { data.heap with attempts := data.heap.attempts + 1 } }) := by
  simp [GLES2_CacheProgram_miss, hc]

theorem GLES2_CacheProgram_miss_nolink (env : Env) (data : GLES2_RenderData) (vertex fragment : Nat)
    (hc : env.callocOk data.heap.attempts = true)
    (hl : env.linkStatus data.gl.programs = false) :
    GLES2_CacheProgram_miss env data vertex fragment
      = some (0, { data with
          heap := { cells := fun q => if q = data.heap.brk + 1 then none else data.heap.cells q,
                    brk := data.heap.brk + 1, attempts := data.heap.attempts + 1 },
          gl := { log := data.gl.log ++
                    (GLES2_CacheProgram_build (env.programName data.gl.programs) vertex fragment
                     ++ [GLCall.deleteProgram (env.programName data.gl.programs)]),
                  programs := data.gl.programs + 1, shaders := data.gl.shaders },
          last_error := "Failed to link shader program" }) := by
  simp [GLES2_CacheProgram_miss, GLES2_CacheProgram_create, hc, hl, GLES2_RenderData.call,
    Heap.free]
  funext q
  by_cases hq : q = data.heap.brk + 1 <;> simp [hq]

theorem GLES2_CacheProgram_evict_none (data : GLES2_RenderData)
    (hcount : data.program_cache.count ≤ GLES2_MAX_CACHED_PROGRAMS) :
    GLES2_CacheProgram_evict data = some data := by
  simp [GLES2_CacheProgram_evict, Nat.not_lt.mpr hcount]

theorem GLES2_CacheProgram_evict_spec (data : GLES2_RenderData) (ys : List Nat)
    (hl : data.Linked ys) (ht : data.program_cache.tail ∈ ys)
    (hth : data.program_cache.tail ≠ data.program_cache.head)
    (hcount : data.program_cache.count > GLES2_MAX_CACHED_PROGRAMS) :
    ∃ (data' : GLES2_RenderData) (pre post : List Nat) (et : GLES2_ProgramCacheEntry),
      ys = pre ++ data.program_cache.tail :: post ∧ pre ≠ [] ∧
      data.heap.cells data.program_cache.tail = some et ∧
      GLES2_CacheProgram_evict data = some data' ∧
      data'.Linked pre ∧
      data' = { data with
        heap := data'.heap,
        program_cache := { count := data.program_cache.count - 1,
                           head := data.program_cache.head, tail := et.prev },
        gl := { data.gl with log := data.gl.log ++ [GLCall.deleteProgram et.id] } } ∧
      et.prev ∈ pre ∧ data'.heap.brk = data.heap.brk ∧
      data'.heap.attempts = data.heap.attempts ∧
      (∀ y, y ≠ data.program_cache.tail →
        (data'.heap.cells y).map GLES2_ProgramCacheEntry.payload
          = (data.heap.cells y).map GLES2_ProgramCacheEntry.payload) := by
  obtain ⟨hs, hnd, hb⟩ := hl
  obtain ⟨pre, post, hys⟩ := List.append_of_mem ht
  subst hys
  have ht0 : data.program_cache.tail ≠ 0 := Heap.seg_nonzero _ _ _ _ hs _ ht
  obtain ⟨et, het⟩ := Heap.seg_live _ _ _ _ hs _ ht
  have hpre : pre ≠ [] := by
    intro hp
    subst hp
    exact hth hs.1.symm
  obtain ⟨ep, h1, h2, hprev0, hrd, hfree, hmod, hseg2, hfr2, hprevmem, hpay2, hbrk2, hatt2⟩ :=
    Heap.seg_cut het pre 0 data.program_cache.head post hpre hnd hs
  refine ⟨{ data with
      heap := h2,
      program_cache := { count := data.program_cache.count - 1,
                         head := data.program_cache.head, tail := et.prev },
      gl := { data.gl with log := data.gl.log ++ [GLCall.deleteProgram et.id] } },
    pre, post, et, rfl, hpre, het, ?_, ⟨hseg2, (List.nodup_append.mp hnd).1, ?_⟩, rfl, hprevmem,
    hbrk2, hatt2, hpay2⟩
  · have hrt : data.heap.read data.program_cache.tail = some et := Heap.read_of_cells ht0 het
    simp only [GLES2_CacheProgram_evict, if_pos hcount, hrt, Option.bind_eq_bind, Option.some_bind,
      GLES2_RenderData.call, if_pos hprev0, hrd, hfree, hmod]
  · intro a ha
    show a ≤ h2.brk
    rw [hbrk2]
    exact hb a (List.mem_append_left _ ha)

theorem Heap.key_of_payload {h h' : Heap} {y : Nat}
    (hp : (h'.cells y).map GLES2_ProgramCacheEntry.payload
          = (h.cells y).map GLES2_ProgramCacheEntry.payload) : h'.key y = h.key y := by
  unfold Heap.key Heap.read
  by_cases hy : y = 0
  · simp [hy]
  · simp only [hy, if_false]
    cases h1 : h'.cells y <;> cases h2 : h.cells y <;> simp [h1, h2] at hp ⊢
    simp only [GLES2_ProgramCacheEntry.payload] at hp
    have := congrArg GLES2_ProgramCacheEntry.vertex_shader hp
    have := congrArg GLES2_ProgramCacheEntry.fragment_shader hp
    simp_all

theorem Heap.programId_of_payload {h h' : Heap} {y : Nat}
    (hp : (h'.cells y).map GLES2_ProgramCacheEntry.payload
          = (h.cells y).map GLES2_ProgramCacheEntry.payload) : h'.programId y = h.programId y := by
  unfold Heap.programId Heap.read
  by_cases hy : y = 0
  · simp [hy]
  · simp only [hy, if_false]
    cases h1 : h'.cells y <;> cases h2 : h.cells y <;> simp [h1, h2] at hp ⊢
    simp only [GLES2_ProgramCacheEntry.payload] at hp
    have := congrArg GLES2_ProgramCacheEntry.id hp
    simp_all

theorem Heap.write_write (h : Heap) (p : Nat) (e e' : GLES2_ProgramCacheEntry) :
    (h.write p e).write p e' = h.write p e' := by
  unfold Heap.write
  congr 1
  funext q
  by_cases hq : q = p <;> simp [hq]

theorem Heap.seg_zero_nil {h : Heap} {xs : List Nat} {prev q : Nat}
    (hs : h.seg prev 0 xs q) : xs = [] := by
  cases xs with
  | nil => rfl
  | cons a as =>
    obtain ⟨hp, ha, _⟩ := hs
    exact absurd hp.symm ha

theorem Heap.key_of_payload_some {h : Heap} {y : Nat} {e : GLES2_ProgramCacheEntry}
    (hy : y ≠ 0)
    (hp : (h.cells y).map GLES2_ProgramCacheEntry.payload = some e.payload) :
    h.key y = (e.vertex_shader, e.fragment_shader) := by
  unfold Heap.key Heap.read
  simp only [hy, if_false]
  cases h1 : h.cells y with
  | none => simp [h1] at hp
  | some e1 =>
    simp only [h1, Option.map_some', Option.some.injEq, GLES2_ProgramCacheEntry.payload] at hp
    have hv := congrArg GLES2_ProgramCacheEntry.vertex_shader hp
    have hf := congrArg GLES2_ProgramCacheEntry.fragment_shader hp
    simp at hv hf
    simp [hv, hf]

theorem Heap.programId_of_payload_some {h : Heap} {y : Nat} {e : GLES2_ProgramCacheEntry}
    (hy : y ≠ 0)
    (hp : (h.cells y).map GLES2_ProgramCacheEntry.payload = some e.payload) :
    h.programId y = e.id := by
  unfold Heap.programId Heap.read
  simp only [hy, if_false]
  cases h1 : h.cells y with
  | none => simp [h1] at hp
  | some e1 =>
    simp only [h1, Option.map_some', Option.some.injEq, GLES2_ProgramCacheEntry.payload] at hp
    have hv := congrArg GLES2_ProgramCacheEntry.id hp
    simp at hv
    simp [hv]

theorem deletedPrograms_build (id vertex fragment : Nat) :
    deletedPrograms (GLES2_CacheProgram_build id vertex fragment) = [] := rfl

/-- Insertion at the head (lines 466-493), for any state whose list is `xs`
and whose entry `entry` is fresh and unlinked. -/
theorem GLES2_CacheProgram_insert_spec (env : Env) (data1 : GLES2_RenderData) (xs : List Nat)
    (entry n : Nat) (e : GLES2_ProgramCacheEntry)
    (hs : data1.heap.seg 0 data1.program_cache.head xs 0) (hnd : xs.Nodup)
    (hfresh : entry ∉ xs) (he0 : entry ≠ 0)
    (he : data1.heap.cells entry = some e) (hprev : e.prev = 0) (hnext : e.next = 0) :
    ∃ dataI : GLES2_RenderData,
      GLES2_CacheProgram_insert env data1 entry n = some dataI ∧
      dataI.heap.seg 0 dataI.program_cache.head (entry :: xs) 0 ∧
      dataI.program_cache =
        { count := data1.program_cache.count + 1, head := entry,
          tail := if data1.program_cache.head ≠ 0 then data1.program_cache.tail else entry } ∧
      dataI.heap.brk = data1.heap.brk ∧
      (∀ y, (dataI.heap.cells y).map GLES2_ProgramCacheEntry.payload
          = ((if y = entry then some { e with uniform_locations :=
                (List.range NUM_GLES2_UNIFORMS).map (env.uniformLocation n) }
              else data1.heap.cells y)).map GLES2_ProgramCacheEntry.payload) ∧
      deletedPrograms dataI.gl.log = deletedPrograms data1.gl.log ∧
      dataI.drawstate = data1.drawstate ∧ dataI.shader_id_cache = data1.shader_id_cache ∧
      dataI.textures = data1.textures := by
  have hrd : data1.heap.read entry = some e := Heap.read_of_cells he0 he
  obtain ⟨locs, hlocs⟩ : ∃ locs : List Int, locs =
      (List.range NUM_GLES2_UNIFORMS).map (env.uniformLocation n) := ⟨_, rfl⟩
  have hins : ∃ (hfin : Heap) (e' : GLES2_ProgramCacheEntry),
      (if data1.program_cache.head ≠ 0 then
          ((data1.heap.write entry { e with uniform_locations := locs }).modify entry
              (fun e => { e with next := data1.program_cache.head })).bind
            (fun h => h.modify data1.program_cache.head (fun e => { e with prev := entry }))
        else some (data1.heap.write entry { e with uniform_locations := locs }))
        = some hfin ∧
      hfin.cells entry = some e' ∧ e'.prev = 0 ∧ e'.next = data1.program_cache.head ∧
      e'.payload = ({ e with uniform_locations := locs } : GLES2_ProgramCacheEntry).payload ∧
      hfin.seg entry data1.program_cache.head xs 0 ∧
      hfin.brk = data1.heap.brk ∧
      (∀ y, y ≠ entry →
        (hfin.cells y).map GLES2_ProgramCacheEntry.payload
          = (data1.heap.cells y).map GLES2_ProgramCacheEntry.payload) := by
    by_cases hh : data1.program_cache.head = 0
    · have hxs : xs = [] := by
        rw [hh] at hs
        exact Heap.seg_zero_nil hs
      subst hxs
      refine ⟨_, { e with uniform_locations := locs }, by simp [hh], Heap.write_same _ _ _,
        hprev, by simp [hnext, hh], rfl, hh, rfl, ?_⟩
      intro y hy
      rw [Heap.write_other _ _ hy]
    · have hB : (data1.heap.write entry { e with uniform_locations := locs }).modify entry
            (fun e => { e with next := data1.program_cache.head })
          = some (data1.heap.write entry
              { e with uniform_locations := locs, next := data1.program_cache.head }) := by
        rw [Heap.modify_of_cells _ he0 (Heap.write_same _ _ _), Heap.write_write]
      have hsegB : (data1.heap.write entry
              { e with uniform_locations := locs, next := data1.program_cache.head }).seg
            0 data1.program_cache.head xs 0 := by
        refine Heap.seg_frame _ _ _ _ (fun b hb' => ?_) hs
        exact Heap.write_other _ _ (fun hbe => hfresh (hbe ▸ hb'))
      obtain ⟨h4, hh4, hseg4, hfr4, hheadmem, hpay4, hbrk4, _⟩ :=
        Heap.seg_setPrev entry _ _ _ hsegB hnd
      rw [if_pos hh] at hh4
      have hhe : entry ≠ data1.program_cache.head := by
        rcases hheadmem with h0 | hm
        · exact absurd h0 hh
        · exact fun hc => hfresh (hc ▸ hm)
      refine ⟨h4, { e with uniform_locations := locs, next := data1.program_cache.head }, ?_, ?_,
        hprev, rfl, rfl, hseg4, ?_, ?_⟩
      · simp only [if_pos hh, hB, Option.some_bind, hh4]
      · rw [hfr4 _ hhe]; exact Heap.write_same _ _ _
      · rw [hbrk4]; rfl
      · intro y hy
        rw [hpay4 y, Heap.write_other _ _ hy]
  obtain ⟨hfin, e', hfineq, hfe, heprev, henext, hepay, hsegf, hbrkf, hpayf⟩ := hins
  refine ⟨({ data1 with
        heap := hfin,
        program_cache :=
          { count := data1.program_cache.count + 1,
            head := entry,
            tail := if data1.program_cache.head ≠ 0 then data1.program_cache.tail
                    else entry } }).call
      ((List.range NUM_GLES2_UNIFORMS).map (GLCall.getUniformLocation e.id)
        ++ GLES2_CacheProgram_defaults e.id locs e.projection), ?_, ?_, ?_, ?_, ?_, ?_, ?_, ?_, ?_⟩
  · simp only [GLES2_CacheProgram_insert, hrd, GLES2_CacheProgram_locs, ← hlocs, hfineq,
      Option.some_bind]
  · exact ⟨rfl, he0, e', hfe, heprev, henext ▸ hsegf⟩
  · rfl
  · exact hbrkf
  · intro y
    by_cases hy : y = entry
    · subst hy
      show (hfin.cells y).map _ = _
      rw [hfe, ← hlocs]
      simp [hepay]
    · show (hfin.cells y).map _ = _
      rw [hpayf y hy]
      simp [hy]
  · show deletedPrograms (data1.gl.log ++ _) = _
    simp [deletedPrograms_append, deletedPrograms_getUniformLocation, deletedPrograms_defaults]
  · rfl
  · rfl
  · rfl

/-- The state in which `GLES2_CacheProgram` reaches its eviction test after a
successful link: the new entry `brk + 1` is the head of the list, in front of
the entries cached before. -/
theorem GLES2_CacheProgram_miss_insert (env : Env) (data : GLES2_RenderData) (xs : List Nat)
    (vertex fragment : Nat) (hl : data.Linked xs)
    (hc : env.callocOk data.heap.attempts = true)
    (hls : env.linkStatus data.gl.programs = true) :
    ∃ dataI : GLES2_RenderData,
      GLES2_CacheProgram_miss env data vertex fragment
        = (GLES2_CacheProgram_evict dataI).bind (fun d => some (data.heap.brk + 1, d)) ∧
      dataI.Linked ((data.heap.brk + 1) :: xs) ∧
      dataI.program_cache =
        { count := data.program_cache.count + 1, head := data.heap.brk + 1,
          tail := if data.program_cache.head ≠ 0 then data.program_cache.tail
                  else data.heap.brk + 1 } ∧
      dataI.heap.brk = data.heap.brk + 1 ∧
      dataI.heap.key (data.heap.brk + 1) = (vertex, fragment) ∧
      dataI.heap.programId (data.heap.brk + 1) = env.programName data.gl.programs ∧
      (∀ y, y ≠ data.heap.brk + 1 →
        (dataI.heap.cells y).map GLES2_ProgramCacheEntry.payload
          = (data.heap.cells y).map GLES2_ProgramCacheEntry.payload) ∧
      deletedPrograms dataI.gl.log = deletedPrograms data.gl.log ∧
      dataI.drawstate = data.drawstate ∧ dataI.shader_id_cache = data.shader_id_cache ∧
      dataI.textures = data.textures := by
  obtain ⟨hs, hnd, hb⟩ := hl
  have hfresh : data.heap.brk + 1 ∉ xs := fun hm => by
    have := hb _ hm
    omega
  have he0 : data.heap.brk + 1 ≠ 0 := by omega
  have hs1 : (GLES2_CacheProgram_create env data vertex fragment).heap.seg 0
      (GLES2_CacheProgram_create env data vertex fragment).program_cache.head xs 0 := by
    refine Heap.seg_frame _ _ _ _ (fun b hb' => ?_) hs
    have hbe : b ≠ data.heap.brk + 1 := fun hbe => hfresh (hbe ▸ hb')
    simp [GLES2_CacheProgram_create, GLES2_RenderData.call, hbe]
  obtain ⟨dataI, hins, hsegI, hpcI, hbrkI, hpayI, hdelI, hdsI, hscI, htxI⟩ :=
    GLES2_CacheProgram_insert_spec env (GLES2_CacheProgram_create env data vertex fragment) xs
      (data.heap.brk + 1) data.gl.programs
      { GLES2_ProgramCacheEntry.zero with
        vertex_shader := vertex, fragment_shader := fragment,
        id := env.programName data.gl.programs }
      hs1 hnd hfresh he0
      (by simp [GLES2_CacheProgram_create, GLES2_RenderData.call])
      rfl rfl
  have hpayE := hpayI (data.heap.brk + 1)
  simp only [if_true, Option.map_some'] at hpayE
  refine ⟨dataI, ?_, ⟨hsegI, List.nodup_cons.mpr ⟨hfresh, hnd⟩, ?_⟩, hpcI, ?_, ?_, ?_, ?_, ?_,
    hdsI, hscI, htxI⟩
  · simp [GLES2_CacheProgram_miss, hc, hls, hins]
  · intro a ha
    rw [hbrkI]
    show a ≤ data.heap.brk + 1
    rcases List.mem_cons.mp ha with rfl | hm
    · exact le_refl _
    · have := hb a hm
      omega
  · rw [hbrkI]; rfl
  · exact Heap.key_of_payload_some he0 hpayE
  · exact Heap.programId_of_payload_some he0 hpayE
  · intro y hy
    rw [hpayI y]
    simp [hy, GLES2_CacheProgram_create, GLES2_RenderData.call]
  · rw [hdelI]
    show deletedPrograms (data.gl.log ++ _) = _
    simp [deletedPrograms_append, deletedPrograms_build]

/-! ## One call of `GLES2_CacheProgram` -/

theorem GLES2_RenderData.Linked.length_le {data : GLES2_RenderData} {xs : List Nat}
    (hl : data.Linked xs) : xs.length ≤ data.heap.brk :=
  Nodup_length_le_of_bound _ xs hl.2.1
    (fun a ha => ⟨Heap.seg_nonzero xs _ _ _ hl.1 a ha, hl.2.2 a ha⟩)

theorem List.erase_middle_of_nodup {pre post : List Nat} {a : Nat}
    (hnd : (pre ++ a :: post).Nodup) : (pre ++ a :: post).erase a = pre ++ post := by
  have hnot : a ∉ pre := fun hm =>
    (List.nodup_append.mp hnd).2.2 hm (List.mem_cons_self a post)
  rw [List.erase_append_right _ hnot, List.erase_cons_head]

/-- A hit: the pair is cached, in a well-linked list. -/
theorem GLES2_CacheProgram_hit_linked (env : Env) (data : GLES2_RenderData) (xs : List Nat)
    (vertex fragment : Nat) (hl : data.Linked xs)
    (hm : (vertex, fragment) ∈ xs.map data.heap.key) :
    ∃ (a : Nat) (data' : GLES2_RenderData),
      GLES2_CacheProgram env data vertex fragment = some (a, data') ∧
      a = data.heap.find vertex fragment xs ∧
      a ∈ xs ∧ a ≠ 0 ∧ data.heap.key a = (vertex, fragment) ∧
      data'.Linked (a :: xs.erase a) ∧
      data' = { data with heap := data'.heap,
                          program_cache := { data.program_cache with head := a } } ∧
      data'.heap.brk = data.heap.brk ∧ data'.heap.attempts = data.heap.attempts ∧
      (∀ y, (data'.heap.cells y).map GLES2_ProgramCacheEntry.payload
            = (data.heap.cells y).map GLES2_ProgramCacheEntry.payload) := by
  have hlen := hl.length_le
  have hsearch := Heap.search_of_seg vertex fragment xs 0 data.program_cache.head
    (data.heap.brk + 1) hl.1 (by omega)
  obtain ⟨hmem, hkey⟩ := Heap.find_mem vertex fragment xs hm
  obtain ⟨a, ha⟩ : ∃ a, a = data.heap.find vertex fragment xs := ⟨_, rfl⟩
  rw [← ha] at hsearch hmem hkey
  have ha0 : a ≠ 0 := Heap.seg_nonzero _ _ _ _ hl.1 _ hmem
  obtain ⟨pre, post, hxs⟩ := List.append_of_mem hmem
  have hl' : data.Linked (pre ++ a :: post) := hxs ▸ hl
  obtain ⟨data', hhit, hlinked, hdata, hbrk, hatt, hpay⟩ :=
    GLES2_CacheProgram_hit_spec data pre post _ hl'
  have herase : xs.erase a = pre ++ post := by
    rw [hxs]
    exact List.erase_middle_of_nodup hl'.2.1
  refine ⟨a, data', ?_, ha, hmem, ha0, hkey, ?_, hdata, hbrk, hatt, hpay⟩
  · simp [GLES2_CacheProgram, hsearch, ha0, hhit]
  · rw [herase]; exact hlinked

theorem GLES2_CacheProgram_hit_step (env : Env) (data : GLES2_RenderData) (xs : List Nat)
    (vertex fragment : Nat) (hinv : data.CacheInv xs)
    (hm : (vertex, fragment) ∈ xs.map data.heap.key) :
    ∃ (a : Nat) (data' : GLES2_RenderData),
      GLES2_CacheProgram env data vertex fragment = some (a, data') ∧
      a ∈ xs ∧ a ≠ 0 ∧ data'.heap.key a = (vertex, fragment) ∧
      data'.CacheInv (a :: xs.erase a) ∧
      data'.program_cache = { data.program_cache with head := a } ∧
      data'.gl = data.gl ∧
      (∀ y, data'.heap.key y = data.heap.key y) := by
  obtain ⟨hl, hkeys, htail, hempty, hlen, hcount⟩ := hinv
  obtain ⟨a, data', hrun, _, hmem, ha0, hkey, hlinked, hdata, hbrk, hatt, hpay⟩ :=
    GLES2_CacheProgram_hit_linked env data xs vertex fragment hl hm
  have hk : ∀ y, data'.heap.key y = data.heap.key y := fun y => Heap.key_of_payload (hpay y)
  have hperm : (a :: xs.erase a).Perm xs := (List.perm_cons_erase hmem).symm
  have hpc : data'.program_cache = { data.program_cache with head := a } := by rw [hdata]
  have hgl : data'.gl = data.gl := by rw [hdata]
  refine ⟨a, data', hrun, hmem, ha0, (hk a).trans hkey, ⟨hlinked, ?_, ?_, ?_, ?_, ?_⟩, hpc, hgl, hk⟩
  · have : (a :: xs.erase a).map data'.heap.key = (a :: xs.erase a).map data.heap.key :=
      List.map_congr_left (fun y _ => hk y)
    rw [this]
    exact (hperm.map _).nodup_iff.mpr hkeys
  · intro _
    rw [hpc]
    exact hperm.mem_iff.mpr (htail (List.ne_nil_of_mem hmem))
  · intro h; exact absurd h (List.cons_ne_nil _ _)
  · rw [hpc, hperm.length_eq]; exact hlen
  · rw [hpc]; exact hcount

theorem GLES2_CacheProgram_eq_miss (env : Env) (data : GLES2_RenderData) (xs : List Nat)
    (vertex fragment : Nat) (hl : data.Linked xs)
    (hnm : (vertex, fragment) ∉ xs.map data.heap.key) :
    GLES2_CacheProgram env data vertex fragment
      = GLES2_CacheProgram_miss env data vertex fragment := by
  have hlen := hl.length_le
  have hsearch := Heap.search_of_seg vertex fragment xs 0 data.program_cache.head
    (data.heap.brk + 1) hl.1 (by omega)
  rw [Heap.find_eq_zero vertex fragment xs hnm] at hsearch
  simp [GLES2_CacheProgram, hsearch]

/-- A miss, in a cache that satisfies the invariant. -/
theorem GLES2_CacheProgram_miss_step (env : Env) (data : GLES2_RenderData) (xs : List Nat)
    (vertex fragment : Nat) (hinv : data.CacheInv xs)
    (hnm : (vertex, fragment) ∉ xs.map data.heap.key) :
    ∃ (r : Nat) (data' : GLES2_RenderData) (ys : List Nat),
      GLES2_CacheProgram env data vertex fragment = some (r, data') ∧
      data'.CacheInv ys ∧
      (r = 0 → ys = xs ∧ data'.program_cache = data.program_cache ∧
        (∀ y ∈ xs, data'.heap.key y = data.heap.key y)) ∧
      (r ≠ 0 → r = data.heap.brk + 1 ∧ data'.program_cache.head = r ∧
        data'.heap.key r = (vertex, fragment) ∧
        (∃ zs, r :: xs = ys ++ zs) ∧
        (∀ y ∈ ys, y ≠ r → data'.heap.key y = data.heap.key y) ∧
        (data.program_cache.count + 1 ≤ GLES2_MAX_CACHED_PROGRAMS →
          ys = r :: xs ∧ data'.program_cache.count = data.program_cache.count + 1 ∧
          deletedPrograms data'.gl.log = deletedPrograms data.gl.log)) := by
  obtain ⟨hl, hkeys, htail, hempty, hlen, hcount⟩ := hinv
  rw [GLES2_CacheProgram_eq_miss env data xs vertex fragment hl hnm]
  by_cases hc : env.callocOk data.heap.attempts = true
  swap
  · -- `SDL_calloc` returns `NULL`
    have hc' : env.callocOk data.heap.attempts = false := by simpa using hc
    refine ⟨0, _, xs, GLES2_CacheProgram_miss_nomem env data vertex fragment hc',
      ⟨⟨@Heap.seg_frame data.heap _ xs 0 _ 0 (fun _ _ => rfl) hl.1, hl.2.1, hl.2.2⟩, ?_, htail,
        hempty, hlen,
        hcount⟩,
      fun _ => ⟨rfl, rfl, fun _ _ => rfl⟩, fun h => absurd rfl h⟩
    have hk : ∀ y ∈ xs, Heap.key
        { data.heap with attempts := data.heap.attempts + 1 } y = data.heap.key y :=
      fun _ _ => rfl
    rw [List.map_congr_left hk]; exact hkeys
  by_cases hls : env.linkStatus data.gl.programs = true
  swap
  · -- the link fails
    have hls' : env.linkStatus data.gl.programs = false := by simpa using hls
    have hcells : ∀ y ∈ xs, (if y = data.heap.brk + 1 then none else data.heap.cells y)
        = data.heap.cells y := by
      intro y hy
      have := hl.2.2 y hy
      have hne : y ≠ data.heap.brk + 1 := by omega
      simp [hne]
    have hk : ∀ y ∈ xs, Heap.key
        { cells := fun q => if q = data.heap.brk + 1 then none else data.heap.cells q,
          brk := data.heap.brk + 1, attempts := data.heap.attempts + 1 } y = data.heap.key y := by
      intro y hy
      simp only [Heap.key, Heap.read, hcells y hy]
    refine ⟨0, _, xs, GLES2_CacheProgram_miss_nolink env data vertex fragment hc hls',
      ⟨⟨?_, hl.2.1, ?_⟩, ?_, htail, hempty, hlen, hcount⟩, fun _ => ⟨rfl, rfl, hk⟩,
      fun h => absurd rfl h⟩
    · exact Heap.seg_frame _ _ _ _ hcells hl.1
    · intro a ha
      have := hl.2.2 a ha
      show a ≤ data.heap.brk + 1
      omega
    · rw [List.map_congr_left hk]; exact hkeys
  -- the program links
  obtain ⟨dataI, hmiss, hlI, hpcI, hbrkI, hkeyI, _, hpayI, hdelI, _, _, _⟩ :=
    GLES2_CacheProgram_miss_insert env data xs vertex fragment hl hc hls
  have hfresh : data.heap.brk + 1 ∉ xs := fun hm => by
    have := hl.2.2 _ hm
    omega
  have hkI : ∀ y ∈ xs, dataI.heap.key y = data.heap.key y := fun y hy =>
    Heap.key_of_payload (hpayI y (fun hye => hfresh (hye ▸ hy)))
  have hkeysI : (((data.heap.brk + 1) :: xs).map dataI.heap.key).Nodup := by
    rw [List.map_cons, hkeyI, List.map_congr_left hkI]
    exact List.nodup_cons.mpr ⟨hnm, hkeys⟩
  by_cases hfit : data.program_cache.count + 1 ≤ GLES2_MAX_CACHED_PROGRAMS
  · -- no eviction
    have hev : GLES2_CacheProgram_evict dataI = some dataI :=
      GLES2_CacheProgram_evict_none dataI (by rw [hpcI]; exact hfit)
    refine ⟨data.heap.brk + 1, dataI, (data.heap.brk + 1) :: xs, by rw [hmiss, hev]; rfl,
      ⟨hlI, hkeysI, ?_, ?_, ?_, ?_⟩, fun h => absurd h (by omega), fun _ =>
        ⟨rfl, by rw [hpcI], hkeyI, ⟨[], by simp⟩, ?_, fun _ => ⟨rfl, by rw [hpcI], hdelI⟩⟩⟩
    · intro _
      rw [hpcI]
      by_cases hh : data.program_cache.head = 0
      · simp [hh]
      · have hxs : xs ≠ [] := by
          intro hxs
          subst hxs
          exact hh hl.1
        simp only [ne_eq, hh, not_false_eq_true, if_true]
        exact List.mem_cons_of_mem _ (htail hxs)
    · intro h; exact absurd h (List.cons_ne_nil _ _)
    · rw [hpcI]; simp only [List.length_cons]; omega
    · rw [hpcI]; exact hfit
    · intro y hy hne
      rcases List.mem_cons.mp hy with h | h
      · exact absurd h hne
      · exact hkI y h
  · -- the tail entry is evicted
    have hxs : xs ≠ [] := by
      intro hxs
      have := hempty hxs
      simp only [GLES2_MAX_CACHED_PROGRAMS] at hfit
      omega
    have hh : data.program_cache.head ≠ 0 := by
      obtain ⟨x, rest, rfl⟩ := List.exists_cons_of_ne_nil hxs
      have h1 : data.program_cache.head = x := hl.1.1
      rw [h1]
      exact Heap.seg_nonzero _ _ _ _ hl.1 x (List.mem_cons_self _ _)
    have htI : dataI.program_cache.tail = data.program_cache.tail := by
      rw [hpcI]; simp [hh]
    have hhI : dataI.program_cache.head = data.heap.brk + 1 := by rw [hpcI]
    have hcI : dataI.program_cache.count = data.program_cache.count + 1 := by rw [hpcI]
    have htmem : dataI.program_cache.tail ∈ (data.heap.brk + 1) :: xs := by
      rw [htI]; exact List.mem_cons_of_mem _ (htail hxs)
    have htne : dataI.program_cache.tail ≠ dataI.program_cache.head := by
      rw [htI, hhI]
      exact fun h => hfresh (h ▸ htail hxs)
    obtain ⟨data', pre, post, et, hdec, hpre, _, hev, hl', hdata', hprevmem, hbrk', _, hpay'⟩ :=
      GLES2_CacheProgram_evict_spec dataI _ hlI htmem htne (by rw [hcI]; omega)
    have hndI : (pre ++ dataI.program_cache.tail :: post).Nodup := hdec ▸ hlI.2.1
    have htpre : dataI.program_cache.tail ∉ pre := fun hm =>
      (List.nodup_append.mp hndI).2.2 hm (List.mem_cons_self _ _)
    have hk' : ∀ y ∈ pre, data'.heap.key y = dataI.heap.key y := fun y hy =>
      Heap.key_of_payload (hpay' y (fun hyt => htpre (hyt ▸ hy)))
    have hpc' : data'.program_cache =
        ⟨dataI.program_cache.count - 1, dataI.program_cache.head, et.prev⟩ := by rw [hdata']
    obtain ⟨p0, prest, hpre0⟩ := List.exists_cons_of_ne_nil hpre
    have hp0 : p0 = data.heap.brk + 1 := by
      rw [hpre0] at hdec
      simp only [List.cons_append] at hdec
      exact (List.cons.inj hdec).1.symm
    have hlenpre : pre.length ≤ xs.length := by
      have := congrArg List.length hdec
      simp only [List.length_cons, List.length_append] at this
      omega
    refine ⟨data.heap.brk + 1, data', pre, by rw [hmiss, hev]; rfl,
      ⟨hl', ?_, fun _ => by rw [hpc']; exact hprevmem, fun h => absurd h hpre, ?_, ?_⟩,
      fun h => absurd h (by omega), fun _ =>
        ⟨rfl, by rw [hpc', hhI], ?_, ⟨dataI.program_cache.tail :: post, hdec⟩, ?_,
          fun h => absurd h hfit⟩⟩
    · rw [List.map_congr_left hk']
      have : (pre.map dataI.heap.key).Sublist
          (((data.heap.brk + 1) :: xs).map dataI.heap.key) := by
        rw [hdec]
        exact (List.sublist_append_left pre _).map _
      exact this.nodup hkeysI
    · rw [hpc', hcI]; simp only [Nat.add_sub_cancel]; omega
    · rw [hpc', hcI]; simp only [Nat.add_sub_cancel]; exact hcount
    · have : data.heap.brk + 1 ∈ pre := by rw [hpre0, hp0]; exact List.mem_cons_self _ _
      rw [hk' _ this]; exact hkeyI
    · intro y hy hne
      rw [hk' y hy]
      have hyin : y ∈ (data.heap.brk + 1) :: xs := by
        rw [hdec]; exact List.mem_append_left _ hy
      rcases List.mem_cons.mp hyin with h | h
      · exact absurd h hne
      · exact hkI y h

/-! ## Sequences of calls -/

theorem GLES2_RenderData.CacheInv_of_empty {data : GLES2_RenderData}
    (h : data.program_cache = { count := 0, head := 0, tail := 0 }) : data.CacheInv [] := by
  refine ⟨⟨?_, List.nodup_nil, fun a ha => by simp at ha⟩, List.nodup_nil,
    fun h' => absurd rfl h', fun _ => by rw [h], by simp, by rw [h]; simp⟩
  show data.program_cache.head = 0
  rw [h]

theorem GLES2_RenderData.cachedKeys_of_Linked {data : GLES2_RenderData} {xs : List Nat}
    (hl : data.Linked xs) : data.cachedKeys = xs.map data.heap.key := by
  unfold GLES2_RenderData.cachedKeys
  rw [GLES2_RenderData.cached_of_Linked hl]

/-- One call keeps the invariant, and a call that returns an entry leaves that
entry at the head, storing the requested pair. -/
theorem GLES2_CacheProgram_step (env : Env) (data : GLES2_RenderData) (xs : List Nat)
    (vertex fragment : Nat) (hinv : data.CacheInv xs) :
    ∃ (r : Nat) (data' : GLES2_RenderData) (ys : List Nat),
      GLES2_CacheProgram env data vertex fragment = some (r, data') ∧
      data'.CacheInv ys ∧
      (r ≠ 0 → data'.program_cache.head = r ∧ data'.heap.key r = (vertex, fragment)) := by
  by_cases hm : (vertex, fragment) ∈ xs.map data.heap.key
  · obtain ⟨a, data', hrun, _, _, hkey, hinv', hpc, _, _⟩ :=
      GLES2_CacheProgram_hit_step env data xs vertex fragment hinv hm
    exact ⟨a, data', _, hrun, hinv', fun _ => ⟨by rw [hpc], hkey⟩⟩
  · obtain ⟨r, data', ys, hrun, hinv', _, hr⟩ :=
      GLES2_CacheProgram_miss_step env data xs vertex fragment hinv hm
    exact ⟨r, data', ys, hrun, hinv', fun h => ⟨(hr h).2.1, (hr h).2.2.1⟩⟩

/-- Every sequence of calls runs to its end and keeps the invariant; when its
last call returns an entry, that entry is the head and stores the last pair. -/
theorem GLES2_CacheProgram_run_inv (env : Env) :
    ∀ (reqs : List (Nat × Nat)) (data : GLES2_RenderData) (xs : List Nat), data.CacheInv xs →
      ∃ (entries : List Nat) (data' : GLES2_RenderData) (ys : List Nat),
        GLES2_CacheProgram_run env data reqs = some (entries, data') ∧
        data'.CacheInv ys ∧
        (∀ v f r, reqs.getLast? = some (v, f) → entries.getLast? = some r → r ≠ 0 →
          data'.program_cache.head = r ∧ data'.heap.key r = (v, f))
  | [], data, xs, hinv =>
    ⟨[], data, xs, rfl, hinv, fun _ _ _ h => by simp at h⟩
  | (v, f) :: rest, data, xs, hinv => by
    obtain ⟨r, data1, ys1, hstep, hinv1, hhead1⟩ := GLES2_CacheProgram_step env data xs v f hinv
    obtain ⟨entries, data2, ys2, hrun, hinv2, hlast2⟩ :=
      GLES2_CacheProgram_run_inv env rest data1 ys1 hinv1
    refine ⟨r :: entries, data2, ys2, by simp [GLES2_CacheProgram_run, hstep, hrun], hinv2, ?_⟩
    intro v' f' r' hv hr hne
    cases rest with
    | nil =>
      simp only [GLES2_CacheProgram_run, Option.some.injEq, Prod.mk.injEq] at hrun
      obtain ⟨he, hd⟩ := hrun
      subst he hd
      simp only [List.getLast?_singleton, Option.some.injEq, Prod.mk.injEq] at hv hr
      obtain ⟨hv1, hv2⟩ := hv
      subst hv1 hv2 hr
      exact hhead1 hne
    | cons q rest' =>
      have hel : entries ≠ [] := by
        intro he
        subst he
        obtain ⟨v2, f2⟩ := q
        simp only [GLES2_CacheProgram_run] at hrun
        split at hrun
        · exact absurd hrun (by simp)
        · split at hrun
          · exact absurd hrun (by simp)
          · simp at hrun
      obtain ⟨e0, erest, heq⟩ := List.exists_cons_of_ne_nil hel
      subst heq
      rw [List.getLast?_cons_cons] at hv hr
      exact hlast2 v' f' r' hv hr hne

theorem List.length_le_dedup_of_nodup_subset {α : Type} [DecidableEq α] (l m : List α)
    (hnd : l.Nodup) (hsub : ∀ x ∈ l, x ∈ m) : l.length ≤ m.dedup.length := by
  have h1 : l.toFinset ⊆ m.toFinset := fun x hx =>
    List.mem_toFinset.mpr (hsub x (List.mem_toFinset.mp hx))
  have h2 := Finset.card_le_card h1
  rw [List.toFinset_card_of_nodup hnd, List.card_toFinset] at h2
  exact h2

/-- While the pairs requested stay within the capacity and every call returns
an entry, nothing is deleted and every pair seen is cached. -/
theorem GLES2_CacheProgram_run_capacity (env : Env) :
    ∀ (reqs : List (Nat × Nat)) (data : GLES2_RenderData) (xs : List Nat)
      (seen : List (Nat × Nat)),
      data.CacheInv xs → data.program_cache.count = xs.length →
      (∀ k, k ∈ xs.map data.heap.key ↔ k ∈ seen) →
      (seen ++ reqs).dedup.length ≤ GLES2_MAX_CACHED_PROGRAMS →
      ∃ (entries : List Nat) (data' : GLES2_RenderData),
        GLES2_CacheProgram_run env data reqs = some (entries, data') ∧
        (0 ∉ entries →
          deletedPrograms data'.gl.log = deletedPrograms data.gl.log ∧
          ∀ p ∈ seen ++ reqs, p ∈ data'.cachedKeys)
  | [], data, xs, seen, hinv, _, hseen, _ => by
    refine ⟨[], data, rfl, fun _ => ⟨rfl, fun p hp => ?_⟩⟩
    rw [GLES2_RenderData.cachedKeys_of_Linked hinv.1]
    exact (hseen p).mpr (by simpa using hp)
  | (v, f) :: rest, data, xs, seen, hinv, hcnt, hseen, hcap => by
    have happ : (seen ++ [(v, f)]) ++ rest = seen ++ (v, f) :: rest := by simp
    by_cases hm : (v, f) ∈ xs.map data.heap.key
    · -- the pair is cached
      obtain ⟨a, data1, hstep, hmem, ha0, _, hinv1, hpc, hgl, hk⟩ :=
        GLES2_CacheProgram_hit_step env data xs v f hinv hm
      have hperm : (a :: xs.erase a).Perm xs := (List.perm_cons_erase hmem).symm
      have hkeys1 : ∀ k, k ∈ (a :: xs.erase a).map data1.heap.key ↔ k ∈ seen ++ [(v, f)] := by
        intro k
        rw [List.map_congr_left (fun y _ => hk y), (hperm.map _).mem_iff, hseen k]
        constructor
        · exact fun h => List.mem_append_left _ h
        · intro h
          rcases List.mem_append.mp h with h | h
          · exact h
          · rw [List.mem_singleton.mp h]; exact (hseen _).mp hm
      obtain ⟨entries, data2, hrun, hres⟩ :=
        GLES2_CacheProgram_run_capacity env rest data1 (a :: xs.erase a) (seen ++ [(v, f)]) hinv1
          (by rw [hpc, hperm.length_eq]; exact hcnt) hkeys1 (by rw [happ]; exact hcap)
      refine ⟨a :: entries, data2, by simp [GLES2_CacheProgram_run, hstep, hrun], fun h0 => ?_⟩
      have h0' : 0 ∉ entries := fun h => h0 (List.mem_cons_of_mem _ h)
      obtain ⟨hdel, hall⟩ := hres h0'
      rw [hgl] at hdel
      exact ⟨hdel, fun p hp => hall p (by rw [happ]; exact hp)⟩
    · -- the pair is new
      obtain ⟨r, data1, ys, hstep, hinv1, _, hr⟩ :=
        GLES2_CacheProgram_miss_step env data xs v f hinv hm
      by_cases hr0 : r = 0
      · -- the call failed: the sequence still runs to its end
        obtain ⟨entries, data2, _, hrun, _, _⟩ :=
          GLES2_CacheProgram_run_inv env rest data1 ys hinv1
        refine ⟨r :: entries, data2, by simp [GLES2_CacheProgram_run, hstep, hrun], fun h0 => ?_⟩
        exact absurd (hr0 ▸ List.mem_cons_self r entries) h0
      · obtain ⟨hrb, _, hkeyr, _, hkold, hfit⟩ := hr hr0
        have hnew : (v, f) ∉ seen := fun h => hm ((hseen _).mpr h)
        have hlen : xs.length + 1 ≤ GLES2_MAX_CACHED_PROGRAMS := by
          have hnd : ((v, f) :: xs.map data.heap.key).Nodup :=
            List.nodup_cons.mpr ⟨hm, hinv.2.1⟩
          have hsub : ∀ x ∈ (v, f) :: xs.map data.heap.key, x ∈ seen ++ (v, f) :: rest := by
            intro x hx
            rcases List.mem_cons.mp hx with h | h
            · rw [h]; exact List.mem_append_right _ (List.mem_cons_self _ _)
            · exact List.mem_append_left _ ((hseen x).mp h)
          have := List.length_le_dedup_of_nodup_subset _ _ hnd hsub
          simp only [List.length_cons, List.length_map] at this
          omega
        obtain ⟨hys, hcnt1, hdel1⟩ := hfit (by rw [hcnt]; exact hlen)
        subst hys
        have hrx : r ∉ xs := fun h => by
          have := hinv.1.2.2 r h
          omega
        have hkeys1 : ∀ k, k ∈ (r :: xs).map data1.heap.key ↔ k ∈ seen ++ [(v, f)] := by
          intro k
          have hmap : xs.map data1.heap.key = xs.map data.heap.key :=
            List.map_congr_left (fun y hy =>
              hkold y (List.mem_cons_of_mem _ hy) (fun h => hrx (h ▸ hy)))
          rw [List.map_cons, hkeyr, hmap, List.mem_cons, hseen k, List.mem_append,
            List.mem_singleton]
          exact or_comm
        obtain ⟨entries, data2, hrun, hres⟩ :=
          GLES2_CacheProgram_run_capacity env rest data1 (r :: xs) (seen ++ [(v, f)]) hinv1
            (by rw [hcnt1, hcnt]; rfl) hkeys1 (by rw [happ]; exact hcap)
        refine ⟨r :: entries, data2, by simp [GLES2_CacheProgram_run, hstep, hrun], fun h0 => ?_⟩
        have h0' : 0 ∉ entries := fun h => h0 (List.mem_cons_of_mem _ h)
        obtain ⟨hdel, hall⟩ := hres h0'
        rw [hdel1] at hdel
        exact ⟨hdel, fun p hp => hall p (by rw [happ]; exact hp)⟩

/-! ## The program cache: claims -/

theorem GLES2_RenderData.sample_Linked :
    GLES2_RenderData.sample.Linked GLES2_RenderData.sample.cached := by
  have hc : GLES2_RenderData.sample.cached = [2, 1] := by decide
  rw [hc]
  refine ⟨⟨rfl, by decide, _, rfl, rfl, rfl, by decide, _, rfl, rfl, rfl⟩, by decide, ?_⟩
  intro a ha
  simp only [List.mem_cons, List.mem_singleton, List.not_mem_nil, or_false] at ha
  rcases ha with rfl | rfl <;> decide

/-- C1: the code at the failing input.  After requests for eight pairs and a
second request for the first of them, eight entries are cached, the pair
`(1, 1)` most recently and the pair `(1, 2)` least recently requested.  The
request for the new pair `(1, 9)` then deletes program `100`, the program of
`(1, 1)`, and leaves only the new entry reachable from `head`, with `count`
still eight: the least recently requested pair is not the one evicted and the
other seven entries do not remain cached. -/
theorem GLES2_CacheProgram_evicts_stale_tail :
    (GLES2_CacheProgram_run Env.plain GLES2_RenderData.zero lruTrace).map
        (fun r => (r.2.cachedPrograms, deletedPrograms r.2.gl.log, r.2.program_cache))
      = some ([((1, 1), 100), ((1, 8), 107), ((1, 7), 106), ((1, 6), 105), ((1, 5), 104),
               ((1, 4), 103), ((1, 3), 102), ((1, 2), 101)], [],
              { count := 8, head := 1, tail := 1 }) ∧
    (GLES2_CacheProgram_run Env.plain GLES2_RenderData.zero (lruTrace ++ [(1, 9)])).map
        (fun r => (r.2.cachedPrograms, deletedPrograms r.2.gl.log, r.2.program_cache))
      = some ([((1, 9), 108)], [100], { count := 8, head := 9, tail := 9 }) := by
  decide

/-- C2: for every sequence of requests that holds at most
`GLES2_MAX_CACHED_PROGRAMS` different pairs, issued to an empty cache, the
calls all return, and when each of them returned an entry no
`glDeleteProgram` call was made and every pair requested is found in the
cache. -/
theorem GLES2_CacheProgram_within_capacity (env : Env) (data : GLES2_RenderData)
    (reqs : List (Nat × Nat))
    (hempty : data.program_cache = { count := 0, head := 0, tail := 0 })
    (hdistinct : reqs.dedup.length ≤ GLES2_MAX_CACHED_PROGRAMS) :
    ∃ (entries : List Nat) (data' : GLES2_RenderData),
      GLES2_CacheProgram_run env data reqs = some (entries, data') ∧
      (0 ∉ entries →
        deletedPrograms data'.gl.log = deletedPrograms data.gl.log ∧
        ∀ p ∈ reqs, p ∈ data'.cachedKeys) := by
  have hinv := GLES2_RenderData.CacheInv_of_empty hempty
  obtain ⟨entries, data', hrun, hres⟩ :=
    GLES2_CacheProgram_run_capacity env reqs data [] [] hinv (by rw [hempty]; rfl)
      (fun k => by simp) (by simpa using hdistinct)
  exact ⟨entries, data', hrun, fun h0 => ⟨(hres h0).1, fun p hp => (hres h0).2 p (by simpa using hp)⟩⟩

theorem GLES2_CacheProgram_within_capacity_witness :
    GLES2_RenderData.zero.program_cache = { count := 0, head := 0, tail := 0 } ∧
    ([(1, 1), (1, 2), (1, 1), (1, 3)] : List (Nat × Nat)).dedup.length
      ≤ GLES2_MAX_CACHED_PROGRAMS ∧
    ∃ (entries : List Nat) (data' : GLES2_RenderData),
      GLES2_CacheProgram_run Env.plain GLES2_RenderData.zero [(1, 1), (1, 2), (1, 1), (1, 3)]
        = some (entries, data') ∧
      (0 ∉ entries →
        deletedPrograms data'.gl.log = deletedPrograms GLES2_RenderData.zero.gl.log ∧
        ∀ p ∈ [(1, 1), (1, 2), (1, 1), (1, 3)], p ∈ data'.cachedKeys) :=
  ⟨rfl, by decide,
    GLES2_CacheProgram_within_capacity Env.plain GLES2_RenderData.zero
      [(1, 1), (1, 2), (1, 1), (1, 3)] rfl (by decide)⟩

/-- C3: in every well-linked cache, a request for a pair that is cached
returns the entry that stores the pair, makes it the head, keeps the other
entries in their order, leaves `count` and the contents of every entry as they
were, and makes no GL call: no program is created or linked. -/
theorem GLES2_CacheProgram_hit_moves_to_front (env : Env) (data : GLES2_RenderData)
    (vertex fragment : Nat) (hl : data.Linked data.cached)
    (hm : (vertex, fragment) ∈ data.cachedKeys) :
    ∃ (a : Nat) (data' : GLES2_RenderData),
      GLES2_CacheProgram env data vertex fragment = some (a, data') ∧
      a ∈ data.cached ∧ data.heap.key a = (vertex, fragment) ∧
      data'.program_cache.head = a ∧
      data'.cached = a :: data.cached.erase a ∧
      data'.program_cache.count = data.program_cache.count ∧
      data'.gl = data.gl ∧
      (∀ y, (data'.heap.cells y).map GLES2_ProgramCacheEntry.payload
            = (data.heap.cells y).map GLES2_ProgramCacheEntry.payload) := by
  obtain ⟨a, data', hrun, _, hmem, _, hkey, hlinked, hdata, _, _, hpay⟩ :=
    GLES2_CacheProgram_hit_linked env data data.cached vertex fragment hl hm
  refine ⟨a, data', hrun, hmem, hkey, by rw [hdata], GLES2_RenderData.cached_of_Linked hlinked,
    by rw [hdata], by rw [hdata], hpay⟩

theorem GLES2_CacheProgram_hit_moves_to_front_witness :
    GLES2_RenderData.sample.Linked GLES2_RenderData.sample.cached ∧
    (1, 1) ∈ GLES2_RenderData.sample.cachedKeys ∧
    ∃ (a : Nat) (data' : GLES2_RenderData),
      GLES2_CacheProgram Env.plain GLES2_RenderData.sample 1 1 = some (a, data') ∧
      a ∈ GLES2_RenderData.sample.cached ∧ GLES2_RenderData.sample.heap.key a = (1, 1) ∧
      data'.program_cache.head = a ∧
      data'.cached = a :: GLES2_RenderData.sample.cached.erase a ∧
      data'.program_cache.count = GLES2_RenderData.sample.program_cache.count ∧
      data'.gl = GLES2_RenderData.sample.gl ∧
      (∀ y, (data'.heap.cells y).map GLES2_ProgramCacheEntry.payload
            = (GLES2_RenderData.sample.heap.cells y).map GLES2_ProgramCacheEntry.payload) :=
  ⟨GLES2_RenderData.sample_Linked, by decide,
    GLES2_CacheProgram_hit_moves_to_front Env.plain GLES2_RenderData.sample 1 1
      GLES2_RenderData.sample_Linked (by decide)⟩

/-- C4: after every sequence of calls issued to an empty cache (the calls all
return), at most `GLES2_MAX_CACHED_PROGRAMS` entries are reachable from `head`,
no two of them store the same pair, and when the last call returned an entry
that entry is the head and stores the pair just requested. -/
theorem GLES2_CacheProgram_cache_invariant (env : Env) (data : GLES2_RenderData)
    (reqs : List (Nat × Nat))
    (hempty : data.program_cache = { count := 0, head := 0, tail := 0 }) :
    ∃ (entries : List Nat) (data' : GLES2_RenderData),
      GLES2_CacheProgram_run env data reqs = some (entries, data') ∧
      data'.cached.length ≤ GLES2_MAX_CACHED_PROGRAMS ∧
      data'.cachedKeys.Nodup ∧
      (∀ v f r, reqs.getLast? = some (v, f) → entries.getLast? = some r → r ≠ 0 →
        data'.program_cache.head = r ∧ data'.cached.head? = some r ∧
        data'.heap.key r = (v, f)) := by
  obtain ⟨entries, data', ys, hrun, hinv, hlast⟩ :=
    GLES2_CacheProgram_run_inv env reqs data [] (GLES2_RenderData.CacheInv_of_empty hempty)
  obtain ⟨hl, hkeys, _, _, hlen, hcount⟩ := hinv
  refine ⟨entries, data', hrun, ?_, ?_, ?_⟩
  · rw [GLES2_RenderData.cached_of_Linked hl]; omega
  · rw [GLES2_RenderData.cachedKeys_of_Linked hl]; exact hkeys
  · intro v f r hv hr hne
    obtain ⟨hhead, hkey⟩ := hlast v f r hv hr hne
    refine ⟨hhead, ?_, hkey⟩
    rw [GLES2_RenderData.cached_of_Linked hl]
    cases ys with
    | nil =>
      have h0 : data'.program_cache.head = 0 := hl.1
      exact absurd (hhead ▸ h0) hne
    | cons y ys' =>
      have h1 : data'.program_cache.head = y := hl.1.1
      simp [← hhead, h1]

theorem GLES2_CacheProgram_cache_invariant_witness :
    GLES2_RenderData.zero.program_cache = { count := 0, head := 0, tail := 0 } ∧
    ∃ (entries : List Nat) (data' : GLES2_RenderData),
      GLES2_CacheProgram_run Env.plain GLES2_RenderData.zero (lruTrace ++ [(1, 9), (1, 2)])
        = some (entries, data') ∧
      data'.cached.length ≤ GLES2_MAX_CACHED_PROGRAMS ∧
      data'.cachedKeys.Nodup ∧
      (∀ v f r, (lruTrace ++ [(1, 9), (1, 2)]).getLast? = some (v, f) →
        entries.getLast? = some r → r ≠ 0 →
        data'.program_cache.head = r ∧ data'.cached.head? = some r ∧
        data'.heap.key r = (v, f)) :=
  ⟨rfl, GLES2_CacheProgram_cache_invariant Env.plain GLES2_RenderData.zero
    (lruTrace ++ [(1, 9), (1, 2)]) rfl⟩

/-- C10: when the pair is not cached, `SDL_calloc` succeeds and the link
fails, `GLES2_CacheProgram` returns `NULL`; the GL calls it made are those that
build the program followed by `glDeleteProgram` of that program; `count`,
`head` and `tail` are unchanged, and so are the list of entries and every
entry in it. -/
theorem GLES2_CacheProgram_link_failure (env : Env) (data : GLES2_RenderData)
    (vertex fragment : Nat) (hl : data.Linked data.cached)
    (hnm : (vertex, fragment) ∉ data.cachedKeys)
    (hc : env.callocOk data.heap.attempts = true)
    (hls : env.linkStatus data.gl.programs = false) :
    ∃ data' : GLES2_RenderData,
      GLES2_CacheProgram env data vertex fragment = some (0, data') ∧
      data'.gl.log = data.gl.log ++
        (GLES2_CacheProgram_build (env.programName data.gl.programs) vertex fragment
          ++ [GLCall.deleteProgram (env.programName data.gl.programs)]) ∧
      data'.program_cache = data.program_cache ∧
      data'.cached = data.cached ∧
      (∀ a ∈ data.cached, data'.heap.cells a = data.heap.cells a) ∧
      data'.heap.cells (data.heap.brk + 1) = none := by
  have hcells : ∀ y ∈ data.cached, (if y = data.heap.brk + 1 then none else data.heap.cells y)
      = data.heap.cells y := by
    intro y hy
    have := hl.2.2 y hy
    have hne : y ≠ data.heap.brk + 1 := by omega
    simp [hne]
  have hrun := GLES2_CacheProgram_miss_nolink env data vertex fragment hc hls
  rw [← GLES2_CacheProgram_eq_miss env data data.cached vertex fragment hl hnm] at hrun
  refine ⟨_, hrun, rfl, rfl, ?_, hcells, by simp⟩
  · refine GLES2_RenderData.cached_of_Linked ⟨?_, hl.2.1, ?_⟩
    · exact @Heap.seg_frame data.heap _ _ 0 _ 0 hcells hl.1
    · intro a ha
      have := hl.2.2 a ha
      show a ≤ data.heap.brk + 1
      omega

theorem GLES2_CacheProgram_link_failure_witness :
    GLES2_RenderData.sample.Linked GLES2_RenderData.sample.cached ∧
    (1, 3) ∉ GLES2_RenderData.sample.cachedKeys ∧
    Env.nolink.callocOk GLES2_RenderData.sample.heap.attempts = true ∧
    Env.nolink.linkStatus GLES2_RenderData.sample.gl.programs = false ∧
    ∃ data' : GLES2_RenderData,
      GLES2_CacheProgram Env.nolink GLES2_RenderData.sample 1 3 = some (0, data') ∧
      data'.gl.log = GLES2_RenderData.sample.gl.log ++
        (GLES2_CacheProgram_build (Env.nolink.programName GLES2_RenderData.sample.gl.programs) 1 3
          ++ [GLCall.deleteProgram (Env.nolink.programName GLES2_RenderData.sample.gl.programs)]) ∧
      data'.program_cache = GLES2_RenderData.sample.program_cache ∧
      data'.cached = GLES2_RenderData.sample.cached ∧
      (∀ a ∈ GLES2_RenderData.sample.cached,
        data'.heap.cells a = GLES2_RenderData.sample.heap.cells a) ∧
      data'.heap.cells (GLES2_RenderData.sample.heap.brk + 1) = none :=
  ⟨GLES2_RenderData.sample_Linked, by decide, rfl, rfl,
    GLES2_CacheProgram_link_failure Env.nolink GLES2_RenderData.sample 1 3
      GLES2_RenderData.sample_Linked (by decide) rfl rfl⟩

/-! ## What the state setup leaves alone -/

theorem GLES2_RenderData.Extends.refl (data : GLES2_RenderData) : data.Extends data :=
  ⟨rfl, [], by simp, by simp⟩

theorem GLES2_RenderData.Extends.trans {a b c : GLES2_RenderData}
    (h1 : a.Extends b) (h2 : b.Extends c) : a.Extends c := by
  obtain ⟨hd1, l1, hl1, hp1⟩ := h1
  obtain ⟨hd2, l2, hl2, hp2⟩ := h2
  refine ⟨hd2.trans hd1, l1 ++ l2, by rw [hl2, hl1, List.append_assoc], ?_⟩
  intro x hx
  rcases List.mem_append.mp hx with h | h
  · exact hp1 x h
  · exact hp2 x h

/-- A step that keeps the debug flag and appends the calls `cs`. -/
theorem GLES2_RenderData.Extends.of_log {a b : GLES2_RenderData}
    (cs : List GLCall) (hd : b.debug_enabled = a.debug_enabled)
    (hl : b.gl.log = a.gl.log ++ cs) (hp : ∀ c ∈ cs, c.isDraw = false) : a.Extends b :=
  ⟨hd, cs, hl, hp⟩

theorem GLES2_RenderData.Extends.of_same {a b : GLES2_RenderData}
    (hd : b.debug_enabled = a.debug_enabled) (hl : b.gl.log = a.gl.log) : a.Extends b :=
  ⟨hd, [], by simp [hl], by simp⟩

theorem GLES2_CacheProgram_hit_extends (data data' : GLES2_RenderData)
    (entry : Nat) (h : GLES2_CacheProgram_hit data entry = some data') : data.Extends data' := by
  unfold GLES2_CacheProgram_hit at h
  split at h
  · simp only [Option.some.injEq] at h
    subst h
    exact GLES2_RenderData.Extends.refl data
  · simp only [Option.bind_eq_bind, Option.bind_eq_some] at h
    obtain ⟨_, _, _, _, _, _, _, _, _, _, _, _, h⟩ := h
    simp only [Option.some.injEq] at h
    subst h
    exact GLES2_RenderData.Extends.of_same rfl rfl

theorem GLES2_CacheProgram_evict_extends (data data' : GLES2_RenderData)
    (h : GLES2_CacheProgram_evict data = some data') : data.Extends data' := by
  unfold GLES2_CacheProgram_evict at h
  split at h
  · simp only [Option.bind_eq_bind, Option.bind_eq_some] at h
    obtain ⟨t, _, _, _, h⟩ := h
    simp only [Option.some.injEq] at h
    subst h
    exact GLES2_RenderData.Extends.of_log [GLCall.deleteProgram t.id] rfl rfl
      (by intro c hc; rw [List.mem_singleton.mp hc]; rfl)
  · simp only [Option.some.injEq] at h
    subst h
    exact GLES2_RenderData.Extends.refl data

theorem isDraw_getUniformLocation (id : Nat) (us : List Nat) :
    ∀ c ∈ us.map (GLCall.getUniformLocation id), c.isDraw = false := by
  intro c hc
  obtain ⟨u, _, rfl⟩ := List.mem_map.mp hc
  rfl

theorem isDraw_defaults (id : Nat) (locs : List Int) (m : List GLfloat) :
    ∀ c ∈ GLES2_CacheProgram_defaults id locs m, c.isDraw = false := by
  intro c hc
  unfold GLES2_CacheProgram_defaults at hc
  simp only [List.mem_append, List.mem_singleton] at hc
  rcases hc with (((hc | hc) | hc) | hc) | hc
  · rw [hc]; rfl
  all_goals
    split at hc
    · rw [List.mem_singleton.mp hc]; rfl
    · simp at hc

theorem isDraw_build (id vertex fragment : Nat) :
    ∀ c ∈ GLES2_CacheProgram_build id vertex fragment, c.isDraw = false := by
  intro c hc
  simp only [GLES2_CacheProgram_build, List.mem_cons, List.mem_singleton, List.not_mem_nil,
    or_false] at hc
  rcases hc with h | h | h | h | h | h | h | h <;> rw [h] <;> rfl

theorem GLES2_CacheProgram_insert_extends (env : Env) (data data' : GLES2_RenderData)
    (entry n : Nat) (h : GLES2_CacheProgram_insert env data entry n = some data') :
    data.Extends data' := by
  unfold GLES2_CacheProgram_insert at h
  simp only [Option.bind_eq_some] at h
  obtain ⟨e, _, h3, _, h⟩ := h
  simp only [Option.some.injEq] at h
  subst h
  refine GLES2_RenderData.Extends.of_log _ rfl rfl ?_
  intro c hc
  rcases List.mem_append.mp hc with hc | hc
  · exact isDraw_getUniformLocation _ _ c hc
  · exact isDraw_defaults _ _ _ c hc

theorem GLES2_CacheProgram_create_extends (env : Env) (data : GLES2_RenderData)
    (vertex fragment : Nat) : data.Extends (GLES2_CacheProgram_create env data vertex fragment) :=
  GLES2_RenderData.Extends.of_log _ rfl rfl (isDraw_build _ _ _)

theorem GLES2_CacheProgram_miss_extends (env : Env) (data data' : GLES2_RenderData)
    (vertex fragment r : Nat)
    (h : GLES2_CacheProgram_miss env data vertex fragment = some (r, data')) :
    data.Extends data' := by
  unfold GLES2_CacheProgram_miss at h
  split at h
  · simp only [Option.some.injEq, Prod.mk.injEq] at h
    rw [← h.2]
    exact GLES2_RenderData.Extends.of_same rfl rfl
  · simp only at h
    split at h
    · simp only [Option.bind_eq_some] at h
      obtain ⟨hp, _, h⟩ := h
      simp only [Option.some.injEq, Prod.mk.injEq] at h
      rw [← h.2]
      refine (GLES2_CacheProgram_create_extends env data vertex fragment).trans ?_
      exact GLES2_RenderData.Extends.of_log [GLCall.deleteProgram _] rfl rfl
        (by intro c hc; rw [List.mem_singleton.mp hc]; rfl)
    · simp only [Option.bind_eq_some] at h
      obtain ⟨d3, h3, d4, h4, h⟩ := h
      simp only [Option.some.injEq, Prod.mk.injEq] at h
      rw [← h.2]
      exact ((GLES2_CacheProgram_create_extends env data vertex fragment).trans
        (GLES2_CacheProgram_insert_extends env _ _ _ _ h3)).trans
        (GLES2_CacheProgram_evict_extends _ _ h4)

theorem GLES2_CacheProgram_extends (env : Env) (data data' : GLES2_RenderData)
    (vertex fragment r : Nat)
    (h : GLES2_CacheProgram env data vertex fragment = some (r, data')) :
    data.Extends data' := by
  unfold GLES2_CacheProgram at h
  simp only [Option.bind_eq_some] at h
  obtain ⟨entry, _, h⟩ := h
  split at h
  · simp only [Option.bind_eq_some, Option.some.injEq, Prod.mk.injEq] at h
    obtain ⟨d1, hd1, _, h⟩ := h
    rw [← h]
    exact GLES2_CacheProgram_hit_extends _ _ _ hd1
  · exact GLES2_CacheProgram_miss_extends env _ _ _ _ _ h

theorem GLES2_CacheShader_extends (env : Env) (data : GLES2_RenderData)
    (type : GLES2_ShaderType) (fragment : Bool) :
    data.Extends (GLES2_CacheShader env data type fragment).2 := by
  have hattempt : ∀ (d : GLES2_RenderData) (k : Nat),
      d.Extends (GLES2_CacheShader_attempt env d type fragment k).2.2 := by
    intro d k
    refine GLES2_RenderData.Extends.of_log _ rfl rfl ?_
    intro c hc
    simp only [List.mem_cons, List.mem_singleton, List.not_mem_nil, or_false] at hc
    rcases hc with h | h | h | h <;> rw [h] <;> rfl
  unfold GLES2_CacheShader
  split
  · exact GLES2_RenderData.Extends.of_same rfl rfl
  · simp only
    split
    · exact (hattempt data 0).trans (GLES2_RenderData.Extends.of_same rfl rfl)
    · split
      · exact ((hattempt data 0).trans (hattempt _ 1)).trans
          (GLES2_RenderData.Extends.of_same rfl rfl)
      · refine ((hattempt data 0).trans (hattempt _ 1)).trans ?_
        refine GLES2_RenderData.Extends.of_log _ rfl rfl ?_
        intro c hc
        simp only [List.mem_append, List.mem_singleton] at hc
        rcases hc with (hc | hc) | hc
        · rw [hc]; rfl
        · split at hc
          · rw [List.mem_singleton.mp hc]; rfl
          · simp at hc
        · rw [hc]; rfl

theorem GLES2_SelectProgram_shader_extends (env : Env) (data : GLES2_RenderData)
    (type : GLES2_ShaderType) (fragment : Bool) :
    data.Extends (GLES2_SelectProgram_shader env data type fragment).2 := by
  unfold GLES2_SelectProgram_shader
  split
  · exact GLES2_RenderData.Extends.refl data
  · exact GLES2_CacheShader_extends env data type fragment

theorem GLES2_SelectProgram_fault_extends (data data' : GLES2_RenderData) (r : Bool)
    (h : GLES2_SelectProgram_fault data = some (r, data')) : data.Extends data' := by
  simp only [GLES2_SelectProgram_fault, Option.some.injEq, Prod.mk.injEq] at h
  rw [← h.2]
  exact GLES2_RenderData.Extends.of_same rfl rfl

theorem GLES2_SelectProgram_params_extends (data : GLES2_RenderData) (program : Nat)
    (p : GLES2_ProgramCacheEntry) (ftype : GLES2_ShaderType) (shader_params : ShaderParams) :
    data.Extends (GLES2_SelectProgram_params data program p ftype shader_params) := by
  unfold GLES2_SelectProgram_params
  split
  · refine GLES2_RenderData.Extends.of_log _ rfl rfl ?_
    intro c hc
    simp only at hc
    split at hc
    · simp only [List.mem_append] at hc
      rcases hc with hc | hc <;>
      · split at hc
        · rw [List.mem_singleton.mp hc]; rfl
        · simp at hc
    · split at hc
      · rw [List.mem_singleton.mp hc]; rfl
      · simp at hc
  · exact GLES2_RenderData.Extends.refl data

theorem GLES2_SelectProgram_use_extends (env : Env) (data data' : GLES2_RenderData)
    (vertex fragment : Nat) (ftype : GLES2_ShaderType) (shader_params : ShaderParams) (r : Bool)
    (h : GLES2_SelectProgram_use env data vertex fragment ftype shader_params = some (r, data')) :
    data.Extends data' := by
  unfold GLES2_SelectProgram_use at h
  simp only [Option.bind_eq_some] at h
  obtain ⟨⟨program, d3⟩, hcp, h⟩ := h
  have h3 := GLES2_CacheProgram_extends env _ _ _ _ _ hcp
  split at h
  · exact h3.trans (GLES2_SelectProgram_fault_extends _ _ _ h)
  · simp only [Option.bind_eq_some, Option.some.injEq, Prod.mk.injEq] at h
    obtain ⟨p, _, _, h⟩ := h
    rw [← h]
    refine h3.trans ?_
    have h4 : d3.Extends (d3.call [GLCall.useProgram p.id]) :=
      GLES2_RenderData.Extends.of_log _ rfl rfl
        (by intro c hc; rw [List.mem_singleton.mp hc]; rfl)
    have h5 := GLES2_SelectProgram_params_extends (d3.call [GLCall.useProgram p.id]) program p
      ftype shader_params
    exact (h4.trans h5).trans (GLES2_RenderData.Extends.of_same rfl rfl)

theorem GLES2_SelectProgram_load_extends (env : Env) (data data' : GLES2_RenderData)
    (ftype : GLES2_ShaderType) (shader_params : ShaderParams) (r : Bool)
    (h : GLES2_SelectProgram_load env data ftype shader_params = some (r, data')) :
    data.Extends data' := by
  have hv := GLES2_SelectProgram_shader_extends env data GLES2_ShaderType.VERTEX_DEFAULT false
  have hf := GLES2_SelectProgram_shader_extends env
    (GLES2_SelectProgram_shader env data GLES2_ShaderType.VERTEX_DEFAULT false).2 ftype true
  unfold GLES2_SelectProgram_load at h
  split at h
  · exact hv.trans (GLES2_SelectProgram_fault_extends _ _ _ h)
  · split at h
    · exact (hv.trans hf).trans (GLES2_SelectProgram_fault_extends _ _ _ h)
    · simp only [Option.bind_eq_some] at h
      obtain ⟨cur, _, h⟩ := h
      split at h
      · simp only [Option.some.injEq, Prod.mk.injEq] at h
        rw [← h.2]
        exact hv.trans hf
      · exact (hv.trans hf).trans (GLES2_SelectProgram_use_extends env _ _ _ _ _ _ _ h)

theorem GLES2_SelectProgram_extends (env : Env) (data data' : GLES2_RenderData) (texture : Nat)
    (source : GLES2_ImageSource) (scale_mode : SDL_ScaleMode) (colorspace : SDL_Colorspace)
    (r : Bool)
    (h : GLES2_SelectProgram env data texture source scale_mode colorspace = some (r, data')) :
    data.Extends data' := by
  unfold GLES2_SelectProgram at h
  split at h
  · exact GLES2_SelectProgram_fault_extends _ _ _ h
  · rename_i msg _
    have h0 : data.Extends (SDL_SetError data msg) := GLES2_RenderData.Extends.of_same rfl rfl
    exact h0.trans (GLES2_SelectProgram_fault_extends _ _ _ h)
  · exact GLES2_SelectProgram_load_extends env _ _ _ _ _ h

theorem SetDrawState_viewport_extends (env : Env) (data : GLES2_RenderData) :
    data.Extends (SetDrawState_viewport env data) := by
  unfold SetDrawState_viewport
  split
  · exact GLES2_RenderData.Extends.of_log _ rfl rfl
      (by intro c hc; rw [List.mem_singleton.mp hc]; rfl)
  · exact GLES2_RenderData.Extends.refl data

theorem GLES2_RenderData.Extends.call_ds (data : GLES2_RenderData) (cs : List GLCall)
    (ds : GLES2_DrawStateCache) (h : ∀ c ∈ cs, c.isDraw = false) :
    data.Extends { data.call cs with drawstate := ds } :=
  GLES2_RenderData.Extends.of_log cs rfl rfl h

theorem SetDrawState_cliprect_extends (data : GLES2_RenderData) :
    data.Extends (SetDrawState_cliprect data) := by
  have h1 : data.Extends
      (if data.drawstate.cliprect_enabled_dirty then
        { data.call [if data.drawstate.cliprect_enabled = false
                     then GLCall.disable GLCap.SCISSOR_TEST
                     else GLCall.enable GLCap.SCISSOR_TEST] with
          drawstate := { data.drawstate with cliprect_enabled_dirty := false } }
      else data) := by
    split
    · refine GLES2_RenderData.Extends.call_ds _ _ _ ?_
      intro c hc
      rw [List.mem_singleton.mp hc]
      split <;> rfl
    · exact GLES2_RenderData.Extends.refl data
  have key : ∀ d1 : GLES2_RenderData, d1.Extends
      (if d1.drawstate.cliprect_enabled ∧ d1.drawstate.cliprect_dirty then
        { d1.call
            [GLCall.scissor (int_wrap (d1.drawstate.viewport.x + d1.drawstate.cliprect.x))
               (if d1.drawstate.target ≠ 0 then
                  int_wrap (d1.drawstate.viewport.y + d1.drawstate.cliprect.y)
                else int_wrap (d1.drawstate.drawableh - d1.drawstate.viewport.y
                  - d1.drawstate.cliprect.y - d1.drawstate.cliprect.h))
               d1.drawstate.cliprect.w d1.drawstate.cliprect.h] with
          drawstate := { d1.drawstate with cliprect_dirty := false } }
      else d1) := by
    intro d1
    split
    · exact GLES2_RenderData.Extends.call_ds _ _ _
        (by intro c hc; rw [List.mem_singleton.mp hc]; rfl)
    · exact GLES2_RenderData.Extends.refl d1
  exact h1.trans (key _)

theorem SetDrawState_texturing_extends (data : GLES2_RenderData) (texture : Nat) :
    data.Extends (SetDrawState_texturing data texture) := by
  unfold SetDrawState_texturing
  split
  · split
    · exact GLES2_RenderData.Extends.of_log _ rfl rfl
        (by intro c hc; rw [List.mem_singleton.mp hc]; rfl)
    · exact GLES2_RenderData.Extends.of_log _ rfl rfl
        (by intro c hc; rw [List.mem_singleton.mp hc]; rfl)
  · exact GLES2_RenderData.Extends.refl data

theorem SetDrawState_before_extends (env : Env) (data : GLES2_RenderData)
    (cmd : SDL_RenderCommand) (vertices : Nat) :
    data.Extends (SetDrawState_before env data cmd vertices) := by
  unfold SetDrawState_before
  refine (((SetDrawState_viewport_extends env data).trans
    (SetDrawState_cliprect_extends (SetDrawState_viewport env data))).trans
    (SetDrawState_texturing_extends (SetDrawState_cliprect (SetDrawState_viewport env data))
      cmd.texture)).trans ?_
  refine GLES2_RenderData.Extends.of_log _ rfl rfl ?_
  intro c hc
  split at hc
  · rw [List.mem_singleton.mp hc]; rfl
  · simp at hc

theorem SetDrawState_projection_extends (data data' : GLES2_RenderData)
    (h : SetDrawState_projection data = some data') : data.Extends data' := by
  unfold SetDrawState_projection at h
  split at h
  · exact absurd h (by simp)
  · split at h
    · simp only [Option.some.injEq] at h
      rw [← h]
      exact GLES2_RenderData.Extends.of_log _ rfl rfl
        (by intro c hc; rw [List.mem_singleton.mp hc]; rfl)
    · simp only [Option.some.injEq] at h
      rw [← h]
      exact GLES2_RenderData.Extends.refl data

theorem SetDrawState_blend_extends (env : Env) (data : GLES2_RenderData) (blend : SDL_BlendMode) :
    data.Extends (SetDrawState_blend env data blend) := by
  unfold SetDrawState_blend
  split
  · refine GLES2_RenderData.Extends.of_log _ rfl rfl ?_
    intro c hc
    split at hc
    · rw [List.mem_singleton.mp hc]; rfl
    · simp only [List.mem_cons, List.mem_singleton, List.not_mem_nil, or_false] at hc
      rcases hc with h | h | h <;> rw [h] <;> rfl
  · exact GLES2_RenderData.Extends.refl data

/-- A state setup by `SetDrawState` draws nothing and keeps the debug flag. -/
theorem SetDrawState_extends (env : Env) (data data' : GLES2_RenderData)
    (cmd : SDL_RenderCommand) (imgsrc : GLES2_ImageSource) (vertices : Nat) (r : Bool)
    (h : SetDrawState env data cmd imgsrc vertices = some (r, data')) : data.Extends data' := by
  unfold SetDrawState at h
  simp only [Option.bind_eq_some] at h
  obtain ⟨cs, _, ⟨r3, d3⟩, hsel, h⟩ := h
  have h2 := (SetDrawState_before_extends env data cmd vertices).trans
    (GLES2_SelectProgram_extends env _ _ _ _ _ _ _ hsel)
  split at h
  · simp only [Option.some.injEq, Prod.mk.injEq] at h
    rw [← h.2]
    exact h2
  · simp only [Option.bind_eq_some, Option.some.injEq, Prod.mk.injEq] at h
    obtain ⟨d4, hproj, _, h⟩ := h
    rw [← h]
    refine ((h2.trans (SetDrawState_projection_extends _ _ hproj)).trans
      (SetDrawState_blend_extends env d4 cmd.blend)).trans ?_
    refine GLES2_RenderData.Extends.of_log _ rfl rfl ?_
    intro c hc
    simp only [SetDrawState_pointers, List.mem_cons, List.mem_singleton, List.not_mem_nil,
      or_false] at hc
    rcases hc with h | h <;> rw [h] <;> rfl

theorem SetTextureScaleMode_extends (data : GLES2_RenderData) (textype : Nat)
    (mode : SDL_ScaleMode) : data.Extends (SetTextureScaleMode data textype mode).2 := by
  unfold SetTextureScaleMode
  cases mode
  · exact GLES2_RenderData.Extends.of_same rfl rfl
  all_goals
    refine GLES2_RenderData.Extends.of_log _ rfl rfl ?_
    intro c hc
    simp only [List.mem_cons, List.mem_singleton, List.not_mem_nil, or_false] at hc
    rcases hc with h | h <;> rw [h] <;> rfl

theorem GLES2_RenderData.Extends.call_one (data : GLES2_RenderData) (c : GLCall)
    (hc : c.isDraw = false) : data.Extends (data.call [c]) :=
  GLES2_RenderData.Extends.of_log _ rfl rfl
    (by intro x hx; rw [List.mem_singleton.mp hx]; exact hc)

theorem SetCopyState_scaleUnits_extends (textype : Nat) (mode : SDL_ScaleMode) :
    ∀ (us : List Nat) (data : GLES2_RenderData),
      data.Extends (SetCopyState_scaleUnits textype mode data us).2
  | [], data => GLES2_RenderData.Extends.refl data
  | u :: us, data => by
    have h1 := (GLES2_RenderData.Extends.call_one data (GLCall.activeTexture u) rfl).trans
      (SetTextureScaleMode_extends (data.call [GLCall.activeTexture u]) textype mode)
    unfold SetCopyState_scaleUnits
    split
    · exact h1
    · exact h1.trans (SetCopyState_scaleUnits_extends textype mode us _)

theorem SetCopyState_scale_extends (data : GLES2_RenderData) (texture : Nat) (t : SDL_Texture)
    (mode : SDL_ScaleMode) : data.Extends (SetCopyState_scale data texture t mode).2 := by
  unfold SetCopyState_scale
  by_cases hm : mode ≠ t.texture_scale_mode
  · rw [if_pos hm]
    dsimp only
    have h1 := SetCopyState_scaleUnits_extends t.texture_type mode (SetCopyState_units t) data
    by_cases h1f : (SetCopyState_scaleUnits t.texture_type mode data (SetCopyState_units t)).1
        = false
    · rw [if_pos h1f]
      exact h1
    · rw [if_neg h1f]
      obtain ⟨d2, hd2⟩ : ∃ d2, d2 = (if SetCopyState_units t = [] then
             (SetCopyState_scaleUnits t.texture_type mode data (SetCopyState_units t)).2
           else (SetCopyState_scaleUnits t.texture_type mode data (SetCopyState_units t)).2.call
                  [GLCall.activeTexture 0]) := ⟨_, rfl⟩
      rw [← hd2]
      have h2 : (SetCopyState_scaleUnits t.texture_type mode data
          (SetCopyState_units t)).2.Extends d2 := by
        rw [hd2]
        split
        · exact GLES2_RenderData.Extends.refl _
        · exact GLES2_RenderData.Extends.call_one _ _ rfl
      have h3 := (h1.trans h2).trans (SetTextureScaleMode_extends d2 t.texture_type mode)
      split
      · exact h3
      · exact h3.trans (GLES2_RenderData.Extends.of_same rfl rfl)
  · rw [if_neg hm]
    exact GLES2_RenderData.Extends.refl data

theorem SetTextureAddressMode_extends (data : GLES2_RenderData) (textype : Nat)
    (u v : SDL_TextureAddressMode) : data.Extends (SetTextureAddressMode data textype u v) := by
  refine GLES2_RenderData.Extends.of_log _ rfl rfl ?_
  intro c hc
  simp only [List.mem_cons, List.mem_singleton, List.not_mem_nil, or_false] at hc
  rcases hc with h | h <;> rw [h] <;> split <;> rfl

theorem SetCopyState_address_units_extends (textype : Nat) (u v : SDL_TextureAddressMode) :
    ∀ (us : List Nat) (data : GLES2_RenderData),
      data.Extends (us.foldl
        (fun d unit => SetTextureAddressMode (d.call [GLCall.activeTexture unit]) textype u v)
        data)
  | [], data => GLES2_RenderData.Extends.refl data
  | x :: us, data => by
    simp only [List.foldl_cons]
    exact ((GLES2_RenderData.Extends.call_one data (GLCall.activeTexture x) rfl).trans
      (SetTextureAddressMode_extends _ textype u v)).trans
      (SetCopyState_address_units_extends textype u v us _)

theorem SetCopyState_address_extends (data : GLES2_RenderData) (texture : Nat) (t : SDL_Texture)
    (u v : SDL_TextureAddressMode) :
    data.Extends (SetCopyState_address data texture t u v) := by
  unfold SetCopyState_address
  split
  · dsimp only
    obtain ⟨d1, hd1⟩ : ∃ d1, d1 = (SetCopyState_units t).foldl
        (fun d unit => SetTextureAddressMode (d.call [GLCall.activeTexture unit])
                         t.texture_type u v) data := ⟨_, rfl⟩
    have h1 : data.Extends d1 := by
      rw [hd1]
      exact SetCopyState_address_units_extends t.texture_type u v (SetCopyState_units t) data
    rw [← hd1]
    obtain ⟨d2, hd2⟩ : ∃ d2, d2 = (if SetCopyState_units t = [] then d1
        else d1.call [GLCall.activeTexture 0]) := ⟨_, rfl⟩
    have h2 : d1.Extends d2 := by
      rw [hd2]
      split
      · exact GLES2_RenderData.Extends.refl _
      · exact GLES2_RenderData.Extends.call_one _ _ rfl
    rw [← hd2]
    have h3 : d2.Extends (SetTextureAddressMode d2 t.texture_type u v) :=
      SetTextureAddressMode_extends d2 t.texture_type u v
    have h4 : (SetTextureAddressMode d2 t.texture_type u v).Extends
        ((SetTextureAddressMode d2 t.texture_type u v).setTexture texture
          { t with texture_address_mode_u := u, texture_address_mode_v := v }) :=
      GLES2_RenderData.Extends.of_same rfl rfl
    exact ((h1.trans h2).trans h3).trans h4
  · exact GLES2_RenderData.Extends.refl data

theorem SetCopyState_bind_extends (data : GLES2_RenderData) (texture : Nat) (t : SDL_Texture) :
    data.Extends (SetCopyState_bind data texture t) := by
  unfold SetCopyState_bind
  split
  · refine GLES2_RenderData.Extends.of_log _ rfl rfl ?_
    intro c hc
    simp only [List.mem_append, List.mem_singleton] at hc
    rcases hc with hc | hc
    · split at hc
      · simp only [List.mem_cons, List.mem_singleton, List.not_mem_nil, or_false] at hc
        rcases hc with h | h | h | h | h <;> rw [h] <;> rfl
      · split at hc
        · simp only [List.mem_cons, List.mem_singleton, List.not_mem_nil, or_false] at hc
          rcases hc with h | h | h <;> rw [h] <;> rfl
        · simp at hc
    · rw [hc]; rfl
  · exact GLES2_RenderData.Extends.refl data

theorem SetCopyState_after_extends (data data' : GLES2_RenderData) (cmd : SDL_RenderCommand)
    (tex : SDL_Texture) (ret r : Bool)
    (h : SetCopyState_after data cmd tex ret = some (r, data')) : data.Extends data' := by
  unfold SetCopyState_after at h
  simp only [Option.bind_eq_some] at h
  obtain ⟨t2, _, h⟩ := h
  have h1 := (SetCopyState_bind_extends data cmd.texture tex).trans
    (SetCopyState_scale_extends _ cmd.texture t2 cmd.texture_scale_mode)
  split at h
  · simp only [Option.some.injEq, Prod.mk.injEq] at h
    rw [← h.2]
    exact h1
  · simp only [Option.bind_eq_some, Option.some.injEq, Prod.mk.injEq] at h
    obtain ⟨t3, _, _, h⟩ := h
    rw [← h]
    exact h1.trans (SetCopyState_address_extends _ _ _ _ _)

/-- A state setup by `SetCopyState` draws nothing and keeps the debug flag. -/
theorem SetCopyState_extends (env : Env) (renderer : SDL_Renderer) (data data' : GLES2_RenderData)
    (cmd : SDL_RenderCommand) (vertices : Nat) (r : Bool)
    (h : SetCopyState env renderer data cmd vertices = some (r, data')) :
    data.Extends data' := by
  unfold SetCopyState at h
  simp only [Option.bind_eq_some] at h
  obtain ⟨tex, _, tf, _, h⟩ := h
  split at h
  · simp only [Option.some.injEq, Prod.mk.injEq] at h
    rw [← h.2]
    exact GLES2_RenderData.Extends.of_same rfl rfl
  · simp only [Option.bind_eq_some] at h
    obtain ⟨⟨r1, d1⟩, hds, h⟩ := h
    exact (SetDrawState_extends env _ _ _ _ _ _ hds).trans
      (SetCopyState_after_extends _ _ _ _ _ _ h)

theorem GLES2_RunCommandQueue_setup_extends (env : Env) (renderer : SDL_Renderer)
    (data data' : GLES2_RenderData) (cmd : SDL_RenderCommand) (vertices : Nat) (r : Bool)
    (h : GLES2_RunCommandQueue_setup env renderer data cmd vertices = some (r, data')) :
    data.Extends data' := by
  unfold GLES2_RunCommandQueue_setup at h
  split at h
  · exact SetCopyState_extends env renderer _ _ _ _ _ h
  · exact SetDrawState_extends env _ _ _ _ _ _ h

/-! ## The command loop -/

theorem drawCalls_append (l1 l2 : List GLCall) :
    drawCalls (l1 ++ l2) = drawCalls l1 ++ drawCalls l2 := by
  induction l1 with
  | nil => rfl
  | cons c l ih => cases c <;> simp [drawCalls, ih]

theorem drawCalls_eq_nil (l : List GLCall) (h : ∀ c ∈ l, c.isDraw = false) :
    drawCalls l = [] := by
  induction l with
  | nil => rfl
  | cons c l ih =>
    have hc := h c (List.mem_cons_self c l)
    have hl := ih (fun x hx => h x (List.mem_cons_of_mem c hx))
    cases c <;> simp_all [drawCalls, GLCall.isDraw]

theorem GLES2_RenderData.Extends.drawCalls_eq {a b : GLES2_RenderData} (h : a.Extends b) :
    drawCalls b.gl.log = drawCalls a.gl.log := by
  obtain ⟨_, cs, hl, hp⟩ := h
  rw [hl, drawCalls_append, drawCalls_eq_nil cs hp, List.append_nil]

theorem GLsizei_of_size_t_small (n : Nat) (h : n < 2 ^ 31) : GLsizei_of_size_t n = (n : Int) := by
  unfold GLsizei_of_size_t Int.bmod
  simp only [Nat.reducePow] at h ⊢
  have h1 : ((n : Int) % ((4294967296 : Nat) : Int)) = (n : Int) := by omega
  rw [h1]
  split
  · rfl
  · omega

/-- Passing over the `n` commands a draw call has taken in. -/
theorem GLES2_RunCommandQueue_loop_skip (env : Env) (renderer : SDL_Renderer) (colorswap : Bool)
    (vertices : Nat) :
    ∀ (xs : List SDL_RenderCommand) (data : GLES2_RenderData) (ys : List SDL_RenderCommand),
      GLES2_RunCommandQueue_loop env renderer colorswap vertices xs.length data (xs ++ ys)
        = GLES2_RunCommandQueue_loop env renderer colorswap vertices 0 data ys
  | [], _, _ => rfl
  | _ :: xs, data, ys => by
    simp only [List.length_cons, List.cons_append, GLES2_RunCommandQueue_loop]
    exact GLES2_RunCommandQueue_loop_skip env renderer colorswap vertices xs data ys

theorem GLES2_RunCommandQueue_loop_takeWhile (env : Env) (renderer : SDL_Renderer)
    (colorswap : Bool) (vertices : Nat) (p : SDL_RenderCommand → Bool)
    (data : GLES2_RenderData) (rest : List SDL_RenderCommand) :
    GLES2_RunCommandQueue_loop env renderer colorswap vertices (rest.takeWhile p).length data rest
      = GLES2_RunCommandQueue_loop env renderer colorswap vertices 0 data (rest.dropWhile p) := by
  have h := GLES2_RunCommandQueue_loop_skip env renderer colorswap vertices (rest.takeWhile p)
    data (rest.dropWhile p)
  rw [List.takeWhile_append_dropWhile] at h
  exact h

theorem GLES2_RunCommandQueue_joinsDraw_iff (cmd nextcmd : SDL_RenderCommand) :
    GLES2_RunCommandQueue_joinsDraw cmd nextcmd = true
      ↔ nextcmd.command = cmd.command ∧ nextcmd.batchKey = cmd.batchKey := by
  simp only [GLES2_RunCommandQueue_joinsDraw, SDL_RenderCommand.batchKey, Bool.and_eq_true,
    decide_eq_true_eq, Prod.mk.injEq]
  tauto

/-- In a list that starts with a maximal run, the commands joining the first
command are the rest of that run. -/
theorem MaximalRuns.takeWhile_joinsDraw {c : SDL_RenderCommand} {r : List SDL_RenderCommand}
    {runs : List (List SDL_RenderCommand)} {kind : SDL_RenderCommandType}
    (hruns : MaximalRuns ((c :: r) :: runs))
    (hall : ∀ x ∈ (c :: r) :: runs, ∀ a ∈ x, a.command = kind) :
    (r ++ runs.flatten).takeWhile (GLES2_RunCommandQueue_joinsDraw c) = r
      ∧ (r ++ runs.flatten).dropWhile (GLES2_RunCommandQueue_joinsDraw c) = runs.flatten := by
  have hr : ∀ a ∈ r, GLES2_RunCommandQueue_joinsDraw c a = true := by
    intro a ha
    rw [GLES2_RunCommandQueue_joinsDraw_iff]
    have hkc := hall (c :: r) (List.mem_cons_self _ _) c (List.mem_cons_self _ _)
    have hka := hall (c :: r) (List.mem_cons_self _ _) a (List.mem_cons_of_mem _ ha)
    exact ⟨hka.trans hkc.symm,
      (hruns.1 (c :: r) (List.mem_cons_self _ _)).2 a (List.mem_cons_of_mem _ ha) c
        (List.mem_cons_self _ _)⟩
  have ht : runs.flatten.takeWhile (GLES2_RunCommandQueue_joinsDraw c) = []
      ∧ runs.flatten.dropWhile (GLES2_RunCommandQueue_joinsDraw c) = runs.flatten := by
    cases runs with
    | nil => exact ⟨rfl, rfl⟩
    | cons r2 runs2 =>
      have hne := (hruns.1 r2 (List.mem_cons_of_mem _ (List.mem_cons_self _ _))).1
      cases r2 with
      | nil => exact absurd hne (by simp)
      | cons c2 r2 =>
        have hch := hruns.2
        rw [List.chain'_cons] at hch
        have hk := hch.1 c (List.mem_cons_self _ _) c2 (List.mem_cons_self _ _)
        have hj : GLES2_RunCommandQueue_joinsDraw c c2 = false := by
          rw [Bool.eq_false_iff]
          intro h
          rw [GLES2_RunCommandQueue_joinsDraw_iff] at h
          exact hk h.2.symm
        simp only [List.flatten_cons, List.cons_append]
        rw [List.takeWhile_cons, List.dropWhile_cons, hj]
        exact ⟨rfl, rfl⟩
  constructor
  · rw [List.takeWhile_append_of_pos hr, ht.1, List.append_nil]
  · rw [List.dropWhile_append_of_pos hr, ht.2]

theorem MaximalRuns.tail {r : List SDL_RenderCommand} {runs : List (List SDL_RenderCommand)}
    (h : MaximalRuns (r :: runs)) : MaximalRuns runs :=
  ⟨fun x hx => h.1 x (List.mem_cons_of_mem _ hx), List.Chain'.tail h.2⟩

theorem drawCount_cons (c : SDL_RenderCommand) (r : List SDL_RenderCommand) :
    drawCount (c :: r) = c.count + drawCount r := by
  simp [drawCount]

/-- One draw call per maximal run, on the loop. -/
theorem GLES2_RunCommandQueue_loop_runs (env : Env) (renderer : SDL_Renderer) (colorswap : Bool)
    (vertices : Nat) (kind : SDL_RenderCommandType)
    (hkind : kind = SDL_RenderCommandType.DRAW_POINTS ∨ kind = SDL_RenderCommandType.GEOMETRY) :
    ∀ (runs : List (List SDL_RenderCommand)) (data data' : GLES2_RenderData)
      (setups : List Bool),
      MaximalRuns runs →
      (∀ r ∈ runs, ∀ c ∈ r, c.command = kind) →
      (∀ r ∈ runs, drawCount r < 2 ^ 31) →
      GLES2_RunCommandQueue_loop env renderer colorswap vertices 0 data runs.flatten
        = some (data', setups) →
      (∀ b ∈ setups, b = true) →
      data'.debug_enabled = data.debug_enabled ∧
      drawCalls data'.gl.log
        = drawCalls data.gl.log
          ++ runs.map (fun r => (GLES2_RunCommandQueue_op kind, (drawCount r : Int)))
  | [], data, data', setups, _, _, _, hloop, _ => by
    simp only [List.flatten_nil, GLES2_RunCommandQueue_loop, Option.some.injEq,
      Prod.mk.injEq] at hloop
    rw [← hloop.1]
    simp
  | [] :: runs, _, _, _, hruns, _, _, _, _ =>
    absurd (hruns.1 [] (List.mem_cons_self _ _)).1 (by simp)
  | (c :: r) :: runs, data, data', setups, hruns, hall, hsmall, hloop, hok => by
    have hc : c.command = kind := hall (c :: r) (List.mem_cons_self _ _) c (List.mem_cons_self _ _)
    obtain ⟨htake, hdrop⟩ := MaximalRuns.takeWhile_joinsDraw hruns hall
    have hstep : ∃ s : Bool × GLES2_RenderData,
        GLES2_RunCommandQueue_setup env renderer data c vertices = some s ∧
        ∃ r2 : GLES2_RenderData × List Bool,
          GLES2_RunCommandQueue_loop env renderer colorswap vertices 0
            (GLES2_RunCommandQueue_draw (GLES2_RunCommandQueue_op kind) c (r ++ runs.flatten)
              s.1 s.2) runs.flatten = some r2 ∧
          (r2.1, s.1 :: r2.2) = (data', setups) := by
      simp only [List.flatten_cons, List.cons_append] at hloop
      rw [GLES2_RunCommandQueue_loop] at hloop
      rcases hkind with hk | hk
      all_goals
        rw [hk] at hc
        rw [hc] at hloop
        simp only [Option.bind_eq_some, Option.map_eq_some', GLES2_RunCommandQueue_loop_takeWhile,
          hdrop] at hloop
        obtain ⟨s, hs, r2, hr2, heq⟩ := hloop
        refine ⟨s, hs, r2, ?_, heq⟩
        rw [hk]
        exact hr2
    obtain ⟨s, hs, r2, hr2, heq⟩ := hstep
    simp only [Prod.mk.injEq] at heq
    have hs1 : s.1 = true := hok s.1 (by rw [← heq.2]; exact List.mem_cons_self _ _)
    have hok2 : ∀ b ∈ r2.2, b = true :=
      fun b hb => hok b (by rw [← heq.2]; exact List.mem_cons_of_mem _ hb)
    have hext := GLES2_RunCommandQueue_setup_extends env renderer data s.2 c vertices s.1 hs
    have ih := GLES2_RunCommandQueue_loop_runs env renderer colorswap vertices kind hkind runs
      _ r2.1 r2.2 hruns.tail (fun x hx => hall x (List.mem_cons_of_mem _ hx))
      (fun x hx => hsmall x (List.mem_cons_of_mem _ hx)) hr2 hok2
    rw [← heq.1]
    have hsm := hsmall (c :: r) (List.mem_cons_self _ _)
    rw [drawCount_cons] at hsm
    simp only [GLES2_RunCommandQueue_draw, hs1, if_true, htake] at ih
    rw [GLsizei_of_size_t_small _ hsm] at ih
    refine ⟨ih.1.trans hext.1, ?_⟩
    rw [ih.2]
    simp only [GLES2_RenderData.call, drawCalls_append, drawCalls, hext.drawCalls_eq,
      List.map_cons, drawCount_cons, List.append_assoc, List.singleton_append, Nat.cast_add]

theorem GLES2_ActivateRenderer_extends (renderer : SDL_Renderer) (data : GLES2_RenderData) :
    data.Extends (GLES2_ActivateRenderer renderer data).2 := by
  unfold GLES2_ActivateRenderer
  split
  · exact GLES2_RenderData.Extends.of_same rfl rfl
  · exact GLES2_RenderData.Extends.refl data

theorem GLES2_RunCommandQueue_target_extends (renderer : SDL_Renderer)
    (data : GLES2_RenderData) : data.Extends (GLES2_RunCommandQueue_target renderer data) := by
  unfold GLES2_RunCommandQueue_target
  dsimp only
  split
  · exact GLES2_RenderData.Extends.of_same rfl rfl
  · exact GLES2_RenderData.Extends.of_same rfl rfl

theorem GL_CheckAllErrors_extends (data : GLES2_RenderData) (pending : List Nat) :
    data.Extends (GL_CheckAllErrors data pending).2 := by
  unfold GL_CheckAllErrors
  split
  · exact GLES2_RenderData.Extends.refl data
  · split
    · exact GLES2_RenderData.Extends.refl data
    · exact GLES2_RenderData.Extends.of_same rfl rfl

/-- The function is the loop between the activation of the renderer and the
final error check. -/
theorem GLES2_RunCommandQueue_of_loop (env : Env) (renderer : SDL_Renderer)
    (data d1 : GLES2_RenderData) (cmds : List SDL_RenderCommand) (vertices : Nat)
    (pending : List Nat) (colorswap : Bool) (setups : List Bool)
    (hcs : GLES2_RunCommandQueue_colorswap renderer data = some colorswap)
    (hact : (GLES2_ActivateRenderer renderer data).1 = true)
    (hloop : GLES2_RunCommandQueue_loop env renderer colorswap vertices 0
      (GLES2_RunCommandQueue_target renderer (GLES2_ActivateRenderer renderer data).2) cmds
        = some (d1, setups)) :
    GLES2_RunCommandQueue env renderer data cmds vertices pending
      = some (GL_CheckAllErrors d1 pending) := by
  unfold GLES2_RunCommandQueue
  rw [hcs]
  simp only [Option.some_bind, hact, Bool.true_eq_false, if_false, hloop]

/-- Claim C5, with the range of `GLsizei`: consecutive draw commands of one
kind (`SDL_RENDERCMD_DRAW_POINTS` or `SDL_RENDERCMD_GEOMETRY`) whose state
setups all return `true` give one `glDrawArrays` per maximal run of adjacent
commands with the same texture, scale mode, address modes and blend mode, in
order, and the count of each call is the sum of the counts of its run, when
that sum is below `2 ^ 31`. -/
theorem GLES2_RunCommandQueue_one_draw_per_run (env : Env) (renderer : SDL_Renderer)
    (data : GLES2_RenderData) (runs : List (List SDL_RenderCommand))
    (kind : SDL_RenderCommandType) (vertices : Nat) (pending : List Nat) (colorswap : Bool)
    (setups : List Bool)
    (hkind : kind = SDL_RenderCommandType.DRAW_POINTS ∨ kind = SDL_RenderCommandType.GEOMETRY)
    (hall : ∀ r ∈ runs, ∀ c ∈ r, c.command = kind)
    (hruns : MaximalRuns runs)
    (hsmall : ∀ r ∈ runs, drawCount r < 2 ^ 31)
    (hcs : GLES2_RunCommandQueue_colorswap renderer data = some colorswap)
    (hact : (GLES2_ActivateRenderer renderer data).1 = true)
    (hloop : (GLES2_RunCommandQueue_loop env renderer colorswap vertices 0
      (GLES2_RunCommandQueue_target renderer (GLES2_ActivateRenderer renderer data).2)
      runs.flatten).map Prod.snd = some setups)
    (hok : ∀ b ∈ setups, b = true) :
    ∃ (ok : Bool) (data' : GLES2_RenderData),
      GLES2_RunCommandQueue env renderer data runs.flatten vertices pending = some (ok, data') ∧
      drawCalls data'.gl.log
        = drawCalls data.gl.log
          ++ runs.map (fun r => (GLES2_RunCommandQueue_op kind, (drawCount r : Int))) := by
  simp only [Option.map_eq_some'] at hloop
  obtain ⟨⟨d1, s1⟩, hl, hs⟩ := hloop
  simp only at hs
  subst hs
  have h := GLES2_RunCommandQueue_loop_runs env renderer colorswap vertices kind hkind runs _ d1
    s1 hruns hall hsmall hl hok
  refine ⟨(GL_CheckAllErrors d1 pending).1, (GL_CheckAllErrors d1 pending).2,
    GLES2_RunCommandQueue_of_loop env renderer data d1 _ vertices pending colorswap
      s1 hcs hact hl, ?_⟩
  rw [(GL_CheckAllErrors_extends d1 pending).drawCalls_eq, h.2,
    (GLES2_RunCommandQueue_target_extends renderer _).drawCalls_eq,
    (GLES2_ActivateRenderer_extends renderer data).drawCalls_eq]

set_option maxRecDepth 100000 in
theorem GLES2_RunCommandQueue_one_draw_per_run_witness :
    ∃ (ok : Bool) (data' : GLES2_RenderData),
      GLES2_RunCommandQueue Env.plain SDL_Renderer.window GLES2_RenderData.ready
        [SDL_RenderCommand.geometry 0 3 0, SDL_RenderCommand.geometry 72 6 0,
         SDL_RenderCommand.geometry 216 9 1] 0 [] = some (ok, data') ∧
      drawCalls data'.gl.log = [(GLPrim.TRIANGLES, 9), (GLPrim.TRIANGLES, 9)] :=
  GLES2_RunCommandQueue_one_draw_per_run Env.plain SDL_Renderer.window GLES2_RenderData.ready
    [[SDL_RenderCommand.geometry 0 3 0, SDL_RenderCommand.geometry 72 6 0],
     [SDL_RenderCommand.geometry 216 9 1]]
    SDL_RenderCommandType.GEOMETRY 0 [] false [true, true] (Or.inr rfl) (by decide)
    ⟨by decide, List.chain'_cons.2 ⟨by decide, List.chain'_singleton _⟩⟩ (by decide)
    (by decide) (by decide) (by decide) (by decide)

set_option maxRecDepth 100000 in
/-- Claim C5 fails beyond the range of `GLsizei`: two `SDL_RENDERCMD_GEOMETRY`
commands with the same key and `2 ^ 30` vertices each, with a state setup that
returns `true`, give one draw call whose count is `-2147483648`, not the sum
`2147483648`. -/
theorem GLES2_RunCommandQueue_count_wraps :
    (GLES2_RunCommandQueue_loop Env.plain SDL_Renderer.window false 0 0
        (GLES2_RunCommandQueue_target SDL_Renderer.window
          (GLES2_ActivateRenderer SDL_Renderer.window GLES2_RenderData.ready).2)
        [SDL_RenderCommand.geometry 0 (2 ^ 30) 0,
         SDL_RenderCommand.geometry (24 * 2 ^ 30) (2 ^ 30) 0]).map Prod.snd = some [true]
    ∧ drawCount [SDL_RenderCommand.geometry 0 (2 ^ 30) 0,
         SDL_RenderCommand.geometry (24 * 2 ^ 30) (2 ^ 30) 0] = 2147483648
    ∧ (GLES2_RunCommandQueue Env.plain SDL_Renderer.window GLES2_RenderData.ready
        [SDL_RenderCommand.geometry 0 (2 ^ 30) 0,
         SDL_RenderCommand.geometry (24 * 2 ^ 30) (2 ^ 30) 0] 0 []).map
        (fun r => (r.1, drawCalls r.2.gl.log))
      = some (true, [(GLPrim.TRIANGLES, -2147483648)]) := by
  decide

theorem GLES2_RunCommandQueue_joinsLines_iff (thisblend : SDL_BlendMode)
    (nextcmd : SDL_RenderCommand) :
    GLES2_RunCommandQueue_joinsLines thisblend nextcmd = true
      ↔ nextcmd.command = SDL_RenderCommandType.DRAW_LINES ∧ nextcmd.count = 2
          ∧ nextcmd.blend = thisblend := by
  simp only [GLES2_RunCommandQueue_joinsLines, Bool.and_eq_true, decide_eq_true_eq]
  tauto

theorem List.takeWhile_run {α : Type} (p : α → Bool) (run tail : List α)
    (hrun : ∀ c ∈ run, p c = true) (htail : ∀ c ∈ tail.head?, p c = false) :
    (run ++ tail).takeWhile p = run ∧ (run ++ tail).dropWhile p = tail := by
  have ht : tail.takeWhile p = [] ∧ tail.dropWhile p = tail := by
    cases tail with
    | nil => exact ⟨rfl, rfl⟩
    | cons c t =>
      have hc := htail c (by simp)
      rw [List.takeWhile_cons, List.dropWhile_cons, hc]
      exact ⟨rfl, rfl⟩
  constructor
  · rw [List.takeWhile_append_of_pos hrun, ht.1, List.append_nil]
  · rw [List.dropWhile_append_of_pos hrun, ht.2]

theorem drawCount_of_count_two (run : List SDL_RenderCommand) (h : ∀ c ∈ run, c.count = 2) :
    drawCount run = 2 * run.length := by
  induction run with
  | nil => rfl
  | cons c r ih =>
    rw [drawCount_cons, h c (List.mem_cons_self _ _),
      ih (fun x hx => h x (List.mem_cons_of_mem _ hx)), List.length_cons]
    omega

/-- Claim C6, for a command whose state setup returns `true` and within the
range of `GLsizei`.  A `SDL_RENDERCMD_DRAW_LINES` command of more than two
vertices gives one `GL_LINE_STRIP` draw of its own count and the loop goes on
with the next command.  One of exactly two vertices, followed by the commands
`run`, all `SDL_RENDERCMD_DRAW_LINES` of two vertices with its blend mode, and
then by `tail`, whose first command is not of that sort, gives one `GL_LINES`
draw of twice the number of merged commands and the loop goes on with `tail`. -/
theorem GLES2_RunCommandQueue_draw_lines (env : Env) (renderer : SDL_Renderer)
    (colorswap : Bool) (vertices : Nat) (data : GLES2_RenderData) (cmd : SDL_RenderCommand)
    (run tail : List SDL_RenderCommand)
    (hcmd : cmd.command = SDL_RenderCommandType.DRAW_LINES)
    (hset : (SetDrawState env data cmd GLES2_ImageSource.SOLID vertices).map Prod.fst
      = some true) :
    (2 < cmd.count → cmd.count < 2 ^ 31 →
      ∃ d1 : GLES2_RenderData,
        drawCalls d1.gl.log
          = drawCalls data.gl.log ++ [(GLPrim.LINE_STRIP, (cmd.count : Int))] ∧
        GLES2_RunCommandQueue_loop env renderer colorswap vertices 0 data (cmd :: tail)
          = (GLES2_RunCommandQueue_loop env renderer colorswap vertices 0 d1 tail).map
              (fun r => (r.1, true :: r.2)))
    ∧ (cmd.count = 2 →
      (∀ c ∈ run, c.command = SDL_RenderCommandType.DRAW_LINES ∧ c.count = 2
        ∧ c.blend = cmd.blend) →
      (∀ c ∈ tail.head?, ¬ (c.command = SDL_RenderCommandType.DRAW_LINES ∧ c.count = 2
        ∧ c.blend = cmd.blend)) →
      2 * (run.length + 1) < 2 ^ 31 →
      ∃ d1 : GLES2_RenderData,
        drawCalls d1.gl.log
          = drawCalls data.gl.log ++ [(GLPrim.LINES, ((2 * (run.length + 1) : Nat) : Int))] ∧
        GLES2_RunCommandQueue_loop env renderer colorswap vertices 0 data
            (cmd :: (run ++ tail))
          = (GLES2_RunCommandQueue_loop env renderer colorswap vertices 0 d1 tail).map
              (fun r => (r.1, true :: r.2))) := by
  simp only [Option.map_eq_some'] at hset
  obtain ⟨⟨ok, d0⟩, hs, hok⟩ := hset
  simp only at hok
  subst hok
  have hext := SetDrawState_extends env data d0 cmd GLES2_ImageSource.SOLID vertices true hs
  constructor
  · intro h2 hsmall
    refine ⟨d0.call [GLCall.drawArrays GLPrim.LINE_STRIP 0 (GLsizei_of_size_t cmd.count)], ?_, ?_⟩
    · simp only [GLES2_RenderData.call, drawCalls_append, drawCalls, hext.drawCalls_eq,
        GLsizei_of_size_t_small _ hsmall]
    · rw [GLES2_RunCommandQueue_loop, hcmd]
      simp only [hs, Option.some_bind, Bool.true_eq_false, if_false, gt_iff_lt, h2, if_true]
  · intro h2 hrun htail hsmall
    have hp := List.takeWhile_run (GLES2_RunCommandQueue_joinsLines cmd.blend) run tail
      (fun c hc => (GLES2_RunCommandQueue_joinsLines_iff cmd.blend c).2 (hrun c hc))
      (fun c hc => by
        rw [Bool.eq_false_iff]
        intro h
        exact htail c hc ((GLES2_RunCommandQueue_joinsLines_iff cmd.blend c).1 h))
    have hcount : cmd.count + drawCount run = 2 * (run.length + 1) := by
      rw [drawCount_of_count_two run (fun c hc => (hrun c hc).2.1), h2]
      omega
    refine ⟨d0.call [GLCall.drawArrays GLPrim.LINES 0
      (GLsizei_of_size_t (cmd.count + drawCount run))], ?_, ?_⟩
    · rw [hcount]
      simp only [GLES2_RenderData.call, drawCalls_append, drawCalls, hext.drawCalls_eq,
        GLsizei_of_size_t_small _ hsmall]
    · rw [GLES2_RunCommandQueue_loop, hcmd]
      simp only [hs, Option.some_bind, Bool.true_eq_false, if_false, gt_iff_lt, h2,
        lt_irrefl, hp.1]
      rw [GLES2_RunCommandQueue_loop_skip]

set_option maxRecDepth 100000 in
theorem GLES2_RunCommandQueue_draw_lines_witness :
    (∃ d1 : GLES2_RenderData,
      drawCalls d1.gl.log = drawCalls GLES2_RenderData.ready.gl.log ++ [(GLPrim.LINE_STRIP, 5)] ∧
      GLES2_RunCommandQueue_loop Env.plain SDL_Renderer.window false 0 0 GLES2_RenderData.ready
          [SDL_RenderCommand.lines 600 5 0, SDL_RenderCommand.lines 800 2 0]
        = (GLES2_RunCommandQueue_loop Env.plain SDL_Renderer.window false 0 0 d1
            [SDL_RenderCommand.lines 800 2 0]).map (fun r => (r.1, true :: r.2)))
    ∧ (∃ d1 : GLES2_RenderData,
      drawCalls d1.gl.log = drawCalls GLES2_RenderData.ready.gl.log ++ [(GLPrim.LINES, 6)] ∧
      GLES2_RunCommandQueue_loop Env.plain SDL_Renderer.window false 0 0 GLES2_RenderData.ready
          [SDL_RenderCommand.lines 500 2 0, SDL_RenderCommand.lines 548 2 0,
           SDL_RenderCommand.lines 596 2 0, SDL_RenderCommand.lines 644 5 0]
        = (GLES2_RunCommandQueue_loop Env.plain SDL_Renderer.window false 0 0 d1
            [SDL_RenderCommand.lines 644 5 0]).map (fun r => (r.1, true :: r.2))) :=
  ⟨(GLES2_RunCommandQueue_draw_lines Env.plain SDL_Renderer.window false 0
      GLES2_RenderData.ready (SDL_RenderCommand.lines 600 5 0) []
      [SDL_RenderCommand.lines 800 2 0] rfl (by decide)).1 (by decide) (by decide),
   (GLES2_RunCommandQueue_draw_lines Env.plain SDL_Renderer.window false 0
      GLES2_RenderData.ready (SDL_RenderCommand.lines 500 2 0)
      [SDL_RenderCommand.lines 548 2 0, SDL_RenderCommand.lines 596 2 0]
      [SDL_RenderCommand.lines 644 5 0] rfl (by decide)).2 rfl (by decide)
      (by simp [SDL_RenderCommand.lines]) (by decide)⟩

set_option maxRecDepth 100000 in
/-- Claim C6 fails when `SetDrawState` fails, and beyond the range of
`GLsizei`.  Where no program links, a `SDL_RENDERCMD_DRAW_LINES` command of
three vertices gives no draw call at all, and two commands of two vertices
are not merged: `SetDrawState` is called for each.  Where programs link, a
command of `2 ^ 31` vertices gives a `GL_LINE_STRIP` draw of `-2147483648`. -/
theorem GLES2_RunCommandQueue_draw_lines_unguarded :
    (GLES2_RunCommandQueue Env.nolink SDL_Renderer.window GLES2_RenderData.ready
        [SDL_RenderCommand.lines 0 3 0] 0 []).map (fun r => drawCalls r.2.gl.log) = some []
    ∧ (GLES2_RunCommandQueue_loop Env.nolink SDL_Renderer.window false 0 0
        GLES2_RenderData.ready
        [SDL_RenderCommand.lines 0 2 0, SDL_RenderCommand.lines 48 2 0]).map
        (fun r => (drawCalls r.1.gl.log, r.2)) = some ([], [false, false])
    ∧ (GLES2_RunCommandQueue Env.plain SDL_Renderer.window GLES2_RenderData.ready
        [SDL_RenderCommand.lines 0 (2 ^ 31) 0] 0 []).map (fun r => drawCalls r.2.gl.log)
      = some [(GLPrim.LINE_STRIP, -2147483648)] := by
  decide

theorem GLES2_RunCommandQueue_setviewport_extends (data : GLES2_RenderData)
    (cmd : SDL_RenderCommand) : data.Extends (GLES2_RunCommandQueue_setviewport data cmd) := by
  unfold GLES2_RunCommandQueue_setviewport
  split
  · exact GLES2_RenderData.Extends.of_same rfl rfl
  · exact GLES2_RenderData.Extends.refl data

theorem GLES2_RunCommandQueue_setcliprect_extends (data : GLES2_RenderData)
    (cmd : SDL_RenderCommand) : data.Extends (GLES2_RunCommandQueue_setcliprect data cmd) := by
  unfold GLES2_RunCommandQueue_setcliprect
  dsimp only
  split <;> split <;> exact GLES2_RenderData.Extends.of_same rfl rfl

theorem GLES2_RenderData.Extends.ite_call_ds (d : GLES2_RenderData) (c : Prop) [Decidable c]
    (call : GLCall) (ds : GLES2_DrawStateCache) (hcall : call.isDraw = false) :
    d.Extends (if c then { d.call [call] with drawstate := ds } else d) := by
  split
  · exact GLES2_RenderData.Extends.call_ds _ _ _
      (by intro x hx; rw [List.mem_singleton.mp hx]; exact hcall)
  · exact GLES2_RenderData.Extends.refl d

theorem GLES2_RunCommandQueue_clear_extends (env : Env) (colorswap : Bool)
    (data : GLES2_RenderData) (cmd : SDL_RenderCommand) :
    data.Extends (GLES2_RunCommandQueue_clear env colorswap data cmd) := by
  have h1 : data.Extends (GLES2_RunCommandQueue_clear_color env colorswap data cmd) := by
    unfold GLES2_RunCommandQueue_clear_color
    dsimp only
    refine GLES2_RenderData.Extends.ite_call_ds data _ _ _ ?_
    rfl
  have h2 : ∀ d : GLES2_RenderData, d.Extends (GLES2_RunCommandQueue_clear_scissor d) := by
    intro d
    unfold GLES2_RunCommandQueue_clear_scissor
    refine GLES2_RenderData.Extends.ite_call_ds d _ _ _ ?_
    rfl
  exact (h1.trans (h2 _)).trans (GLES2_RenderData.Extends.call_one _ GLCall.clear rfl)

theorem GLES2_RunCommandQueue_draw_frame (mode : GLPrim) (cmd : SDL_RenderCommand)
    (rest : List SDL_RenderCommand) (ret : Bool) (data1 : GLES2_RenderData) :
    (GLES2_RunCommandQueue_draw mode cmd rest ret data1).debug_enabled = data1.debug_enabled
      ∧ (ret = false → GLES2_RunCommandQueue_draw mode cmd rest ret data1 = data1) := by
  unfold GLES2_RunCommandQueue_draw
  cases ret
  · exact ⟨rfl, fun _ => rfl⟩
  · exact ⟨rfl, fun h => absurd h (by simp)⟩

/-- The loop keeps the debug flag, and draws nothing when every state setup
fails. -/
theorem GLES2_RunCommandQueue_loop_frame (env : Env) (renderer : SDL_Renderer)
    (colorswap : Bool) (vertices : Nat) :
    ∀ (cmds : List SDL_RenderCommand) (skip : Nat) (data data' : GLES2_RenderData)
      (setups : List Bool),
      GLES2_RunCommandQueue_loop env renderer colorswap vertices skip data cmds
        = some (data', setups) →
      data'.debug_enabled = data.debug_enabled ∧
      ((∀ b ∈ setups, b = false) → drawCalls data'.gl.log = drawCalls data.gl.log)
  | [], skip, data, data', setups, h => by
    cases skip <;>
    · simp only [GLES2_RunCommandQueue_loop, Option.some.injEq, Prod.mk.injEq] at h
      rw [← h.1]
      exact ⟨rfl, fun _ => rfl⟩
  | _ :: rest, skip + 1, data, data', setups, h => by
    rw [GLES2_RunCommandQueue_loop] at h
    exact GLES2_RunCommandQueue_loop_frame env renderer colorswap vertices rest skip data data'
      setups h
  | cmd :: rest, 0, data, data', setups, h => by
    have ih := GLES2_RunCommandQueue_loop_frame env renderer colorswap vertices rest
    have step : ∀ (d : GLES2_RenderData), data.Extends d →
        GLES2_RunCommandQueue_loop env renderer colorswap vertices 0 d rest
          = some (data', setups) →
        data'.debug_enabled = data.debug_enabled ∧
        ((∀ b ∈ setups, b = false) → drawCalls data'.gl.log = drawCalls data.gl.log) := by
      intro d hd hl
      have := ih 0 d data' setups hl
      exact ⟨this.1.trans hd.1, fun hb => (this.2 hb).trans hd.drawCalls_eq⟩
    have stepDraw : ∀ (mode : GLPrim) (n : Nat),
        ((GLES2_RunCommandQueue_setup env renderer data cmd vertices).bind (fun s =>
          (GLES2_RunCommandQueue_loop env renderer colorswap vertices n
            (GLES2_RunCommandQueue_draw mode cmd rest s.1 s.2) rest).map
            (fun r => (r.1, s.1 :: r.2)))) = some (data', setups) →
        data'.debug_enabled = data.debug_enabled ∧
        ((∀ b ∈ setups, b = false) → drawCalls data'.gl.log = drawCalls data.gl.log) := by
      intro mode n hl
      simp only [Option.bind_eq_some, Option.map_eq_some', Prod.mk.injEq] at hl
      obtain ⟨s, hs, r, hr, hd, hsx⟩ := hl
      have hext := GLES2_RunCommandQueue_setup_extends env renderer data s.2 cmd vertices s.1 hs
      have hf := GLES2_RunCommandQueue_draw_frame mode cmd rest s.1 s.2
      have := ih n _ r.1 r.2 hr
      rw [← hd, ← hsx]
      refine ⟨(this.1.trans hf.1).trans hext.1, fun hb => ?_⟩
      have hs1 : s.1 = false := hb s.1 (List.mem_cons_self _ _)
      rw [this.2 (fun b hb2 => hb b (List.mem_cons_of_mem _ hb2)), hf.2 hs1]
      exact hext.drawCalls_eq
    rw [GLES2_RunCommandQueue_loop] at h
    split at h
    · exact step data (GLES2_RenderData.Extends.refl data) h
    · exact step _ (GLES2_RunCommandQueue_setviewport_extends data cmd) h
    · exact step _ (GLES2_RunCommandQueue_setcliprect_extends data cmd) h
    · exact step _ (GLES2_RunCommandQueue_clear_extends env colorswap data cmd) h
    · exact step data (GLES2_RenderData.Extends.refl data) h
    · exact step data (GLES2_RenderData.Extends.refl data) h
    · exact step data (GLES2_RenderData.Extends.refl data) h
    · exact step data (GLES2_RenderData.Extends.refl data) h
    · simp only [Option.bind_eq_some] at h
      obtain ⟨s, hs, h⟩ := h
      have hext := SetDrawState_extends env data s.2 cmd GLES2_ImageSource.SOLID vertices s.1 hs
      split at h
      · simp only [Option.map_eq_some', Prod.mk.injEq] at h
        obtain ⟨r, hr, hd, hsx⟩ := h
        have := ih 0 _ r.1 r.2 hr
        rw [← hd, ← hsx]
        exact ⟨this.1.trans hext.1, fun hb =>
          (this.2 (fun b hb2 => hb b (List.mem_cons_of_mem _ hb2))).trans hext.drawCalls_eq⟩
      · split at h
        all_goals
          simp only [Option.map_eq_some', Prod.mk.injEq] at h
          obtain ⟨r, hr, hd, hsx⟩ := h
          have := ih _ _ r.1 r.2 hr
          rw [← hd, ← hsx]
          exact ⟨this.1.trans hext.1, fun hb =>
            absurd (hb true (List.mem_cons_self _ _)) (by simp)⟩
    · exact stepDraw _ _ h
    · exact stepDraw _ _ h

theorem GL_CheckAllErrors_of_debug (a b : GLES2_RenderData) (pending : List Nat)
    (h : b.debug_enabled = a.debug_enabled) :
    (GL_CheckAllErrors b pending).1 = (GL_CheckAllErrors a pending).1 := by
  unfold GL_CheckAllErrors
  rw [h]
  split
  · rfl
  · split <;> rfl

/-- Claim C8 as the code has it: the value of `GLES2_RunCommandQueue` is that
of the final `GL_CheckError`, whatever `SetDrawState` and `SetCopyState`
returned for the draw commands.  With an active renderer the function returns
`true` when `debug_enabled` is off, and where every state setup failed no
`glDrawArrays` was issued. -/
theorem GLES2_RunCommandQueue_ignores_setup_failure (env : Env) (renderer : SDL_Renderer)
    (data : GLES2_RenderData) (cmds : List SDL_RenderCommand) (vertices : Nat)
    (pending : List Nat) (colorswap : Bool) (setups : List Bool)
    (hcs : GLES2_RunCommandQueue_colorswap renderer data = some colorswap)
    (hact : (GLES2_ActivateRenderer renderer data).1 = true)
    (hloop : (GLES2_RunCommandQueue_loop env renderer colorswap vertices 0
      (GLES2_RunCommandQueue_target renderer (GLES2_ActivateRenderer renderer data).2)
      cmds).map Prod.snd = some setups) :
    ∃ data' : GLES2_RenderData,
      GLES2_RunCommandQueue env renderer data cmds vertices pending
        = some ((GL_CheckAllErrors data pending).1, data') ∧
      (data.debug_enabled = false → (GL_CheckAllErrors data pending).1 = true) ∧
      ((∀ b ∈ setups, b = false) → drawCalls data'.gl.log = drawCalls data.gl.log) := by
  simp only [Option.map_eq_some'] at hloop
  obtain ⟨⟨d1, s1⟩, hl, hs⟩ := hloop
  simp only at hs
  subst hs
  have hf := GLES2_RunCommandQueue_loop_frame env renderer colorswap vertices cmds 0 _ d1 s1 hl
  have h0 := (GLES2_ActivateRenderer_extends renderer data).trans
    (GLES2_RunCommandQueue_target_extends renderer _)
  have hrun := GLES2_RunCommandQueue_of_loop env renderer data d1 cmds vertices pending
    colorswap s1 hcs hact hl
  refine ⟨(GL_CheckAllErrors d1 pending).2, ?_, ?_, ?_⟩
  · rw [hrun, ← GL_CheckAllErrors_of_debug data d1 pending (hf.1.trans h0.1)]
  · intro hd
    simp only [GL_CheckAllErrors, hd, if_true]
  · intro hb
    rw [(GL_CheckAllErrors_extends d1 pending).drawCalls_eq, hf.2 hb, h0.drawCalls_eq]

set_option maxRecDepth 100000 in
theorem GLES2_RunCommandQueue_ignores_setup_failure_witness :
    ∃ data' : GLES2_RenderData,
      GLES2_RunCommandQueue Env.nolink SDL_Renderer.window GLES2_RenderData.ready
        [SDL_RenderCommand.geometry 0 3 0, SDL_RenderCommand.lines 72 5 0] 0 []
        = some ((GL_CheckAllErrors GLES2_RenderData.ready []).1, data') ∧
      (GLES2_RenderData.ready.debug_enabled = false
        → (GL_CheckAllErrors GLES2_RenderData.ready []).1 = true) ∧
      ((∀ b ∈ [false, false], b = false)
        → drawCalls data'.gl.log = drawCalls GLES2_RenderData.ready.gl.log) :=
  GLES2_RunCommandQueue_ignores_setup_failure Env.nolink SDL_Renderer.window
    GLES2_RenderData.ready [SDL_RenderCommand.geometry 0 3 0, SDL_RenderCommand.lines 72 5 0]
    0 [] false [false, false] (by decide) (by decide) (by decide)

set_option maxRecDepth 100000 in
/-- Claim C8 fails: where no program links, the state setup of a
`SDL_RENDERCMD_GEOMETRY` command returns `false`, and `GLES2_RunCommandQueue`
returns `true`. -/
theorem GLES2_RunCommandQueue_true_after_failed_setup :
    (GLES2_RunCommandQueue_setup Env.nolink SDL_Renderer.window
        (GLES2_RunCommandQueue_target SDL_Renderer.window
          (GLES2_ActivateRenderer SDL_Renderer.window GLES2_RenderData.ready).2)
        (SDL_RenderCommand.geometry 0 3 0) 0).map Prod.fst = some false
    ∧ (GLES2_RunCommandQueue Env.nolink SDL_Renderer.window GLES2_RenderData.ready
        [SDL_RenderCommand.geometry 0 3 0] 0 []).map Prod.fst = some true := by
  decide

/-! ## The position array -/

theorem GLES2_RenderData.TexExtends.tex_refl (data : GLES2_RenderData) : data.TexExtends data :=
  ⟨[], by simp, by simp⟩

theorem GLES2_RenderData.TexExtends.tex_trans {a b c : GLES2_RenderData}
    (h1 : a.TexExtends b) (h2 : b.TexExtends c) : a.TexExtends c := by
  obtain ⟨l1, hl1, hp1⟩ := h1
  obtain ⟨l2, hl2, hp2⟩ := h2
  refine ⟨l1 ++ l2, by rw [hl2, hl1, List.append_assoc], ?_⟩
  intro x hx
  rcases List.mem_append.mp hx with h | h
  · exact hp1 x h
  · exact hp2 x h

theorem GLES2_RenderData.TexExtends.tex_of_same {a b : GLES2_RenderData}
    (hl : b.gl.log = a.gl.log) : a.TexExtends b :=
  ⟨[], by simp [hl], by simp⟩

theorem GLES2_RenderData.TexExtends.tex_call_one (data : GLES2_RenderData) (c : GLCall)
    (hc : c.isTexture = true) : data.TexExtends (data.call [c]) :=
  ⟨[c], rfl, by intro x hx; rw [List.mem_singleton.mp hx]; exact hc⟩

theorem SetTextureScaleMode_texture (data : GLES2_RenderData) (textype : Nat)
    (mode : SDL_ScaleMode) : data.TexExtends (SetTextureScaleMode data textype mode).2 := by
  unfold SetTextureScaleMode
  cases mode
  · exact GLES2_RenderData.TexExtends.tex_of_same rfl
  all_goals
    refine ⟨_, rfl, ?_⟩
    intro c hc
    simp only [List.mem_cons, List.mem_singleton, List.not_mem_nil, or_false] at hc
    rcases hc with h | h <;> rw [h] <;> rfl

theorem SetCopyState_scaleUnits_texture (textype : Nat) (mode : SDL_ScaleMode) :
    ∀ (us : List Nat) (data : GLES2_RenderData),
      data.TexExtends (SetCopyState_scaleUnits textype mode data us).2
  | [], data => GLES2_RenderData.TexExtends.tex_refl data
  | u :: us, data => by
    have h1 := (GLES2_RenderData.TexExtends.tex_call_one data (GLCall.activeTexture u) rfl).tex_trans
      (SetTextureScaleMode_texture (data.call [GLCall.activeTexture u]) textype mode)
    unfold SetCopyState_scaleUnits
    split
    · exact h1
    · exact h1.tex_trans (SetCopyState_scaleUnits_texture textype mode us _)

theorem SetCopyState_scale_texture (data : GLES2_RenderData) (texture : Nat) (t : SDL_Texture)
    (mode : SDL_ScaleMode) : data.TexExtends (SetCopyState_scale data texture t mode).2 := by
  unfold SetCopyState_scale
  by_cases hm : mode ≠ t.texture_scale_mode
  · rw [if_pos hm]
    dsimp only
    have h1 := SetCopyState_scaleUnits_texture t.texture_type mode (SetCopyState_units t) data
    by_cases h1f : (SetCopyState_scaleUnits t.texture_type mode data (SetCopyState_units t)).1
        = false
    · rw [if_pos h1f]
      exact h1
    · rw [if_neg h1f]
      obtain ⟨d2, hd2⟩ : ∃ d2, d2 = (if SetCopyState_units t = [] then
             (SetCopyState_scaleUnits t.texture_type mode data (SetCopyState_units t)).2
           else (SetCopyState_scaleUnits t.texture_type mode data (SetCopyState_units t)).2.call
                  [GLCall.activeTexture 0]) := ⟨_, rfl⟩
      rw [← hd2]
      have h2 : (SetCopyState_scaleUnits t.texture_type mode data
          (SetCopyState_units t)).2.TexExtends d2 := by
        rw [hd2]
        split
        · exact GLES2_RenderData.TexExtends.tex_refl _
        · exact GLES2_RenderData.TexExtends.tex_call_one _ _ rfl
      have h3 := (h1.tex_trans h2).tex_trans (SetTextureScaleMode_texture d2 t.texture_type mode)
      split
      · exact h3
      · exact h3.tex_trans (GLES2_RenderData.TexExtends.tex_of_same rfl)
  · rw [if_neg hm]
    exact GLES2_RenderData.TexExtends.tex_refl data

theorem SetTextureAddressMode_texture (data : GLES2_RenderData) (textype : Nat)
    (u v : SDL_TextureAddressMode) :
    data.TexExtends (SetTextureAddressMode data textype u v) := by
  refine ⟨_, rfl, ?_⟩
  intro c hc
  simp only [List.mem_cons, List.mem_singleton, List.not_mem_nil, or_false] at hc
  rcases hc with h | h <;> rw [h] <;> rfl

theorem SetCopyState_address_units_texture (textype : Nat) (u v : SDL_TextureAddressMode) :
    ∀ (us : List Nat) (data : GLES2_RenderData),
      data.TexExtends (us.foldl
        (fun d unit => SetTextureAddressMode (d.call [GLCall.activeTexture unit]) textype u v)
        data)
  | [], data => GLES2_RenderData.TexExtends.tex_refl data
  | x :: us, data => by
    simp only [List.foldl_cons]
    exact ((GLES2_RenderData.TexExtends.tex_call_one data (GLCall.activeTexture x) rfl).tex_trans
      (SetTextureAddressMode_texture _ textype u v)).tex_trans
      (SetCopyState_address_units_texture textype u v us _)

theorem SetCopyState_address_texture (data : GLES2_RenderData) (texture : Nat) (t : SDL_Texture)
    (u v : SDL_TextureAddressMode) :
    data.TexExtends (SetCopyState_address data texture t u v) := by
  unfold SetCopyState_address
  split
  · dsimp only
    obtain ⟨d1, hd1⟩ : ∃ d1, d1 = (SetCopyState_units t).foldl
        (fun d unit => SetTextureAddressMode (d.call [GLCall.activeTexture unit])
                         t.texture_type u v) data := ⟨_, rfl⟩
    have h1 : data.TexExtends d1 := by
      rw [hd1]
      exact SetCopyState_address_units_texture t.texture_type u v (SetCopyState_units t) data
    rw [← hd1]
    obtain ⟨d2, hd2⟩ : ∃ d2, d2 = (if SetCopyState_units t = [] then d1
        else d1.call [GLCall.activeTexture 0]) := ⟨_, rfl⟩
    have h2 : d1.TexExtends d2 := by
      rw [hd2]
      split
      · exact GLES2_RenderData.TexExtends.tex_refl _
      · exact GLES2_RenderData.TexExtends.tex_call_one _ _ rfl
    rw [← hd2]
    have h3 : d2.TexExtends (SetTextureAddressMode d2 t.texture_type u v) :=
      SetTextureAddressMode_texture d2 t.texture_type u v
    have h4 : (SetTextureAddressMode d2 t.texture_type u v).TexExtends
        ((SetTextureAddressMode d2 t.texture_type u v).setTexture texture
          { t with texture_address_mode_u := u, texture_address_mode_v := v }) :=
      GLES2_RenderData.TexExtends.tex_of_same rfl
    exact ((h1.tex_trans h2).tex_trans h3).tex_trans h4
  · exact GLES2_RenderData.TexExtends.tex_refl data

theorem SetCopyState_bind_texture (data : GLES2_RenderData) (texture : Nat) (t : SDL_Texture) :
    data.TexExtends (SetCopyState_bind data texture t) := by
  unfold SetCopyState_bind
  split
  · refine ⟨_, rfl, ?_⟩
    intro c hc
    simp only [List.mem_append, List.mem_singleton] at hc
    rcases hc with hc | hc
    · split at hc
      · simp only [List.mem_cons, List.mem_singleton, List.not_mem_nil, or_false] at hc
        rcases hc with h | h | h | h | h <;> rw [h] <;> rfl
      · split at hc
        · simp only [List.mem_cons, List.mem_singleton, List.not_mem_nil, or_false] at hc
          rcases hc with h | h | h <;> rw [h] <;> rfl
        · simp at hc
    · rw [hc]; rfl
  · exact GLES2_RenderData.TexExtends.tex_refl data

/-- What follows `SetDrawState` in `SetCopyState` issues texture calls only,
and returns `true` only when `SetDrawState` did. -/
theorem SetCopyState_after_texture (data data' : GLES2_RenderData) (cmd : SDL_RenderCommand)
    (tex : SDL_Texture) (ret r : Bool)
    (h : SetCopyState_after data cmd tex ret = some (r, data')) :
    data.TexExtends data' ∧ (r = true → ret = true) := by
  unfold SetCopyState_after at h
  simp only [Option.bind_eq_some] at h
  obtain ⟨t2, _, h⟩ := h
  have h1 := (SetCopyState_bind_texture data cmd.texture tex).tex_trans
    (SetCopyState_scale_texture _ cmd.texture t2 cmd.texture_scale_mode)
  split at h
  · simp only [Option.some.injEq, Prod.mk.injEq] at h
    rw [← h.2, ← h.1]
    exact ⟨h1, fun hf => absurd hf (by simp)⟩
  · simp only [Option.bind_eq_some, Option.some.injEq, Prod.mk.injEq] at h
    obtain ⟨t3, _, hr, h⟩ := h
    rw [← h, ← hr]
    exact ⟨h1.tex_trans (SetCopyState_address_texture _ _ _ _ _), fun hf => hf⟩

theorem positionAfter_append (ps : Nat × Nat) (l1 l2 : List GLCall) :
    positionAfter ps (l1 ++ l2) = positionAfter (positionAfter ps l1) l2 := by
  induction l1 generalizing ps with
  | nil => rfl
  | cons c l ih => cases c <;> simp [positionAfter, ih]

theorem positionAfter_of_texture (ps : Nat × Nat) (l : List GLCall)
    (h : ∀ c ∈ l, c.isTexture = true) : positionAfter ps l = ps := by
  induction l with
  | nil => rfl
  | cons c l ih =>
    have hc := h c (List.mem_cons_self c l)
    have hl := ih (fun x hx => h x (List.mem_cons_of_mem c hx))
    cases c <;> simp_all [positionAfter, GLCall.isTexture]

theorem isDraw_of_isTexture (l : List GLCall) (h : ∀ c ∈ l, c.isTexture = true) :
    ∀ c ∈ l, c.isDraw = false := by
  intro c hc
  have := h c hc
  cases c <;> simp_all [GLCall.isTexture, GLCall.isDraw]

theorem drawnVertices_append (ps : Nat × Nat) (l1 l2 : List GLCall)
    (h : ∀ c ∈ l1, c.isDraw = false) :
    drawnVertices ps (l1 ++ l2) = drawnVertices (positionAfter ps l1) l2 := by
  induction l1 generalizing ps with
  | nil => rfl
  | cons c l ih =>
    have hc := h c (List.mem_cons_self c l)
    have hl := fun ps => ih ps (fun x hx => h x (List.mem_cons_of_mem c hx))
    cases c <;> simp_all [drawnVertices, positionAfter, GLCall.isDraw]

theorem SetDrawState_position (env : Env) (data data' : GLES2_RenderData)
    (cmd : SDL_RenderCommand) (imgsrc : GLES2_ImageSource) (vertices : Nat)
    (h : SetDrawState env data cmd imgsrc vertices = some (true, data')) :
    SetsPosition data data' vertices cmd := by
  unfold SetDrawState at h
  simp only [Option.bind_eq_some] at h
  obtain ⟨cs, _, ⟨r3, d3⟩, hsel, h⟩ := h
  have h2 := (SetDrawState_before_extends env data cmd vertices).trans
    (GLES2_SelectProgram_extends env _ _ _ _ _ _ _ hsel)
  split at h
  · simp at h
  · simp only [Option.bind_eq_some, Option.some.injEq, Prod.mk.injEq, true_and] at h
    obtain ⟨d4, hproj, h⟩ := h
    obtain ⟨_, A, hA, hnd⟩ := (h2.trans (SetDrawState_projection_extends _ _ hproj)).trans
      (SetDrawState_blend_extends env d4 cmd.blend)
    refine ⟨A ++ SetDrawState_pointers cmd vertices, ?_, ?_, ?_⟩
    · rw [← h]
      simp only [GLES2_RenderData.call, hA, List.append_assoc]
    · intro c hc
      rcases List.mem_append.mp hc with hc | hc
      · exact hnd c hc
      · simp only [SetDrawState_pointers, List.mem_cons, List.mem_singleton, List.not_mem_nil,
          or_false] at hc
        rcases hc with h | h <;> rw [h] <;> rfl
    · intro ps
      rw [positionAfter_append]
      simp [SetDrawState_pointers, positionAfter, GLES2_ATTRIBUTE_POSITION,
        GLES2_ATTRIBUTE_COLOR, offsetof_position]

theorem SetCopyState_position (env : Env) (renderer : SDL_Renderer)
    (data data' : GLES2_RenderData) (cmd : SDL_RenderCommand) (vertices : Nat)
    (h : SetCopyState env renderer data cmd vertices = some (true, data')) :
    SetsPosition data data' vertices cmd := by
  unfold SetCopyState at h
  simp only [Option.bind_eq_some] at h
  obtain ⟨tex, _, tf, _, h⟩ := h
  split at h
  · simp at h
  · simp only [Option.bind_eq_some] at h
    obtain ⟨⟨r1, d1⟩, hds, h⟩ := h
    obtain ⟨⟨B, hB, htex⟩, hr⟩ := SetCopyState_after_texture _ _ _ _ _ _ h
    have hr1 : r1 = true := hr rfl
    subst hr1
    obtain ⟨A, hA, hnd, hpos⟩ := SetDrawState_position env data d1 cmd _ vertices hds
    refine ⟨A ++ B, ?_, ?_, ?_⟩
    · rw [hB, hA, List.append_assoc]
    · intro c hc
      rcases List.mem_append.mp hc with hc | hc
      · exact hnd c hc
      · exact isDraw_of_isTexture B htex c hc
    · intro ps
      rw [positionAfter_append, positionAfter_of_texture _ B htex]
      exact hpos ps

theorem GLES2_RunCommandQueue_setup_position (env : Env) (renderer : SDL_Renderer)
    (data data' : GLES2_RenderData) (cmd : SDL_RenderCommand) (vertices : Nat)
    (h : GLES2_RunCommandQueue_setup env renderer data cmd vertices = some (true, data')) :
    SetsPosition data data' vertices cmd := by
  unfold GLES2_RunCommandQueue_setup at h
  split at h
  · exact SetCopyState_position env renderer _ _ _ _ h
  · exact SetDrawState_position env _ _ _ _ _ h

/-! ## The vertices drawn -/

theorem vertexRange_add (base stride m k : Nat) :
    vertexRange base stride (m + k)
      = vertexRange base stride m ++ vertexRange (base + m * stride) stride k := by
  unfold vertexRange
  rw [List.range_add, List.map_append, List.map_map]
  congr 1
  apply List.map_congr_left
  intro x _
  simp only [Function.comp]
  ring

theorem drawCount_append (l1 l2 : List SDL_RenderCommand) :
    drawCount (l1 ++ l2) = drawCount l1 + drawCount l2 := by
  simp [drawCount]

/-- The vertices of a batch: consecutive commands of one vertex size are one
range. -/
theorem vertexRange_batch (vertices stride : Nat) :
    ∀ (taken : List SDL_RenderCommand) (cmd : SDL_RenderCommand),
      (∀ x ∈ taken, x.vertexSize = stride) → cmd.vertexSize = stride →
      Consecutive (cmd :: taken) →
      vertexRange (vertices + cmd.first) stride (cmd.count + drawCount taken)
        = (cmd :: taken).flatMap (SDL_RenderCommand.vertexAddrs vertices)
  | [], cmd, _, hs, _ => by
    simp [drawCount, SDL_RenderCommand.vertexAddrs, hs]
  | t :: ts, cmd, hts, hs, hc => by
    have hc2 : Consecutive (t :: ts) := List.Chain'.tail hc
    have hfirst : t.first = cmd.first + cmd.count * cmd.vertexSize :=
      (List.chain'_cons.1 hc).1
    have ih := vertexRange_batch vertices stride ts t
      (fun x hx => hts x (List.mem_cons_of_mem _ hx)) (hts t (List.mem_cons_self _ _)) hc2
    rw [drawCount_cons, vertexRange_add, List.flatMap_cons, ← ih, hfirst, hs]
    simp only [SDL_RenderCommand.vertexAddrs, hs, Nat.add_assoc]

theorem List.filter_takeWhile_dropWhile {α : Type} (p q : α → Bool) (l : List α)
    (h : ∀ x ∈ l, p x = true → q x = true) :
    l.filter q = l.takeWhile p ++ (l.dropWhile p).filter q := by
  induction l with
  | nil => rfl
  | cons a l ih =>
    have ih2 := ih (fun x hx => h x (List.mem_cons_of_mem _ hx))
    by_cases hp : p a = true
    · have hq := h a (List.mem_cons_self _ _) hp
      rw [List.takeWhile_cons, List.dropWhile_cons, List.filter_cons]
      simp only [hp, hq, if_true, List.cons_append, ← ih2]
    · rw [List.takeWhile_cons, List.dropWhile_cons]
      simp only [hp, Bool.false_eq_true, if_false, List.nil_append]

theorem List.length_dropWhile_le_self {α : Type} (p : α → Bool) (l : List α) :
    (l.dropWhile p).length ≤ l.length :=
  (List.dropWhile_sublist p).length_le

theorem Int.toNat_GLsizei_small (n : Nat) (h : n < 2 ^ 31) :
    (GLsizei_of_size_t n).toNat = n := by
  rw [GLsizei_of_size_t_small n h]
  exact Int.toNat_ofNat n

theorem SDL_RenderCommand.vertexSize_congr {a b : SDL_RenderCommand}
    (hc : a.command = b.command) (h : a.texture = b.texture) : a.vertexSize = b.vertexSize := by
  unfold SDL_RenderCommand.vertexSize
  rw [hc, h]

/-- For a draw command as the queue functions build it, `SetDrawState` reads
the vertices as far apart as they were written. -/
theorem SetDrawState_stride_eq_vertexSize (c : SDL_RenderCommand)
    (hdraw : c.isDraw = true)
    (hsolid : c.command = SDL_RenderCommandType.DRAW_POINTS
      ∨ c.command = SDL_RenderCommandType.DRAW_LINES → c.texture = 0) :
    SetDrawState_stride c = c.vertexSize := by
  unfold SetDrawState_stride SDL_RenderCommand.vertexSize
  simp only [SDL_RenderCommand.isDraw, Bool.or_eq_true, decide_eq_true_eq] at hdraw
  rcases hdraw with (hp | hl) | hg
  · simp [hsolid (Or.inl hp), hp]
  · simp [hsolid (Or.inr hl), hl]
  · simp [hg]

theorem GLES2_RunCommandQueue_counts_skip :
    ∀ (xs ys : List SDL_RenderCommand),
      GLES2_RunCommandQueue_counts xs.length (xs ++ ys) = GLES2_RunCommandQueue_counts 0 ys
  | [], ys => rfl
  | x :: xs, ys => by
    rw [List.length_cons, List.cons_append, GLES2_RunCommandQueue_counts]
    exact GLES2_RunCommandQueue_counts_skip xs ys

theorem GLES2_RunCommandQueue_counts_takeWhile (p : SDL_RenderCommand → Bool)
    (rest : List SDL_RenderCommand) :
    GLES2_RunCommandQueue_counts (rest.takeWhile p).length rest
      = GLES2_RunCommandQueue_counts 0 (rest.dropWhile p) := by
  have h := GLES2_RunCommandQueue_counts_skip (rest.takeWhile p) (rest.dropWhile p)
  rw [List.takeWhile_append_dropWhile] at h
  exact h

theorem GLES2_RunCommandQueue_counts_draw (cmd : SDL_RenderCommand)
    (rest : List SDL_RenderCommand)
    (hc : cmd.command = SDL_RenderCommandType.DRAW_POINTS
      ∨ cmd.command = SDL_RenderCommandType.GEOMETRY) :
    GLES2_RunCommandQueue_counts 0 (cmd :: rest)
      = (cmd.count + drawCount (rest.takeWhile (GLES2_RunCommandQueue_joinsDraw cmd)))
          :: GLES2_RunCommandQueue_counts 0
              (rest.dropWhile (GLES2_RunCommandQueue_joinsDraw cmd)) := by
  rw [GLES2_RunCommandQueue_counts, ← GLES2_RunCommandQueue_counts_takeWhile]
  split
  · rename_i h; rcases hc with hc | hc <;> rw [hc] at h <;> cases h
  · rfl
  · rfl
  · rename_i h1 h2 h3; rcases hc with hc | hc
    · exact absurd hc h2
    · exact absurd hc h3

theorem GLES2_RunCommandQueue_counts_strip (cmd : SDL_RenderCommand)
    (rest : List SDL_RenderCommand)
    (hc : cmd.command = SDL_RenderCommandType.DRAW_LINES) (h2 : cmd.count > 2) :
    GLES2_RunCommandQueue_counts 0 (cmd :: rest)
      = cmd.count :: GLES2_RunCommandQueue_counts 0 rest := by
  rw [GLES2_RunCommandQueue_counts]
  split
  · rw [if_pos h2]
  · rename_i h; rw [hc] at h; cases h
  · rename_i h; rw [hc] at h; cases h
  · rename_i h1 h2 h3; exact absurd hc h1

theorem GLES2_RunCommandQueue_counts_lines (cmd : SDL_RenderCommand)
    (rest : List SDL_RenderCommand)
    (hc : cmd.command = SDL_RenderCommandType.DRAW_LINES) (h2 : ¬ cmd.count > 2) :
    GLES2_RunCommandQueue_counts 0 (cmd :: rest)
      = (cmd.count
          + drawCount (rest.takeWhile (GLES2_RunCommandQueue_joinsLines cmd.blend)))
          :: GLES2_RunCommandQueue_counts 0
              (rest.dropWhile (GLES2_RunCommandQueue_joinsLines cmd.blend)) := by
  rw [GLES2_RunCommandQueue_counts, ← GLES2_RunCommandQueue_counts_takeWhile]
  split
  · rw [if_neg h2]
  · rename_i h; rw [hc] at h; cases h
  · rename_i h; rw [hc] at h; cases h
  · rename_i h1 h2 h3; exact absurd hc h1

theorem GLES2_RunCommandQueue_counts_nodraw (cmd : SDL_RenderCommand)
    (rest : List SDL_RenderCommand) (h : cmd.isDraw = false) :
    GLES2_RunCommandQueue_counts 0 (cmd :: rest) = GLES2_RunCommandQueue_counts 0 rest := by
  simp only [SDL_RenderCommand.isDraw, Bool.or_eq_false_iff, decide_eq_false_iff_not] at h
  rw [GLES2_RunCommandQueue_counts]
  split
  · rename_i hc; exact absurd hc h.1.2
  · rename_i hc; exact absurd hc h.1.1
  · rename_i hc; exact absurd hc h.2
  · rfl

/-- The vertices the loop draws are those of the draw commands, in list order. -/
theorem GLES2_RunCommandQueue_loop_vertices (env : Env) (renderer : SDL_Renderer)
    (colorswap : Bool) (vertices : Nat) :
    ∀ (n : Nat) (cmds : List SDL_RenderCommand), cmds.length ≤ n →
    ∀ (data data' : GLES2_RenderData) (setups : List Bool),
      GLES2_RunCommandQueue_loop env renderer colorswap vertices 0 data cmds
        = some (data', setups) →
      (∀ b ∈ setups, b = true) →
      Consecutive (cmds.filter SDL_RenderCommand.isDraw) →
      (∀ c ∈ cmds, c.command = SDL_RenderCommandType.DRAW_POINTS
        ∨ c.command = SDL_RenderCommandType.DRAW_LINES → c.texture = 0) →
      (∀ k ∈ GLES2_RunCommandQueue_counts 0 cmds, k < 2 ^ 31) →
      ∃ calls : List GLCall, data'.gl.log = data.gl.log ++ calls ∧
        ∀ ps, drawnVertices ps calls
          = (cmds.filter SDL_RenderCommand.isDraw).flatMap
              (SDL_RenderCommand.vertexAddrs vertices)
  | _, [], _, data, data', setups, h, _, _, _, _ => by
    simp only [GLES2_RunCommandQueue_loop, Option.some.injEq, Prod.mk.injEq] at h
    refine ⟨[], by rw [← h.1, List.append_nil], fun ps => ?_⟩
    simp [drawnVertices]
  | 0, _ :: _, hlen, _, _, _, _, _, _, _, _ => absurd hlen (by simp)
  | n + 1, cmd :: rest, hlen, data, data', setups, h, hok, hcons, hlines, hsmall => by
    have hlen2 : rest.length ≤ n := Nat.le_of_succ_le_succ hlen
    have ih := GLES2_RunCommandQueue_loop_vertices env renderer colorswap vertices n
    have step : cmd.isDraw = false → ∀ d : GLES2_RenderData, data.Extends d →
        GLES2_RunCommandQueue_loop env renderer colorswap vertices 0 d rest
          = some (data', setups) →
        ∃ calls : List GLCall, data'.gl.log = data.gl.log ++ calls ∧
          ∀ ps, drawnVertices ps calls
            = ((cmd :: rest).filter SDL_RenderCommand.isDraw).flatMap
                (SDL_RenderCommand.vertexAddrs vertices) := by
      intro hnd d hd hl
      have hfil : (cmd :: rest).filter SDL_RenderCommand.isDraw
          = rest.filter SDL_RenderCommand.isDraw :=
        List.filter_cons_of_neg (by simp [hnd])
      rw [hfil] at hcons ⊢
      rw [GLES2_RunCommandQueue_counts_nodraw cmd rest hnd] at hsmall
      obtain ⟨calls2, hlog2, hv2⟩ := ih rest hlen2 d data' setups hl hok hcons
        (fun c hc => hlines c (List.mem_cons_of_mem _ hc)) hsmall
      obtain ⟨_, A, hA, hAnd⟩ := hd
      refine ⟨A ++ calls2, by rw [hlog2, hA, List.append_assoc], fun ps => ?_⟩
      rw [drawnVertices_append ps A calls2 hAnd, hv2]
    have batch : ∀ (p : SDL_RenderCommand → Bool) (mode : GLPrim) (d1 : GLES2_RenderData)
        (setups2 : List Bool), cmd.isDraw = true →
        (∀ x ∈ rest, p x = true → x.isDraw = true ∧ x.vertexSize = cmd.vertexSize) →
        cmd.count + drawCount (rest.takeWhile p) < 2 ^ 31 →
        (∀ k ∈ GLES2_RunCommandQueue_counts 0 (rest.dropWhile p), k < 2 ^ 31) →
        SetsPosition data d1 vertices cmd →
        GLES2_RunCommandQueue_loop env renderer colorswap vertices 0
          (d1.call [GLCall.drawArrays mode 0
            (GLsizei_of_size_t (cmd.count + drawCount (rest.takeWhile p)))])
          (rest.dropWhile p) = some (data', setups2) →
        (∀ b ∈ setups2, b = true) →
        ∃ calls : List GLCall, data'.gl.log = data.gl.log ++ calls ∧
          ∀ ps, drawnVertices ps calls
            = ((cmd :: rest).filter SDL_RenderCommand.isDraw).flatMap
                (SDL_RenderCommand.vertexAddrs vertices) := by
      intro p mode d1 setups2 hdraw hp hcnt hrest hpos hl hok2
      obtain ⟨L, hL, hnd, hposL⟩ := hpos
      have hfil : (cmd :: rest).filter SDL_RenderCommand.isDraw
          = (cmd :: rest.takeWhile p) ++ (rest.dropWhile p).filter SDL_RenderCommand.isDraw := by
        rw [List.filter_cons_of_pos hdraw,
          List.filter_takeWhile_dropWhile p SDL_RenderCommand.isDraw rest
            (fun x hx hpx => (hp x hx hpx).1), List.cons_append]
      rw [hfil] at hcons ⊢
      have hstr : SetDrawState_stride cmd = cmd.vertexSize :=
        SetDrawState_stride_eq_vertexSize cmd hdraw (hlines cmd (List.mem_cons_self _ _))
      have hc1 : Consecutive (cmd :: rest.takeWhile p) := List.Chain'.left_of_append hcons
      have hc2 : Consecutive ((rest.dropWhile p).filter SDL_RenderCommand.isDraw) :=
        List.Chain'.right_of_append hcons
      obtain ⟨calls2, hlog2, hv2⟩ := ih (rest.dropWhile p)
        (le_trans (List.length_dropWhile_le_self p rest) hlen2) _ data' setups2 hl hok2 hc2
        (fun c hc => hlines c (List.mem_cons_of_mem _ ((List.dropWhile_sublist p).subset hc)))
        hrest
      refine ⟨L ++ (GLCall.drawArrays mode 0
        (GLsizei_of_size_t (cmd.count + drawCount (rest.takeWhile p))) :: calls2), ?_, ?_⟩
      · rw [hlog2]
        simp only [GLES2_RenderData.call, hL, List.append_assoc, List.singleton_append]
      · intro ps
        rw [drawnVertices_append ps L _ hnd, hposL ps, drawnVertices,
          Int.toNat_GLsizei_small _ hcnt, hv2, List.flatMap_append,
          ← vertexRange_batch vertices cmd.vertexSize (rest.takeWhile p) cmd
            (fun x hx => (hp x ((List.takeWhile_sublist p).subset hx)
              (List.mem_takeWhile_imp hx)).2) rfl hc1, hstr]
        simp
    have nodraw : ∀ d : GLES2_RenderData, data.Extends d → cmd.isDraw = false →
        GLES2_RunCommandQueue_loop env renderer colorswap vertices 0 d rest
          = some (data', setups) →
        ∃ calls : List GLCall, data'.gl.log = data.gl.log ++ calls ∧
          ∀ ps, drawnVertices ps calls
            = ((cmd :: rest).filter SDL_RenderCommand.isDraw).flatMap
                (SDL_RenderCommand.vertexAddrs vertices) :=
      fun d hd hnd hl => step hnd d hd hl
    have draws : ∀ (mode : GLPrim),
        (cmd.command = SDL_RenderCommandType.DRAW_POINTS
          ∨ cmd.command = SDL_RenderCommandType.GEOMETRY) →
        ((GLES2_RunCommandQueue_setup env renderer data cmd vertices).bind (fun s =>
          (GLES2_RunCommandQueue_loop env renderer colorswap vertices
            (rest.takeWhile (GLES2_RunCommandQueue_joinsDraw cmd)).length
            (GLES2_RunCommandQueue_draw mode cmd rest s.1 s.2) rest).map
            (fun r => (r.1, s.1 :: r.2)))) = some (data', setups) →
        ∃ calls : List GLCall, data'.gl.log = data.gl.log ++ calls ∧
          ∀ ps, drawnVertices ps calls
            = ((cmd :: rest).filter SDL_RenderCommand.isDraw).flatMap
                (SDL_RenderCommand.vertexAddrs vertices) := by
      intro mode hc hl
      simp only [Option.bind_eq_some, Option.map_eq_some', Prod.mk.injEq] at hl
      obtain ⟨⟨s1, s2⟩, hs, r, hr, hd, hsx⟩ := hl
      have hs1 : s1 = true := hok s1 (by rw [← hsx]; exact List.mem_cons_self _ _)
      subst hs1
      have hok2 : ∀ b ∈ r.2, b = true :=
        fun b hb => hok b (by rw [← hsx]; exact List.mem_cons_of_mem _ hb)
      have hdraw : cmd.isDraw = true := by
        rcases hc with hc | hc <;> simp [SDL_RenderCommand.isDraw, hc]
      rw [GLES2_RunCommandQueue_loop_takeWhile] at hr
      have hr2 : GLES2_RunCommandQueue_loop env renderer colorswap vertices 0
          (s2.call [GLCall.drawArrays mode 0 (GLsizei_of_size_t (cmd.count
            + drawCount (rest.takeWhile (GLES2_RunCommandQueue_joinsDraw cmd))))])
          (rest.dropWhile (GLES2_RunCommandQueue_joinsDraw cmd)) = some (data', r.2) := by
        rw [← hd]
        exact hr
      rw [GLES2_RunCommandQueue_counts_draw cmd rest hc] at hsmall
      refine batch (GLES2_RunCommandQueue_joinsDraw cmd) mode s2 r.2 hdraw ?_
        (hsmall _ (List.mem_cons_self _ _))
        (fun k hk => hsmall k (List.mem_cons_of_mem _ hk))
        (GLES2_RunCommandQueue_setup_position env renderer data s2 cmd vertices hs) hr2 hok2
      intro x _ hx
      rw [GLES2_RunCommandQueue_joinsDraw_iff] at hx
      refine ⟨?_, SDL_RenderCommand.vertexSize_congr hx.1 (congrArg Prod.fst hx.2)⟩
      rcases hc with hc | hc <;> simp [SDL_RenderCommand.isDraw, hx.1, hc]
    rw [GLES2_RunCommandQueue_loop] at h
    split at h
    · rename_i hc
      exact nodraw data (GLES2_RenderData.Extends.refl data)
        (by simp [SDL_RenderCommand.isDraw, hc]) h
    · rename_i hc
      exact nodraw _ (GLES2_RunCommandQueue_setviewport_extends data cmd)
        (by simp [SDL_RenderCommand.isDraw, hc]) h
    · rename_i hc
      exact nodraw _ (GLES2_RunCommandQueue_setcliprect_extends data cmd)
        (by simp [SDL_RenderCommand.isDraw, hc]) h
    · rename_i hc
      exact nodraw _ (GLES2_RunCommandQueue_clear_extends env colorswap data cmd)
        (by simp [SDL_RenderCommand.isDraw, hc]) h
    · rename_i hc
      exact nodraw data (GLES2_RenderData.Extends.refl data)
        (by simp [SDL_RenderCommand.isDraw, hc]) h
    · rename_i hc
      exact nodraw data (GLES2_RenderData.Extends.refl data)
        (by simp [SDL_RenderCommand.isDraw, hc]) h
    · rename_i hc
      exact nodraw data (GLES2_RenderData.Extends.refl data)
        (by simp [SDL_RenderCommand.isDraw, hc]) h
    · rename_i hc
      exact nodraw data (GLES2_RenderData.Extends.refl data)
        (by simp [SDL_RenderCommand.isDraw, hc]) h
    · rename_i hc
      have hdraw : cmd.isDraw = true := by simp [SDL_RenderCommand.isDraw, hc]
      have htex : cmd.texture = 0 := hlines cmd (List.mem_cons_self _ _) (Or.inr hc)
      simp only [Option.bind_eq_some] at h
      obtain ⟨⟨s1, s2⟩, hs, h⟩ := h
      have hs1 : s1 = true := by
        cases s1
        · simp only [if_true, Option.map_eq_some', Prod.mk.injEq] at h
          obtain ⟨r, _, _, hsx⟩ := h
          exact absurd (hok false (by rw [← hsx]; exact List.mem_cons_self _ _)) (by simp)
        · rfl
      subst hs1
      have hpos := SetDrawState_position env data s2 cmd GLES2_ImageSource.SOLID vertices hs
      simp only [Bool.true_eq_false, if_false] at h
      split at h
      · rename_i hgt
        simp only [Option.map_eq_some', Prod.mk.injEq] at h
        obtain ⟨r, hr, hd, hsx⟩ := h
        have hok2 : ∀ b ∈ r.2, b = true :=
          fun b hb => hok b (by rw [← hsx]; exact List.mem_cons_of_mem _ hb)
        have ht0 : rest.takeWhile (fun _ => false) = [] := by cases rest <;> rfl
        have hd0 : rest.dropWhile (fun _ => false) = rest := by cases rest <;> rfl
        rw [GLES2_RunCommandQueue_counts_strip cmd rest hc hgt] at hsmall
        refine batch (fun _ => false) GLPrim.LINE_STRIP s2 r.2 hdraw
          (fun x _ hx => absurd hx (by simp)) ?_ ?_ hpos ?_ hok2
        · rw [ht0]
          exact hsmall _ (List.mem_cons_self _ _)
        · rw [hd0]
          exact fun k hk => hsmall k (List.mem_cons_of_mem _ hk)
        · rw [ht0, hd0, ← hd]
          exact hr
      · rename_i hgt
        simp only [Option.map_eq_some', Prod.mk.injEq] at h
        obtain ⟨r, hr, hd, hsx⟩ := h
        have hok2 : ∀ b ∈ r.2, b = true :=
          fun b hb => hok b (by rw [← hsx]; exact List.mem_cons_of_mem _ hb)
        rw [GLES2_RunCommandQueue_loop_takeWhile] at hr
        rw [GLES2_RunCommandQueue_counts_lines cmd rest hc hgt] at hsmall
        refine batch (GLES2_RunCommandQueue_joinsLines cmd.blend) GLPrim.LINES s2 r.2 hdraw
          ?_ (hsmall _ (List.mem_cons_self _ _))
          (fun k hk => hsmall k (List.mem_cons_of_mem _ hk)) hpos
          (by rw [← hd]; exact hr) hok2
        intro x hx hpx
        rw [GLES2_RunCommandQueue_joinsLines_iff] at hpx
        refine ⟨by simp [SDL_RenderCommand.isDraw, hpx.1],
          SDL_RenderCommand.vertexSize_congr (hpx.1.trans hc.symm) ?_⟩
        rw [htex, hlines x (List.mem_cons_of_mem _ hx) (Or.inr hpx.1)]
    · rename_i hc
      exact draws _ (Or.inl hc) h
    · rename_i hc
      exact draws _ (Or.inr hc) h

/-- Claim C7, within the range of `GLsizei`.  The commands are as the queue
functions build them: points and lines, whose vertices are `SDL_VertexSolid`,
carry no texture.  When the draw commands of a list lie one after the other in
the vertex buffer, every draw call of the run covers fewer than `2 ^ 31`
vertices and every state setup returns `true`, the vertices read by the
`glDrawArrays` calls of `GLES2_RunCommandQueue`, in the order of the calls, are
the vertices of the draw commands in list order: the batched run draws what
one draw per command draws. -/
theorem GLES2_RunCommandQueue_draws_commands_in_order (env : Env) (renderer : SDL_Renderer)
    (data : GLES2_RenderData) (cmds : List SDL_RenderCommand) (vertices : Nat)
    (pending : List Nat) (colorswap : Bool) (setups : List Bool)
    (hcs : GLES2_RunCommandQueue_colorswap renderer data = some colorswap)
    (hact : (GLES2_ActivateRenderer renderer data).1 = true)
    (hloop : (GLES2_RunCommandQueue_loop env renderer colorswap vertices 0
      (GLES2_RunCommandQueue_target renderer (GLES2_ActivateRenderer renderer data).2)
      cmds).map Prod.snd = some setups)
    (hok : ∀ b ∈ setups, b = true)
    (hcons : Consecutive (cmds.filter SDL_RenderCommand.isDraw))
    (hsolid : ∀ c ∈ cmds, c.command = SDL_RenderCommandType.DRAW_POINTS
      ∨ c.command = SDL_RenderCommandType.DRAW_LINES → c.texture = 0)
    (hcalls : ∀ k ∈ GLES2_RunCommandQueue_counts 0 cmds, k < 2 ^ 31) :
    ∃ (ok : Bool) (data' : GLES2_RenderData) (calls : List GLCall),
      GLES2_RunCommandQueue env renderer data cmds vertices pending = some (ok, data') ∧
      data'.gl.log = data.gl.log ++ calls ∧
      ∀ ps, drawnVertices ps calls
        = (cmds.filter SDL_RenderCommand.isDraw).flatMap
            (SDL_RenderCommand.vertexAddrs vertices) := by
  simp only [Option.map_eq_some'] at hloop
  obtain ⟨⟨d1, s1⟩, hl, hs⟩ := hloop
  simp only at hs
  subst hs
  obtain ⟨calls, hlog, hv⟩ := GLES2_RunCommandQueue_loop_vertices env renderer colorswap
    vertices cmds.length cmds (le_refl _) _ d1 s1 hl hok hcons hsolid hcalls
  obtain ⟨_, A, hA, hAnd⟩ := (GLES2_ActivateRenderer_extends renderer data).trans
    (GLES2_RunCommandQueue_target_extends renderer _)
  have hA0 : A = [] := by
    have h1 : (GLES2_RunCommandQueue_target renderer
        (GLES2_ActivateRenderer renderer data).2).gl.log = data.gl.log := by
      unfold GLES2_RunCommandQueue_target GLES2_ActivateRenderer
      dsimp only
      split <;> split <;> rfl
    rw [h1] at hA
    exact (List.self_eq_append_right.1 hA)
  obtain ⟨_, B, hB, hBnd⟩ := GL_CheckAllErrors_extends d1 pending
  have hB0 : B = [] := by
    have h1 : (GL_CheckAllErrors d1 pending).2.gl.log = d1.gl.log := by
      unfold GL_CheckAllErrors
      split
      · rfl
      · split <;> rfl
    rw [h1] at hB
    exact (List.self_eq_append_right.1 hB)
  refine ⟨(GL_CheckAllErrors d1 pending).1, (GL_CheckAllErrors d1 pending).2, calls,
    GLES2_RunCommandQueue_of_loop env renderer data d1 cmds vertices pending colorswap s1
      hcs hact hl, ?_, hv⟩
  rw [hB, hB0, List.append_nil, hlog, hA, hA0, List.append_nil]

set_option maxRecDepth 100000 in
theorem GLES2_RunCommandQueue_draws_commands_in_order_witness :
    ∃ (ok : Bool) (data' : GLES2_RenderData) (calls : List GLCall),
      GLES2_RunCommandQueue Env.plain SDL_Renderer.window GLES2_RenderData.ready
        [{ SDL_RenderCommand.zero with command := SDL_RenderCommandType.CLEAR },
         SDL_RenderCommand.geometry 0 3 0, SDL_RenderCommand.geometry 72 6 0,
         SDL_RenderCommand.geometry 216 9 1, SDL_RenderCommand.lines 432 2 0,
         SDL_RenderCommand.lines 480 2 0, SDL_RenderCommand.lines 528 5 0] 0 []
        = some (ok, data') ∧
      data'.gl.log = GLES2_RenderData.ready.gl.log ++ calls ∧
      ∀ ps, drawnVertices ps calls
        = ([{ SDL_RenderCommand.zero with command := SDL_RenderCommandType.CLEAR },
            SDL_RenderCommand.geometry 0 3 0, SDL_RenderCommand.geometry 72 6 0,
            SDL_RenderCommand.geometry 216 9 1, SDL_RenderCommand.lines 432 2 0,
            SDL_RenderCommand.lines 480 2 0, SDL_RenderCommand.lines 528 5 0].filter
              SDL_RenderCommand.isDraw).flatMap (SDL_RenderCommand.vertexAddrs 0) :=
  GLES2_RunCommandQueue_draws_commands_in_order Env.plain SDL_Renderer.window
    GLES2_RenderData.ready _ 0 [] false [true, true, true, true] (by decide) (by decide)
    (by decide) (by decide)
    (List.chain'_cons.2 ⟨by decide, List.chain'_cons.2 ⟨by decide, List.chain'_cons.2
      ⟨by decide, List.chain'_cons.2 ⟨by decide, List.chain'_cons.2
        ⟨by decide, List.chain'_singleton _⟩⟩⟩⟩⟩)
    (by decide) (by decide)

set_option maxRecDepth 100000 in
/-- Claim C7 fails on the code beyond the range of `GLsizei`.  Two
`SDL_RENDERCMD_GEOMETRY` commands of `2 ^ 30` consecutive vertices each, with a
state setup that returns `true`, are one batch, whose count is `2 ^ 31`: the
draw call has the count `-2147483648` and draws nothing, while the commands
have `2147483648` vertices. -/
theorem GLES2_RunCommandQueue_vertices_differ :
    (GLES2_RunCommandQueue_loop Env.plain SDL_Renderer.window false 0 0
        (GLES2_RunCommandQueue_target SDL_Renderer.window
          (GLES2_ActivateRenderer SDL_Renderer.window GLES2_RenderData.ready).2)
        [SDL_RenderCommand.geometry 0 (2 ^ 30) 0,
         SDL_RenderCommand.geometry (24 * 2 ^ 30) (2 ^ 30) 0]).map Prod.snd = some [true]
    ∧ Consecutive ([SDL_RenderCommand.geometry 0 (2 ^ 30) 0,
         SDL_RenderCommand.geometry (24 * 2 ^ 30) (2 ^ 30) 0].filter SDL_RenderCommand.isDraw)
    ∧ GLES2_RunCommandQueue_counts 0
        [SDL_RenderCommand.geometry 0 (2 ^ 30) 0,
         SDL_RenderCommand.geometry (24 * 2 ^ 30) (2 ^ 30) 0] = [2 ^ 31]
    ∧ (GLES2_RunCommandQueue Env.plain SDL_Renderer.window GLES2_RenderData.ready
        [SDL_RenderCommand.geometry 0 (2 ^ 30) 0,
         SDL_RenderCommand.geometry (24 * 2 ^ 30) (2 ^ 30) 0] 0 []).map
        (fun r => drawCalls r.2.gl.log) = some [(GLPrim.TRIANGLES, -2147483648)]
    ∧ (GLES2_RunCommandQueue Env.plain SDL_Renderer.window GLES2_RenderData.ready
        [SDL_RenderCommand.geometry 0 (2 ^ 30) 0,
         SDL_RenderCommand.geometry (24 * 2 ^ 30) (2 ^ 30) 0] 0 []).map
        (fun r => drawnVertices (0, 0) r.2.gl.log) = some []
    ∧ (([SDL_RenderCommand.geometry 0 (2 ^ 30) 0,
         SDL_RenderCommand.geometry (24 * 2 ^ 30) (2 ^ 30) 0].filter
          SDL_RenderCommand.isDraw).flatMap (SDL_RenderCommand.vertexAddrs 0)).length
        = 2147483648 := by
  refine ⟨by decide, List.chain'_cons.2 ⟨by decide, List.chain'_singleton _⟩, by decide,
    by decide, by decide, ?_⟩
  have hf : [SDL_RenderCommand.geometry 0 (2 ^ 30) 0,
      SDL_RenderCommand.geometry (24 * 2 ^ 30) (2 ^ 30) 0].filter SDL_RenderCommand.isDraw
      = [SDL_RenderCommand.geometry 0 (2 ^ 30) 0,
         SDL_RenderCommand.geometry (24 * 2 ^ 30) (2 ^ 30) 0] := by decide
  rw [hf]
  simp only [List.flatMap_cons, List.flatMap_nil, List.append_nil, List.length_append,
    SDL_RenderCommand.vertexAddrs, vertexRange, List.length_map, List.length_range,
    SDL_RenderCommand.geometry]
  norm_num

/-! ## A repeated state setup -/

theorem Heap.Sub.sub_refl (h : Heap) : h.Sub h := fun _ e' he => ⟨e', he, rfl⟩

theorem Heap.Sub.sub_trans {h1 h2 h3 : Heap} (h12 : h1.Sub h2) (h23 : h2.Sub h3) : h1.Sub h3 := by
  intro y e3 he3
  obtain ⟨e2, he2, hc2⟩ := h23 y e3 he3
  obtain ⟨e1, he1, hc1⟩ := h12 y e2 he2
  exact ⟨e1, he1, hc1.trans hc2⟩

theorem Heap.Sub.of_write {h : Heap} {p : Nat} {e e' : GLES2_ProgramCacheEntry}
    (he : h.cells p = some e) (hc : e.core = e'.core) : h.Sub (h.write p e') := by
  intro y ey hy
  rw [Heap.write_cells] at hy
  split at hy
  · rename_i hyp
    simp only [Option.some.injEq] at hy
    rw [hyp, ← hy]
    exact ⟨e, he, hc⟩
  · exact ⟨ey, hy, rfl⟩

theorem Heap.Sub.of_modify {h h' : Heap} {p : Nat}
    {g : GLES2_ProgramCacheEntry → GLES2_ProgramCacheEntry}
    (hm : h.modify p g = some h') (hg : ∀ e, (g e).core = e.core) : h.Sub h' := by
  unfold Heap.modify at hm
  split at hm
  · simp at hm
  · rename_i e he
    simp only [Option.some.injEq] at hm
    rw [← hm]
    unfold Heap.read at he
    split at he
    · simp at he
    · exact Heap.Sub.of_write he (hg e).symm

theorem Heap.Sub.of_free {h h' : Heap} {p : Nat} (hf : h.free p = some h') : h.Sub h' := by
  unfold Heap.free at hf
  split at hf
  · simp only [Option.some.injEq] at hf
    rw [← hf]
    exact Heap.Sub.sub_refl h
  · split at hf
    · simp at hf
    · simp only [Option.some.injEq] at hf
      rw [← hf]
      intro y ey hy
      simp only at hy
      split at hy
      · simp at hy
      · exact ⟨ey, hy, rfl⟩

theorem Heap.Sub.of_ite_modify {h h' : Heap} {p : Nat} {c : Prop} [Decidable c]
    {g : GLES2_ProgramCacheEntry → GLES2_ProgramCacheEntry}
    (hm : (if c then h.modify p g else some h) = some h') (hg : ∀ e, (g e).core = e.core) :
    h.Sub h' := by
  split at hm
  · exact Heap.Sub.of_modify hm hg
  · simp only [Option.some.injEq] at hm
    rw [← hm]
    exact Heap.Sub.sub_refl h

theorem GLES2_RenderData.CacheFrame.cache_refl (data : GLES2_RenderData) : data.CacheFrame data :=
  ⟨rfl, rfl, rfl, Heap.Sub.sub_refl _⟩

theorem GLES2_RenderData.CacheFrame.cache_trans {a b c : GLES2_RenderData}
    (h1 : a.CacheFrame b) (h2 : b.CacheFrame c) : a.CacheFrame c :=
  ⟨h2.1.trans h1.1, h2.2.1.trans h1.2.1, h2.2.2.1.trans h1.2.2.1, h1.2.2.2.sub_trans h2.2.2.2⟩

theorem GLES2_CacheProgram_hit_frame (data data' : GLES2_RenderData) (entry : Nat)
    (h : GLES2_CacheProgram_hit data entry = some data') : data.CacheFrame data' := by
  unfold GLES2_CacheProgram_hit at h
  split at h
  · simp only [Option.some.injEq] at h
    subst h
    exact GLES2_RenderData.CacheFrame.cache_refl data
  · simp only [Option.bind_eq_bind, Option.bind_eq_some] at h
    obtain ⟨e, _, h1, hh1, e1, _, h2, hh2, h3, hh3, h4, hh4, h⟩ := h
    simp only [Option.some.injEq] at h
    subst h
    refine ⟨rfl, rfl, rfl, ?_⟩
    exact (((Heap.Sub.of_ite_modify hh1 (fun _ => rfl)).sub_trans
      (Heap.Sub.of_ite_modify hh2 (fun _ => rfl))).sub_trans
      (Heap.Sub.of_modify hh3 (fun _ => rfl))).sub_trans (Heap.Sub.of_modify hh4 (fun _ => rfl))

theorem GLES2_CacheProgram_evict_frame (data data' : GLES2_RenderData)
    (h : GLES2_CacheProgram_evict data = some data') : data.CacheFrame data' := by
  unfold GLES2_CacheProgram_evict at h
  split at h
  · simp only [Option.bind_eq_bind, Option.bind_eq_some] at h
    obtain ⟨t, _, h1, hh1, h⟩ := h
    simp only [Option.some.injEq] at h
    subst h
    refine ⟨rfl, rfl, rfl, ?_⟩
    split at hh1
    · simp only [Option.bind_eq_some] at hh1
      obtain ⟨t1, _, hf, hhf, hm⟩ := hh1
      exact (Heap.Sub.of_free hhf).sub_trans (Heap.Sub.of_modify hm (fun _ => rfl))
    · simp only [Option.some.injEq] at hh1
      rw [← hh1]
      exact Heap.Sub.sub_refl _
  · simp only [Option.some.injEq] at h
    subst h
    exact GLES2_RenderData.CacheFrame.cache_refl data

theorem GLES2_CacheProgram_insert_frame (env : Env) (data data' : GLES2_RenderData)
    (entry n : Nat) (h : GLES2_CacheProgram_insert env data entry n = some data') :
    data.CacheFrame data' := by
  unfold GLES2_CacheProgram_insert at h
  simp only [Option.bind_eq_some] at h
  obtain ⟨e, he, h3, hh3, h⟩ := h
  simp only [Option.some.injEq] at h
  subst h
  refine ⟨rfl, rfl, rfl, ?_⟩
  have hcell : data.heap.cells entry = some e := by
    unfold Heap.read at he
    split at he
    · simp at he
    · exact he
  have hw : data.heap.Sub (data.heap.write entry
      { e with uniform_locations := GLES2_CacheProgram_locs env n }) :=
    Heap.Sub.of_write hcell rfl
  split at hh3
  · simp only [Option.bind_eq_some] at hh3
    obtain ⟨ha, hha, hm⟩ := hh3
    exact (hw.sub_trans (Heap.Sub.of_modify hha (fun _ => rfl))).sub_trans
      (Heap.Sub.of_modify hm (fun _ => rfl))
  · simp only [Option.some.injEq] at hh3
    rw [← hh3]
    exact hw

theorem GLES2_CacheProgram_search_entry (h : Heap) (vertex fragment : Nat) :
    ∀ (fuel entry r : Nat), GLES2_CacheProgram_search h vertex fragment fuel entry = some r →
      r ≠ 0 → ∃ e, h.cells r = some e ∧ e.vertex_shader = vertex ∧ e.fragment_shader = fragment
  | 0, _, _, hs, _ => by simp [GLES2_CacheProgram_search] at hs
  | fuel + 1, entry, r, hs, hr => by
    unfold GLES2_CacheProgram_search at hs
    split at hs
    · simp only [Option.some.injEq] at hs
      exact absurd hs.symm hr
    · split at hs
      · simp at hs
      · rename_i e he
        split at hs
        · rename_i hk
          simp only [Option.some.injEq] at hs
          subst hs
          unfold Heap.read at he
          split at he
          · simp at he
          · exact ⟨e, he, hk.1, hk.2⟩
        · exact GLES2_CacheProgram_search_entry h vertex fragment fuel _ r hs hr

/-- The entry `GLES2_CacheProgram` returns stores the pair asked for, and its
shader parameters are `NULL` or those the entry had before the call. -/
theorem GLES2_CacheProgram_entry (env : Env) (data data' : GLES2_RenderData)
    (vertex fragment r : Nat)
    (h : GLES2_CacheProgram env data vertex fragment = some (r, data')) (hr : r ≠ 0) :
    data'.drawstate = data.drawstate ∧ data'.shader_id_cache = data.shader_id_cache ∧
    data'.textures = data.textures ∧
    ∀ p, data'.heap.cells r = some p →
      p.vertex_shader = vertex ∧ p.fragment_shader = fragment ∧
      (p.shader_params = ShaderParams.null
        ∨ ∃ e, data.heap.cells r = some e ∧ e.vertex_shader = vertex
            ∧ e.fragment_shader = fragment ∧ e.shader_params = p.shader_params) := by
  unfold GLES2_CacheProgram at h
  simp only [Option.bind_eq_some] at h
  obtain ⟨entry, hsearch, h⟩ := h
  split at h
  · simp only [Option.bind_eq_some, Option.some.injEq, Prod.mk.injEq] at h
    obtain ⟨d1, hd1, hre, hd⟩ := h
    subst hre hd
    obtain ⟨hds, hsh, htx, hsub⟩ := GLES2_CacheProgram_hit_frame _ _ _ hd1
    refine ⟨hds, hsh, htx, fun p hp => ?_⟩
    obtain ⟨e, he, hc⟩ := hsub _ p hp
    obtain ⟨e2, he2, hv, hf⟩ := GLES2_CacheProgram_search_entry _ _ _ _ _ _ hsearch hr
    rw [he] at he2
    simp only [Option.some.injEq] at he2
    subst he2
    simp only [GLES2_ProgramCacheEntry.core, Prod.mk.injEq] at hc
    exact ⟨hc.1 ▸ hv, hc.2.1 ▸ hf, Or.inr ⟨e, he, hv, hf, hc.2.2⟩⟩
  · unfold GLES2_CacheProgram_miss at h
    split at h
    · simp only [Option.some.injEq, Prod.mk.injEq] at h
      exact absurd h.1.symm hr
    · simp only at h
      split at h
      · simp only [Option.bind_eq_some, Option.some.injEq, Prod.mk.injEq] at h
        obtain ⟨_, _, h0, _⟩ := h
        exact absurd h0.symm hr
      · simp only [Option.bind_eq_some, Option.some.injEq, Prod.mk.injEq] at h
        obtain ⟨d3, h3, d4, h4, hre, hd⟩ := h
        subst hre hd
        obtain ⟨hds, hsh, htx, hsub⟩ := (GLES2_CacheProgram_insert_frame env _ _ _ _ h3).cache_trans
          (GLES2_CacheProgram_evict_frame _ _ h4)
        refine ⟨hds, hsh, htx, fun p hp => ?_⟩
        obtain ⟨e, he, hc⟩ := hsub _ p hp
        simp only [GLES2_CacheProgram_create, GLES2_RenderData.call, if_true,
          Option.some.injEq] at he
        subst he
        simp only [GLES2_ProgramCacheEntry.core, GLES2_ProgramCacheEntry.zero,
          Prod.mk.injEq] at hc
        exact ⟨hc.1.symm, hc.2.1.symm, Or.inl hc.2.2.symm⟩

theorem GLES2_SelectProgram_shader_cached (env : Env) (data : GLES2_RenderData)
    (type : GLES2_ShaderType) (fragment : Bool) (h : data.shader_id_cache type ≠ 0) :
    GLES2_SelectProgram_shader env data type fragment = (data.shader_id_cache type, data) := by
  unfold GLES2_SelectProgram_shader
  rw [if_pos h]

theorem GLES2_SelectProgram_load_cached (env : Env) (data : GLES2_RenderData)
    (ftype : GLES2_ShaderType) (params : ShaderParams)
    (hv : data.shader_id_cache GLES2_ShaderType.VERTEX_DEFAULT ≠ 0)
    (hf : data.shader_id_cache ftype ≠ 0) :
    GLES2_SelectProgram_load env data ftype params
      = (GLES2_SelectProgram_current data
          (data.shader_id_cache GLES2_ShaderType.VERTEX_DEFAULT) (data.shader_id_cache ftype)
          params).bind (fun current =>
        if current then some (true, data)
        else GLES2_SelectProgram_use env data
          (data.shader_id_cache GLES2_ShaderType.VERTEX_DEFAULT) (data.shader_id_cache ftype)
          ftype params) := by
  unfold GLES2_SelectProgram_load
  simp only [GLES2_SelectProgram_shader_cached env data _ _ hv,
    GLES2_SelectProgram_shader_cached env data _ _ hf, hv, hf, if_false]

theorem GLES2_SelectProgram_current_iff (data : GLES2_RenderData) (vertex fragment : Nat)
    (params : ShaderParams) :
    GLES2_SelectProgram_current data vertex fragment params = some true
      ↔ data.Selected vertex fragment params := by
  unfold GLES2_SelectProgram_current GLES2_RenderData.Selected
  constructor
  · intro h
    split at h
    · simp at h
    · rename_i h0
      split at h
      · simp at h
      · rename_i p hp
        simp only [Option.some.injEq, decide_eq_true_eq] at h
        exact ⟨h0, p, hp, h⟩
  · rintro ⟨h0, p, hp, hk⟩
    rw [if_neg h0, hp]
    simp only [Option.some.injEq, decide_eq_true_eq]
    exact hk

theorem Heap.cells_of_read {h : Heap} {p : Nat} {e : GLES2_ProgramCacheEntry}
    (hr : h.read p = some e) : h.cells p = some e := by
  unfold Heap.read at hr
  split at hr
  · simp at hr
  · exact hr

theorem GLES2_SelectProgram_use_selected (env : Env) (data data' : GLES2_RenderData)
    (vertex fragment : Nat) (ftype : GLES2_ShaderType) (params : ShaderParams)
    (h : GLES2_SelectProgram_use env data vertex fragment ftype params = some (true, data'))
    (hparams : params = ShaderParams.null → ∀ a e, data.heap.cells a = some e →
      e.vertex_shader = vertex → e.fragment_shader = fragment →
      e.shader_params = ShaderParams.null) :
    data'.Selected vertex fragment params ∧ data'.shader_id_cache = data.shader_id_cache ∧
    data'.textures = data.textures ∧
    { data'.drawstate with program := 0 } = { data.drawstate with program := 0 } := by
  unfold GLES2_SelectProgram_use at h
  simp only [Option.bind_eq_some] at h
  obtain ⟨⟨r, d2⟩, hcp, h⟩ := h
  simp only at h
  split at h
  · simp [GLES2_SelectProgram_fault] at h
  · rename_i hr
    simp only [Option.bind_eq_some, Option.some.injEq, Prod.mk.injEq, true_and] at h
    obtain ⟨p, hp, h⟩ := h
    obtain ⟨hds, hsh, htx, hent⟩ := GLES2_CacheProgram_entry env data d2 vertex fragment r hcp hr
    obtain ⟨hpv, hpf, hps⟩ := hent p (Heap.cells_of_read hp)
    subst h
    unfold GLES2_SelectProgram_params
    by_cases hc : params ≠ ShaderParams.null ∧ params ≠ p.shader_params
    · rw [if_pos hc]
      refine ⟨⟨hr, { p with shader_params := params }, ?_, hpv, hpf, rfl⟩, hsh, htx, ?_⟩
      · simp [Heap.read, Heap.write, hr, GLES2_RenderData.call]
      · simp only [GLES2_RenderData.call, hds]
    · rw [if_neg hc]
      refine ⟨⟨hr, p, ?_, hpv, hpf, ?_⟩, hsh, htx, ?_⟩
      · simpa [GLES2_RenderData.call] using hp
      · by_cases hn : params = ShaderParams.null
        · rcases hps with hps | ⟨e, he, hev, hef, hes⟩
          · rw [hps, hn]
          · rw [← hes, hparams hn r e he hev hef, hn]
        · by_contra hne
          exact hc ⟨hn, fun heq => hne heq.symm⟩
      · simp only [GLES2_RenderData.call, hds]

/-- After `GLES2_SelectProgram` has returned `true` with both shaders compiled
beforehand, the program wanted is current. -/
theorem GLES2_SelectProgram_load_selected (env : Env) (data data' : GLES2_RenderData)
    (ftype : GLES2_ShaderType) (params : ShaderParams)
    (hv : data.shader_id_cache GLES2_ShaderType.VERTEX_DEFAULT ≠ 0)
    (hf : data.shader_id_cache ftype ≠ 0)
    (h : GLES2_SelectProgram_load env data ftype params = some (true, data'))
    (hparams : params = ShaderParams.null → ∀ a e, data.heap.cells a = some e →
      e.vertex_shader = data.shader_id_cache GLES2_ShaderType.VERTEX_DEFAULT →
      e.fragment_shader = data.shader_id_cache ftype → e.shader_params = ShaderParams.null) :
    data'.Selected (data.shader_id_cache GLES2_ShaderType.VERTEX_DEFAULT)
      (data.shader_id_cache ftype) params ∧
    data'.shader_id_cache = data.shader_id_cache ∧ data'.textures = data.textures ∧
    { data'.drawstate with program := 0 } = { data.drawstate with program := 0 } := by
  rw [GLES2_SelectProgram_load_cached env data ftype params hv hf] at h
  simp only [Option.bind_eq_some] at h
  obtain ⟨current, hcur, h⟩ := h
  cases current
  · simp only [Bool.false_eq_true, if_false] at h
    exact GLES2_SelectProgram_use_selected env data data' _ _ ftype params h hparams
  · simp only [if_true, Option.some.injEq, Prod.mk.injEq, true_and] at h
    subst h
    exact ⟨(GLES2_SelectProgram_current_iff _ _ _ _).1 hcur, rfl, rfl, rfl⟩

/-- With the program wanted current and both shaders compiled,
`GLES2_SelectProgram` returns `true` at once. -/
theorem GLES2_SelectProgram_load_of_selected (env : Env) (data : GLES2_RenderData)
    (ftype : GLES2_ShaderType) (params : ShaderParams)
    (hv : data.shader_id_cache GLES2_ShaderType.VERTEX_DEFAULT ≠ 0)
    (hf : data.shader_id_cache ftype ≠ 0)
    (hsel : data.Selected (data.shader_id_cache GLES2_ShaderType.VERTEX_DEFAULT)
      (data.shader_id_cache ftype) params) :
    GLES2_SelectProgram_load env data ftype params = some (true, data) := by
  rw [GLES2_SelectProgram_load_cached env data ftype params hv hf,
    (GLES2_SelectProgram_current_iff _ _ _ _).2 hsel]
  rfl

theorem SetDrawState_viewport_flags (env : Env) (data : GLES2_RenderData) :
    (SetDrawState_viewport env data).drawstate.viewport_dirty = false ∧
    (SetDrawState_viewport env data).heap = data.heap ∧
    (SetDrawState_viewport env data).shader_id_cache = data.shader_id_cache ∧
    (SetDrawState_viewport env data).textures = data.textures ∧
    { (SetDrawState_viewport env data).drawstate with
        viewport_dirty := false, projection := [] }
      = { data.drawstate with viewport_dirty := false, projection := [] } := by
  unfold SetDrawState_viewport
  by_cases h : data.drawstate.viewport_dirty = true
  · rw [if_pos h]
    exact ⟨rfl, rfl, rfl, rfl, rfl⟩
  · rw [if_neg h]
    simp only [Bool.not_eq_true] at h
    exact ⟨h, rfl, rfl, rfl, rfl⟩

theorem SetDrawState_cliprect_flags (data : GLES2_RenderData) :
    (SetDrawState_cliprect data).drawstate.cliprect_enabled_dirty = false ∧
    ¬ ((SetDrawState_cliprect data).drawstate.cliprect_enabled = true
        ∧ (SetDrawState_cliprect data).drawstate.cliprect_dirty = true) ∧
    (SetDrawState_cliprect data).heap = data.heap ∧
    (SetDrawState_cliprect data).shader_id_cache = data.shader_id_cache ∧
    (SetDrawState_cliprect data).textures = data.textures ∧
    { (SetDrawState_cliprect data).drawstate with
        cliprect_enabled_dirty := false, cliprect_dirty := false }
      = { data.drawstate with cliprect_enabled_dirty := false, cliprect_dirty := false } := by
  unfold SetDrawState_cliprect
  by_cases h1 : data.drawstate.cliprect_enabled_dirty = true <;>
  by_cases h2 : data.drawstate.cliprect_enabled = true <;>
  by_cases h3 : data.drawstate.cliprect_dirty = true <;>
  simp [h1, h2, h3, GLES2_RenderData.call]

theorem SetDrawState_texturing_flags (data : GLES2_RenderData) (texture : Nat) :
    (SetDrawState_texturing data texture).drawstate.texturing_dirty = false ∧
    (SetDrawState_texturing data texture).drawstate.texturing = decide (texture ≠ 0) ∧
    (SetDrawState_texturing data texture).heap = data.heap ∧
    (SetDrawState_texturing data texture).shader_id_cache = data.shader_id_cache ∧
    (SetDrawState_texturing data texture).textures = data.textures ∧
    { (SetDrawState_texturing data texture).drawstate with
        texturing_dirty := false, texturing := false }
      = { data.drawstate with texturing_dirty := false, texturing := false } := by
  unfold SetDrawState_texturing
  by_cases h1 : data.drawstate.texturing_dirty = true <;>
  by_cases h2 : texture = 0 <;>
  by_cases h3 : data.drawstate.texturing = true <;>
  simp [h1, h2, h3, GLES2_RenderData.call]

theorem SetDrawState_before_clean (env : Env) (data : GLES2_RenderData)
    (cmd : SDL_RenderCommand) (vertices : Nat) :
    (SetDrawState_before env data cmd vertices).Clean cmd ∧
    (SetDrawState_before env data cmd vertices).heap = data.heap ∧
    (SetDrawState_before env data cmd vertices).shader_id_cache = data.shader_id_cache ∧
    (SetDrawState_before env data cmd vertices).textures = data.textures ∧
    (SetDrawState_before env data cmd vertices).drawstate.program = data.drawstate.program ∧
    (SetDrawState_before env data cmd vertices).drawstate.blend = data.drawstate.blend ∧
    (SetDrawState_before env data cmd vertices).drawstate.texture = data.drawstate.texture := by
  obtain ⟨v1, v2, v3, v4, v5⟩ := SetDrawState_viewport_flags env data
  obtain ⟨c1, c2, c3, c4, c5, c6⟩ := SetDrawState_cliprect_flags (SetDrawState_viewport env data)
  obtain ⟨t1, t2, t3, t4, t5, t6⟩ := SetDrawState_texturing_flags
    (SetDrawState_cliprect (SetDrawState_viewport env data)) cmd.texture
  have hB : (SetDrawState_before env data cmd vertices).drawstate
      = (SetDrawState_texturing (SetDrawState_cliprect (SetDrawState_viewport env data))
          cmd.texture).drawstate := rfl
  have hBh : (SetDrawState_before env data cmd vertices).heap
      = (SetDrawState_texturing (SetDrawState_cliprect (SetDrawState_viewport env data))
          cmd.texture).heap := rfl
  have hBs : (SetDrawState_before env data cmd vertices).shader_id_cache
      = (SetDrawState_texturing (SetDrawState_cliprect (SetDrawState_viewport env data))
          cmd.texture).shader_id_cache := rfl
  have hBt : (SetDrawState_before env data cmd vertices).textures
      = (SetDrawState_texturing (SetDrawState_cliprect (SetDrawState_viewport env data))
          cmd.texture).textures := rfl
  refine ⟨⟨?_, ?_, ?_, ?_, ?_⟩, ?_, ?_, ?_, ?_, ?_, ?_⟩
  · rw [hB]
    have a := congrArg GLES2_DrawStateCache.viewport_dirty t6
    have b := congrArg GLES2_DrawStateCache.viewport_dirty c6
    simp only at a b
    rw [a, b, v1]
  · rw [hB]
    have a := congrArg GLES2_DrawStateCache.cliprect_enabled_dirty t6
    simp only at a
    rw [a, c1]
  · rw [hB]
    have a := congrArg GLES2_DrawStateCache.cliprect_enabled t6
    have b := congrArg GLES2_DrawStateCache.cliprect_dirty t6
    simp only at a b
    rw [a, b]
    exact c2
  · rw [hB, t1]
  · rw [hB, t2]
  · rw [hBh, t3, c3, v2]
  · rw [hBs, t4, c4, v3]
  · rw [hBt, t5, c5, v4]
  · rw [hB]
    have a := congrArg GLES2_DrawStateCache.program t6
    have b := congrArg GLES2_DrawStateCache.program c6
    have c := congrArg GLES2_DrawStateCache.program v5
    simp only at a b c
    rw [a, b, c]
  · rw [hB]
    have a := congrArg GLES2_DrawStateCache.blend t6
    have b := congrArg GLES2_DrawStateCache.blend c6
    have c := congrArg GLES2_DrawStateCache.blend v5
    simp only at a b c
    rw [a, b, c]
  · rw [hB]
    have a := congrArg GLES2_DrawStateCache.texture t6
    have b := congrArg GLES2_DrawStateCache.texture c6
    have c := congrArg GLES2_DrawStateCache.texture v5
    simp only at a b c
    rw [a, b, c]

theorem SetDrawState_before_of_clean (env : Env) (data : GLES2_RenderData)
    (cmd : SDL_RenderCommand) (vertices : Nat) (h : data.Clean cmd) :
    SetDrawState_before env data cmd vertices
      = data.call
          (if cmd.texture ≠ 0 then
             [GLCall.vertexAttribPointer GLES2_ATTRIBUTE_TEXCOORD 2 false
                (SetDrawState_stride cmd) (vertices + cmd.first + offsetof_tex_coord)]
           else []) := by
  obtain ⟨h1, h2, h3, h4, h5⟩ := h
  have hv : SetDrawState_viewport env data = data := by
    unfold SetDrawState_viewport
    simp [h1]
  have hc : SetDrawState_cliprect data = data := by
    unfold SetDrawState_cliprect
    simp only [h2, Bool.false_eq_true, if_false]
    rw [if_neg h3]
  have ht : SetDrawState_texturing data cmd.texture = data := by
    unfold SetDrawState_texturing
    rw [if_neg]
    simp [h4, h5]
  unfold SetDrawState_before
  rw [hv, hc, ht]

theorem SetDrawState_blend_flags (env : Env) (data : GLES2_RenderData) (blend : SDL_BlendMode) :
    (SetDrawState_blend env data blend).drawstate.blend = blend ∧
    (SetDrawState_blend env data blend).heap = data.heap ∧
    (SetDrawState_blend env data blend).shader_id_cache = data.shader_id_cache ∧
    (SetDrawState_blend env data blend).textures = data.textures ∧
    { (SetDrawState_blend env data blend).drawstate with blend := 0 }
      = { data.drawstate with blend := 0 } := by
  unfold SetDrawState_blend
  by_cases h : blend ≠ data.drawstate.blend
  · rw [if_pos h]
    exact ⟨rfl, rfl, rfl, rfl, rfl⟩
  · rw [if_neg h]
    simp only [ne_eq, not_not] at h
    exact ⟨h.symm, rfl, rfl, rfl, rfl⟩

theorem SetDrawState_blend_of_eq (env : Env) (data : GLES2_RenderData) (blend : SDL_BlendMode)
    (h : data.drawstate.blend = blend) : SetDrawState_blend env data blend = data := by
  unfold SetDrawState_blend
  rw [if_neg]
  simp [h]

/-- The projection step keeps the current program and leaves its projection
up to date. -/
theorem SetDrawState_projection_settled (data data' : GLES2_RenderData)
    (vertex fragment : Nat) (params : ShaderParams)
    (h : SetDrawState_projection data = some data')
    (hsel : data.Selected vertex fragment params) :
    data'.drawstate = data.drawstate ∧ data'.shader_id_cache = data.shader_id_cache ∧
    data'.textures = data.textures ∧
    ∃ p, data'.heap.read data'.drawstate.program = some p ∧
      p.vertex_shader = vertex ∧ p.fragment_shader = fragment ∧ p.shader_params = params ∧
      ¬ (p.uniform_locations.getD GLES2_UNIFORM_PROJECTION 0 ≠ -1
          ∧ p.projection ≠ data'.drawstate.projection) := by
  obtain ⟨h0, p, hp, hv, hf, hs⟩ := hsel
  unfold SetDrawState_projection at h
  rw [hp] at h
  simp only at h
  split at h
  · simp only [Option.some.injEq] at h
    subst h
    refine ⟨rfl, rfl, rfl, { p with projection := data.drawstate.projection }, ?_, hv, hf, hs, ?_⟩
    · simp [Heap.read, Heap.write, h0, GLES2_RenderData.call]
    · simp [GLES2_RenderData.call]
  · rename_i hc
    simp only [Option.some.injEq] at h
    subst h
    exact ⟨rfl, rfl, rfl, p, hp, hv, hf, hs, hc⟩

theorem SetDrawState_projection_of_settled (data : GLES2_RenderData) (cmd : SDL_RenderCommand)
    (vertex fragment : Nat) (params : ShaderParams)
    (h : data.Settled cmd vertex fragment params) : SetDrawState_projection data = some data := by
  obtain ⟨_, _, _, p, hp, _, _, _, hc⟩ := h
  unfold SetDrawState_projection
  rw [hp]
  simp only
  rw [if_neg hc]

theorem GLES2_SelectProgram_of_ok (env : Env) (data : GLES2_RenderData) (texture : Nat)
    (source : GLES2_ImageSource) (scale_mode : SDL_ScaleMode) (colorspace : SDL_Colorspace)
    (ftype : GLES2_ShaderType) (params : ShaderParams)
    (hvar : GLES2_SelectProgram_variant env texture source scale_mode colorspace
      = .ok (ftype, params)) :
    GLES2_SelectProgram env data texture source scale_mode colorspace
      = GLES2_SelectProgram_load env data ftype params := by
  unfold GLES2_SelectProgram
  rw [hvar]

theorem GLES2_SelectProgram_true (env : Env) (data data' : GLES2_RenderData) (texture : Nat)
    (source : GLES2_ImageSource) (scale_mode : SDL_ScaleMode) (colorspace : SDL_Colorspace)
    (h : GLES2_SelectProgram env data texture source scale_mode colorspace
      = some (true, data')) :
    ∃ ftype params,
      GLES2_SelectProgram_variant env texture source scale_mode colorspace
        = .ok (ftype, params) ∧
      GLES2_SelectProgram_load env data ftype params = some (true, data') := by
  unfold GLES2_SelectProgram at h
  split at h
  · simp [GLES2_SelectProgram_fault] at h
  · simp [GLES2_SelectProgram_fault] at h
  · rename_i variant hvar
    exact ⟨variant.1, variant.2, hvar, h⟩

theorem GLES2_RenderData.Clean.of_flags {a b : GLES2_RenderData} {cmd : SDL_RenderCommand}
    (h : a.Clean cmd) (hf : b.drawstate.flags = a.drawstate.flags) : b.Clean cmd := by
  simp only [GLES2_DrawStateCache.flags, Prod.mk.injEq] at hf
  obtain ⟨f1, f2, f3, f4, f5, f6⟩ := hf
  unfold GLES2_RenderData.Clean
  rw [f1, f2, f3, f4, f5, f6]
  exact h

/-! ## The program cache keeps shader parameters on the shaders that take them -/

theorem GLES2_SelectProgram_variant_params (env : Env) (texture : Nat)
    (source : GLES2_ImageSource) (scale_mode : SDL_ScaleMode) (colorspace : SDL_Colorspace)
    (ftype : GLES2_ShaderType) (params : ShaderParams)
    (h : GLES2_SelectProgram_variant env texture source scale_mode colorspace
      = .ok (ftype, params)) :
    params = ShaderParams.null ↔ ftype.hasParams = false := by
  unfold GLES2_SelectProgram_variant at h
  cases source <;> simp only at h
  · cases h
  · cases h; simp [GLES2_ShaderType.hasParams]
  all_goals
    first
    | (split at h <;> cases h <;> simp [GLES2_ShaderType.hasParams] <;> done)
    | (split at h <;> cases h <;> cases env.nv12_rg_hint <;> simp [GLES2_ShaderType.hasParams])
    | (cases h; simp [GLES2_ShaderType.hasParams])

theorem Heap.Sub.grows {h h' : Heap} (hs : h.Sub h') : h.Grows h' :=
  fun y e' he => Or.inl (hs y e' he)

theorem Heap.Grows.grows_sub {h1 h2 h3 : Heap} (h12 : h1.Grows h2) (h23 : h2.Sub h3) :
    h1.Grows h3 := by
  intro y e3 he3
  obtain ⟨e2, he2, hc23⟩ := h23 y e3 he3
  rcases h12 y e2 he2 with ⟨e1, he1, hc12⟩ | hn
  · exact Or.inl ⟨e1, he1, hc12.trans hc23⟩
  · right
    have : e2.shader_params = e3.shader_params := by
      have hx := congrArg (fun c => c.2.2) hc23
      exact hx
    rw [← this]
    exact hn

theorem Heap.Grows.grows_trans {h1 h2 h3 : Heap} (h12 : h1.Grows h2) (h23 : h2.Grows h3) :
    h1.Grows h3 := by
  intro y e3 he3
  rcases h23 y e3 he3 with ⟨e2, he2, hc23⟩ | hn
  · rcases h12 y e2 he2 with ⟨e1, he1, hc12⟩ | hn
    · exact Or.inl ⟨e1, he1, hc12.trans hc23⟩
    · right
      have : e2.shader_params = e3.shader_params := by
        have hx := congrArg (fun c => c.2.2) hc23
        exact hx
      rw [← this]
      exact hn
  · exact Or.inr hn

theorem GLES2_CacheProgram_create_grows (env : Env) (data : GLES2_RenderData)
    (vertex fragment : Nat) :
    data.heap.Grows (GLES2_CacheProgram_create env data vertex fragment).heap ∧
    (GLES2_CacheProgram_create env data vertex fragment).shader_id_cache
      = data.shader_id_cache := by
  refine ⟨?_, rfl⟩
  intro y e' he
  simp only [GLES2_CacheProgram_create, GLES2_RenderData.call] at he
  split at he
  · simp only [Option.some.injEq] at he
    right
    rw [← he]
    rfl
  · exact Or.inl ⟨e', he, rfl⟩

/-- Whatever `GLES2_CacheProgram` returns, it leaves the shader names alone,
and every entry it leaves has its shaders and shader parameters as before or
is new, without shader parameters. -/
theorem GLES2_CacheProgram_grows (env : Env) (data data' : GLES2_RenderData)
    (vertex fragment r : Nat)
    (h : GLES2_CacheProgram env data vertex fragment = some (r, data')) :
    data'.shader_id_cache = data.shader_id_cache ∧ data.heap.Grows data'.heap := by
  unfold GLES2_CacheProgram at h
  simp only [Option.bind_eq_some] at h
  obtain ⟨entry, _, h⟩ := h
  split at h
  · simp only [Option.bind_eq_some, Option.some.injEq, Prod.mk.injEq] at h
    obtain ⟨d1, hd1, _, hd⟩ := h
    subst hd
    obtain ⟨_, hsh, _, hsub⟩ := GLES2_CacheProgram_hit_frame _ _ _ hd1
    exact ⟨hsh, hsub.grows⟩
  · unfold GLES2_CacheProgram_miss at h
    obtain ⟨hg, hcs⟩ := GLES2_CacheProgram_create_grows env data vertex fragment
    split at h
    · simp only [Option.some.injEq, Prod.mk.injEq] at h
      rw [← h.2]
      exact ⟨rfl, fun y e' he => Or.inl ⟨e', he, rfl⟩⟩
    · simp only at h
      split at h
      · simp only [Option.bind_eq_some, Option.some.injEq, Prod.mk.injEq] at h
        obtain ⟨hp, hfree, _, hd⟩ := h
        rw [← hd]
        refine ⟨hcs, ?_⟩
        exact hg.grows_sub (Heap.Sub.of_free hfree)
      · simp only [Option.bind_eq_some, Option.some.injEq, Prod.mk.injEq] at h
        obtain ⟨d3, h3, d4, h4, _, hd⟩ := h
        subst hd
        obtain ⟨_, hsh, _, hsub⟩ := (GLES2_CacheProgram_insert_frame env _ _ _ _ h3).cache_trans
          (GLES2_CacheProgram_evict_frame _ _ h4)
        exact ⟨hsh.trans hcs, hg.grows_sub hsub⟩

theorem GLES2_RenderData.ParamsSound.of_grows {a b : GLES2_RenderData} (hs : a.ParamsSound)
    (hsh : b.shader_id_cache = a.shader_id_cache) (hg : a.heap.Grows b.heap) :
    b.ParamsSound := by
  refine ⟨?_, ?_⟩
  · rw [hsh]
    exact hs.1
  · intro y e' he hne
    rw [hsh]
    rcases hg y e' he with ⟨e, he0, hc⟩ | hn
    · have hp : e.shader_params = e'.shader_params := by
        have hx := congrArg (fun c => c.2.2) hc
        exact hx
      have hf : e.fragment_shader = e'.fragment_shader := by
        have hx := congrArg (fun c => c.2.1) hc
        exact hx
      obtain ⟨t, ht, h0, hfr⟩ := hs.2 y e he0 (by rw [hp]; exact hne)
      exact ⟨t, ht, h0, by rw [← hf]; exact hfr⟩
    · exact absurd hn hne

theorem GLES2_RenderData.ParamsSound.sound_of_same {a b : GLES2_RenderData} (hs : a.ParamsSound)
    (hsh : b.shader_id_cache = a.shader_id_cache) (hh : b.heap = a.heap) : b.ParamsSound :=
  hs.of_grows hsh (by rw [hh]; exact fun y e' he => Or.inl ⟨e', he, rfl⟩)

/-- In a sound program cache, the entries of a fragment shader without shader
parameters carry none. -/
theorem GLES2_RenderData.ParamsSound.null_params {data : GLES2_RenderData}
    (hs : data.ParamsSound) (ftype : GLES2_ShaderType) (hn : ftype.hasParams = false)
    (a : Nat) (e : GLES2_ProgramCacheEntry) (he : data.heap.cells a = some e)
    (hf : e.fragment_shader = data.shader_id_cache ftype) :
    e.shader_params = ShaderParams.null := by
  by_contra hne
  obtain ⟨t, ht, h0, hfr⟩ := hs.2 a e he hne
  have : t = ftype := hs.1 t ftype h0 (by rw [← hfr, hf])
  rw [this, hn] at ht
  exact absurd ht (by simp)

theorem GLES2_SelectProgram_use_sound (env : Env) (data data' : GLES2_RenderData)
    (vertex fragment : Nat) (ftype : GLES2_ShaderType) (params : ShaderParams) (r : Bool)
    (h : GLES2_SelectProgram_use env data vertex fragment ftype params = some (r, data'))
    (hs : data.ParamsSound)
    (hfr : fragment = data.shader_id_cache ftype) (h0 : data.shader_id_cache ftype ≠ 0)
    (hparams : params ≠ ShaderParams.null → ftype.hasParams = true) :
    data'.ParamsSound := by
  unfold GLES2_SelectProgram_use at h
  simp only [Option.bind_eq_some] at h
  obtain ⟨⟨e, d2⟩, hcp, h⟩ := h
  obtain ⟨hsh, hg⟩ := GLES2_CacheProgram_grows env data d2 vertex fragment e hcp
  have hs2 : d2.ParamsSound := hs.of_grows hsh hg
  simp only at h
  split at h
  · simp only [GLES2_SelectProgram_fault, Option.some.injEq, Prod.mk.injEq] at h
    rw [← h.2]
    exact hs2.sound_of_same rfl rfl
  · rename_i he0
    simp only [Option.bind_eq_some, Option.some.injEq, Prod.mk.injEq] at h
    obtain ⟨p, hp, _, h⟩ := h
    rw [← h]
    obtain ⟨_, _, _, hent⟩ := GLES2_CacheProgram_entry env data d2 vertex fragment e hcp he0
    obtain ⟨_, hpf, _⟩ := hent p (Heap.cells_of_read hp)
    unfold GLES2_SelectProgram_params
    by_cases hc : params ≠ ShaderParams.null ∧ params ≠ p.shader_params
    · rw [if_pos hc]
      refine ⟨hs2.1, ?_⟩
      intro y e' hy hne
      simp only [GLES2_RenderData.call, Heap.write] at hy
      split at hy
      · simp only [Option.some.injEq] at hy
        have h0' : d2.shader_id_cache ftype ≠ 0 := by rw [hsh]; exact h0
        refine ⟨ftype, hparams hc.1, h0', ?_⟩
        rw [← hy]
        show p.fragment_shader = d2.shader_id_cache ftype
        rw [hpf, hsh, hfr]
      · exact hs2.2 y e' hy hne
    · rw [if_neg hc]
      exact hs2.sound_of_same rfl rfl

theorem GLES2_SelectProgram_sound (env : Env) (data data' : GLES2_RenderData) (texture : Nat)
    (source : GLES2_ImageSource) (scale_mode : SDL_ScaleMode) (colorspace : SDL_Colorspace)
    (r : Bool)
    (h : GLES2_SelectProgram env data texture source scale_mode colorspace = some (r, data'))
    (hs : data.ParamsSound)
    (hv : data.shader_id_cache GLES2_ShaderType.VERTEX_DEFAULT ≠ 0)
    (hf : ∀ ftype params,
      GLES2_SelectProgram_variant env texture source scale_mode colorspace
        = .ok (ftype, params) → data.shader_id_cache ftype ≠ 0) :
    data'.ParamsSound ∧ data'.shader_id_cache = data.shader_id_cache := by
  unfold GLES2_SelectProgram at h
  split at h
  · simp only [GLES2_SelectProgram_fault, Option.some.injEq, Prod.mk.injEq] at h
    rw [← h.2]
    exact ⟨hs.sound_of_same rfl rfl, rfl⟩
  · simp only [GLES2_SelectProgram_fault, Option.some.injEq, Prod.mk.injEq] at h
    rw [← h.2]
    exact ⟨hs.sound_of_same rfl rfl, rfl⟩
  · rename_i variant hvar
    obtain ⟨ftype, params⟩ := variant
    have hf0 := hf ftype params hvar
    rw [GLES2_SelectProgram_load_cached env data ftype params hv hf0] at h
    simp only [Option.bind_eq_some] at h
    obtain ⟨current, _, h⟩ := h
    cases current
    · simp only [Bool.false_eq_true, if_false] at h
      have hsd := GLES2_SelectProgram_use_sound env data data' _ _ ftype params r h hs rfl hf0
        (fun hne => by
          by_contra hh
          simp only [Bool.not_eq_true] at hh
          exact hne ((GLES2_SelectProgram_variant_params env _ _ _ _ _ _ hvar).2 hh))
      refine ⟨hsd, ?_⟩
      unfold GLES2_SelectProgram_use at h
      simp only [Option.bind_eq_some] at h
      obtain ⟨⟨e, d2⟩, hcp, h⟩ := h
      obtain ⟨hsh, _⟩ := GLES2_CacheProgram_grows env data d2 _ _ e hcp
      simp only at h
      split at h
      · simp only [GLES2_SelectProgram_fault, Option.some.injEq, Prod.mk.injEq] at h
        rw [← h.2]
        exact hsh
      · simp only [Option.bind_eq_some, Option.some.injEq, Prod.mk.injEq] at h
        obtain ⟨p, _, _, h⟩ := h
        rw [← h]
        show (GLES2_SelectProgram_params _ e p ftype params).shader_id_cache = _
        unfold GLES2_SelectProgram_params
        split
        · exact hsh
        · exact hsh
    · simp only [if_true, Option.some.injEq, Prod.mk.injEq] at h
      rw [← h.2]
      exact ⟨hs, rfl⟩
theorem SetDrawState_projection_sound (data data' : GLES2_RenderData)
    (h : SetDrawState_projection data = some data') (hs : data.ParamsSound) :
    data'.ParamsSound ∧ data'.shader_id_cache = data.shader_id_cache := by
  unfold SetDrawState_projection at h
  split at h
  · simp at h
  · rename_i p hp
    split at h
    · simp only [Option.some.injEq] at h
      rw [← h]
      refine ⟨hs.of_grows rfl ?_, rfl⟩
      show data.heap.Grows (data.heap.write data.drawstate.program
        { p with projection := data.drawstate.projection })
      exact (@Heap.Sub.of_write data.heap data.drawstate.program p
        { p with projection := data.drawstate.projection } (Heap.cells_of_read hp) rfl).grows
    · simp only [Option.some.injEq] at h
      rw [← h]
      exact ⟨hs, rfl⟩

/-- The function `SetDrawState` keeps the program cache sound, whatever it
returns, when the shaders of the request are compiled. -/
theorem SetDrawState_sound (env : Env) (data data' : GLES2_RenderData)
    (cmd : SDL_RenderCommand) (imgsrc : GLES2_ImageSource) (vertices : Nat) (r : Bool)
    (h : SetDrawState env data cmd imgsrc vertices = some (r, data'))
    (hs : data.ParamsSound)
    (hv : data.shader_id_cache GLES2_ShaderType.VERTEX_DEFAULT ≠ 0)
    (hf : ∀ colorspace ftype params,
      (if cmd.texture ≠ 0 then (data.texture? cmd.texture).map (fun t => t.colorspace)
       else some SDL_COLORSPACE_SRGB) = some colorspace →
      GLES2_SelectProgram_variant env cmd.texture imgsrc cmd.texture_scale_mode colorspace
        = .ok (ftype, params) → data.shader_id_cache ftype ≠ 0) :
    data'.ParamsSound ∧ data'.shader_id_cache = data.shader_id_cache := by
  obtain ⟨_, bheap, bsh, btx, _, _, _⟩ := SetDrawState_before_clean env data cmd vertices
  unfold SetDrawState at h
  simp only [Option.bind_eq_some] at h
  obtain ⟨cs, hcs, ⟨r3, d3⟩, hsel, h⟩ := h
  have hcs2 : (if cmd.texture ≠ 0 then (data.texture? cmd.texture).map (fun t => t.colorspace)
      else some SDL_COLORSPACE_SRGB) = some cs := by
    rw [← hcs]
    simp only [GLES2_RenderData.texture?, btx]
  obtain ⟨hs3, hsh3⟩ := GLES2_SelectProgram_sound env _ d3 _ _ _ _ r3 hsel
    (hs.sound_of_same bsh bheap) (by rw [bsh]; exact hv)
    (fun ftype params hvar => by rw [bsh]; exact hf cs ftype params hcs2 hvar)
  simp only at h
  split at h
  · simp only [Option.some.injEq, Prod.mk.injEq] at h
    rw [← h.2]
    exact ⟨hs3, hsh3.trans bsh⟩
  · simp only [Option.bind_eq_some, Option.some.injEq, Prod.mk.injEq] at h
    obtain ⟨d4, hproj, _, h⟩ := h
    obtain ⟨hs4, hsh4⟩ := SetDrawState_projection_sound d3 d4 hproj hs3
    obtain ⟨_, b2, b3, _, _⟩ := SetDrawState_blend_flags env d4 cmd.blend
    rw [← h]
    refine ⟨(hs4.sound_of_same b3 b2).sound_of_same rfl rfl, ?_⟩
    show (SetDrawState_blend env d4 cmd.blend).shader_id_cache = data.shader_id_cache
    rw [b3, hsh4, hsh3, bsh]

/-- After `SetDrawState` has returned `true`, with the shaders compiled
beforehand, nothing is left to apply for the command. -/
theorem SetDrawState_settles (env : Env) (data data' : GLES2_RenderData)
    (cmd : SDL_RenderCommand) (imgsrc : GLES2_ImageSource) (vertices : Nat)
    (h : SetDrawState env data cmd imgsrc vertices = some (true, data'))
    (hv : data.shader_id_cache GLES2_ShaderType.VERTEX_DEFAULT ≠ 0)
    (hf : ∀ colorspace ftype params,
      (if cmd.texture ≠ 0 then (data.texture? cmd.texture).map (fun t => t.colorspace)
       else some SDL_COLORSPACE_SRGB) = some colorspace →
      GLES2_SelectProgram_variant env cmd.texture imgsrc cmd.texture_scale_mode colorspace
        = .ok (ftype, params) → data.shader_id_cache ftype ≠ 0)
    (hp : data.ParamsSound) :
    ∃ colorspace ftype params,
      (if cmd.texture ≠ 0 then (data.texture? cmd.texture).map (fun t => t.colorspace)
       else some SDL_COLORSPACE_SRGB) = some colorspace ∧
      GLES2_SelectProgram_variant env cmd.texture imgsrc cmd.texture_scale_mode colorspace
        = .ok (ftype, params) ∧
      data'.Settled cmd (data.shader_id_cache GLES2_ShaderType.VERTEX_DEFAULT)
        (data.shader_id_cache ftype) params ∧
      data'.shader_id_cache = data.shader_id_cache ∧ data'.textures = data.textures ∧
      data'.drawstate.texture = data.drawstate.texture := by
  obtain ⟨bclean, bheap, bsh, btx, bprog, bblend, btex⟩ :=
    SetDrawState_before_clean env data cmd vertices
  unfold SetDrawState at h
  simp only [Option.bind_eq_some] at h
  obtain ⟨cs, hcs, ⟨r3, d3⟩, hsel, h⟩ := h
  simp only at h
  split at h
  · simp at h
  · rename_i hr3
    simp only [Bool.not_eq_false] at hr3
    subst hr3
    simp only [Option.bind_eq_some, Option.some.injEq, Prod.mk.injEq, true_and] at h
    obtain ⟨d4, hproj, h⟩ := h
    obtain ⟨ftype, params, hvar, hload⟩ := GLES2_SelectProgram_true env _ d3 _ _ _ _ hsel
    have hcs2 : (if cmd.texture ≠ 0 then (data.texture? cmd.texture).map (fun t => t.colorspace)
        else some SDL_COLORSPACE_SRGB) = some cs := by
      rw [← hcs]
      simp only [GLES2_RenderData.texture?, btx]
    obtain ⟨hsel3, hsh3, htx3, hds3⟩ := GLES2_SelectProgram_load_selected env _ d3 ftype params
      (by rw [bsh]; exact hv) (by rw [bsh]; exact hf _ _ _ hcs2 hvar) hload
      (by
        intro hn a e he _ hfe
        rw [bsh] at hfe
        rw [bheap] at he
        exact hp.null_params ftype
          ((GLES2_SelectProgram_variant_params env _ _ _ _ _ _ hvar).1 hn) a e he hfe)
    rw [bsh] at hsel3
    obtain ⟨hds4, hsh4, htx4, p, hp4, hpv, hpf, hps, hpc⟩ :=
      SetDrawState_projection_settled d3 d4 _ _ params hproj hsel3
    obtain ⟨b1, b2, b3, b4, b5⟩ := SetDrawState_blend_flags env d4 cmd.blend
    have hflags : (SetDrawState_blend env d4 cmd.blend).drawstate.flags
        = (SetDrawState_before env data cmd vertices).drawstate.flags := by
      have e1 : (SetDrawState_blend env d4 cmd.blend).drawstate.flags = d4.drawstate.flags := by
        have hx := congrArg GLES2_DrawStateCache.flags b5
        exact hx
      have e2 : d3.drawstate.flags = (SetDrawState_before env data cmd vertices).drawstate.flags := by
        have hx := congrArg GLES2_DrawStateCache.flags hds3
        exact hx
      rw [e1, hds4, e2]
    have hprog : (SetDrawState_blend env d4 cmd.blend).drawstate.program = d4.drawstate.program := by
        have hx := congrArg GLES2_DrawStateCache.program b5
        exact hx
    have hprojn : (SetDrawState_blend env d4 cmd.blend).drawstate.projection
        = d4.drawstate.projection := by
        have hx := congrArg GLES2_DrawStateCache.projection b5
        exact hx
    have htexture : (SetDrawState_blend env d4 cmd.blend).drawstate.texture
        = data.drawstate.texture := by
      have e1 : (SetDrawState_blend env d4 cmd.blend).drawstate.texture = d4.drawstate.texture := by
        have hx := congrArg GLES2_DrawStateCache.texture b5
        exact hx
      have e2 : d3.drawstate.texture
          = (SetDrawState_before env data cmd vertices).drawstate.texture := by
        have hx := congrArg GLES2_DrawStateCache.texture hds3
        exact hx
      rw [e1, hds4, e2, btex]
    subst h
    refine ⟨cs, ftype, params, hcs2, hvar, ⟨?_, ?_, ?_, p, ?_, hpv, hpf, hps, ?_⟩, ?_, ?_, ?_⟩
    · exact bclean.of_flags hflags
    · exact b1
    · show (SetDrawState_blend env d4 cmd.blend).drawstate.program ≠ 0
      rw [hprog, hds4]
      exact hsel3.1
    · show (SetDrawState_blend env d4 cmd.blend).heap.read
        (SetDrawState_blend env d4 cmd.blend).drawstate.program = some p
      rw [hprog, b2]
      exact hp4
    · show ¬ (p.uniform_locations.getD GLES2_UNIFORM_PROJECTION 0 ≠ -1
        ∧ p.projection ≠ (SetDrawState_blend env d4 cmd.blend).drawstate.projection)
      rw [hprojn]
      exact hpc
    · show (SetDrawState_blend env d4 cmd.blend).shader_id_cache = data.shader_id_cache
      rw [b3, hsh4, hsh3, bsh]
    · show (SetDrawState_blend env d4 cmd.blend).textures = data.textures
      rw [b4, htx4, htx3, btx]
    · exact htexture

theorem GLES2_RenderData.call_call (data : GLES2_RenderData) (c1 c2 : List GLCall) :
    (data.call c1).call c2 = data.call (c1 ++ c2) := by
  simp [GLES2_RenderData.call, List.append_assoc]

/-- With nothing left to apply, `SetDrawState` only sets the vertex arrays. -/
theorem SetDrawState_of_settled (env : Env) (data : GLES2_RenderData) (cmd : SDL_RenderCommand)
    (imgsrc : GLES2_ImageSource) (vertices : Nat) (colorspace : SDL_Colorspace)
    (ftype : GLES2_ShaderType) (params : ShaderParams)
    (hcol : (if cmd.texture ≠ 0 then (data.texture? cmd.texture).map (fun t => t.colorspace)
       else some SDL_COLORSPACE_SRGB) = some colorspace)
    (hvar : GLES2_SelectProgram_variant env cmd.texture imgsrc cmd.texture_scale_mode colorspace
        = .ok (ftype, params))
    (hv : data.shader_id_cache GLES2_ShaderType.VERTEX_DEFAULT ≠ 0)
    (hf : data.shader_id_cache ftype ≠ 0)
    (hs : data.Settled cmd (data.shader_id_cache GLES2_ShaderType.VERTEX_DEFAULT)
      (data.shader_id_cache ftype) params) :
    SetDrawState env data cmd imgsrc vertices
      = some (true, data.call (SetDrawState_arrays cmd vertices)) := by
  obtain ⟨c1, hc1⟩ : ∃ c1 : List GLCall, c1 = (if cmd.texture ≠ 0 then
      [GLCall.vertexAttribPointer GLES2_ATTRIBUTE_TEXCOORD 2 false
         (SetDrawState_stride cmd) (vertices + cmd.first + offsetof_tex_coord)]
    else []) := ⟨_, rfl⟩
  have hb : SetDrawState_before env data cmd vertices = data.call c1 := by
    rw [hc1]
    exact SetDrawState_before_of_clean env data cmd vertices hs.1
  have hsX : (data.call c1).Settled cmd (data.shader_id_cache GLES2_ShaderType.VERTEX_DEFAULT)
      (data.shader_id_cache ftype) params := hs
  have hselX : (data.call c1).Selected
      ((data.call c1).shader_id_cache GLES2_ShaderType.VERTEX_DEFAULT)
      ((data.call c1).shader_id_cache ftype) params := by
    obtain ⟨_, _, h0, p, hp, hpv, hpf, hps, _⟩ := hs
    exact ⟨h0, p, hp, hpv, hpf, hps⟩
  have hcolX : (if cmd.texture ≠ 0 then
      ((data.call c1).texture? cmd.texture).map (fun t => t.colorspace)
      else some SDL_COLORSPACE_SRGB) = some colorspace := hcol
  unfold SetDrawState
  rw [hb, hcolX]
  simp only [Option.some_bind]
  rw [GLES2_SelectProgram_of_ok env _ _ _ _ _ ftype params hvar,
    GLES2_SelectProgram_load_of_selected env (data.call c1) ftype params hv hf hselX]
  simp only [Option.some_bind, Bool.true_eq_false, if_false]
  rw [SetDrawState_projection_of_settled (data.call c1) cmd _ _ params hsX]
  simp only [Option.some_bind]
  rw [SetDrawState_blend_of_eq env (data.call c1) cmd.blend hs.2.1,
    GLES2_RenderData.call_call, hc1]
  rfl

theorem GLES2_RenderData.TexFrame.frame_refl (data : GLES2_RenderData) : data.TexFrame data :=
  ⟨rfl, rfl, rfl, fun _ => rfl⟩

theorem GLES2_RenderData.TexFrame.frame_trans {a b c : GLES2_RenderData}
    (h1 : a.TexFrame b) (h2 : b.TexFrame c) : a.TexFrame c :=
  ⟨h2.1.trans h1.1, h2.2.1.trans h1.2.1, h2.2.2.1.trans h1.2.2.1,
    fun q => (h2.2.2.2 q).trans (h1.2.2.2 q)⟩

theorem GLES2_RenderData.TexFrame.frame_call (data : GLES2_RenderData) (cs : List GLCall) :
    data.TexFrame (data.call cs) :=
  ⟨rfl, rfl, rfl, fun _ => rfl⟩

theorem GLES2_RenderData.TexFrame.frame_setTexture (data : GLES2_RenderData) (p : Nat)
    (t t' : SDL_Texture) (ht : data.textures p = some t) (hk : t'.kind = t.kind) :
    data.TexFrame (data.setTexture p t') := by
  refine ⟨rfl, rfl, rfl, fun q => ?_⟩
  unfold GLES2_RenderData.setTexture
  simp only
  split
  · rename_i hq
    rw [hq, ht]
    simp [hk]
  · rfl

theorem SetTextureScaleMode_frame (data : GLES2_RenderData) (textype : Nat)
    (mode : SDL_ScaleMode) : data.TexFrame (SetTextureScaleMode data textype mode).2 := by
  unfold SetTextureScaleMode
  cases mode <;> exact ⟨rfl, rfl, rfl, fun _ => rfl⟩

theorem SetCopyState_scaleUnits_frame (textype : Nat) (mode : SDL_ScaleMode) :
    ∀ (us : List Nat) (data : GLES2_RenderData),
      data.TexFrame (SetCopyState_scaleUnits textype mode data us).2
  | [], data => GLES2_RenderData.TexFrame.frame_refl data
  | u :: us, data => by
    have h1 := (GLES2_RenderData.TexFrame.frame_call data [GLCall.activeTexture u]).frame_trans
      (SetTextureScaleMode_frame (data.call [GLCall.activeTexture u]) textype mode)
    unfold SetCopyState_scaleUnits
    split
    · exact h1
    · exact h1.frame_trans (SetCopyState_scaleUnits_frame textype mode us _)

/-- The scale-mode step of `SetCopyState`, when it succeeds, leaves the
texture with the scale mode of the command. -/
theorem SetCopyState_scale_frame (data : GLES2_RenderData) (texture : Nat) (t : SDL_Texture)
    (mode : SDL_ScaleMode) (ht : data.texture? texture = some t)
    (hok : (SetCopyState_scale data texture t mode).1 = true) :
    data.TexFrame (SetCopyState_scale data texture t mode).2 ∧
    ∃ t', (SetCopyState_scale data texture t mode).2.texture? texture = some t' ∧
      t'.texture_scale_mode = mode ∧ t'.kind = t.kind ∧
      t'.texture_address_mode_u = t.texture_address_mode_u ∧
      t'.texture_address_mode_v = t.texture_address_mode_v := by
  have ht0 : texture ≠ 0 := by
    intro h0
    simp [GLES2_RenderData.texture?, h0] at ht
  have htc : data.textures texture = some t := by
    simpa [GLES2_RenderData.texture?, ht0] using ht
  unfold SetCopyState_scale at hok ⊢
  by_cases hm : mode ≠ t.texture_scale_mode
  · rw [if_pos hm] at hok ⊢
    dsimp only at hok ⊢
    have h1 := SetCopyState_scaleUnits_frame t.texture_type mode (SetCopyState_units t) data
    by_cases h1f : (SetCopyState_scaleUnits t.texture_type mode data (SetCopyState_units t)).1
        = false
    · rw [if_pos h1f] at hok
      rw [h1f] at hok
      exact absurd hok (by simp)
    · rw [if_neg h1f] at hok ⊢
      obtain ⟨d2, hd2⟩ : ∃ d2, d2 = (if SetCopyState_units t = [] then
             (SetCopyState_scaleUnits t.texture_type mode data (SetCopyState_units t)).2
           else (SetCopyState_scaleUnits t.texture_type mode data (SetCopyState_units t)).2.call
                  [GLCall.activeTexture 0]) := ⟨_, rfl⟩
      rw [← hd2] at hok ⊢
      have h2 : (SetCopyState_scaleUnits t.texture_type mode data
          (SetCopyState_units t)).2.TexFrame d2 := by
        rw [hd2]
        split
        · exact GLES2_RenderData.TexFrame.frame_refl _
        · exact GLES2_RenderData.TexFrame.frame_call _ _
      have h3 := (h1.frame_trans h2).frame_trans (SetTextureScaleMode_frame d2 t.texture_type mode)
      by_cases h3f : (SetTextureScaleMode d2 t.texture_type mode).1 = false
      · rw [if_pos h3f] at hok
        rw [h3f] at hok
        exact absurd hok (by simp)
      · rw [if_neg h3f]
        have htx3 : (SetTextureScaleMode d2 t.texture_type mode).2.textures = data.textures := by
          unfold SetTextureScaleMode
          have e1 : d2.textures = data.textures := by
            rw [hd2]
            have e0 : ∀ (us : List Nat) (d : GLES2_RenderData),
                (SetCopyState_scaleUnits t.texture_type mode d us).2.textures = d.textures := by
              intro us
              induction us with
              | nil => intro d; rfl
              | cons u us ih =>
                intro d
                unfold SetCopyState_scaleUnits
                have e00 : (SetTextureScaleMode (d.call [GLCall.activeTexture u])
                    t.texture_type mode).2.textures = d.textures := by
                  unfold SetTextureScaleMode
                  cases mode <;> rfl
                split
                · exact e00
                · rw [ih, e00]
            split
            · exact e0 _ _
            · exact e0 _ _
          cases mode <;> exact e1
        refine ⟨h3.frame_trans (GLES2_RenderData.TexFrame.frame_setTexture _ texture t _
          (by rw [htx3]; exact htc) rfl), { t with texture_scale_mode := mode }, ?_, rfl, rfl,
          rfl, rfl⟩
        simp [GLES2_RenderData.texture?, GLES2_RenderData.setTexture, ht0]
  · rw [if_neg hm]
    simp only [ne_eq, not_not] at hm
    exact ⟨GLES2_RenderData.TexFrame.frame_refl data, t, ht, hm.symm, rfl, rfl, rfl⟩

theorem SetCopyState_address_units_frame (textype : Nat) (u v : SDL_TextureAddressMode) :
    ∀ (us : List Nat) (data : GLES2_RenderData),
      data.TexFrame (us.foldl
        (fun d unit => SetTextureAddressMode (d.call [GLCall.activeTexture unit]) textype u v)
        data) ∧
      (us.foldl
        (fun d unit => SetTextureAddressMode (d.call [GLCall.activeTexture unit]) textype u v)
        data).textures = data.textures
  | [], data => ⟨GLES2_RenderData.TexFrame.frame_refl data, rfl⟩
  | x :: us, data => by
    simp only [List.foldl_cons]
    have ih := SetCopyState_address_units_frame textype u v us
      (SetTextureAddressMode (data.call [GLCall.activeTexture x]) textype u v)
    have h0 : data.TexFrame
        (SetTextureAddressMode (data.call [GLCall.activeTexture x]) textype u v) :=
      ⟨rfl, rfl, rfl, fun _ => rfl⟩
    exact ⟨h0.frame_trans ih.1, ih.2⟩

/-- The address-mode step of `SetCopyState` leaves the texture with the
address modes of the command. -/
theorem SetCopyState_address_frame (data : GLES2_RenderData) (texture : Nat) (t : SDL_Texture)
    (u v : SDL_TextureAddressMode) (ht : data.texture? texture = some t) :
    data.TexFrame (SetCopyState_address data texture t u v) ∧
    ∃ t', (SetCopyState_address data texture t u v).texture? texture = some t' ∧
      t'.texture_scale_mode = t.texture_scale_mode ∧ t'.kind = t.kind ∧
      t'.texture_address_mode_u = u ∧ t'.texture_address_mode_v = v := by
  have ht0 : texture ≠ 0 := by
    intro h0
    simp [GLES2_RenderData.texture?, h0] at ht
  have htc : data.textures texture = some t := by
    simpa [GLES2_RenderData.texture?, ht0] using ht
  unfold SetCopyState_address
  by_cases hc : u ≠ t.texture_address_mode_u ∨ v ≠ t.texture_address_mode_v
  · rw [if_pos hc]
    dsimp only
    obtain ⟨d1, hd1⟩ : ∃ d1, d1 = (SetCopyState_units t).foldl
        (fun d unit => SetTextureAddressMode (d.call [GLCall.activeTexture unit])
                         t.texture_type u v) data := ⟨_, rfl⟩
    obtain ⟨h1, h1t⟩ : data.TexFrame d1 ∧ d1.textures = data.textures := by
      rw [hd1]
      exact SetCopyState_address_units_frame t.texture_type u v (SetCopyState_units t) data
    rw [← hd1]
    obtain ⟨d2, hd2⟩ : ∃ d2, d2 = (if SetCopyState_units t = [] then d1
        else d1.call [GLCall.activeTexture 0]) := ⟨_, rfl⟩
    obtain ⟨h2, h2t⟩ : d1.TexFrame d2 ∧ d2.textures = d1.textures := by
      rw [hd2]
      split
      · exact ⟨GLES2_RenderData.TexFrame.frame_refl _, rfl⟩
      · exact ⟨GLES2_RenderData.TexFrame.frame_call _ _, rfl⟩
    rw [← hd2]
    have h3 : d2.TexFrame (SetTextureAddressMode d2 t.texture_type u v) :=
      ⟨rfl, rfl, rfl, fun _ => rfl⟩
    have h3t : (SetTextureAddressMode d2 t.texture_type u v).textures = data.textures := by
      rw [← h1t, ← h2t]
      rfl
    refine ⟨((h1.frame_trans h2).frame_trans h3).frame_trans
      (GLES2_RenderData.TexFrame.frame_setTexture _ texture t _
      (by rw [h3t]; exact htc) rfl),
      { t with texture_address_mode_u := u, texture_address_mode_v := v }, ?_, rfl, rfl,
      rfl, rfl⟩
    simp [GLES2_RenderData.texture?, GLES2_RenderData.setTexture, ht0]
  · rw [if_neg hc]
    simp only [ne_eq, not_or, not_not] at hc
    exact ⟨GLES2_RenderData.TexFrame.frame_refl data, t, ht, rfl, rfl, hc.1.symm, hc.2.symm⟩

theorem SetCopyState_bind_frame (data : GLES2_RenderData) (texture : Nat) (t : SDL_Texture) :
    (SetCopyState_bind data texture t).heap = data.heap ∧
    (SetCopyState_bind data texture t).shader_id_cache = data.shader_id_cache ∧
    { (SetCopyState_bind data texture t).drawstate with texture := 0 }
      = { data.drawstate with texture := 0 } ∧
    (SetCopyState_bind data texture t).drawstate.texture = texture ∧
    (SetCopyState_bind data texture t).textures = data.textures := by
  unfold SetCopyState_bind
  by_cases h : texture ≠ data.drawstate.texture
  · rw [if_pos h]
    exact ⟨rfl, rfl, rfl, rfl, rfl⟩
  · rw [if_neg h]
    simp only [ne_eq, not_not] at h
    exact ⟨rfl, rfl, rfl, h.symm, rfl⟩

/-- What the texture part of `SetCopyState` leaves behind when it succeeds:
the texture of the command is bound and carries the modes of the command. -/
theorem SetCopyState_after_frame (data data' : GLES2_RenderData) (cmd : SDL_RenderCommand)
    (tex : SDL_Texture) (ret : Bool)
    (h : SetCopyState_after data cmd tex ret = some (true, data')) :
    data'.heap = data.heap ∧ data'.shader_id_cache = data.shader_id_cache ∧
    { data'.drawstate with texture := 0 } = { data.drawstate with texture := 0 } ∧
    (∀ q, (data'.textures q).map SDL_Texture.kind = (data.textures q).map SDL_Texture.kind) ∧
    data'.drawstate.texture = cmd.texture ∧
    ∃ t0 t', data.texture? cmd.texture = some t0 ∧ data'.texture? cmd.texture = some t' ∧
      t'.kind = t0.kind ∧
      t'.texture_scale_mode = cmd.texture_scale_mode ∧
      t'.texture_address_mode_u = cmd.texture_address_mode_u ∧
      t'.texture_address_mode_v = cmd.texture_address_mode_v := by
  obtain ⟨hbh, hbs, hbd, hbt, hbx⟩ := SetCopyState_bind_frame data cmd.texture tex
  unfold SetCopyState_after at h
  simp only [Option.bind_eq_some] at h
  obtain ⟨t2, ht2, h⟩ := h
  split at h
  · simp at h
  · rename_i hsf
    simp only [Bool.not_eq_false] at hsf
    simp only [Option.bind_eq_some, Option.some.injEq, Prod.mk.injEq] at h
    obtain ⟨t3, ht3, _, h⟩ := h
    obtain ⟨hs, ts, hts, hsm, hsk, hsu, hsv⟩ :=
      SetCopyState_scale_frame _ cmd.texture t2 cmd.texture_scale_mode ht2 hsf
    rw [hts] at ht3
    simp only [Option.some.injEq] at ht3
    subst ht3
    obtain ⟨ha, ta, hta, ham, hak, hau, hav⟩ := SetCopyState_address_frame _ cmd.texture ts
      cmd.texture_address_mode_u cmd.texture_address_mode_v hts
    subst h
    obtain ⟨fh, fs, fd, ft⟩ := hs.frame_trans ha
    refine ⟨fh.trans hbh, fs.trans hbs, ?_, ?_, ?_, t2, ta, ?_, hta, hak.trans hsk,
      ham.trans hsm, hau, hav⟩
    · rw [fd]
      exact hbd
    · intro q
      rw [ft q, hbx]
    · rw [fd]
      exact hbt
    · simpa [GLES2_RenderData.texture?, hbx] using ht2

theorem GLES2_RenderData.Settled.of_frame {a b : GLES2_RenderData} {cmd : SDL_RenderCommand}
    {vertex fragment : Nat} {params : ShaderParams}
    (h : a.Settled cmd vertex fragment params) (hh : b.heap = a.heap)
    (hd : { b.drawstate with texture := 0 } = { a.drawstate with texture := 0 }) :
    b.Settled cmd vertex fragment params := by
  have hflags : b.drawstate.flags = a.drawstate.flags := by
    have hx := congrArg GLES2_DrawStateCache.flags hd
    exact hx
  have hblend : b.drawstate.blend = a.drawstate.blend := by
    have hx := congrArg GLES2_DrawStateCache.blend hd
    exact hx
  have hprog : b.drawstate.program = a.drawstate.program := by
    have hx := congrArg GLES2_DrawStateCache.program hd
    exact hx
  have hproj : b.drawstate.projection = a.drawstate.projection := by
    have hx := congrArg GLES2_DrawStateCache.projection hd
    exact hx
  obtain ⟨hc, hb, h0, p, hp, hpv, hpf, hps, hpc⟩ := h
  refine ⟨hc.of_flags hflags, hblend.trans hb, by rw [hprog]; exact h0, p, ?_, hpv, hpf, hps, ?_⟩
  · rw [hprog, hh]
    exact hp
  · rw [hproj]
    exact hpc

theorem SetCopyState_target_of_kind (renderer : SDL_Renderer) (a b : GLES2_RenderData)
    (h : ∀ q, (b.textures q).map SDL_Texture.kind = (a.textures q).map SDL_Texture.kind) :
    SetCopyState_target renderer b = SetCopyState_target renderer a := by
  unfold SetCopyState_target GLES2_RenderData.texture?
  split
  · rename_i ht
    have hq := congrArg (Option.map (fun k : SDL_PixelFormat × SDL_Colorspace => some k.1))
      (h renderer.target)
    simp only [Option.map_map] at hq
    exact hq
  · rfl

/-- After `SetCopyState` has returned `true`, with the shaders compiled
beforehand, nothing is left to apply for the command and its texture. -/
theorem SetCopyState_settles (env : Env) (renderer : SDL_Renderer)
    (data data' : GLES2_RenderData) (cmd : SDL_RenderCommand) (vertices : Nat)
    (h : SetCopyState env renderer data cmd vertices = some (true, data'))
    (hv : data.shader_id_cache GLES2_ShaderType.VERTEX_DEFAULT ≠ 0)
    (hf : ∀ source colorspace ftype params,
      GLES2_RunCommandQueue_setup_source renderer data cmd = some (source, colorspace) →
      GLES2_SelectProgram_variant env cmd.texture source cmd.texture_scale_mode colorspace
        = .ok (ftype, params) → data.shader_id_cache ftype ≠ 0)
    (hp : data.ParamsSound) :
    ∃ tex tf srcType ftype params t',
      data.texture? cmd.texture = some tex ∧
      GLES2_RunCommandQueue_setup_source renderer data cmd = some (srcType, tex.colorspace) ∧
      SetCopyState_target renderer data' = some tf ∧
      SetCopyState_source tf tex.format = some srcType ∧
      GLES2_SelectProgram_variant env cmd.texture srcType cmd.texture_scale_mode tex.colorspace
        = .ok (ftype, params) ∧
      data'.Settled cmd (data.shader_id_cache GLES2_ShaderType.VERTEX_DEFAULT)
        (data.shader_id_cache ftype) params ∧
      data'.shader_id_cache = data.shader_id_cache ∧
      data'.drawstate.texture = cmd.texture ∧
      data'.texture? cmd.texture = some t' ∧ t'.kind = tex.kind ∧
      t'.texture_scale_mode = cmd.texture_scale_mode ∧
      t'.texture_address_mode_u = cmd.texture_address_mode_u ∧
      t'.texture_address_mode_v = cmd.texture_address_mode_v := by
  unfold SetCopyState at h
  simp only [Option.bind_eq_some] at h
  obtain ⟨tex, htex, tf, htf, h⟩ := h
  have ht0 : cmd.texture ≠ 0 := by
    intro h0
    simp [GLES2_RenderData.texture?, h0] at htex
  split at h
  · simp at h
  · rename_i srcType hsrc
    simp only [Option.bind_eq_some] at h
    obtain ⟨⟨r1, d1⟩, hds, hafter⟩ := h
    have hr1 : r1 = true := (SetCopyState_after_texture _ _ _ _ _ _ hafter).2 rfl
    subst hr1
    have hsource : GLES2_RunCommandQueue_setup_source renderer data cmd
        = some (srcType, tex.colorspace) := by
      simp [GLES2_RunCommandQueue_setup_source, ht0, htex, htf, hsrc]
    obtain ⟨cs, ftype, params, hcol, hvar, hset, hsh, htx, _⟩ :=
      SetDrawState_settles env data d1 cmd srcType vertices hds hv
        (fun cs ftype params hcs hvar => by
          rw [if_pos ht0, htex] at hcs
          simp only [Option.map_some', Option.some.injEq] at hcs
          rw [← hcs] at hvar
          exact hf srcType tex.colorspace ftype params hsource hvar) hp
    rw [if_pos ht0, htex] at hcol
    simp only [Option.map_some', Option.some.injEq] at hcol
    subst hcol
    obtain ⟨ah, as, ad, ak, atx, t0, t', ht0', ht', hk, hm, hu, hv'⟩ :=
      SetCopyState_after_frame d1 data' cmd tex true hafter
    have ht0eq : t0 = tex := by
      have : d1.texture? cmd.texture = data.texture? cmd.texture := by
        simp only [GLES2_RenderData.texture?, htx]
      rw [this, htex] at ht0'
      exact (Option.some.inj ht0').symm
    subst ht0eq
    have hkind : ∀ q, (data'.textures q).map SDL_Texture.kind
        = (data.textures q).map SDL_Texture.kind := by
      intro q
      rw [ak q, htx]
    refine ⟨t0, tf, srcType, ftype, params, t', htex, hsource, ?_, hsrc, hvar,
      hset.of_frame ah ad, as.trans hsh, atx, ht', hk, hm, hu, hv'⟩
    rw [SetCopyState_target_of_kind renderer data data' hkind]
    exact htf

/-- With nothing left to apply, `SetCopyState` only sets the vertex arrays. -/
theorem SetCopyState_of_settled (env : Env) (renderer : SDL_Renderer) (data : GLES2_RenderData)
    (cmd : SDL_RenderCommand) (vertices : Nat) (t : SDL_Texture)
    (tf : Option SDL_PixelFormat) (srcType : GLES2_ImageSource) (ftype : GLES2_ShaderType)
    (params : ShaderParams)
    (ht : data.texture? cmd.texture = some t)
    (htf : SetCopyState_target renderer data = some tf)
    (hsrc : SetCopyState_source tf t.format = some srcType)
    (hvar : GLES2_SelectProgram_variant env cmd.texture srcType cmd.texture_scale_mode
      t.colorspace = .ok (ftype, params))
    (hv : data.shader_id_cache GLES2_ShaderType.VERTEX_DEFAULT ≠ 0)
    (hf : data.shader_id_cache ftype ≠ 0)
    (hs : data.Settled cmd (data.shader_id_cache GLES2_ShaderType.VERTEX_DEFAULT)
      (data.shader_id_cache ftype) params)
    (hbound : data.drawstate.texture = cmd.texture)
    (hm : t.texture_scale_mode = cmd.texture_scale_mode)
    (hu : t.texture_address_mode_u = cmd.texture_address_mode_u)
    (hv2 : t.texture_address_mode_v = cmd.texture_address_mode_v) :
    SetCopyState env renderer data cmd vertices
      = some (true, data.call (SetDrawState_arrays cmd vertices)) := by
  have ht0 : cmd.texture ≠ 0 := by
    intro h0
    simp [GLES2_RenderData.texture?, h0] at ht
  have hds := SetDrawState_of_settled env data cmd srcType vertices t.colorspace ftype params
    (by rw [if_pos ht0, ht]; rfl) hvar hv hf hs
  have htX : (data.call (SetDrawState_arrays cmd vertices)).texture? cmd.texture = some t := ht
  have hafter : SetCopyState_after (data.call (SetDrawState_arrays cmd vertices)) cmd t true
      = some (true, data.call (SetDrawState_arrays cmd vertices)) := by
    have hb : SetCopyState_bind (data.call (SetDrawState_arrays cmd vertices)) cmd.texture t
        = data.call (SetDrawState_arrays cmd vertices) := by
      unfold SetCopyState_bind
      rw [if_neg]
      simp only [ne_eq, not_not]
      exact hbound.symm
    have hsc : SetCopyState_scale (data.call (SetDrawState_arrays cmd vertices)) cmd.texture t
        cmd.texture_scale_mode = (true, data.call (SetDrawState_arrays cmd vertices)) := by
      unfold SetCopyState_scale
      rw [if_neg]
      simp only [ne_eq, not_not]
      exact hm.symm
    have had : SetCopyState_address (data.call (SetDrawState_arrays cmd vertices)) cmd.texture t
        cmd.texture_address_mode_u cmd.texture_address_mode_v
        = data.call (SetDrawState_arrays cmd vertices) := by
      unfold SetCopyState_address
      rw [if_neg]
      simp only [ne_eq, not_or, not_not]
      exact ⟨hu.symm, hv2.symm⟩
    unfold SetCopyState_after
    rw [hb, htX]
    simp only [Option.some_bind, hsc, Bool.true_eq_false, if_false, htX, had]
  unfold SetCopyState
  rw [ht, htf]
  simp only [Option.some_bind, hsrc, hds, hafter]

theorem SetDrawState_arrays_uncached (cmd : SDL_RenderCommand) (vertices : Nat) :
    ∀ c ∈ SetDrawState_arrays cmd vertices, c.isCachedState = false := by
  intro c hc
  unfold SetDrawState_arrays at hc
  rcases List.mem_append.mp hc with hc | hc
  · split at hc
    · rw [List.mem_singleton.mp hc]; rfl
    · simp at hc
  · simp only [SetDrawState_pointers, List.mem_cons, List.mem_singleton, List.not_mem_nil,
      or_false] at hc
    rcases hc with h | h <;> rw [h] <;> rfl

theorem SetCopyState_scaleUnits_cache (textype : Nat) (mode : SDL_ScaleMode) :
    ∀ (us : List Nat) (data : GLES2_RenderData),
      (SetCopyState_scaleUnits textype mode data us).2.heap = data.heap ∧
      (SetCopyState_scaleUnits textype mode data us).2.shader_id_cache = data.shader_id_cache
  | [], _ => ⟨rfl, rfl⟩
  | u :: us, data => by
    have h0 : (SetTextureScaleMode (data.call [GLCall.activeTexture u]) textype mode).2.heap
        = data.heap ∧
      (SetTextureScaleMode (data.call [GLCall.activeTexture u]) textype mode).2.shader_id_cache
        = data.shader_id_cache := by
      unfold SetTextureScaleMode
      cases mode <;> exact ⟨rfl, rfl⟩
    unfold SetCopyState_scaleUnits
    split
    · exact h0
    · have ih := SetCopyState_scaleUnits_cache textype mode us
        (SetTextureScaleMode (data.call [GLCall.activeTexture u]) textype mode).2
      exact ⟨ih.1.trans h0.1, ih.2.trans h0.2⟩

theorem SetTextureScaleMode_cache (data : GLES2_RenderData) (textype : Nat)
    (mode : SDL_ScaleMode) :
    (SetTextureScaleMode data textype mode).2.heap = data.heap ∧
    (SetTextureScaleMode data textype mode).2.shader_id_cache = data.shader_id_cache := by
  unfold SetTextureScaleMode
  cases mode <;> exact ⟨rfl, rfl⟩

theorem SetCopyState_scale_cache (data : GLES2_RenderData) (texture : Nat) (t : SDL_Texture)
    (mode : SDL_ScaleMode) :
    (SetCopyState_scale data texture t mode).2.heap = data.heap ∧
    (SetCopyState_scale data texture t mode).2.shader_id_cache = data.shader_id_cache := by
  have h1 := SetCopyState_scaleUnits_cache t.texture_type mode (SetCopyState_units t) data
  unfold SetCopyState_scale
  split
  · dsimp only
    split
    · exact h1
    · obtain ⟨d2, hd2⟩ : ∃ d2, d2 = (if SetCopyState_units t = [] then
             (SetCopyState_scaleUnits t.texture_type mode data (SetCopyState_units t)).2
           else (SetCopyState_scaleUnits t.texture_type mode data (SetCopyState_units t)).2.call
                  [GLCall.activeTexture 0]) := ⟨_, rfl⟩
      rw [← hd2]
      have h2 : d2.heap = data.heap ∧ d2.shader_id_cache = data.shader_id_cache := by
        rw [hd2]
        split
        · exact h1
        · exact h1
      have h3 := SetTextureScaleMode_cache d2 t.texture_type mode
      split
      · exact ⟨h3.1.trans h2.1, h3.2.trans h2.2⟩
      · exact ⟨h3.1.trans h2.1, h3.2.trans h2.2⟩
  · exact ⟨rfl, rfl⟩

theorem SetCopyState_after_cache (data data' : GLES2_RenderData) (cmd : SDL_RenderCommand)
    (tex : SDL_Texture) (ret r : Bool)
    (h : SetCopyState_after data cmd tex ret = some (r, data')) :
    data'.heap = data.heap ∧ data'.shader_id_cache = data.shader_id_cache := by
  obtain ⟨hbh, hbs, _, _, _⟩ := SetCopyState_bind_frame data cmd.texture tex
  unfold SetCopyState_after at h
  simp only [Option.bind_eq_some] at h
  obtain ⟨t2, _, h⟩ := h
  have hsc := SetCopyState_scale_cache (SetCopyState_bind data cmd.texture tex) cmd.texture t2
    cmd.texture_scale_mode
  split at h
  · simp only [Option.some.injEq, Prod.mk.injEq] at h
    rw [← h.2]
    exact ⟨hsc.1.trans hbh, hsc.2.trans hbs⟩
  · simp only [Option.bind_eq_some, Option.some.injEq, Prod.mk.injEq] at h
    obtain ⟨t3, ht3, _, h⟩ := h
    rw [← h]
    obtain ⟨⟨ah, as, _, _⟩, _⟩ := SetCopyState_address_frame _ cmd.texture t3
      cmd.texture_address_mode_u cmd.texture_address_mode_v ht3
    exact ⟨ah.trans (hsc.1.trans hbh), as.trans (hsc.2.trans hbs)⟩

/-- A state setup keeps the program cache sound and the shader names as they
are, whatever it returns, when the shaders it needs are compiled. -/
theorem GLES2_RunCommandQueue_setup_sound (env : Env) (renderer : SDL_Renderer)
    (data data' : GLES2_RenderData) (cmd : SDL_RenderCommand) (vertices : Nat) (r : Bool)
    (h : GLES2_RunCommandQueue_setup env renderer data cmd vertices = some (r, data'))
    (hs : data.ParamsSound)
    (hv : data.shader_id_cache GLES2_ShaderType.VERTEX_DEFAULT ≠ 0)
    (hf : ∀ source colorspace ftype params,
      GLES2_RunCommandQueue_setup_source renderer data cmd = some (source, colorspace) →
      GLES2_SelectProgram_variant env cmd.texture source cmd.texture_scale_mode colorspace
        = .ok (ftype, params) → data.shader_id_cache ftype ≠ 0) :
    data'.ParamsSound ∧ data'.shader_id_cache = data.shader_id_cache := by
  unfold GLES2_RunCommandQueue_setup at h
  unfold GLES2_RunCommandQueue_setup_source at hf
  by_cases ht : cmd.texture ≠ 0
  · rw [if_pos ht] at h
    simp only [if_pos ht] at hf
    unfold SetCopyState at h
    simp only [Option.bind_eq_some] at h
    obtain ⟨tex, htex, tf, htf, h⟩ := h
    split at h
    · simp only [Option.some.injEq, Prod.mk.injEq] at h
      rw [← h.2]
      exact ⟨hs.sound_of_same rfl rfl, rfl⟩
    · rename_i srcType hsrc
      simp only [Option.bind_eq_some] at h
      obtain ⟨⟨r1, d1⟩, hds, hafter⟩ := h
      obtain ⟨hs1, hsh1⟩ := SetDrawState_sound env data d1 cmd srcType vertices r1 hds hs hv
        (fun cs ftype params hcs hvar => by
          rw [if_pos ht, htex] at hcs
          simp only [Option.map_some', Option.some.injEq] at hcs
          refine hf srcType cs ftype params ?_ hvar
          simp [htex, htf, hsrc, hcs])
      obtain ⟨ah, as⟩ := SetCopyState_after_cache d1 data' cmd tex r1 r hafter
      exact ⟨hs1.sound_of_same as ah, as.trans hsh1⟩
  · rw [if_neg ht] at h
    simp only [if_neg ht] at hf
    exact SetDrawState_sound env data data' cmd GLES2_ImageSource.SOLID vertices r h hs hv
      (fun cs ftype params hcs hvar => by
        rw [if_neg ht] at hcs
        simp only [Option.some.injEq] at hcs
        exact hf _ cs ftype params (by rw [hcs]) hvar)

/-- A state without program-cache entries whose compiled shaders have
different names is sound. -/
theorem GLES2_RenderData.ParamsSound.of_empty (data : GLES2_RenderData)
    (hd : ∀ t t', data.shader_id_cache t ≠ 0 →
      data.shader_id_cache t = data.shader_id_cache t' → t = t')
    (he : ∀ a, data.heap.cells a = none) : data.ParamsSound :=
  ⟨hd, fun a e h => by rw [he a] at h; cases h⟩

theorem GLES2_RenderData.live_sound : GLES2_RenderData.live.ParamsSound := by
  refine GLES2_RenderData.ParamsSound.of_empty _ ?_ (fun _ => rfl)
  intro t t' h0 h
  cases t <;> cases t' <;> first | rfl | exact absurd h (by decide)
/-- Claim C9.  The state is one in which the vertex shader and the fragment
shader variant that the setup of the command needs are compiled, and whose
program cache is sound, as the driver and `GLES2_SelectProgram` keep it
(`GLES2_RunCommandQueue_setup_sound`).  When a state setup (`SetCopyState` for
a textured command, `SetDrawState` otherwise) returns `true` there, the same
setup run again right away returns `true` and issues only the three
`glVertexAttribPointer` calls (two for an untextured command): no
`glViewport`, `glScissor`, `glEnable`, `glDisable`, `glBlendFuncSeparate`,
`glBlendEquationSeparate`, `glEnableVertexAttribArray`,
`glDisableVertexAttribArray`, `glBindTexture`, `glTexParameteri` or
`glUseProgram`. -/
theorem GLES2_RunCommandQueue_setup_repeated (env : Env) (renderer : SDL_Renderer)
    (data : GLES2_RenderData) (cmd : SDL_RenderCommand) (vertices : Nat)
    (hv : data.shader_id_cache GLES2_ShaderType.VERTEX_DEFAULT ≠ 0)
    (hf : ∀ source colorspace ftype params,
      GLES2_RunCommandQueue_setup_source renderer data cmd = some (source, colorspace) →
      GLES2_SelectProgram_variant env cmd.texture source cmd.texture_scale_mode colorspace
        = .ok (ftype, params) → data.shader_id_cache ftype ≠ 0)
    (hsound : data.ParamsSound)
    (h1 : (GLES2_RunCommandQueue_setup env renderer data cmd vertices).map Prod.fst
      = some true) :
    ∃ data1 : GLES2_RenderData,
      GLES2_RunCommandQueue_setup env renderer data cmd vertices = some (true, data1) ∧
      GLES2_RunCommandQueue_setup env renderer data1 cmd vertices
        = some (true, data1.call (SetDrawState_arrays cmd vertices)) ∧
      ∀ c ∈ SetDrawState_arrays cmd vertices, c.isCachedState = false := by
  simp only [Option.map_eq_some'] at h1
  obtain ⟨⟨ok, data1⟩, hs, hok⟩ := h1
  simp only at hok
  subst hok
  refine ⟨data1, hs, ?_, SetDrawState_arrays_uncached cmd vertices⟩
  unfold GLES2_RunCommandQueue_setup at hs ⊢
  by_cases ht : cmd.texture ≠ 0
  · rw [if_pos ht] at hs ⊢
    obtain ⟨tex, tf, srcType, ftype, params, t', _, hsource, htf, hsrc, hvar, hset, hsh, hbound,
      ht', hk, hm, hu, hv2⟩ :=
      SetCopyState_settles env renderer data data1 cmd vertices hs hv hf hsound
    simp only [SDL_Texture.kind, Prod.mk.injEq] at hk
    refine SetCopyState_of_settled env renderer data1 cmd vertices t' tf srcType ftype params
      ht' htf (by rw [hk.1]; exact hsrc) (by rw [hk.2]; exact hvar) (by rw [hsh]; exact hv)
      (by rw [hsh]; exact hf _ _ _ _ hsource hvar) (by rw [hsh]; exact hset) hbound hm hu hv2
  · rw [if_neg ht] at hs ⊢
    have hsource : GLES2_RunCommandQueue_setup_source renderer data cmd
        = some (GLES2_ImageSource.SOLID, SDL_COLORSPACE_SRGB) := by
      simp only [GLES2_RunCommandQueue_setup_source, if_neg ht]
    obtain ⟨cs, ftype, params, hcol, hvar, hset, hsh, _, _⟩ :=
      SetDrawState_settles env data data1 cmd GLES2_ImageSource.SOLID vertices hs hv
        (fun cs ftype params hcs hvar => by
          rw [if_neg ht] at hcs
          simp only [Option.some.injEq] at hcs
          rw [← hcs] at hvar
          exact hf _ _ ftype params hsource hvar) hsound
    have hcs : cs = SDL_COLORSPACE_SRGB := by
      rw [if_neg ht] at hcol
      simp only [Option.some.injEq] at hcol
      exact hcol.symm
    refine SetDrawState_of_settled env data1 cmd GLES2_ImageSource.SOLID vertices cs ftype
      params ?_ hvar (by rw [hsh]; exact hv)
      (by rw [hsh]; rw [hcs] at hvar; exact hf _ _ _ _ hsource hvar)
      (by rw [hsh]; exact hset)
    rw [if_neg ht] at hcol ⊢
    exact hcol

set_option maxRecDepth 100000 in
theorem GLES2_RunCommandQueue_setup_repeated_witness :
    GLES2_RenderData.live.shader_id_cache GLES2_ShaderType.FRAGMENT_TEXTURE_EXTERNAL_OES = 0 ∧
    ∃ data1 : GLES2_RenderData,
      GLES2_RunCommandQueue_setup Env.plain SDL_Renderer.window
        (GLES2_InvalidateCachedState GLES2_RenderData.live)
        (SDL_RenderCommand.textured 0 6 1) 0 = some (true, data1) ∧
      GLES2_RunCommandQueue_setup Env.plain SDL_Renderer.window data1
        (SDL_RenderCommand.textured 0 6 1) 0
        = some (true, data1.call (SetDrawState_arrays (SDL_RenderCommand.textured 0 6 1) 0)) ∧
      ∀ c ∈ SetDrawState_arrays (SDL_RenderCommand.textured 0 6 1) 0,
        c.isCachedState = false :=
  ⟨by decide,
   GLES2_RunCommandQueue_setup_repeated Env.plain SDL_Renderer.window
    (GLES2_InvalidateCachedState GLES2_RenderData.live) (SDL_RenderCommand.textured 0 6 1) 0
    (by decide)
    (fun source colorspace ftype params hsrc hvar => by
      have h0 : GLES2_RunCommandQueue_setup_source SDL_Renderer.window
          (GLES2_InvalidateCachedState GLES2_RenderData.live)
          (SDL_RenderCommand.textured 0 6 1)
          = some (GLES2_ImageSource.TEXTURE_ABGR, SDL_COLORSPACE_SRGB) := by decide
      rw [h0] at hsrc
      simp only [Option.some.injEq, Prod.mk.injEq] at hsrc
      rw [← hsrc.1] at hvar
      have h1 : GLES2_SelectProgram_variant Env.plain (SDL_RenderCommand.textured 0 6 1).texture
          GLES2_ImageSource.TEXTURE_ABGR (SDL_RenderCommand.textured 0 6 1).texture_scale_mode
          colorspace = .ok (GLES2_ShaderType.FRAGMENT_TEXTURE_ABGR, ShaderParams.null) := rfl
      rw [h1] at hvar
      cases hvar
      decide)
    (GLES2_RenderData.live_sound.sound_of_same rfl rfl) (by decide)⟩

/-! ## Program selection: what it leaves in `drawstate.program` -/

theorem GLES2_CacheShader_frame (env : Env) (data : GLES2_RenderData)
    (type : GLES2_ShaderType) (fragment : Bool) :
    (GLES2_CacheShader env data type fragment).2.heap = data.heap ∧
    (GLES2_CacheShader env data type fragment).2.program_cache = data.program_cache ∧
    (GLES2_CacheShader env data type fragment).2.drawstate = data.drawstate ∧
    (GLES2_CacheShader env data type fragment).2.textures = data.textures := by
  unfold GLES2_CacheShader
  split
  · exact ⟨rfl, rfl, rfl, rfl⟩
  · dsimp only
    split
    · exact ⟨rfl, rfl, rfl, rfl⟩
    · split
      · exact ⟨rfl, rfl, rfl, rfl⟩
      · exact ⟨rfl, rfl, rfl, rfl⟩

theorem GLES2_SelectProgram_shader_frame (env : Env) (data : GLES2_RenderData)
    (type : GLES2_ShaderType) (fragment : Bool) :
    (GLES2_SelectProgram_shader env data type fragment).2.heap = data.heap ∧
    (GLES2_SelectProgram_shader env data type fragment).2.program_cache = data.program_cache ∧
    (GLES2_SelectProgram_shader env data type fragment).2.drawstate = data.drawstate ∧
    (GLES2_SelectProgram_shader env data type fragment).2.textures = data.textures := by
  unfold GLES2_SelectProgram_shader
  split
  · exact ⟨rfl, rfl, rfl, rfl⟩
  · exact GLES2_CacheShader_frame env data type fragment

/-- The postcondition of claim C11 on a state: `program` is `NULL` after
`false`, and a live entry after `true`. -/
theorem GLES2_SelectProgram_fault_post (data : GLES2_RenderData) (r : Bool)
    (data' : GLES2_RenderData) (h : GLES2_SelectProgram_fault data = some (r, data')) :
    r = false ∧ data'.drawstate.program = 0 := by
  simp only [GLES2_SelectProgram_fault, Option.some.injEq, Prod.mk.injEq] at h
  rw [← h.1, ← h.2]
  exact ⟨rfl, rfl⟩

theorem GLES2_SelectProgram_use_post (env : Env) (data data' : GLES2_RenderData)
    (vertex fragment : Nat) (ftype : GLES2_ShaderType) (params : ShaderParams) (r : Bool)
    (h : GLES2_SelectProgram_use env data vertex fragment ftype params = some (r, data')) :
    (r = false → data'.drawstate.program = 0) ∧
    (r = true → data'.drawstate.program ≠ 0
      ∧ (data'.heap.read data'.drawstate.program).isSome = true) := by
  unfold GLES2_SelectProgram_use at h
  simp only [Option.bind_eq_some] at h
  obtain ⟨⟨e, d2⟩, _, h⟩ := h
  simp only at h
  split at h
  · obtain ⟨hr, hp⟩ := GLES2_SelectProgram_fault_post _ _ _ h
    exact ⟨fun _ => hp, fun ht => absurd (hr.symm.trans ht) (by simp)⟩
  · rename_i he
    simp only [Option.bind_eq_some, Option.some.injEq, Prod.mk.injEq] at h
    obtain ⟨p, hp, hr, hd⟩ := h
    subst hr hd
    refine ⟨fun hf => absurd hf (by simp), fun _ => ⟨he, ?_⟩⟩
    show ((GLES2_SelectProgram_params (d2.call [GLCall.useProgram p.id]) e p ftype
      params).heap.read e).isSome = true
    unfold GLES2_SelectProgram_params
    split
    · simp [Heap.read, Heap.write, he, GLES2_RenderData.call]
    · have : (d2.call [GLCall.useProgram p.id]).heap.read e = some p := hp
      rw [this]
      rfl

theorem GLES2_SelectProgram_load_post (env : Env) (data data' : GLES2_RenderData)
    (ftype : GLES2_ShaderType) (params : ShaderParams) (r : Bool)
    (h : GLES2_SelectProgram_load env data ftype params = some (r, data')) :
    (r = false → data'.drawstate.program = 0) ∧
    (r = true → data'.drawstate.program ≠ 0
      ∧ (data'.heap.read data'.drawstate.program).isSome = true) := by
  unfold GLES2_SelectProgram_load at h
  split at h
  · obtain ⟨hr, hp⟩ := GLES2_SelectProgram_fault_post _ _ _ h
    exact ⟨fun _ => hp, fun ht => absurd (hr.symm.trans ht) (by simp)⟩
  · split at h
    · obtain ⟨hr, hp⟩ := GLES2_SelectProgram_fault_post _ _ _ h
      exact ⟨fun _ => hp, fun ht => absurd (hr.symm.trans ht) (by simp)⟩
    · simp only [Option.bind_eq_some] at h
      obtain ⟨current, hcur, h⟩ := h
      cases current
      · simp only [Bool.false_eq_true, if_false] at h
        exact GLES2_SelectProgram_use_post env _ _ _ _ _ _ _ h
      · simp only [if_true, Option.some.injEq, Prod.mk.injEq] at h
        obtain ⟨hr, hd⟩ := h
        subst hr hd
        obtain ⟨h0, p, hp, _⟩ := (GLES2_SelectProgram_current_iff _ _ _ _).1 hcur
        exact ⟨fun hf => absurd hf (by simp), fun _ => ⟨h0, by rw [hp]; rfl⟩⟩

theorem GLES2_SelectProgram_post (env : Env) (data data' : GLES2_RenderData) (texture : Nat)
    (source : GLES2_ImageSource) (scale_mode : SDL_ScaleMode) (colorspace : SDL_Colorspace)
    (r : Bool)
    (h : GLES2_SelectProgram env data texture source scale_mode colorspace = some (r, data')) :
    (r = false → data'.drawstate.program = 0) ∧
    (r = true → data'.drawstate.program ≠ 0
      ∧ (data'.heap.read data'.drawstate.program).isSome = true) := by
  unfold GLES2_SelectProgram at h
  split at h
  · obtain ⟨hr, hp⟩ := GLES2_SelectProgram_fault_post _ _ _ h
    exact ⟨fun _ => hp, fun ht => absurd (hr.symm.trans ht) (by simp)⟩
  · obtain ⟨hr, hp⟩ := GLES2_SelectProgram_fault_post _ _ _ h
    exact ⟨fun _ => hp, fun ht => absurd (hr.symm.trans ht) (by simp)⟩
  · exact GLES2_SelectProgram_load_post env _ _ _ _ _ h

theorem GLES2_RenderData.CacheInv.of_eq {data data' : GLES2_RenderData} {xs : List Nat}
    (hinv : data.CacheInv xs) (hh : data'.heap = data.heap)
    (hc : data'.program_cache = data.program_cache) : data'.CacheInv xs := by
  unfold GLES2_RenderData.CacheInv GLES2_RenderData.Linked at *
  rw [hh, hc]
  exact hinv

theorem GLES2_RenderData.CacheInv.head_live {data : GLES2_RenderData} {xs : List Nat}
    (hinv : data.CacheInv xs) (h0 : data.program_cache.head ≠ 0) :
    (data.heap.read data.program_cache.head).isSome = true := by
  obtain ⟨⟨hseg, _, _⟩, _⟩ := hinv
  cases xs with
  | nil => exact absurd hseg h0
  | cons a as =>
    obtain ⟨ha, _, e, he, _⟩ := hseg
    rw [Heap.read_of_cells h0 (by rw [ha]; exact he)]
    rfl

theorem GLES2_SelectProgram_use_total (env : Env) (data : GLES2_RenderData) (xs : List Nat)
    (vertex fragment : Nat) (ftype : GLES2_ShaderType) (params : ShaderParams)
    (hinv : data.CacheInv xs) :
    (GLES2_SelectProgram_use env data vertex fragment ftype params).isSome = true := by
  obtain ⟨r, data', ys, hrun, hinv', hr⟩ :=
    GLES2_CacheProgram_step env data xs vertex fragment hinv
  unfold GLES2_SelectProgram_use
  rw [hrun]
  simp only [Option.some_bind]
  split
  · rfl
  · rename_i h0
    have hlive := hinv'.head_live (by rw [(hr h0).1]; exact h0)
    rw [(hr h0).1] at hlive
    obtain ⟨p, hp⟩ := Option.isSome_iff_exists.1 hlive
    rw [hp]
    rfl

theorem GLES2_SelectProgram_load_total (env : Env) (data : GLES2_RenderData) (xs : List Nat)
    (ftype : GLES2_ShaderType) (params : ShaderParams) (hinv : data.CacheInv xs)
    (hcur : data.drawstate.program = 0
      ∨ (data.heap.read data.drawstate.program).isSome = true) :
    (GLES2_SelectProgram_load env data ftype params).isSome = true := by
  obtain ⟨s1, hs1⟩ : ∃ s, s = GLES2_SelectProgram_shader env data
    GLES2_ShaderType.VERTEX_DEFAULT false := ⟨_, rfl⟩
  obtain ⟨s2, hs2⟩ : ∃ s, s = GLES2_SelectProgram_shader env s1.2 ftype true := ⟨_, rfl⟩
  have f1 := GLES2_SelectProgram_shader_frame env data GLES2_ShaderType.VERTEX_DEFAULT false
  rw [← hs1] at f1
  have f2 := GLES2_SelectProgram_shader_frame env s1.2 ftype true
  rw [← hs2] at f2
  have hheap : s2.2.heap = data.heap := f2.1.trans f1.1
  have hpc : s2.2.program_cache = data.program_cache := f2.2.1.trans f1.2.1
  have hds : s2.2.drawstate = data.drawstate := f2.2.2.1.trans f1.2.2.1
  unfold GLES2_SelectProgram_load
  rw [← hs1, ← hs2]
  split
  · rfl
  · split
    · rfl
    · have hc : ∃ b, GLES2_SelectProgram_current s2.2 s1.1 s2.1 params = some b := by
        unfold GLES2_SelectProgram_current
        rw [hds, hheap]
        rcases hcur with h0 | hl
        · exact ⟨false, by rw [if_pos h0]⟩
        · by_cases h0 : data.drawstate.program = 0
          · exact ⟨false, by rw [if_pos h0]⟩
          · obtain ⟨p, hp⟩ := Option.isSome_iff_exists.1 hl
            rw [if_neg h0, hp]
            exact ⟨_, rfl⟩
      obtain ⟨b, hb⟩ := hc
      rw [hb]
      simp only [Option.some_bind]
      cases b
      · simp only [Bool.false_eq_true, if_false]
        exact GLES2_SelectProgram_use_total env s2.2 xs _ _ _ _ (hinv.of_eq hheap hpc)
      · rfl

theorem GLES2_SelectProgram_total (env : Env) (data : GLES2_RenderData) (xs : List Nat)
    (texture : Nat) (source : GLES2_ImageSource) (scale_mode : SDL_ScaleMode)
    (colorspace : SDL_Colorspace) (hinv : data.CacheInv xs)
    (hcur : data.drawstate.program = 0
      ∨ (data.heap.read data.drawstate.program).isSome = true) :
    (GLES2_SelectProgram env data texture source scale_mode colorspace).isSome = true := by
  unfold GLES2_SelectProgram
  split
  · rfl
  · rfl
  · exact GLES2_SelectProgram_load_total env data xs _ _ hinv hcur

/-- Claim C11.  Whenever `GLES2_SelectProgram` returns, `drawstate.program` is
`NULL` after `false`, and after `true` it is not `NULL` and points to a live
entry, so that the dereference in `SetDrawState` is safe.  The function does
return from every state whose program cache is a well-formed list and whose
current program, if any, is live. -/
theorem GLES2_SelectProgram_program_null_iff_failed (env : Env) (data : GLES2_RenderData)
    (texture : Nat) (source : GLES2_ImageSource) (scale_mode : SDL_ScaleMode)
    (colorspace : SDL_Colorspace) :
    (∀ (r : Bool) (data' : GLES2_RenderData),
      GLES2_SelectProgram env data texture source scale_mode colorspace = some (r, data') →
        (r = false → data'.drawstate.program = 0) ∧
        (r = true → data'.drawstate.program ≠ 0
          ∧ (data'.heap.read data'.drawstate.program).isSome = true)) ∧
    (∀ xs : List Nat, data.CacheInv xs →
      (data.drawstate.program = 0 ∨ (data.heap.read data.drawstate.program).isSome = true) →
      (GLES2_SelectProgram env data texture source scale_mode colorspace).isSome = true) :=
  ⟨fun _ _ h => GLES2_SelectProgram_post env data _ texture source scale_mode colorspace _ h,
   fun xs hinv hcur =>
     GLES2_SelectProgram_total env data xs texture source scale_mode colorspace hinv hcur⟩

theorem GLES2_SelectProgram_program_null_iff_failed_witness :
    ∃ (r : Bool) (data' : GLES2_RenderData),
      GLES2_SelectProgram Env.plain GLES2_RenderData.ready 0 GLES2_ImageSource.SOLID
        SDL_ScaleMode.NEAREST SDL_COLORSPACE_SRGB = some (r, data') ∧
      (r = false → data'.drawstate.program = 0) ∧
      (r = true → data'.drawstate.program ≠ 0
        ∧ (data'.heap.read data'.drawstate.program).isSome = true) := by
  have h := GLES2_SelectProgram_program_null_iff_failed Env.plain GLES2_RenderData.ready 0
    GLES2_ImageSource.SOLID SDL_ScaleMode.NEAREST SDL_COLORSPACE_SRGB
  obtain ⟨⟨r, d⟩, hd⟩ := Option.isSome_iff_exists.1
    (h.2 [] (GLES2_RenderData.CacheInv_of_empty rfl) (Or.inl rfl))
  exact ⟨r, d, hd, h.1 r d hd⟩

/-! ## Program selection: the variant chosen -/

/-- Claim C12.  For the sources YUV, NV12 and NV21, when no conversion matrix
exists for the colorspace, `GLES2_SelectProgram` returns `false` having set the
error and cleared `drawstate.program` only: the driver (its log and its shader
and program counters), the program cache with its entries and the shader names
are what they were, so no shader was compiled, no program acquired and no
`glUseProgram` issued. -/
theorem GLES2_SelectProgram_no_matrix (env : Env) (data : GLES2_RenderData) (texture : Nat)
    (source : GLES2_ImageSource) (scale_mode : SDL_ScaleMode) (colorspace : SDL_Colorspace)
    (hsrc : source = GLES2_ImageSource.TEXTURE_YUV ∨ source = GLES2_ImageSource.TEXTURE_NV12
      ∨ source = GLES2_ImageSource.TEXTURE_NV21)
    (hm : env.conversionMatrix colorspace = none) :
    ∃ data', GLES2_SelectProgram env data texture source scale_mode colorspace
        = some (false, data') ∧
      data'.gl = data.gl ∧ data'.heap = data.heap ∧ data'.program_cache = data.program_cache ∧
      data'.shader_id_cache = data.shader_id_cache ∧
      data'.last_error = "Unsupported YUV colorspace" ∧ data'.drawstate.program = 0 := by
  refine ⟨{ SDL_SetError data "Unsupported YUV colorspace" with
            drawstate := { data.drawstate with program := 0 } }, ?_, rfl, rfl, rfl, rfl, rfl, rfl⟩
  rcases hsrc with h | h | h <;> subst h <;>
    simp [GLES2_SelectProgram, GLES2_SelectProgram_variant, hm, GLES2_SelectProgram_fault,
      SDL_SetError]

theorem GLES2_SelectProgram_no_matrix_witness :
    ∃ data', GLES2_SelectProgram Env.plain GLES2_RenderData.ready 5
        GLES2_ImageSource.TEXTURE_NV12 SDL_ScaleMode.LINEAR SDL_COLORSPACE_SRGB
        = some (false, data') ∧
      data'.gl = GLES2_RenderData.ready.gl ∧ data'.heap = GLES2_RenderData.ready.heap ∧
      data'.program_cache = GLES2_RenderData.ready.program_cache ∧
      data'.shader_id_cache = GLES2_RenderData.ready.shader_id_cache ∧
      data'.last_error = "Unsupported YUV colorspace" ∧ data'.drawstate.program = 0 :=
  GLES2_SelectProgram_no_matrix Env.plain GLES2_RenderData.ready 5
    GLES2_ImageSource.TEXTURE_NV12 SDL_ScaleMode.LINEAR SDL_COLORSPACE_SRGB
    (Or.inr (Or.inl rfl)) rfl

theorem GLES2_SelectProgram_params_key (data : GLES2_RenderData) (program : Nat)
    (p : GLES2_ProgramCacheEntry) (ftype : GLES2_ShaderType) (params : ShaderParams)
    (hp : data.heap.read program = some p) :
    ((GLES2_SelectProgram_params data program p ftype params).heap.read program).map
        (fun e => (e.vertex_shader, e.fragment_shader))
      = some (p.vertex_shader, p.fragment_shader) := by
  have h0 : program ≠ 0 := by
    intro h
    rw [h] at hp
    simp [Heap.read] at hp
  unfold GLES2_SelectProgram_params
  split
  · simp [Heap.read, Heap.write, h0]
  · rw [hp]
    rfl

theorem GLES2_SelectProgram_use_key (env : Env) (data data' : GLES2_RenderData)
    (vertex fragment : Nat) (ftype : GLES2_ShaderType) (params : ShaderParams)
    (h : GLES2_SelectProgram_use env data vertex fragment ftype params = some (true, data')) :
    data'.currentKey = some (vertex, fragment) := by
  unfold GLES2_SelectProgram_use at h
  simp only [Option.bind_eq_some] at h
  obtain ⟨⟨e, d2⟩, hcache, h⟩ := h
  simp only at h
  split at h
  · simp [GLES2_SelectProgram_fault] at h
  · rename_i he
    simp only [Option.bind_eq_some, Option.some.injEq, Prod.mk.injEq, true_and] at h
    obtain ⟨p, hp, hd⟩ := h
    subst hd
    have hk := (GLES2_CacheProgram_entry env data d2 vertex fragment e hcache he).2.2.2 p
      (Heap.cells_of_read hp)
    have hq := GLES2_SelectProgram_params_key (d2.call [GLCall.useProgram p.id]) e p ftype
      params hp
    rw [hk.1, hk.2.1] at hq
    exact hq

theorem GLES2_SelectProgram_load_key (env : Env) (data data' : GLES2_RenderData)
    (ftype : GLES2_ShaderType) (params : ShaderParams)
    (h : GLES2_SelectProgram_load env data ftype params = some (true, data')) :
    data'.currentKey
      = some ((GLES2_SelectProgram_shader env data GLES2_ShaderType.VERTEX_DEFAULT false).1,
              (GLES2_SelectProgram_shader env
                (GLES2_SelectProgram_shader env data GLES2_ShaderType.VERTEX_DEFAULT false).2
                ftype true).1) := by
  unfold GLES2_SelectProgram_load at h
  split at h
  · simp [GLES2_SelectProgram_fault] at h
  · split at h
    · simp [GLES2_SelectProgram_fault] at h
    · simp only [Option.bind_eq_some] at h
      obtain ⟨current, hcur, h⟩ := h
      cases current
      · simp only [Bool.false_eq_true, if_false] at h
        exact GLES2_SelectProgram_use_key env _ _ _ _ _ _ h
      · simp only [if_true, Option.some.injEq, Prod.mk.injEq, true_and] at h
        subst h
        obtain ⟨_, p, hp, hv, hf, _⟩ := (GLES2_SelectProgram_current_iff _ _ _ _).1 hcur
        unfold GLES2_RenderData.currentKey
        rw [hp, ← hv, ← hf]
        rfl

/-- Claim C13.  `GLES2_SelectProgram` runs the shader-loading part, which asks
for the default vertex shader, with this fragment shader: `SOLID` for the solid
source; for each layout `X` and the source `TEXTURE_X`, `TEXTURE_X_PIXELART`
with the texel size of the texture as parameters when the scale mode is
`PIXELART`, and `TEXTURE_X` without parameters otherwise; the external shader
for `EXTERNAL_OES`.  The `INVALID` source fails.  When the loading part returns
`true`, the current program is cached under the name obtained for
`VERTEX_DEFAULT` and the name obtained for the fragment shader, which are
their cached names when both shaders are compiled. -/
theorem GLES2_SelectProgram_variant_table (env : Env) (data : GLES2_RenderData) (texture : Nat)
    (scale_mode : SDL_ScaleMode) (colorspace : SDL_Colorspace) :
    GLES2_SelectProgram env data texture GLES2_ImageSource.SOLID scale_mode colorspace
      = GLES2_SelectProgram_load env data GLES2_ShaderType.FRAGMENT_SOLID ShaderParams.null ∧
    (∀ X : PixelLayout,
      GLES2_SelectProgram env data texture X.source scale_mode colorspace
        = if scale_mode = SDL_ScaleMode.PIXELART then
            GLES2_SelectProgram_load env data X.pixelart (ShaderParams.texel_size texture)
          else GLES2_SelectProgram_load env data X.plain ShaderParams.null) ∧
    GLES2_SelectProgram env data texture GLES2_ImageSource.TEXTURE_EXTERNAL_OES scale_mode
        colorspace
      = GLES2_SelectProgram_load env data GLES2_ShaderType.FRAGMENT_TEXTURE_EXTERNAL_OES
          ShaderParams.null ∧
    GLES2_SelectProgram env data texture GLES2_ImageSource.INVALID scale_mode colorspace
      = some (false, { data with drawstate := { data.drawstate with program := 0 } }) ∧
    (∀ (ftype : GLES2_ShaderType) (params : ShaderParams) (data' : GLES2_RenderData),
      GLES2_SelectProgram_load env data ftype params = some (true, data') →
        data'.currentKey
          = some ((GLES2_SelectProgram_shader env data GLES2_ShaderType.VERTEX_DEFAULT false).1,
                  (GLES2_SelectProgram_shader env
                    (GLES2_SelectProgram_shader env data
                      GLES2_ShaderType.VERTEX_DEFAULT false).2 ftype true).1) ∧
        (data.shader_id_cache GLES2_ShaderType.VERTEX_DEFAULT ≠ 0 →
          data.shader_id_cache ftype ≠ 0 →
          data'.currentKey
            = some (data.shader_id_cache GLES2_ShaderType.VERTEX_DEFAULT,
                    data.shader_id_cache ftype))) := by
  refine ⟨rfl, ?_, rfl, rfl, ?_⟩
  · intro X
    cases X <;> by_cases hs : scale_mode = SDL_ScaleMode.PIXELART <;>
      simp [GLES2_SelectProgram, GLES2_SelectProgram_variant, PixelLayout.source,
        PixelLayout.plain, PixelLayout.pixelart, hs]
  · intro ftype params data' h
    have hk := GLES2_SelectProgram_load_key env data data' ftype params h
    refine ⟨hk, fun hv hf => ?_⟩
    rw [hk, GLES2_SelectProgram_shader_cached env data _ false hv,
      GLES2_SelectProgram_shader_cached env data _ true hf]

set_option maxRecDepth 100000 in
theorem GLES2_SelectProgram_variant_table_witness :
    ∃ data',
      GLES2_SelectProgram Env.plain GLES2_RenderData.ready 5 PixelLayout.ABGR.source
        SDL_ScaleMode.PIXELART SDL_COLORSPACE_SRGB = some (true, data') ∧
      data'.currentKey = some (1, 7) := by
  have h := GLES2_SelectProgram_variant_table Env.plain GLES2_RenderData.ready 5
    SDL_ScaleMode.PIXELART SDL_COLORSPACE_SRGB
  have hsel := h.2.1 PixelLayout.ABGR
  rw [if_pos rfl] at hsel
  have hfst : (GLES2_SelectProgram_load Env.plain GLES2_RenderData.ready
      PixelLayout.ABGR.pixelart (ShaderParams.texel_size 5)).map Prod.fst = some true := by
    decide
  cases hrun : GLES2_SelectProgram_load Env.plain GLES2_RenderData.ready
      PixelLayout.ABGR.pixelart (ShaderParams.texel_size 5) with
  | none => rw [hrun] at hfst; simp at hfst
  | some rd =>
    obtain ⟨r, d⟩ := rd
    rw [hrun] at hfst
    simp only [Option.map_some', Option.some.injEq] at hfst
    subst hfst
    exact ⟨d, hsel.trans hrun,
      (h.2.2.2.2 _ _ d hrun).2 (by decide) (by decide)⟩

/-! ## The shader choice of `SetCopyState` -/

theorem SetCopyState_source_table (tf format : SDL_PixelFormat) (hne : tf ≠ format) :
    SetCopyState_source (some tf) format
      = match SetCopyState_table format tf with
        | some s => some s
        | none => if format.isPacked then some GLES2_ImageSource.TEXTURE_ABGR else none := by
  cases format <;> cases tf <;>
    first
    | rfl
    | exact absurd rfl hne
    | (simp only [SetCopyState_source]
       rw [if_pos hne]
       rfl)

theorem SetCopyState_of_source (env : Env) (renderer : SDL_Renderer) (data : GLES2_RenderData)
    (cmd : SDL_RenderCommand) (vertices : Nat) (tex : SDL_Texture)
    (target : Option SDL_PixelFormat)
    (ht : data.texture? cmd.texture = some tex)
    (hg : SetCopyState_target renderer data = some target) :
    SetCopyState env renderer data cmd vertices
      = match SetCopyState_source target tex.format with
        | none => some (false, SDL_SetError data "Unsupported texture format")
        | some sourceType =>
          (SetDrawState env data cmd sourceType vertices).bind (fun r =>
            SetCopyState_after r.2 cmd tex r.1) := by
  unfold SetCopyState
  rw [ht, hg]
  rfl

/-- Claim C14, amended.  With a render target whose format differs from the
format of the source texture, `SetCopyState` hands `SetDrawState` the variant
the format table lists for the pair; when the table has no entry and the
source format is one of the four packed formats it goes on with the default
variant `TEXTURE_ABGR`; it fails with the unsupported-texture-format error
only when the table has no entry and the source format is not packed. -/
theorem SetCopyState_format_table (env : Env) (renderer : SDL_Renderer)
    (data : GLES2_RenderData) (cmd : SDL_RenderCommand) (vertices : Nat)
    (tex tgt : SDL_Texture)
    (ht : data.texture? cmd.texture = some tex)
    (hr : renderer.target ≠ 0)
    (hg : data.texture? renderer.target = some tgt)
    (hne : tgt.format ≠ tex.format) :
    SetCopyState env renderer data cmd vertices
      = match SetCopyState_table tex.format tgt.format with
        | some s =>
          (SetDrawState env data cmd s vertices).bind (fun r =>
            SetCopyState_after r.2 cmd tex r.1)
        | none =>
          if tex.format.isPacked then
            (SetDrawState env data cmd GLES2_ImageSource.TEXTURE_ABGR vertices).bind (fun r =>
              SetCopyState_after r.2 cmd tex r.1)
          else some (false, SDL_SetError data "Unsupported texture format") := by
  have hg' : SetCopyState_target renderer data = some (some tgt.format) := by
    unfold SetCopyState_target
    rw [if_pos hr, hg]
    rfl
  rw [SetCopyState_of_source env renderer data cmd vertices tex _ ht hg',
    SetCopyState_source_table tgt.format tex.format hne]
  cases SetCopyState_table tex.format tgt.format with
  | some s => rfl
  | none =>
    by_cases hp : tex.format.isPacked = true
    · simp [hp]
    · simp [hp]

theorem SetCopyState_format_table_witness :
    SetCopyState Env.plain SDL_Renderer.toTexture GLES2_RenderData.twoTextures
        (SDL_RenderCommand.textured 0 3 0) 0
      = (SetDrawState Env.plain GLES2_RenderData.twoTextures (SDL_RenderCommand.textured 0 3 0)
          GLES2_ImageSource.TEXTURE_ABGR 0).bind (fun r =>
            SetCopyState_after r.2 (SDL_RenderCommand.textured 0 3 0)
              { format := SDL_PixelFormat.BGRA32, colorspace := SDL_COLORSPACE_SRGB,
                texture := 9, texture_type := 3553, yuv := false, nv12 := false,
                texture_v := 0, texture_u := 0, texture_scale_mode := SDL_ScaleMode.INVALID,
                texture_address_mode_u := SDL_TextureAddressMode.INVALID,
                texture_address_mode_v := SDL_TextureAddressMode.INVALID } r.1) :=
  SetCopyState_format_table Env.plain SDL_Renderer.toTexture GLES2_RenderData.twoTextures
    (SDL_RenderCommand.textured 0 3 0) 0
    { format := SDL_PixelFormat.BGRA32, colorspace := SDL_COLORSPACE_SRGB,
      texture := 9, texture_type := 3553, yuv := false, nv12 := false,
      texture_v := 0, texture_u := 0, texture_scale_mode := SDL_ScaleMode.INVALID,
      texture_address_mode_u := SDL_TextureAddressMode.INVALID,
      texture_address_mode_v := SDL_TextureAddressMode.INVALID }
    { format := SDL_PixelFormat.IYUV, colorspace := SDL_COLORSPACE_SRGB,
      texture := 10, texture_type := 3553, yuv := true, nv12 := false,
      texture_v := 11, texture_u := 12, texture_scale_mode := SDL_ScaleMode.INVALID,
      texture_address_mode_u := SDL_TextureAddressMode.INVALID,
      texture_address_mode_v := SDL_TextureAddressMode.INVALID }
    rfl (by decide) rfl (by decide)

set_option maxRecDepth 100000 in
/-- Claim C14 as stated fails: the pair of a BGRA source and a planar YUV
render target has no entry in the format table, yet `SetCopyState` returns
`true` with the program of the default fragment shader `TEXTURE_ABGR`
(named `3`) current. -/
theorem SetCopyState_default_variant :
    (GLES2_RenderData.twoTextures.texture? 5).map SDL_Texture.format
      = some SDL_PixelFormat.BGRA32 ∧
    (GLES2_RenderData.twoTextures.texture? SDL_Renderer.toTexture.target).map SDL_Texture.format
      = some SDL_PixelFormat.IYUV ∧
    SetCopyState_table SDL_PixelFormat.BGRA32 SDL_PixelFormat.IYUV = none ∧
    GLES2_RenderData.twoTextures.shader_id_cache GLES2_ShaderType.FRAGMENT_TEXTURE_ABGR = 3 ∧
    (SetCopyState Env.plain SDL_Renderer.toTexture GLES2_RenderData.twoTextures
        (SDL_RenderCommand.textured 0 3 0) 0).map (fun r => (r.1, r.2.currentKey))
      = some (true, some (1, 3)) := by
  decide

/-! ## The bound texture after `SetCopyState` -/

theorem SetCopyState_scale_drawstate (data : GLES2_RenderData) (texture : Nat)
    (t : SDL_Texture) (mode : SDL_ScaleMode) :
    (SetCopyState_scale data texture t mode).2.drawstate = data.drawstate := by
  unfold SetCopyState_scale
  have h1 := (SetCopyState_scaleUnits_frame t.texture_type mode (SetCopyState_units t) data).2.2.1
  split
  · dsimp only
    split
    · exact h1
    · obtain ⟨d2, hd2⟩ : ∃ d, d = (if SetCopyState_units t = []
          then (SetCopyState_scaleUnits t.texture_type mode data (SetCopyState_units t)).2
          else (SetCopyState_scaleUnits t.texture_type mode data
                  (SetCopyState_units t)).2.call [GLCall.activeTexture 0]) := ⟨_, rfl⟩
      have h2 : d2.drawstate = data.drawstate := by
        rw [hd2]
        split
        · exact h1
        · exact h1
      have h3 := (SetTextureScaleMode_frame d2 t.texture_type mode).2.2.1
      rw [← hd2]
      split
      · exact h3.trans h2
      · exact h3.trans h2
  · rfl

theorem SetCopyState_after_binds (data data' : GLES2_RenderData) (cmd : SDL_RenderCommand)
    (tex : SDL_Texture) (ret r : Bool)
    (h : SetCopyState_after data cmd tex ret = some (r, data')) :
    data'.drawstate.texture = cmd.texture := by
  have hb := (SetCopyState_bind_frame data cmd.texture tex).2.2.2.1
  unfold SetCopyState_after at h
  simp only [Option.bind_eq_some] at h
  obtain ⟨t2, _, h⟩ := h
  have hs := SetCopyState_scale_drawstate (SetCopyState_bind data cmd.texture tex) cmd.texture
    t2 cmd.texture_scale_mode
  split at h
  · simp only [Option.some.injEq, Prod.mk.injEq] at h
    rw [← h.2, hs]
    exact hb
  · simp only [Option.bind_eq_some, Option.some.injEq, Prod.mk.injEq] at h
    obtain ⟨t3, ht3, _, hd⟩ := h
    have ha := (SetCopyState_address_frame _ cmd.texture t3 cmd.texture_address_mode_u
      cmd.texture_address_mode_v ht3).1.2.2.1
    rw [← hd, ha, hs]
    exact hb

/-- Claim C15, amended.  When `SetCopyState` fails with the
unsupported-texture-format error, the draw-state cache, and so its
bound-texture field, is what it was before the call.  In every other return,
the failures of `SetDrawState` and of `SetTextureScaleMode` included,
`drawstate.texture` is the texture of the command. -/
theorem SetCopyState_bound_texture (env : Env) (renderer : SDL_Renderer)
    (data data' : GLES2_RenderData) (cmd : SDL_RenderCommand) (vertices : Nat) (r : Bool)
    (h : SetCopyState env renderer data cmd vertices = some (r, data')) :
    ∃ (tex : SDL_Texture) (target : Option SDL_PixelFormat),
      data.texture? cmd.texture = some tex ∧ SetCopyState_target renderer data = some target ∧
      (SetCopyState_source target tex.format = none →
        r = false ∧ data'.drawstate = data.drawstate ∧
        data'.last_error = "Unsupported texture format") ∧
      (SetCopyState_source target tex.format ≠ none →
        data'.drawstate.texture = cmd.texture) := by
  unfold SetCopyState at h
  simp only [Option.bind_eq_some] at h
  obtain ⟨tex, ht, target, hg, h⟩ := h
  refine ⟨tex, target, ht, hg, ?_, ?_⟩
  · intro hsrc
    rw [hsrc] at h
    simp only [Option.some.injEq, Prod.mk.injEq] at h
    rw [← h.1, ← h.2]
    exact ⟨rfl, rfl, rfl⟩
  · intro hsrc
    cases hs : SetCopyState_source target tex.format with
    | none => exact absurd hs hsrc
    | some s =>
      rw [hs] at h
      simp only [Option.bind_eq_some] at h
      obtain ⟨r1, _, h⟩ := h
      exact SetCopyState_after_binds _ _ _ _ _ _ h

set_option maxRecDepth 100000 in
theorem SetCopyState_bound_texture_witness :
    ∃ data', SetCopyState Env.nolink SDL_Renderer.window GLES2_RenderData.textured
        (SDL_RenderCommand.textured 0 3 0) 0 = some (false, data') ∧
      data'.drawstate.texture = 5 := by
  have hfst : (SetCopyState Env.nolink SDL_Renderer.window GLES2_RenderData.textured
      (SDL_RenderCommand.textured 0 3 0) 0).map Prod.fst = some false := by decide
  cases hrun : SetCopyState Env.nolink SDL_Renderer.window GLES2_RenderData.textured
      (SDL_RenderCommand.textured 0 3 0) 0 with
  | none => rw [hrun] at hfst; simp at hfst
  | some rd =>
    obtain ⟨r, d⟩ := rd
    rw [hrun] at hfst
    simp only [Option.map_some', Option.some.injEq] at hfst
    subst hfst
    obtain ⟨tex, target, ht, hg, _, hb⟩ := SetCopyState_bound_texture Env.nolink
      SDL_Renderer.window GLES2_RenderData.textured d (SDL_RenderCommand.textured 0 3 0) 0
      false hrun
    have ht' : tex.format = SDL_PixelFormat.RGBA32 := by
      have : some tex = some _ := ht.symm.trans (rfl : GLES2_RenderData.textured.texture? 5 = _)
      rw [Option.some.inj this]
    have hg' : target = none := by
      have : some target = some none := hg.symm.trans rfl
      exact Option.some.inj this
    exact ⟨d, rfl, hb (by rw [ht', hg']; decide)⟩

set_option maxRecDepth 100000 in
/-- Claim C15 as stated fails: on a driver that links no program `SetDrawState`
fails and so does `SetCopyState`, after it has bound the texture of the
command and stored it in `drawstate.texture`, which was `NULL` before. -/
theorem SetCopyState_failure_binds_texture :
    GLES2_RenderData.textured.drawstate.texture = 0 ∧
    (SetCopyState Env.nolink SDL_Renderer.window GLES2_RenderData.textured
        (SDL_RenderCommand.textured 0 3 0) 0).map (fun r => (r.1, r.2.drawstate.texture))
      = some (false, 5) ∧
    (SetCopyState Env.nolink SDL_Renderer.window GLES2_RenderData.textured
        (SDL_RenderCommand.textured 0 3 0) 0).map (fun r => r.2.gl.log.getLast?)
      = some (some (GLCall.texParameteri 3553 GLTexParam.WRAP_T_CLAMP_TO_EDGE)) := by
  decide

/-! ## Blend-mode support -/

/-- What `GLES2_SupportsBlendMode` computes: the six translations are valid and
the color operation is not a minimum or maximum that the driver lacks.  The
alpha operation is not looked at beyond its translation. -/
theorem GLES2_SupportsBlendMode_iff (env : Env) (data : GLES2_RenderData)
    (blendMode : SDL_BlendMode) :
    GLES2_SupportsBlendMode env data blendMode = true ↔
      (GetBlendFunc (env.srcColorFactor blendMode) ≠ GLenum.GL_INVALID_ENUM ∧
       GetBlendFunc (env.srcAlphaFactor blendMode) ≠ GLenum.GL_INVALID_ENUM ∧
       GetBlendEquation (env.colorOperation blendMode) ≠ GLenum.GL_INVALID_ENUM ∧
       GetBlendFunc (env.dstColorFactor blendMode) ≠ GLenum.GL_INVALID_ENUM ∧
       GetBlendFunc (env.dstAlphaFactor blendMode) ≠ GLenum.GL_INVALID_ENUM ∧
       GetBlendEquation (env.alphaOperation blendMode) ≠ GLenum.GL_INVALID_ENUM) ∧
      ((env.colorOperation blendMode = SDL_BlendOperation.MINIMUM
          ∨ env.colorOperation blendMode = SDL_BlendOperation.MAXIMUM) →
        data.GL_EXT_blend_minmax_supported = true) := by
  unfold GLES2_SupportsBlendMode
  split
  · rename_i h
    constructor
    · intro hf
      exact absurd hf (by simp)
    · rintro ⟨⟨h1, h2, h3, h4, h5, h6⟩, _⟩
      rcases h with h | h | h | h | h | h
      · exact absurd h h1
      · exact absurd h h2
      · exact absurd h h3
      · exact absurd h h4
      · exact absurd h h5
      · exact absurd h h6
  · rename_i h
    simp only [not_or] at h
    split
    · rename_i hmin
      constructor
      · intro hf
        exact absurd hf (by simp)
      · rintro ⟨_, hext⟩
        have := hext (Or.inl hmin.1)
        rw [hmin.2] at this
        exact absurd this (by simp)
    · rename_i hmin
      split
      · rename_i hmax
        constructor
        · intro hf
          exact absurd hf (by simp)
        · rintro ⟨_, hext⟩
          have := hext (Or.inr hmax.1)
          rw [hmax.2] at this
          exact absurd this (by simp)
      · rename_i hmax
        constructor
        · intro _
          refine ⟨h, ?_⟩
          rintro (hc | hc)
          · by_contra hx
            exact hmin ⟨hc, by simpa using hx⟩
          · by_contra hx
            exact hmax ⟨hc, by simpa using hx⟩
        · intro _
          rfl

/-- Claim C16 fails on the code.  For a mode whose alpha operation is
`MINIMUM`, with every factor and the color operation supported, on a driver
without `GL_EXT_blend_minmax`, `GLES2_SupportsBlendMode` returns `true`; and
`SetDrawState` then passes `GL_MIN_EXT` to `glBlendEquationSeparate`. -/
theorem GLES2_SupportsBlendMode_alpha_minimum :
    GLES2_RenderData.zero.GL_EXT_blend_minmax_supported = false ∧
    Env.alphaMinimum.colorOperation blendMode_alphaMinimum = SDL_BlendOperation.ADD ∧
    Env.alphaMinimum.alphaOperation blendMode_alphaMinimum = SDL_BlendOperation.MINIMUM ∧
    GLES2_SupportsBlendMode Env.alphaMinimum GLES2_RenderData.zero blendMode_alphaMinimum
      = true ∧
    (SetDrawState_blend Env.alphaMinimum GLES2_RenderData.zero blendMode_alphaMinimum).gl.log
      = [GLCall.enable GLCap.BLEND,
         GLCall.blendFuncSeparate GLenum.GL_ONE GLenum.GL_ZERO GLenum.GL_ONE GLenum.GL_ZERO,
         GLCall.blendEquationSeparate GLenum.GL_FUNC_ADD GLenum.GL_MIN_EXT] := by
  decide

/-! ## Selecting the same program twice -/

theorem GLES2_CacheProgram_head (env : Env) (data data' : GLES2_RenderData)
    (vertex fragment r : Nat)
    (h : GLES2_CacheProgram env data vertex fragment = some (r, data')) (hr : r ≠ 0) :
    data'.program_cache.head = r := by
  unfold GLES2_CacheProgram at h
  simp only [Option.bind_eq_some] at h
  obtain ⟨entry, _, h⟩ := h
  split at h
  · simp only [Option.bind_eq_some, Option.some.injEq, Prod.mk.injEq] at h
    obtain ⟨d1, hd1, hre, hd⟩ := h
    subst hre hd
    unfold GLES2_CacheProgram_hit at hd1
    split at hd1
    · rename_i hh
      simp only [Option.some.injEq] at hd1
      rw [← hd1]
      exact hh
    · simp only [Option.bind_eq_bind, Option.bind_eq_some] at hd1
      obtain ⟨e, _, h1, _, e1, _, h2, _, h3, _, h4, _, hd1⟩ := hd1
      simp only [Option.some.injEq] at hd1
      rw [← hd1]
  · unfold GLES2_CacheProgram_miss at h
    split at h
    · simp only [Option.some.injEq, Prod.mk.injEq] at h
      exact absurd h.1.symm hr
    · simp only at h
      split at h
      · simp only [Option.bind_eq_some, Option.some.injEq, Prod.mk.injEq] at h
        obtain ⟨_, _, h0, _⟩ := h
        exact absurd h0.symm hr
      · simp only [Option.bind_eq_some, Option.some.injEq, Prod.mk.injEq] at h
        obtain ⟨d3, h3, d4, h4, hre, hd⟩ := h
        subst hre hd
        have hd3 : d3.program_cache.head = data.heap.brk + 1 := by
          unfold GLES2_CacheProgram_insert at h3
          simp only [Option.bind_eq_some] at h3
          obtain ⟨e, _, hh, _, h3⟩ := h3
          simp only [Option.some.injEq] at h3
          rw [← h3]
          rfl
        unfold GLES2_CacheProgram_evict at h4
        split at h4
        · simp only [Option.bind_eq_bind, Option.bind_eq_some] at h4
          obtain ⟨t, _, h1, _, h4⟩ := h4
          simp only [Option.some.injEq] at h4
          rw [← h4]
          exact hd3
        · simp only [Option.some.injEq] at h4
          rw [← h4]
          exact hd3

/-- A request for the pair stored in the head entry returns that entry and
changes nothing. -/
theorem GLES2_CacheProgram_of_head (env : Env) (data : GLES2_RenderData)
    (vertex fragment : Nat) (p : GLES2_ProgramCacheEntry)
    (h0 : data.program_cache.head ≠ 0)
    (hp : data.heap.read data.program_cache.head = some p)
    (hv : p.vertex_shader = vertex) (hf : p.fragment_shader = fragment) :
    GLES2_CacheProgram env data vertex fragment = some (data.program_cache.head, data) := by
  unfold GLES2_CacheProgram
  have hs : GLES2_CacheProgram_search data.heap vertex fragment (data.heap.brk + 1)
      data.program_cache.head = some data.program_cache.head := by
    unfold GLES2_CacheProgram_search
    rw [if_neg h0, hp]
    simp only
    rw [if_pos ⟨hv, hf⟩]
  rw [hs]
  simp only [Option.some_bind]
  rw [if_pos h0]
  unfold GLES2_CacheProgram_hit
  rw [if_pos rfl]
  rfl

/-- What `GLES2_SelectProgram_use` leaves behind when it returns `true`: the
entry of the pair is the head of the cache and the current program, and its
shader parameters are those wanted unless none were wanted. -/
theorem GLES2_SelectProgram_use_head (env : Env) (data data' : GLES2_RenderData)
    (vertex fragment : Nat) (ftype : GLES2_ShaderType) (params : ShaderParams)
    (h : GLES2_SelectProgram_use env data vertex fragment ftype params = some (true, data')) :
    data'.shader_id_cache = data.shader_id_cache ∧
    data'.program_cache.head = data'.drawstate.program ∧ data'.drawstate.program ≠ 0 ∧
    ∃ p, data'.heap.read data'.drawstate.program = some p ∧
      p.vertex_shader = vertex ∧ p.fragment_shader = fragment ∧
      (p.shader_params = params ∨ params = ShaderParams.null) := by
  unfold GLES2_SelectProgram_use at h
  simp only [Option.bind_eq_some] at h
  obtain ⟨⟨r, d2⟩, hcp, h⟩ := h
  simp only at h
  split at h
  · simp [GLES2_SelectProgram_fault] at h
  · rename_i hr
    simp only [Option.bind_eq_some, Option.some.injEq, Prod.mk.injEq, true_and] at h
    obtain ⟨p, hp, h⟩ := h
    obtain ⟨_, hsh, _, hent⟩ := GLES2_CacheProgram_entry env data d2 vertex fragment r hcp hr
    have hhead := GLES2_CacheProgram_head env data d2 vertex fragment r hcp hr
    obtain ⟨hpv, hpf, _⟩ := hent p (Heap.cells_of_read hp)
    subst h
    unfold GLES2_SelectProgram_params
    by_cases hc : params ≠ ShaderParams.null ∧ params ≠ p.shader_params
    · rw [if_pos hc]
      refine ⟨hsh, hhead, hr, { p with shader_params := params }, ?_, hpv, hpf, Or.inl rfl⟩
      simp [Heap.read, Heap.write, hr, GLES2_RenderData.call]
    · rw [if_neg hc]
      refine ⟨hsh, hhead, hr, p, ?_, hpv, hpf, ?_⟩
      · simpa [GLES2_RenderData.call] using hp
      · by_cases hn : params = ShaderParams.null
        · exact Or.inr hn
        · left
          by_contra hne
          exact hc ⟨hn, fun heq => hne heq.symm⟩

/-- The second of two equal requests that goes through the cache again finds
the entry at the head and only repeats `glUseProgram`. -/
theorem GLES2_SelectProgram_use_again (env : Env) (data : GLES2_RenderData)
    (vertex fragment : Nat) (ftype : GLES2_ShaderType) (p : GLES2_ProgramCacheEntry)
    (hhead : data.program_cache.head = data.drawstate.program)
    (h0 : data.drawstate.program ≠ 0)
    (hp : data.heap.read data.drawstate.program = some p)
    (hv : p.vertex_shader = vertex) (hf : p.fragment_shader = fragment) :
    GLES2_SelectProgram_use env data vertex fragment ftype ShaderParams.null
      = some (true, data.call [GLCall.useProgram p.id]) := by
  unfold GLES2_SelectProgram_use
  rw [GLES2_CacheProgram_of_head env data vertex fragment p (by rw [hhead]; exact h0)
    (by rw [hhead]; exact hp) hv hf]
  simp only [Option.some_bind]
  rw [hhead, if_neg h0, hp]
  simp only [Option.some_bind]
  have hpar : GLES2_SelectProgram_params (data.call [GLCall.useProgram p.id])
      data.drawstate.program p ftype ShaderParams.null
      = data.call [GLCall.useProgram p.id] := by
    unfold GLES2_SelectProgram_params
    rw [if_neg (fun hc => hc.1 rfl)]
  rw [hpar]
  rfl

theorem GLES2_SelectProgram_load_again (env : Env) (data data1 : GLES2_RenderData)
    (ftype : GLES2_ShaderType) (params : ShaderParams)
    (hv : data.shader_id_cache GLES2_ShaderType.VERTEX_DEFAULT ≠ 0)
    (hf : data.shader_id_cache ftype ≠ 0)
    (h : GLES2_SelectProgram_load env data ftype params = some (true, data1)) :
    ∃ data2, GLES2_SelectProgram_load env data1 ftype params = some (true, data2) ∧
      data2.drawstate = data1.drawstate ∧ data2.heap = data1.heap ∧
      data2.program_cache = data1.program_cache ∧
      data2.shader_id_cache = data1.shader_id_cache ∧
      data2.gl.shaders = data1.gl.shaders ∧ data2.gl.programs = data1.gl.programs ∧
      (data2.gl.log = data1.gl.log
        ∨ ∃ id, data2.gl.log = data1.gl.log ++ [GLCall.useProgram id]) := by
  have h' := h
  rw [GLES2_SelectProgram_load_cached env data ftype params hv hf] at h'
  simp only [Option.bind_eq_some] at h'
  obtain ⟨current, hcur, h'⟩ := h'
  cases current
  · simp only [Bool.false_eq_true, if_false] at h'
    obtain ⟨hsh, hhead, h0, p, hp, hpv, hpf, hps⟩ :=
      GLES2_SelectProgram_use_head env data data1 _ _ ftype params h'
    have hv1 : data1.shader_id_cache GLES2_ShaderType.VERTEX_DEFAULT ≠ 0 := by
      rw [hsh]; exact hv
    have hf1 : data1.shader_id_cache ftype ≠ 0 := by
      rw [hsh]; exact hf
    rw [GLES2_SelectProgram_load_cached env data1 ftype params hv1 hf1, hsh]
    by_cases hk : p.shader_params = params
    · have hsel : GLES2_SelectProgram_current data1
          (data.shader_id_cache GLES2_ShaderType.VERTEX_DEFAULT) (data.shader_id_cache ftype)
          params = some true :=
        (GLES2_SelectProgram_current_iff _ _ _ _).2 ⟨h0, p, hp, hpv, hpf, hk⟩
      rw [hsel]
      exact ⟨data1, rfl, rfl, rfl, rfl, hsh, rfl, rfl, Or.inl rfl⟩
    · have hn : params = ShaderParams.null := by
        rcases hps with hps | hps
        · exact absurd hps hk
        · exact hps
      have hcur1 : GLES2_SelectProgram_current data1
          (data.shader_id_cache GLES2_ShaderType.VERTEX_DEFAULT) (data.shader_id_cache ftype)
          params = some false := by
        unfold GLES2_SelectProgram_current
        rw [if_neg h0, hp]
        simp only [Option.some.injEq, decide_eq_false_iff_not]
        exact fun hc => hk hc.2.2
      rw [hcur1]
      simp only [Option.some_bind, Bool.false_eq_true, if_false]
      subst hn
      rw [GLES2_SelectProgram_use_again env data1 _ _ ftype p hhead h0 hp hpv hpf]
      exact ⟨_, rfl, rfl, rfl, rfl, hsh, rfl, rfl, Or.inr ⟨p.id, rfl⟩⟩
  · simp only [if_true, Option.some.injEq, Prod.mk.injEq, true_and] at h'
    subst h'
    exact ⟨data, h, rfl, rfl, rfl, rfl, rfl, rfl, Or.inl rfl⟩

/-- Claim C17.  When the default vertex shader and the fragment shader of the
request are compiled and `GLES2_SelectProgram` returns `true`, the same request
made again at once returns `true` and leaves the draw-state cache, with its
current program, the program cache and its entries, the shader names and the
counts of created shaders and programs as they are; the driver is sent
nothing, or one more `glUseProgram`. -/
theorem GLES2_SelectProgram_repeated (env : Env) (data data1 : GLES2_RenderData)
    (texture : Nat) (source : GLES2_ImageSource) (scale_mode : SDL_ScaleMode)
    (colorspace : SDL_Colorspace)
    (hv : data.shader_id_cache GLES2_ShaderType.VERTEX_DEFAULT ≠ 0)
    (hf : ∀ ftype params,
      GLES2_SelectProgram_variant env texture source scale_mode colorspace
        = .ok (ftype, params) → data.shader_id_cache ftype ≠ 0)
    (h : GLES2_SelectProgram env data texture source scale_mode colorspace
      = some (true, data1)) :
    ∃ data2, GLES2_SelectProgram env data1 texture source scale_mode colorspace
        = some (true, data2) ∧
      data2.drawstate.program = data1.drawstate.program ∧
      data2.drawstate = data1.drawstate ∧ data2.heap = data1.heap ∧
      data2.program_cache = data1.program_cache ∧
      data2.shader_id_cache = data1.shader_id_cache ∧
      data2.gl.shaders = data1.gl.shaders ∧ data2.gl.programs = data1.gl.programs ∧
      (data2.gl.log = data1.gl.log
        ∨ ∃ id, data2.gl.log = data1.gl.log ++ [GLCall.useProgram id]) := by
  obtain ⟨ftype, params, hvar, hload⟩ :=
    GLES2_SelectProgram_true env data data1 texture source scale_mode colorspace h
  obtain ⟨data2, h2, hds, hrest⟩ :=
    GLES2_SelectProgram_load_again env data data1 ftype params hv (hf ftype params hvar) hload
  refine ⟨data2, ?_, by rw [hds], hds, hrest⟩
  rw [GLES2_SelectProgram_of_ok env data1 texture source scale_mode colorspace ftype params hvar]
  exact h2

set_option maxRecDepth 100000 in
theorem GLES2_SelectProgram_repeated_witness :
    ∃ data1 data2,
      GLES2_SelectProgram Env.plain GLES2_RenderData.ready 5 GLES2_ImageSource.TEXTURE_ABGR
        SDL_ScaleMode.LINEAR SDL_COLORSPACE_SRGB = some (true, data1) ∧
      GLES2_SelectProgram Env.plain data1 5 GLES2_ImageSource.TEXTURE_ABGR
        SDL_ScaleMode.LINEAR SDL_COLORSPACE_SRGB = some (true, data2) ∧
      data2.drawstate.program = data1.drawstate.program ∧
      data2.program_cache = data1.program_cache ∧
      data2.gl.shaders = data1.gl.shaders ∧ data2.gl.programs = data1.gl.programs := by
  have hfst : (GLES2_SelectProgram Env.plain GLES2_RenderData.ready 5
      GLES2_ImageSource.TEXTURE_ABGR SDL_ScaleMode.LINEAR SDL_COLORSPACE_SRGB).map Prod.fst
      = some true := by decide
  cases hrun : GLES2_SelectProgram Env.plain GLES2_RenderData.ready 5
      GLES2_ImageSource.TEXTURE_ABGR SDL_ScaleMode.LINEAR SDL_COLORSPACE_SRGB with
  | none => rw [hrun] at hfst; simp at hfst
  | some rd =>
    obtain ⟨r, d⟩ := rd
    rw [hrun] at hfst
    simp only [Option.map_some', Option.some.injEq] at hfst
    subst hfst
    obtain ⟨data2, h2, hp, _, _, hpc, _, hs, hg, _⟩ :=
      GLES2_SelectProgram_repeated Env.plain GLES2_RenderData.ready d 5
        GLES2_ImageSource.TEXTURE_ABGR SDL_ScaleMode.LINEAR SDL_COLORSPACE_SRGB
        (by decide) (fun ftype _ _ => by cases ftype <;> decide) hrun
    exact ⟨d, data2, rfl, h2, hp, hpc, hs, hg⟩

/-! ## Compiling a shader on demand -/

/-- A `GLES2_CacheShader` that fails leaves the shader names as they are. -/
theorem GLES2_CacheShader_failed (env : Env) (data : GLES2_RenderData)
    (type : GLES2_ShaderType) (fragment : Bool)
    (h : (GLES2_CacheShader env data type fragment).1 = false) :
    (GLES2_CacheShader env data type fragment).2.shader_id_cache = data.shader_id_cache := by
  unfold GLES2_CacheShader at h ⊢
  split
  · rfl
  · rename_i hb
    rw [if_neg hb] at h
    dsimp only at h ⊢
    split
    · rename_i h0
      rw [if_pos h0] at h
      exact absurd h (by simp)
    · rename_i h0
      rw [if_neg h0] at h
      split
      · rename_i h1
        rw [if_pos h1] at h
        exact absurd h (by simp)
      · rfl

/-- With a shader body, `GLES2_CacheShader` succeeds exactly when the first or
the second compilation does. -/
theorem GLES2_CacheShader_iff (env : Env) (data : GLES2_RenderData)
    (type : GLES2_ShaderType) (fragment : Bool) (hb : env.shaderBody type = true) :
    (GLES2_CacheShader env data type fragment).1 = true
      ↔ (env.compileStatus data.gl.shaders = true
          ∨ env.compileStatus (data.gl.shaders + 1) = true) := by
  unfold GLES2_CacheShader
  rw [if_neg (by rw [hb]; simp)]
  dsimp only
  by_cases h0 : env.compileStatus data.gl.shaders = true
  · have : (GLES2_CacheShader_attempt env data type fragment 0).1 = true := h0
    rw [if_pos this]
    exact ⟨fun _ => Or.inl h0, fun _ => rfl⟩
  · have hn : ¬ (GLES2_CacheShader_attempt env data type fragment 0).1 = true := h0
    rw [if_neg hn]
    by_cases h1 : env.compileStatus (data.gl.shaders + 1) = true
    · have : (GLES2_CacheShader_attempt env
          (GLES2_CacheShader_attempt env data type fragment 0).2.2 type fragment 1).1 = true := h1
      rw [if_pos this]
      exact ⟨fun _ => Or.inr h1, fun _ => rfl⟩
    · have hn1 : ¬ (GLES2_CacheShader_attempt env
          (GLES2_CacheShader_attempt env data type fragment 0).2.2 type fragment 1).1 = true := h1
      rw [if_neg hn1]
      constructor
      · intro h
        exact absurd h (by simp [GLES2_CacheShader_fail])
      · rintro (h | h)
        · exact absurd h h0
        · exact absurd h h1

/-- With a shader body, `GLES2_CacheShader` creates a shader and compiles it:
the log grows by a `glCreateShader`, `glShaderSource`, `glCompileShader` and
what follows, and when it fails two shaders have been created. -/
theorem GLES2_CacheShader_log (env : Env) (data : GLES2_RenderData)
    (type : GLES2_ShaderType) (fragment : Bool) (hb : env.shaderBody type = true) :
    (∃ rest, (GLES2_CacheShader env data type fragment).2.gl.log
      = data.gl.log ++ GLCall.createShader (env.shaderName data.gl.shaders) fragment ::
          GLCall.shaderSource (env.shaderName data.gl.shaders) type 0 ::
          GLCall.compileShader (env.shaderName data.gl.shaders) :: rest) ∧
    ((GLES2_CacheShader env data type fragment).1 = false →
      (GLES2_CacheShader env data type fragment).2.gl.shaders = data.gl.shaders + 2) := by
  unfold GLES2_CacheShader
  rw [if_neg (by rw [hb]; simp)]
  dsimp only
  split
  · exact ⟨⟨_, rfl⟩, fun h => absurd h (by simp)⟩
  · split
    · refine ⟨⟨GLCall.getShaderiv_COMPILE_STATUS (env.shaderName data.gl.shaders) ::
          [GLCall.createShader (env.shaderName (data.gl.shaders + 1)) fragment,
           GLCall.shaderSource (env.shaderName (data.gl.shaders + 1)) type 1,
           GLCall.compileShader (env.shaderName (data.gl.shaders + 1)),
           GLCall.getShaderiv_COMPILE_STATUS (env.shaderName (data.gl.shaders + 1))], ?_⟩,
        fun h => absurd h (by simp)⟩
      simp [GLES2_CacheShader_attempt, GLES2_RenderData.call]
    · refine ⟨⟨GLCall.getShaderiv_COMPILE_STATUS (env.shaderName data.gl.shaders) ::
          ([GLCall.createShader (env.shaderName (data.gl.shaders + 1)) fragment,
            GLCall.shaderSource (env.shaderName (data.gl.shaders + 1)) type 1,
            GLCall.compileShader (env.shaderName (data.gl.shaders + 1)),
            GLCall.getShaderiv_COMPILE_STATUS (env.shaderName (data.gl.shaders + 1))]
           ++ ([GLCall.getShaderiv_INFO_LOG_LENGTH (env.shaderName (data.gl.shaders + 1))]
             ++ (if env.infoLog (data.gl.shaders + 1)
                 then [GLCall.getShaderInfoLog (env.shaderName (data.gl.shaders + 1))] else [])
             ++ [GLCall.deleteShader (env.shaderName (data.gl.shaders + 1))])), ?_⟩,
        fun _ => rfl⟩
      simp [GLES2_CacheShader_fail, SDL_SetError, GLES2_CacheShader_attempt,
        GLES2_RenderData.call]

theorem GLES2_SelectProgram_shader_uncached (env : Env) (data : GLES2_RenderData)
    (type : GLES2_ShaderType) (fragment : Bool) (h : data.shader_id_cache type = 0) :
    GLES2_SelectProgram_shader env data type fragment
      = ((if (GLES2_CacheShader env data type fragment).1 then 1 else 0),
         (GLES2_CacheShader env data type fragment).2) := by
  unfold GLES2_SelectProgram_shader
  rw [if_neg (by simp [h])]

/-- The branch of `GLES2_SelectProgram` that compiles on demand, taken by
itself.  On a state with the vertex shader compiled and no name cached for the
fragment shader of the request, which no renderer that exists is in
(`GLES2_RenderData.Live`), every `GLES2_SelectProgram` that returns has
compiled: the log goes on with `glCreateShader`, `glShaderSource` and
`glCompileShader` for a new shader.  When both compilations fail the call
returns `false` after two more shaders, with the shader names unchanged. -/
theorem GLES2_SelectProgram_compiles_again (env : Env) (data : GLES2_RenderData)
    (texture : Nat) (source : GLES2_ImageSource) (scale_mode : SDL_ScaleMode)
    (colorspace : SDL_Colorspace) (ftype : GLES2_ShaderType) (params : ShaderParams)
    (hvar : GLES2_SelectProgram_variant env texture source scale_mode colorspace
      = .ok (ftype, params))
    (hv : data.shader_id_cache GLES2_ShaderType.VERTEX_DEFAULT ≠ 0)
    (hf0 : data.shader_id_cache ftype = 0)
    (hb : env.shaderBody ftype = true) :
    (∀ (r : Bool) (data' : GLES2_RenderData),
      GLES2_SelectProgram env data texture source scale_mode colorspace = some (r, data') →
      ∃ rest, data'.gl.log
        = data.gl.log ++ GLCall.createShader (env.shaderName data.gl.shaders) true ::
            GLCall.shaderSource (env.shaderName data.gl.shaders) ftype 0 ::
            GLCall.compileShader (env.shaderName data.gl.shaders) :: rest) ∧
    (env.compileStatus data.gl.shaders = false →
      env.compileStatus (data.gl.shaders + 1) = false →
      ∃ data', GLES2_SelectProgram env data texture source scale_mode colorspace
          = some (false, data') ∧
        data'.shader_id_cache = data.shader_id_cache ∧
        data'.gl.shaders = data.gl.shaders + 2) := by
  have hs1 := GLES2_SelectProgram_shader_cached env data GLES2_ShaderType.VERTEX_DEFAULT false hv
  have hs2 := GLES2_SelectProgram_shader_uncached env data ftype true hf0
  obtain ⟨⟨rest, hlog⟩, hcount⟩ := GLES2_CacheShader_log env data ftype true hb
  rw [GLES2_SelectProgram_of_ok env data texture source scale_mode colorspace ftype params hvar]
  unfold GLES2_SelectProgram_load
  simp only [hs1, hs2]
  rw [if_neg hv]
  constructor
  · intro r data' h
    cases hc : (GLES2_CacheShader env data ftype true).1
    · rw [hc] at h
      simp only [Bool.false_eq_true, if_false, if_true, GLES2_SelectProgram_fault,
        Option.some.injEq, Prod.mk.injEq] at h
      rw [← h.2]
      exact ⟨rest, hlog⟩
    · rw [hc] at h
      simp only [if_true, one_ne_zero, if_false, Option.bind_eq_some] at h
      obtain ⟨current, _, h⟩ := h
      cases current
      · simp only [Bool.false_eq_true, if_false] at h
        obtain ⟨_, calls, hcalls, _⟩ := GLES2_SelectProgram_use_extends env _ _ _ _ _ _ _ h
        refine ⟨rest ++ calls, ?_⟩
        rw [hcalls, hlog]
        simp
      · simp only [if_true, Option.some.injEq, Prod.mk.injEq] at h
        rw [← h.2]
        exact ⟨rest, hlog⟩
  · intro h0 h1
    have hfail : (GLES2_CacheShader env data ftype true).1 = false := by
      cases hc : (GLES2_CacheShader env data ftype true).1
      · rfl
      · rcases (GLES2_CacheShader_iff env data ftype true hb).1 hc with h | h
        · rw [h0] at h
          exact absurd h (by simp)
        · rw [h1] at h
          exact absurd h (by simp)
    rw [hfail]
    simp only [Bool.false_eq_true, if_false, if_true]
    exact ⟨_, rfl, GLES2_CacheShader_failed env data ftype true hfail, hcount hfail⟩

theorem GLES2_SelectProgram_compiles_again_witness :
    ∃ data', GLES2_SelectProgram Env.flaky GLES2_RenderData.started 5
        GLES2_ImageSource.TEXTURE_EXTERNAL_OES SDL_ScaleMode.LINEAR SDL_COLORSPACE_SRGB
        = some (false, data') ∧
      data'.shader_id_cache = GLES2_RenderData.started.shader_id_cache ∧
      data'.gl.shaders = 17 :=
  (GLES2_SelectProgram_compiles_again Env.flaky GLES2_RenderData.started 5
    GLES2_ImageSource.TEXTURE_EXTERNAL_OES SDL_ScaleMode.LINEAR SDL_COLORSPACE_SRGB
    GLES2_ShaderType.FRAGMENT_TEXTURE_EXTERNAL_OES ShaderParams.null rfl (by decide) rfl rfl).2
    (by decide) (by decide)

set_option maxRecDepth 100000 in
/-- The same branch on the sample state `GLES2_RenderData.started`, which has
no name for the external fragment shader and is not the state of a renderer
that has a texture of the external format: after both compilations have failed
and `GLES2_SelectProgram` has returned `false`, the same request compiles a
third shader, which succeeds, and returns `true`. -/
theorem GLES2_SelectProgram_retries_failed_compile :
    (GLES2_SelectProgram Env.flaky GLES2_RenderData.started 5
        GLES2_ImageSource.TEXTURE_EXTERNAL_OES SDL_ScaleMode.LINEAR SDL_COLORSPACE_SRGB).map
      (fun r => (r.1, r.2.gl.shaders,
        r.2.shader_id_cache GLES2_ShaderType.FRAGMENT_TEXTURE_EXTERNAL_OES,
        r.2.gl.log.length))
      = some (false, 17, 0, 10) ∧
    ((GLES2_SelectProgram Env.flaky GLES2_RenderData.started 5
        GLES2_ImageSource.TEXTURE_EXTERNAL_OES SDL_ScaleMode.LINEAR SDL_COLORSPACE_SRGB).bind
      (fun r => GLES2_SelectProgram Env.flaky r.2 5
        GLES2_ImageSource.TEXTURE_EXTERNAL_OES SDL_ScaleMode.LINEAR SDL_COLORSPACE_SRGB)).map
      (fun r => (r.1, r.2.gl.shaders,
        r.2.shader_id_cache GLES2_ShaderType.FRAGMENT_TEXTURE_EXTERNAL_OES,
        (r.2.gl.log.drop 10).take 4))
      = some (true, 18, 18,
          [GLCall.createShader 18 true,
           GLCall.shaderSource 18 GLES2_ShaderType.FRAGMENT_TEXTURE_EXTERNAL_OES 0,
           GLCall.compileShader 18, GLCall.getShaderiv_COMPILE_STATUS 18]) := by
  decide

/-! ## The shader name used after a compilation on demand -/

set_option maxRecDepth 100000 in
/-- The sample state `GLES2_RenderData.started` has the shader names that
`GLES2_CacheShaders` stores at start-up on the driver `Env.plain`. -/
theorem GLES2_CacheShaders_started :
    (GLES2_CacheShaders Env.plain GLES2_RenderData.zero).1 = true ∧
    (GLES2_CacheShaders Env.plain GLES2_RenderData.zero).2.gl.shaders = 15 ∧
    ∀ t, (GLES2_CacheShaders Env.plain GLES2_RenderData.zero).2.shader_id_cache t
      = GLES2_RenderData.started.shader_id_cache t := by
  refine ⟨by decide, by decide, fun t => ?_⟩
  cases t <;> decide

/-- After a compilation on demand that succeeds, `GLES2_SelectProgram` goes on
with the value `true` of `GLES2_CacheShader`, which is `1`, in the place of the
shader name. -/
theorem GLES2_SelectProgram_shader_lazy (env : Env) (data : GLES2_RenderData)
    (type : GLES2_ShaderType) (fragment : Bool) (h0 : data.shader_id_cache type = 0)
    (hok : (GLES2_CacheShader env data type fragment).1 = true) :
    (GLES2_SelectProgram_shader env data type fragment).1 = 1 := by
  rw [GLES2_SelectProgram_shader_uncached env data type fragment h0, hok]
  rfl

set_option maxRecDepth 100000 in
/-- The same branch on the sample state `GLES2_RenderData.started`: the
compilation on demand stores the new name `16` in `shader_id_cache`, but the
program is built and cached with `1`, the value `true` of `GLES2_CacheShader`.
The next request reads `16` from the cache, finds no program for `(1, 16)` and
builds a second one.  No renderer that exists takes the branch
(`GLES2_RenderData.Live.compiled`). -/
theorem GLES2_SelectProgram_links_compile_result :
    GLES2_RenderData.started.shader_id_cache GLES2_ShaderType.FRAGMENT_TEXTURE_EXTERNAL_OES
      = 0 ∧
    GLES2_RenderData.started.shader_id_cache GLES2_ShaderType.VERTEX_DEFAULT = 1 ∧
    (GLES2_SelectProgram Env.plain GLES2_RenderData.started 5
        GLES2_ImageSource.TEXTURE_EXTERNAL_OES SDL_ScaleMode.LINEAR SDL_COLORSPACE_SRGB).map
      (fun r => (r.1, r.2.shader_id_cache GLES2_ShaderType.FRAGMENT_TEXTURE_EXTERNAL_OES,
        r.2.currentKey))
      = some (true, 16, some (1, 1)) ∧
    (GLES2_SelectProgram Env.plain GLES2_RenderData.started 5
        GLES2_ImageSource.TEXTURE_EXTERNAL_OES SDL_ScaleMode.LINEAR SDL_COLORSPACE_SRGB).map
      (fun r => r.2.cachedKeys) = some [(1, 1)] ∧
    (GLES2_SelectProgram Env.plain GLES2_RenderData.started 5
        GLES2_ImageSource.TEXTURE_EXTERNAL_OES SDL_ScaleMode.LINEAR SDL_COLORSPACE_SRGB).map
      (fun r => r.2.gl.log.take 7)
      = some [GLCall.createShader 16 true,
           GLCall.shaderSource 16 GLES2_ShaderType.FRAGMENT_TEXTURE_EXTERNAL_OES 0,
           GLCall.compileShader 16, GLCall.getShaderiv_COMPILE_STATUS 16,
           GLCall.createProgram 100, GLCall.attachShader 100 1, GLCall.attachShader 100 1] ∧
    ((GLES2_SelectProgram Env.plain GLES2_RenderData.started 5
        GLES2_ImageSource.TEXTURE_EXTERNAL_OES SDL_ScaleMode.LINEAR SDL_COLORSPACE_SRGB).bind
      (fun r => GLES2_SelectProgram Env.plain r.2 5
        GLES2_ImageSource.TEXTURE_EXTERNAL_OES SDL_ScaleMode.LINEAR SDL_COLORSPACE_SRGB)).map
      (fun r => (r.1, r.2.currentKey, r.2.gl.programs))
      = some (true, some (1, 16), 2) ∧
    ((GLES2_SelectProgram Env.plain GLES2_RenderData.started 5
        GLES2_ImageSource.TEXTURE_EXTERNAL_OES SDL_ScaleMode.LINEAR SDL_COLORSPACE_SRGB).bind
      (fun r => GLES2_SelectProgram Env.plain r.2 5
        GLES2_ImageSource.TEXTURE_EXTERNAL_OES SDL_ScaleMode.LINEAR SDL_COLORSPACE_SRGB)).map
      (fun r => r.2.cachedKeys) = some [(1, 16), (1, 1)] := by
  refine ⟨by decide, by decide, by decide, by decide, by decide, by decide, by decide⟩

/-! ## Channel order and alpha in the shader choice of `SetCopyState` -/

theorem SetCopyState_source_swaps (target : Option SDL_PixelFormat) (format : SDL_PixelFormat)
    (src dst : Bool) (hs : format.blueFirst = some src)
    (hd : destinationBlueFirst target = some dst) :
    ∃ s, SetCopyState_source target format = some s ∧
      s.swapsRedBlue = some (decide (src ≠ dst)) := by
  cases target with
  | none =>
    simp only [destinationBlueFirst, Option.some.injEq] at hd
    subst hd
    cases format <;> simp [SDL_PixelFormat.blueFirst] at hs <;>
      (subst hs; exact ⟨_, rfl, rfl⟩)
  | some tf =>
    simp only [destinationBlueFirst] at hd
    cases format <;> simp [SDL_PixelFormat.blueFirst] at hs <;>
      (subst hs
       cases tf <;> simp [SDL_PixelFormat.blueFirst] at hd <;>
         (subst hd; exact ⟨_, rfl, rfl⟩))

/-- Claim C21.  For a source texture and a destination of packed formats, the
destination being the render target or, with red before blue, the screen,
`SetCopyState` hands `SetDrawState` a variant that swaps red and blue (`ARGB`
or `RGB`) when the two differ in the order of red and blue, and one that does
not swap (`ABGR` or `BGR`) when they agree. -/
theorem SetCopyState_swaps_red_blue (env : Env) (renderer : SDL_Renderer)
    (data : GLES2_RenderData) (cmd : SDL_RenderCommand) (vertices : Nat) (tex : SDL_Texture)
    (target : Option SDL_PixelFormat) (src dst : Bool)
    (ht : data.texture? cmd.texture = some tex)
    (hg : SetCopyState_target renderer data = some target)
    (hs : tex.format.blueFirst = some src)
    (hd : destinationBlueFirst target = some dst) :
    ∃ s, SetCopyState_source target tex.format = some s ∧
      s.swapsRedBlue = some (decide (src ≠ dst)) ∧
      SetCopyState env renderer data cmd vertices
        = (SetDrawState env data cmd s vertices).bind (fun r =>
            SetCopyState_after r.2 cmd tex r.1) := by
  obtain ⟨s, hsrc, hsw⟩ := SetCopyState_source_swaps target tex.format src dst hs hd
  refine ⟨s, hsrc, hsw, ?_⟩
  rw [SetCopyState_of_source env renderer data cmd vertices tex target ht hg, hsrc]

theorem SetCopyState_swaps_red_blue_witness :
    ∃ s, SetCopyState_source (some SDL_PixelFormat.RGBA32) SDL_PixelFormat.BGRX32 = some s ∧
      s.swapsRedBlue = some true ∧
      SetCopyState Env.plain SDL_Renderer.toTexture GLES2_RenderData.opaqueSource
          (SDL_RenderCommand.textured 0 3 0) 0
        = (SetDrawState Env.plain GLES2_RenderData.opaqueSource
            (SDL_RenderCommand.textured 0 3 0) s 0).bind (fun r =>
            SetCopyState_after r.2 (SDL_RenderCommand.textured 0 3 0)
              { format := SDL_PixelFormat.BGRX32, colorspace := SDL_COLORSPACE_SRGB,
                texture := 9, texture_type := 3553, yuv := false, nv12 := false,
                texture_v := 0, texture_u := 0, texture_scale_mode := SDL_ScaleMode.INVALID,
                texture_address_mode_u := SDL_TextureAddressMode.INVALID,
                texture_address_mode_v := SDL_TextureAddressMode.INVALID } r.1) :=
  SetCopyState_swaps_red_blue Env.plain SDL_Renderer.toTexture GLES2_RenderData.opaqueSource
    (SDL_RenderCommand.textured 0 3 0) 0
    { format := SDL_PixelFormat.BGRX32, colorspace := SDL_COLORSPACE_SRGB,
      texture := 9, texture_type := 3553, yuv := false, nv12 := false,
      texture_v := 0, texture_u := 0, texture_scale_mode := SDL_ScaleMode.INVALID,
      texture_address_mode_u := SDL_TextureAddressMode.INVALID,
      texture_address_mode_v := SDL_TextureAddressMode.INVALID }
    (some SDL_PixelFormat.RGBA32) true false rfl rfl rfl rfl

/-- Where the variant chosen for a source without alpha and a destination with
alpha forces opaque alpha: everywhere but for a BGRX source on an RGBA
target. -/
theorem SetCopyState_source_opaque (target : Option SDL_PixelFormat) (format : SDL_PixelFormat)
    (hs : format.hasAlpha = some false)
    (hd : ∀ tf, target = some tf → tf.hasAlpha = some true)
    (hne : ¬ (format = SDL_PixelFormat.BGRX32 ∧ target = some SDL_PixelFormat.RGBA32)) :
    ∃ s, SetCopyState_source target format = some s ∧ s.forcesOpaque = true := by
  cases target with
  | none =>
    cases format <;> simp [SDL_PixelFormat.hasAlpha] at hs <;>
      exact ⟨_, rfl, rfl⟩
  | some tf =>
    have hd' := hd tf rfl
    cases format <;> simp [SDL_PixelFormat.hasAlpha] at hs <;>
      (cases tf <;> simp [SDL_PixelFormat.hasAlpha] at hd' <;>
         first
         | exact ⟨_, rfl, rfl⟩
         | exact absurd ⟨rfl, rfl⟩ hne)

set_option maxRecDepth 100000 in
/-- Claim C26 fails on the code.  For a BGRX source, which has no alpha, and an
RGBA render target, which has, `SetCopyState` chooses `TEXTURE_ARGB`, which
passes the alpha of the source through, and returns `true` with the program of
the fragment shader `TEXTURE_ARGB` (named `4`) current. -/
theorem SetCopyState_alpha_passed_through :
    (GLES2_RenderData.opaqueSource.texture? 5).map SDL_Texture.format
      = some SDL_PixelFormat.BGRX32 ∧
    (GLES2_RenderData.opaqueSource.texture? SDL_Renderer.toTexture.target).map
        SDL_Texture.format = some SDL_PixelFormat.RGBA32 ∧
    SetCopyState_source (some SDL_PixelFormat.RGBA32) SDL_PixelFormat.BGRX32
      = some GLES2_ImageSource.TEXTURE_ARGB ∧
    GLES2_ImageSource.TEXTURE_ARGB.forcesOpaque = false ∧
    GLES2_RenderData.opaqueSource.shader_id_cache GLES2_ShaderType.FRAGMENT_TEXTURE_ARGB = 4 ∧
    (SetCopyState Env.plain SDL_Renderer.toTexture GLES2_RenderData.opaqueSource
        (SDL_RenderCommand.textured 0 3 0) 0).map (fun r => (r.1, r.2.currentKey))
      = some (true, some (1, 4)) := by
  refine ⟨by decide, by decide, by decide, by decide, by decide, by decide⟩

/-! ## The list of the program cache after a hit on its last entry -/

set_option maxRecDepth 100000 in
/-- Claim C24 fails on the code.  After the requests `(1, 1)`, `(1, 2)`,
`(1, 1)` the entries reachable from `head` are those at `1` and `2`, in this
order, but `tail` is `1`, the first of them.  After nine different pairs with
a hit on the first one before the ninth, `count` is `8`, one entry is
reachable, and of the nine programs created one has been deleted. -/
theorem GLES2_CacheProgram_tail_not_last :
    (GLES2_CacheProgram_run Env.plain GLES2_RenderData.zero [(1, 1), (1, 2), (1, 1)]).map
        (fun r => (r.2.cached, r.2.cached.getLast?, r.2.program_cache.tail,
          r.2.program_cache.count))
      = some ([1, 2], some 2, 1, 2) ∧
    (GLES2_CacheProgram_run Env.plain GLES2_RenderData.zero (lruTrace ++ [(1, 9)])).map
        (fun r => (r.2.program_cache.count, r.2.cached.length, r.2.gl.programs,
          (deletedPrograms r.2.gl.log).length))
      = some (8, 1, 9, 1) := by
  refine ⟨by decide, by decide⟩

/-! ## The scissor box after a change of the render target -/

set_option maxRecDepth 100000 in
/-- Claim C23 fails on the code.  A frame with a clip rectangle is drawn to the
window, which is 480 pixels high: the scissor box is issued upside down, at
`y = 410`.  Then `GLES2_SetRenderTarget` makes a texture the target and the
same frame is drawn again.  Its draw is set up with clipping enabled, but no
scissor box is issued: the box of the driver is still the one at `y = 410`,
where the cached viewport, clip rectangle and target give `y = 20`. -/
theorem GLES2_SetRenderTarget_keeps_scissor_box :
    (GLES2_RunCommandQueue Env.plain SDL_Renderer.window
        (GLES2_InvalidateCachedState GLES2_RenderData.opaqueSource) clippedFrame 0 []).map
      (fun r => lastScissor r.2.gl.log) = some (some (10, 410, 100, 50)) ∧
    (GLES2_RunCommandQueue Env.plain SDL_Renderer.window
        (GLES2_InvalidateCachedState GLES2_RenderData.opaqueSource) clippedFrame 0 []).map
      (fun r => r.2.drawstate.scissorBox) = some (10, 410, 100, 50) ∧
    (((GLES2_RunCommandQueue Env.plain SDL_Renderer.window
        (GLES2_InvalidateCachedState GLES2_RenderData.opaqueSource) clippedFrame 0 []).bind
      (fun r => GLES2_SetRenderTarget r.2 6 true)).bind
      (fun r => GLES2_RunCommandQueue Env.plain SDL_Renderer.toTexture r.2 clippedFrame 0
        [])).map
      (fun r => (r.1, r.2.drawstate.cliprect_enabled, r.2.drawstate.target,
        (drawCalls r.2.gl.log).length))
      = some (true, true, 6, 2) ∧
    (((GLES2_RunCommandQueue Env.plain SDL_Renderer.window
        (GLES2_InvalidateCachedState GLES2_RenderData.opaqueSource) clippedFrame 0 []).bind
      (fun r => GLES2_SetRenderTarget r.2 6 true)).bind
      (fun r => GLES2_RunCommandQueue Env.plain SDL_Renderer.toTexture r.2 clippedFrame 0
        [])).map
      (fun r => lastScissor r.2.gl.log) = some (some (10, 410, 100, 50)) ∧
    (((GLES2_RunCommandQueue Env.plain SDL_Renderer.window
        (GLES2_InvalidateCachedState GLES2_RenderData.opaqueSource) clippedFrame 0 []).bind
      (fun r => GLES2_SetRenderTarget r.2 6 true)).bind
      (fun r => GLES2_RunCommandQueue Env.plain SDL_Renderer.toTexture r.2 clippedFrame 0
        [])).map
      (fun r => r.2.drawstate.scissorBox) = some (10, 20, 100, 50) := by
  refine ⟨by decide, by decide, by decide, by decide, by decide⟩

/-! ## Steps that leave the view alone -/

theorem GLES2_RenderData.Quiet.quiet_refl (data : GLES2_RenderData) : data.Quiet data :=
  ⟨rfl, [], by simp, by simp⟩

theorem GLES2_RenderData.Quiet.quiet_trans {a b c : GLES2_RenderData}
    (h1 : a.Quiet b) (h2 : b.Quiet c) : a.Quiet c := by
  obtain ⟨hd1, l1, hl1, hp1⟩ := h1
  obtain ⟨hd2, l2, hl2, hp2⟩ := h2
  refine ⟨hd2.trans hd1, l1 ++ l2, by rw [hl2, hl1, List.append_assoc], ?_⟩
  intro x hx
  rcases List.mem_append.mp hx with h | h
  · exact hp1 x h
  · exact hp2 x h

theorem GLES2_RenderData.Quiet.quiet_of_log {a b : GLES2_RenderData}
    (cs : List GLCall) (hd : b.drawstate.view = a.drawstate.view)
    (hl : b.gl.log = a.gl.log ++ cs) (hp : ∀ c ∈ cs, c.isClip = false) : a.Quiet b :=
  ⟨hd, cs, hl, hp⟩

theorem GLES2_RenderData.Quiet.quiet_of_same {a b : GLES2_RenderData}
    (hd : b.drawstate.view = a.drawstate.view) (hl : b.gl.log = a.gl.log) : a.Quiet b :=
  ⟨hd, [], by simp [hl], by simp⟩

theorem GLES2_CacheProgram_hit_quiet (data data' : GLES2_RenderData)
    (entry : Nat) (h : GLES2_CacheProgram_hit data entry = some data') : data.Quiet data' := by
  unfold GLES2_CacheProgram_hit at h
  split at h
  · simp only [Option.some.injEq] at h
    subst h
    exact GLES2_RenderData.Quiet.quiet_refl data
  · simp only [Option.bind_eq_bind, Option.bind_eq_some] at h
    obtain ⟨_, _, _, _, _, _, _, _, _, _, _, _, h⟩ := h
    simp only [Option.some.injEq] at h
    subst h
    exact GLES2_RenderData.Quiet.quiet_of_same rfl rfl

theorem GLES2_CacheProgram_evict_quiet (data data' : GLES2_RenderData)
    (h : GLES2_CacheProgram_evict data = some data') : data.Quiet data' := by
  unfold GLES2_CacheProgram_evict at h
  split at h
  · simp only [Option.bind_eq_bind, Option.bind_eq_some] at h
    obtain ⟨t, _, _, _, h⟩ := h
    simp only [Option.some.injEq] at h
    subst h
    exact GLES2_RenderData.Quiet.quiet_of_log [GLCall.deleteProgram t.id] rfl rfl
      (by intro c hc; rw [List.mem_singleton.mp hc]; rfl)
  · simp only [Option.some.injEq] at h
    subst h
    exact GLES2_RenderData.Quiet.quiet_refl data

theorem isClip_getUniformLocation (id : Nat) (us : List Nat) :
    ∀ c ∈ us.map (GLCall.getUniformLocation id), c.isClip = false := by
  intro c hc
  obtain ⟨u, _, rfl⟩ := List.mem_map.mp hc
  rfl

theorem isClip_defaults (id : Nat) (locs : List Int) (m : List GLfloat) :
    ∀ c ∈ GLES2_CacheProgram_defaults id locs m, c.isClip = false := by
  intro c hc
  unfold GLES2_CacheProgram_defaults at hc
  simp only [List.mem_append, List.mem_singleton] at hc
  rcases hc with (((hc | hc) | hc) | hc) | hc
  · rw [hc]; rfl
  all_goals
    split at hc
    · rw [List.mem_singleton.mp hc]; rfl
    · simp at hc

theorem isClip_build (id vertex fragment : Nat) :
    ∀ c ∈ GLES2_CacheProgram_build id vertex fragment, c.isClip = false := by
  intro c hc
  simp only [GLES2_CacheProgram_build, List.mem_cons, List.mem_singleton, List.not_mem_nil,
    or_false] at hc
  rcases hc with h | h | h | h | h | h | h | h <;> rw [h] <;> rfl

theorem GLES2_CacheProgram_insert_quiet (env : Env) (data data' : GLES2_RenderData)
    (entry n : Nat) (h : GLES2_CacheProgram_insert env data entry n = some data') :
    data.Quiet data' := by
  unfold GLES2_CacheProgram_insert at h
  simp only [Option.bind_eq_some] at h
  obtain ⟨e, _, h3, _, h⟩ := h
  simp only [Option.some.injEq] at h
  subst h
  refine GLES2_RenderData.Quiet.quiet_of_log _ rfl rfl ?_
  intro c hc
  rcases List.mem_append.mp hc with hc | hc
  · exact isClip_getUniformLocation _ _ c hc
  · exact isClip_defaults _ _ _ c hc

theorem GLES2_CacheProgram_create_quiet (env : Env) (data : GLES2_RenderData)
    (vertex fragment : Nat) : data.Quiet (GLES2_CacheProgram_create env data vertex fragment) :=
  GLES2_RenderData.Quiet.quiet_of_log _ rfl rfl (isClip_build _ _ _)

theorem GLES2_CacheProgram_miss_quiet (env : Env) (data data' : GLES2_RenderData)
    (vertex fragment r : Nat)
    (h : GLES2_CacheProgram_miss env data vertex fragment = some (r, data')) :
    data.Quiet data' := by
  unfold GLES2_CacheProgram_miss at h
  split at h
  · simp only [Option.some.injEq, Prod.mk.injEq] at h
    rw [← h.2]
    exact GLES2_RenderData.Quiet.quiet_of_same rfl rfl
  · simp only at h
    split at h
    · simp only [Option.bind_eq_some] at h
      obtain ⟨hp, _, h⟩ := h
      simp only [Option.some.injEq, Prod.mk.injEq] at h
      rw [← h.2]
      refine (GLES2_CacheProgram_create_quiet env data vertex fragment).quiet_trans ?_
      exact GLES2_RenderData.Quiet.quiet_of_log [GLCall.deleteProgram _] rfl rfl
        (by intro c hc; rw [List.mem_singleton.mp hc]; rfl)
    · simp only [Option.bind_eq_some] at h
      obtain ⟨d3, h3, d4, h4, h⟩ := h
      simp only [Option.some.injEq, Prod.mk.injEq] at h
      rw [← h.2]
      exact ((GLES2_CacheProgram_create_quiet env data vertex fragment).quiet_trans
        (GLES2_CacheProgram_insert_quiet env _ _ _ _ h3)).quiet_trans
        (GLES2_CacheProgram_evict_quiet _ _ h4)

theorem GLES2_CacheProgram_quiet (env : Env) (data data' : GLES2_RenderData)
    (vertex fragment r : Nat)
    (h : GLES2_CacheProgram env data vertex fragment = some (r, data')) :
    data.Quiet data' := by
  unfold GLES2_CacheProgram at h
  simp only [Option.bind_eq_some] at h
  obtain ⟨entry, _, h⟩ := h
  split at h
  · simp only [Option.bind_eq_some, Option.some.injEq, Prod.mk.injEq] at h
    obtain ⟨d1, hd1, _, h⟩ := h
    rw [← h]
    exact GLES2_CacheProgram_hit_quiet _ _ _ hd1
  · exact GLES2_CacheProgram_miss_quiet env _ _ _ _ _ h

theorem GLES2_CacheShader_quiet (env : Env) (data : GLES2_RenderData)
    (type : GLES2_ShaderType) (fragment : Bool) :
    data.Quiet (GLES2_CacheShader env data type fragment).2 := by
  have hattempt : ∀ (d : GLES2_RenderData) (k : Nat),
      d.Quiet (GLES2_CacheShader_attempt env d type fragment k).2.2 := by
    intro d k
    refine GLES2_RenderData.Quiet.quiet_of_log _ rfl rfl ?_
    intro c hc
    simp only [List.mem_cons, List.mem_singleton, List.not_mem_nil, or_false] at hc
    rcases hc with h | h | h | h <;> rw [h] <;> rfl
  unfold GLES2_CacheShader
  split
  · exact GLES2_RenderData.Quiet.quiet_of_same rfl rfl
  · simp only
    split
    · exact (hattempt data 0).quiet_trans (GLES2_RenderData.Quiet.quiet_of_same rfl rfl)
    · split
      · exact ((hattempt data 0).quiet_trans (hattempt _ 1)).quiet_trans
          (GLES2_RenderData.Quiet.quiet_of_same rfl rfl)
      · refine ((hattempt data 0).quiet_trans (hattempt _ 1)).quiet_trans ?_
        refine GLES2_RenderData.Quiet.quiet_of_log _ rfl rfl ?_
        intro c hc
        simp only [List.mem_append, List.mem_singleton] at hc
        rcases hc with (hc | hc) | hc
        · rw [hc]; rfl
        · split at hc
          · rw [List.mem_singleton.mp hc]; rfl
          · simp at hc
        · rw [hc]; rfl

theorem GLES2_SelectProgram_shader_quiet (env : Env) (data : GLES2_RenderData)
    (type : GLES2_ShaderType) (fragment : Bool) :
    data.Quiet (GLES2_SelectProgram_shader env data type fragment).2 := by
  unfold GLES2_SelectProgram_shader
  split
  · exact GLES2_RenderData.Quiet.quiet_refl data
  · exact GLES2_CacheShader_quiet env data type fragment

theorem GLES2_SelectProgram_fault_quiet (data data' : GLES2_RenderData) (r : Bool)
    (h : GLES2_SelectProgram_fault data = some (r, data')) : data.Quiet data' := by
  simp only [GLES2_SelectProgram_fault, Option.some.injEq, Prod.mk.injEq] at h
  rw [← h.2]
  exact GLES2_RenderData.Quiet.quiet_of_same rfl rfl

theorem GLES2_SelectProgram_params_quiet (data : GLES2_RenderData) (program : Nat)
    (p : GLES2_ProgramCacheEntry) (ftype : GLES2_ShaderType) (shader_params : ShaderParams) :
    data.Quiet (GLES2_SelectProgram_params data program p ftype shader_params) := by
  unfold GLES2_SelectProgram_params
  split
  · refine GLES2_RenderData.Quiet.quiet_of_log _ rfl rfl ?_
    intro c hc
    simp only at hc
    split at hc
    · simp only [List.mem_append] at hc
      rcases hc with hc | hc <;>
      · split at hc
        · rw [List.mem_singleton.mp hc]; rfl
        · simp at hc
    · split at hc
      · rw [List.mem_singleton.mp hc]; rfl
      · simp at hc
  · exact GLES2_RenderData.Quiet.quiet_refl data

theorem GLES2_SelectProgram_use_quiet (env : Env) (data data' : GLES2_RenderData)
    (vertex fragment : Nat) (ftype : GLES2_ShaderType) (shader_params : ShaderParams) (r : Bool)
    (h : GLES2_SelectProgram_use env data vertex fragment ftype shader_params = some (r, data')) :
    data.Quiet data' := by
  unfold GLES2_SelectProgram_use at h
  simp only [Option.bind_eq_some] at h
  obtain ⟨⟨program, d3⟩, hcp, h⟩ := h
  have h3 := GLES2_CacheProgram_quiet env _ _ _ _ _ hcp
  split at h
  · exact h3.quiet_trans (GLES2_SelectProgram_fault_quiet _ _ _ h)
  · simp only [Option.bind_eq_some, Option.some.injEq, Prod.mk.injEq] at h
    obtain ⟨p, _, _, h⟩ := h
    rw [← h]
    refine h3.quiet_trans ?_
    have h4 : d3.Quiet (d3.call [GLCall.useProgram p.id]) :=
      GLES2_RenderData.Quiet.quiet_of_log _ rfl rfl
        (by intro c hc; rw [List.mem_singleton.mp hc]; rfl)
    have h5 := GLES2_SelectProgram_params_quiet (d3.call [GLCall.useProgram p.id]) program p
      ftype shader_params
    exact (h4.quiet_trans h5).quiet_trans (GLES2_RenderData.Quiet.quiet_of_same rfl rfl)

theorem GLES2_SelectProgram_load_quiet (env : Env) (data data' : GLES2_RenderData)
    (ftype : GLES2_ShaderType) (shader_params : ShaderParams) (r : Bool)
    (h : GLES2_SelectProgram_load env data ftype shader_params = some (r, data')) :
    data.Quiet data' := by
  have hv := GLES2_SelectProgram_shader_quiet env data GLES2_ShaderType.VERTEX_DEFAULT false
  have hf := GLES2_SelectProgram_shader_quiet env
    (GLES2_SelectProgram_shader env data GLES2_ShaderType.VERTEX_DEFAULT false).2 ftype true
  unfold GLES2_SelectProgram_load at h
  split at h
  · exact hv.quiet_trans (GLES2_SelectProgram_fault_quiet _ _ _ h)
  · split at h
    · exact (hv.quiet_trans hf).quiet_trans (GLES2_SelectProgram_fault_quiet _ _ _ h)
    · simp only [Option.bind_eq_some] at h
      obtain ⟨cur, _, h⟩ := h
      split at h
      · simp only [Option.some.injEq, Prod.mk.injEq] at h
        rw [← h.2]
        exact hv.quiet_trans hf
      · exact (hv.quiet_trans hf).quiet_trans (GLES2_SelectProgram_use_quiet env _ _ _ _ _ _ _ h)

theorem GLES2_SelectProgram_quiet (env : Env) (data data' : GLES2_RenderData) (texture : Nat)
    (source : GLES2_ImageSource) (scale_mode : SDL_ScaleMode) (colorspace : SDL_Colorspace)
    (r : Bool)
    (h : GLES2_SelectProgram env data texture source scale_mode colorspace = some (r, data')) :
    data.Quiet data' := by
  unfold GLES2_SelectProgram at h
  split at h
  · exact GLES2_SelectProgram_fault_quiet _ _ _ h
  · rename_i msg _
    have h0 : data.Quiet (SDL_SetError data msg) := GLES2_RenderData.Quiet.quiet_of_same rfl rfl
    exact h0.quiet_trans (GLES2_SelectProgram_fault_quiet _ _ _ h)
  · exact GLES2_SelectProgram_load_quiet env _ _ _ _ _ h

theorem SetDrawState_texturing_quiet (data : GLES2_RenderData) (texture : Nat) :
    data.Quiet (SetDrawState_texturing data texture) := by
  unfold SetDrawState_texturing
  split
  · split
    · exact GLES2_RenderData.Quiet.quiet_of_log _ rfl rfl
        (by intro c hc; rw [List.mem_singleton.mp hc]; rfl)
    · exact GLES2_RenderData.Quiet.quiet_of_log _ rfl rfl
        (by intro c hc; rw [List.mem_singleton.mp hc]; rfl)
  · exact GLES2_RenderData.Quiet.quiet_refl data

theorem SetDrawState_projection_quiet (data data' : GLES2_RenderData)
    (h : SetDrawState_projection data = some data') : data.Quiet data' := by
  unfold SetDrawState_projection at h
  split at h
  · exact absurd h (by simp)
  · split at h
    · simp only [Option.some.injEq] at h
      rw [← h]
      exact GLES2_RenderData.Quiet.quiet_of_log _ rfl rfl
        (by intro c hc; rw [List.mem_singleton.mp hc]; rfl)
    · simp only [Option.some.injEq] at h
      rw [← h]
      exact GLES2_RenderData.Quiet.quiet_refl data

theorem SetDrawState_blend_quiet (env : Env) (data : GLES2_RenderData) (blend : SDL_BlendMode) :
    data.Quiet (SetDrawState_blend env data blend) := by
  unfold SetDrawState_blend
  split
  · refine GLES2_RenderData.Quiet.quiet_of_log _ rfl rfl ?_
    intro c hc
    split at hc
    · rw [List.mem_singleton.mp hc]; rfl
    · simp only [List.mem_cons, List.mem_singleton, List.not_mem_nil, or_false] at hc
      rcases hc with h | h | h <;> rw [h] <;> rfl
  · exact GLES2_RenderData.Quiet.quiet_refl data

theorem SetTextureScaleMode_quiet (data : GLES2_RenderData) (textype : Nat)
    (mode : SDL_ScaleMode) : data.Quiet (SetTextureScaleMode data textype mode).2 := by
  unfold SetTextureScaleMode
  cases mode
  · exact GLES2_RenderData.Quiet.quiet_of_same rfl rfl
  all_goals
    refine GLES2_RenderData.Quiet.quiet_of_log _ rfl rfl ?_
    intro c hc
    simp only [List.mem_cons, List.mem_singleton, List.not_mem_nil, or_false] at hc
    rcases hc with h | h <;> rw [h] <;> rfl

theorem GLES2_RenderData.Quiet.quiet_call_one (data : GLES2_RenderData) (c : GLCall)
    (hc : c.isClip = false) : data.Quiet (data.call [c]) :=
  GLES2_RenderData.Quiet.quiet_of_log _ rfl rfl
    (by intro x hx; rw [List.mem_singleton.mp hx]; exact hc)

theorem SetCopyState_scaleUnits_quiet (textype : Nat) (mode : SDL_ScaleMode) :
    ∀ (us : List Nat) (data : GLES2_RenderData),
      data.Quiet (SetCopyState_scaleUnits textype mode data us).2
  | [], data => GLES2_RenderData.Quiet.quiet_refl data
  | u :: us, data => by
    have h1 := (GLES2_RenderData.Quiet.quiet_call_one data (GLCall.activeTexture u) rfl).quiet_trans
      (SetTextureScaleMode_quiet (data.call [GLCall.activeTexture u]) textype mode)
    unfold SetCopyState_scaleUnits
    split
    · exact h1
    · exact h1.quiet_trans (SetCopyState_scaleUnits_quiet textype mode us _)

theorem SetCopyState_scale_quiet (data : GLES2_RenderData) (texture : Nat) (t : SDL_Texture)
    (mode : SDL_ScaleMode) : data.Quiet (SetCopyState_scale data texture t mode).2 := by
  unfold SetCopyState_scale
  by_cases hm : mode ≠ t.texture_scale_mode
  · rw [if_pos hm]
    dsimp only
    have h1 := SetCopyState_scaleUnits_quiet t.texture_type mode (SetCopyState_units t) data
    by_cases h1f : (SetCopyState_scaleUnits t.texture_type mode data (SetCopyState_units t)).1
        = false
    · rw [if_pos h1f]
      exact h1
    · rw [if_neg h1f]
      obtain ⟨d2, hd2⟩ : ∃ d2, d2 = (if SetCopyState_units t = [] then
             (SetCopyState_scaleUnits t.texture_type mode data (SetCopyState_units t)).2
           else (SetCopyState_scaleUnits t.texture_type mode data (SetCopyState_units t)).2.call
                  [GLCall.activeTexture 0]) := ⟨_, rfl⟩
      rw [← hd2]
      have h2 : (SetCopyState_scaleUnits t.texture_type mode data
          (SetCopyState_units t)).2.Quiet d2 := by
        rw [hd2]
        split
        · exact GLES2_RenderData.Quiet.quiet_refl _
        · exact GLES2_RenderData.Quiet.quiet_call_one _ _ rfl
      have h3 := (h1.quiet_trans h2).quiet_trans (SetTextureScaleMode_quiet d2 t.texture_type mode)
      split
      · exact h3
      · exact h3.quiet_trans (GLES2_RenderData.Quiet.quiet_of_same rfl rfl)
  · rw [if_neg hm]
    exact GLES2_RenderData.Quiet.quiet_refl data

theorem SetTextureAddressMode_quiet (data : GLES2_RenderData) (textype : Nat)
    (u v : SDL_TextureAddressMode) : data.Quiet (SetTextureAddressMode data textype u v) := by
  refine GLES2_RenderData.Quiet.quiet_of_log _ rfl rfl ?_
  intro c hc
  simp only [List.mem_cons, List.mem_singleton, List.not_mem_nil, or_false] at hc
  rcases hc with h | h <;> rw [h] <;> split <;> rfl

theorem SetCopyState_address_units_quiet (textype : Nat) (u v : SDL_TextureAddressMode) :
    ∀ (us : List Nat) (data : GLES2_RenderData),
      data.Quiet (us.foldl
        (fun d unit => SetTextureAddressMode (d.call [GLCall.activeTexture unit]) textype u v)
        data)
  | [], data => GLES2_RenderData.Quiet.quiet_refl data
  | x :: us, data => by
    simp only [List.foldl_cons]
    exact ((GLES2_RenderData.Quiet.quiet_call_one data (GLCall.activeTexture x) rfl).quiet_trans
      (SetTextureAddressMode_quiet _ textype u v)).quiet_trans
      (SetCopyState_address_units_quiet textype u v us _)

theorem SetCopyState_address_quiet (data : GLES2_RenderData) (texture : Nat) (t : SDL_Texture)
    (u v : SDL_TextureAddressMode) :
    data.Quiet (SetCopyState_address data texture t u v) := by
  unfold SetCopyState_address
  split
  · dsimp only
    obtain ⟨d1, hd1⟩ : ∃ d1, d1 = (SetCopyState_units t).foldl
        (fun d unit => SetTextureAddressMode (d.call [GLCall.activeTexture unit])
                         t.texture_type u v) data := ⟨_, rfl⟩
    have h1 : data.Quiet d1 := by
      rw [hd1]
      exact SetCopyState_address_units_quiet t.texture_type u v (SetCopyState_units t) data
    rw [← hd1]
    obtain ⟨d2, hd2⟩ : ∃ d2, d2 = (if SetCopyState_units t = [] then d1
        else d1.call [GLCall.activeTexture 0]) := ⟨_, rfl⟩
    have h2 : d1.Quiet d2 := by
      rw [hd2]
      split
      · exact GLES2_RenderData.Quiet.quiet_refl _
      · exact GLES2_RenderData.Quiet.quiet_call_one _ _ rfl
    rw [← hd2]
    have h3 : d2.Quiet (SetTextureAddressMode d2 t.texture_type u v) :=
      SetTextureAddressMode_quiet d2 t.texture_type u v
    have h4 : (SetTextureAddressMode d2 t.texture_type u v).Quiet
        ((SetTextureAddressMode d2 t.texture_type u v).setTexture texture
          { t with texture_address_mode_u := u, texture_address_mode_v := v }) :=
      GLES2_RenderData.Quiet.quiet_of_same rfl rfl
    exact ((h1.quiet_trans h2).quiet_trans h3).quiet_trans h4
  · exact GLES2_RenderData.Quiet.quiet_refl data

theorem SetCopyState_bind_quiet (data : GLES2_RenderData) (texture : Nat) (t : SDL_Texture) :
    data.Quiet (SetCopyState_bind data texture t) := by
  unfold SetCopyState_bind
  split
  · refine GLES2_RenderData.Quiet.quiet_of_log _ rfl rfl ?_
    intro c hc
    simp only [List.mem_append, List.mem_singleton] at hc
    rcases hc with hc | hc
    · split at hc
      · simp only [List.mem_cons, List.mem_singleton, List.not_mem_nil, or_false] at hc
        rcases hc with h | h | h | h | h <;> rw [h] <;> rfl
      · split at hc
        · simp only [List.mem_cons, List.mem_singleton, List.not_mem_nil, or_false] at hc
          rcases hc with h | h | h <;> rw [h] <;> rfl
        · simp at hc
    · rw [hc]; rfl
  · exact GLES2_RenderData.Quiet.quiet_refl data

theorem SetCopyState_after_quiet (data data' : GLES2_RenderData) (cmd : SDL_RenderCommand)
    (tex : SDL_Texture) (ret r : Bool)
    (h : SetCopyState_after data cmd tex ret = some (r, data')) : data.Quiet data' := by
  unfold SetCopyState_after at h
  simp only [Option.bind_eq_some] at h
  obtain ⟨t2, _, h⟩ := h
  have h1 := (SetCopyState_bind_quiet data cmd.texture tex).quiet_trans
    (SetCopyState_scale_quiet _ cmd.texture t2 cmd.texture_scale_mode)
  split at h
  · simp only [Option.some.injEq, Prod.mk.injEq] at h
    rw [← h.2]
    exact h1
  · simp only [Option.bind_eq_some, Option.some.injEq, Prod.mk.injEq] at h
    obtain ⟨t3, _, _, h⟩ := h
    rw [← h]
    exact h1.quiet_trans (SetCopyState_address_quiet _ _ _ _ _)

/-! ## The view stages of `SetDrawState` -/

/-- After `SetDrawState` has passed its viewport and clip stages, the rest
leaves the view alone, whatever it returns. -/
theorem SetDrawState_quiet_after (env : Env) (data data' : GLES2_RenderData)
    (cmd : SDL_RenderCommand) (imgsrc : GLES2_ImageSource) (vertices : Nat) (r : Bool)
    (h : SetDrawState env data cmd imgsrc vertices = some (r, data')) :
    (SetDrawState_cliprect (SetDrawState_viewport env data)).Quiet data' := by
  unfold SetDrawState at h
  simp only [Option.bind_eq_some] at h
  obtain ⟨cs, _, ⟨r3, d3⟩, hsel, h⟩ := h
  have hb : (SetDrawState_cliprect (SetDrawState_viewport env data)).Quiet
      (SetDrawState_before env data cmd vertices) := by
    unfold SetDrawState_before
    refine (SetDrawState_texturing_quiet _ cmd.texture).quiet_trans ?_
    refine GLES2_RenderData.Quiet.quiet_of_log _ rfl rfl ?_
    intro c hc
    split at hc
    · rw [List.mem_singleton.mp hc]; rfl
    · simp at hc
  have h2 := hb.quiet_trans (GLES2_SelectProgram_quiet env _ _ _ _ _ _ _ hsel)
  split at h
  · simp only [Option.some.injEq, Prod.mk.injEq] at h
    rw [← h.2]
    exact h2
  · simp only [Option.bind_eq_some, Option.some.injEq, Prod.mk.injEq] at h
    obtain ⟨d4, hproj, _, h⟩ := h
    rw [← h]
    refine ((h2.quiet_trans (SetDrawState_projection_quiet _ _ hproj)).quiet_trans
      (SetDrawState_blend_quiet env d4 cmd.blend)).quiet_trans ?_
    refine GLES2_RenderData.Quiet.quiet_of_log _ rfl rfl ?_
    intro c hc
    simp only [SetDrawState_pointers, List.mem_cons, List.mem_singleton, List.not_mem_nil,
      or_false] at hc
    rcases hc with h | h <;> rw [h] <;> rfl

/-- A state setup either stops before `SetDrawState`, changing neither the
view nor the log, or is `SetDrawState` followed by steps that leave the view
alone. -/
theorem GLES2_RunCommandQueue_setup_quiet (env : Env) (renderer : SDL_Renderer)
    (data data' : GLES2_RenderData) (cmd : SDL_RenderCommand) (vertices : Nat) (r : Bool)
    (h : GLES2_RunCommandQueue_setup env renderer data cmd vertices = some (r, data')) :
    (r = false ∧ data'.drawstate = data.drawstate ∧ data'.gl = data.gl) ∨
    (SetDrawState_cliprect (SetDrawState_viewport env data)).Quiet data' := by
  unfold GLES2_RunCommandQueue_setup at h
  split at h
  · unfold SetCopyState at h
    simp only [Option.bind_eq_some] at h
    obtain ⟨tex, _, tf, _, h⟩ := h
    split at h
    · simp only [Option.some.injEq, Prod.mk.injEq] at h
      left
      rw [← h.1, ← h.2]
      exact ⟨rfl, rfl, rfl⟩
    · simp only [Option.bind_eq_some] at h
      obtain ⟨⟨r1, d1⟩, hds, h⟩ := h
      right
      exact (SetDrawState_quiet_after env _ _ _ _ _ _ hds).quiet_trans
        (SetCopyState_after_quiet _ _ _ _ _ _ h)
  · right
    exact SetDrawState_quiet_after env _ _ _ _ _ _ h

theorem SetDrawState_viewport_dirty (env : Env) (data : GLES2_RenderData)
    (hd : data.drawstate.viewport_dirty = true) :
    SetDrawState_viewport env data
      = { data.call
            [GLCall.viewport data.drawstate.viewport.x
               (if data.drawstate.target ≠ 0 then data.drawstate.viewport.y
                else int_wrap (data.drawstate.drawableh - data.drawstate.viewport.y
                  - data.drawstate.viewport.h))
               data.drawstate.viewport.w data.drawstate.viewport.h] with
          drawstate :=
            { data.drawstate with
              projection :=
                if data.drawstate.viewport.w ≠ 0 ∧ data.drawstate.viewport.h ≠ 0 then
                  ((data.drawstate.projection.set 0
                      (env.fdiv (env.floatOfInt 2)
                        (env.floatOfInt data.drawstate.viewport.w))).set 5
                    (env.fdiv (env.floatOfInt (if data.drawstate.target ≠ 0 then 2 else -2))
                      (env.floatOfInt data.drawstate.viewport.h))).set 13
                    (env.floatOfInt (if data.drawstate.target ≠ 0 then -1 else 1))
                else data.drawstate.projection,
              viewport_dirty := false } } := by
  unfold SetDrawState_viewport
  rw [if_pos hd]
  rfl

theorem SetDrawState_cliprect_view (data : GLES2_RenderData) :
    (SetDrawState_cliprect data).drawstate.viewport = data.drawstate.viewport ∧
    (SetDrawState_cliprect data).drawstate.viewport_dirty = data.drawstate.viewport_dirty ∧
    (SetDrawState_cliprect data).drawstate.projection = data.drawstate.projection ∧
    (SetDrawState_cliprect data).drawstate.cliprect_enabled
      = data.drawstate.cliprect_enabled ∧
    (SetDrawState_cliprect data).drawstate.cliprect_enabled_dirty = false := by
  have h := (SetDrawState_cliprect_flags data).2.2.2.2.2
  have h1 := (SetDrawState_cliprect_flags data).1
  refine ⟨?_, ?_, ?_, ?_, h1⟩
  · have hx := congrArg GLES2_DrawStateCache.viewport h
    exact hx
  · have hx := congrArg GLES2_DrawStateCache.viewport_dirty h
    exact hx
  · have hx := congrArg GLES2_DrawStateCache.projection h
    exact hx
  · have hx := congrArg GLES2_DrawStateCache.cliprect_enabled h
    exact hx

theorem int_wrap_of_range (x : Int) (h1 : -(2 ^ 31) ≤ x) (h2 : x < 2 ^ 31) : int_wrap x = x := by
  unfold int_wrap Int.bmod
  simp only [Nat.reducePow] at h1 h2 ⊢
  by_cases hx : 0 ≤ x
  · have hm : x % ((4294967296 : Nat) : Int) = x := by omega
    rw [hm]
    split
    · rfl
    · omega
  · have hm : x % ((4294967296 : Nat) : Int) = x + 4294967296 := by omega
    rw [hm]
    split
    · omega
    · omega

/-- Claim C22, with the upside-down `y` in the arithmetic of the code.  With
the viewport dirty, the first call `SetDrawState` issues is `glViewport` with
`x`, `w`, `h` of the cached viewport and `y` equal to `viewport.y` for a
texture target and otherwise to `drawableh - viewport.y - viewport.h` as `int`
arithmetic gives it, which is the exact difference whenever that lies in the
range of `int`.  When `SetDrawState` returns, `viewport_dirty` is off, and for
non-zero `w` and `h` the projection has `2 / w` at `[0][0]` and, at `[1][1]`
and `[3][1]`, `2 / h` and `-1` for a texture target, `-2 / h` and `1`
otherwise; for a zero `w` or `h` the projection is unchanged. -/
theorem SetDrawState_viewport_projection (env : Env) (data data' : GLES2_RenderData)
    (cmd : SDL_RenderCommand) (imgsrc : GLES2_ImageSource) (vertices : Nat) (r : Bool)
    (hd : data.drawstate.viewport_dirty = true)
    (h : SetDrawState env data cmd imgsrc vertices = some (r, data')) :
    (∃ rest, data'.gl.log
      = data.gl.log ++
          GLCall.viewport data.drawstate.viewport.x
            (if data.drawstate.target ≠ 0 then data.drawstate.viewport.y
             else int_wrap (data.drawstate.drawableh - data.drawstate.viewport.y
               - data.drawstate.viewport.h))
            data.drawstate.viewport.w data.drawstate.viewport.h :: rest) ∧
    (-(2 ^ 31) ≤ data.drawstate.drawableh - data.drawstate.viewport.y
        - data.drawstate.viewport.h →
      data.drawstate.drawableh - data.drawstate.viewport.y - data.drawstate.viewport.h
        < 2 ^ 31 →
      int_wrap (data.drawstate.drawableh - data.drawstate.viewport.y
          - data.drawstate.viewport.h)
        = data.drawstate.drawableh - data.drawstate.viewport.y
          - data.drawstate.viewport.h) ∧
    data'.drawstate.viewport_dirty = false ∧
    data'.drawstate.viewport = data.drawstate.viewport ∧
    data'.drawstate.projection
      = if data.drawstate.viewport.w ≠ 0 ∧ data.drawstate.viewport.h ≠ 0 then
          ((data.drawstate.projection.set 0
              (env.fdiv (env.floatOfInt 2) (env.floatOfInt data.drawstate.viewport.w))).set 5
            (env.fdiv (env.floatOfInt (if data.drawstate.target ≠ 0 then 2 else -2))
              (env.floatOfInt data.drawstate.viewport.h))).set 13
            (env.floatOfInt (if data.drawstate.target ≠ 0 then -1 else 1))
        else data.drawstate.projection := by
  obtain ⟨hview, calls, hlog, _⟩ := SetDrawState_quiet_after env data data' cmd imgsrc vertices r h
  obtain ⟨c1, c2, c3, _, _⟩ := SetDrawState_cliprect_view (SetDrawState_viewport env data)
  obtain ⟨_, cs2, hlog2, _⟩ := SetDrawState_cliprect_extends (SetDrawState_viewport env data)
  have hv := SetDrawState_viewport_dirty env data hd
  simp only [GLES2_DrawStateCache.view, Prod.mk.injEq] at hview
  obtain ⟨v1, v2, _, _, _, _, _, _, _, v10⟩ := hview
  refine ⟨⟨cs2 ++ calls, ?_⟩, int_wrap_of_range _, ?_, ?_, ?_⟩
  · rw [hlog, hlog2, hv]
    simp [GLES2_RenderData.call]
  · rw [v2, c2, hv]
  · rw [v1, c1, hv]
  · rw [v10, c3, hv]

set_option maxRecDepth 100000 in
theorem SetDrawState_viewport_projection_witness :
    ∃ data',
      SetDrawState Env.plain
          (GLES2_RunCommandQueue_setviewport
            (GLES2_RunCommandQueue_target SDL_Renderer.window GLES2_RenderData.ready)
            (SDL_RenderCommand.setViewport ⟨0, 100, 640, 300⟩))
          (SDL_RenderCommand.geometry 0 3 0) GLES2_ImageSource.SOLID 0 = some (true, data') ∧
      (∃ rest, data'.gl.log = GLCall.viewport 0 80 640 300 :: rest) ∧
      data'.drawstate.viewport_dirty = false := by
  have hfst : (SetDrawState Env.plain
      (GLES2_RunCommandQueue_setviewport
        (GLES2_RunCommandQueue_target SDL_Renderer.window GLES2_RenderData.ready)
        (SDL_RenderCommand.setViewport ⟨0, 100, 640, 300⟩))
      (SDL_RenderCommand.geometry 0 3 0) GLES2_ImageSource.SOLID 0).map Prod.fst
      = some true := by decide
  cases hrun : SetDrawState Env.plain
      (GLES2_RunCommandQueue_setviewport
        (GLES2_RunCommandQueue_target SDL_Renderer.window GLES2_RenderData.ready)
        (SDL_RenderCommand.setViewport ⟨0, 100, 640, 300⟩))
      (SDL_RenderCommand.geometry 0 3 0) GLES2_ImageSource.SOLID 0 with
  | none => rw [hrun] at hfst; simp at hfst
  | some rd =>
    obtain ⟨r, d⟩ := rd
    rw [hrun] at hfst
    simp only [Option.map_some', Option.some.injEq] at hfst
    subst hfst
    obtain ⟨hlog, hrange, hdirty, _, _⟩ := SetDrawState_viewport_projection Env.plain _ d
      (SDL_RenderCommand.geometry 0 3 0) GLES2_ImageSource.SOLID 0 true (by decide) hrun
    have hy : int_wrap (480 - 100 - 300) = 80 := by decide
    obtain ⟨rest, hrest⟩ := hlog
    refine ⟨d, rfl, ⟨rest, ?_⟩, hdirty⟩
    rw [hrest]
    rfl

set_option maxRecDepth 100000 in
/-- Claim C22 fails on the code for a viewport at the low end of the `int`
range.  The window is 480 pixels high and the viewport is set to
`(0, -2147483648, 640, 480)`: the viewport is dirty and the target is the
window, `drawableh - viewport.y - viewport.h` is `2147483648`, and
`SetDrawState` issues `glViewport (0, -2147483648, 640, 480)`. -/
theorem SetDrawState_viewport_wraps :
    (GLES2_RunCommandQueue_setviewport
        (GLES2_RunCommandQueue_target SDL_Renderer.window GLES2_RenderData.ready)
        (SDL_RenderCommand.setViewport ⟨0, -2147483648, 640, 480⟩)).drawstate.viewport_dirty
      = true ∧
    (GLES2_RunCommandQueue_setviewport
        (GLES2_RunCommandQueue_target SDL_Renderer.window GLES2_RenderData.ready)
        (SDL_RenderCommand.setViewport ⟨0, -2147483648, 640, 480⟩)).drawstate.target = 0 ∧
    (GLES2_RunCommandQueue_setviewport
        (GLES2_RunCommandQueue_target SDL_Renderer.window GLES2_RenderData.ready)
        (SDL_RenderCommand.setViewport ⟨0, -2147483648, 640, 480⟩)).drawstate.drawableh
      - (-2147483648) - 480 = (2147483648 : Int) ∧
    (SetDrawState Env.plain
        (GLES2_RunCommandQueue_setviewport
          (GLES2_RunCommandQueue_target SDL_Renderer.window GLES2_RenderData.ready)
          (SDL_RenderCommand.setViewport ⟨0, -2147483648, 640, 480⟩))
        (SDL_RenderCommand.geometry 0 3 0) GLES2_ImageSource.SOLID 0).map
      (fun r => (r.1, r.2.gl.log.head?))
      = some (true, some (GLCall.viewport 0 (-2147483648) 640 480)) ∧
    (GLES2_RunCommandQueue Env.plain SDL_Renderer.window GLES2_RenderData.ready
        [SDL_RenderCommand.setViewport ⟨0, -2147483648, 640, 480⟩,
         SDL_RenderCommand.geometry 0 3 0] 0 []).map
      (fun r => (r.1, r.2.gl.log.head?))
      = some (true, some (GLCall.viewport 0 (-2147483648) 640 480)) := by
  refine ⟨by decide, by decide, by decide, by decide, by decide⟩

/-! ## The scissor test of the driver and the cache -/

theorem scissorTest_step_quiet (s : Option Bool) (c : GLCall) (h : c.isClip = false) :
    scissorTest_step s c = s := by
  cases c <;> first | rfl | (rename_i cap; cases cap <;> first | rfl | simp [GLCall.isClip] at h)

theorem scissorTest_foldl_quiet (cs : List GLCall) :
    ∀ (s : Option Bool), (∀ c ∈ cs, c.isClip = false) → cs.foldl scissorTest_step s = s := by
  induction cs with
  | nil => intro s _; rfl
  | cons c cs ih =>
    intro s h
    rw [List.foldl_cons, scissorTest_step_quiet s c (h c (List.mem_cons_self _ _))]
    exact ih s (fun x hx => h x (List.mem_cons_of_mem _ hx))

theorem scissorTest_append (l cs : List GLCall) :
    scissorTest (l ++ cs) = cs.foldl scissorTest_step (scissorTest l) := by
  unfold scissorTest
  rw [List.foldl_append]

theorem scissorTest_append_quiet (l cs : List GLCall) (h : ∀ c ∈ cs, c.isClip = false) :
    scissorTest (l ++ cs) = scissorTest l := by
  rw [scissorTest_append, scissorTest_foldl_quiet cs _ h]

theorem scissorTest_append_scissor (l : List GLCall) (x y w h : Int) :
    scissorTest (l ++ [GLCall.scissor x y w h]) = scissorTest l := by
  rw [scissorTest_append]
  rfl

theorem scissorTest_append_toggle (l : List GLCall) (b : Bool) :
    scissorTest (l ++ [if b = false then GLCall.disable GLCap.SCISSOR_TEST
                       else GLCall.enable GLCap.SCISSOR_TEST]) = some b := by
  rw [scissorTest_append]
  cases b <;> rfl

theorem ClearsUnscissored.append {n : Nat} {l : List GLCall} (h : ClearsUnscissored n l)
    (cs : List GLCall) (hcs : ∀ c ∈ cs, c ≠ GLCall.clear) : ClearsUnscissored n (l ++ cs) := by
  intro i hi hget
  by_cases hlt : i < l.length
  · rw [List.get?_eq_getElem?, List.getElem?_append_left hlt, ← List.get?_eq_getElem?] at hget
    rw [List.take_append_of_le_length (Nat.le_of_lt hlt)]
    exact h i hi hget
  · exfalso
    rw [List.get?_eq_getElem?, List.getElem?_append_right (Nat.le_of_not_lt hlt)] at hget
    have hm : GLCall.clear ∈ cs := List.getElem?_mem hget
    exact hcs _ hm rfl

theorem ClearsUnscissored.append_clear {n : Nat} {l : List GLCall}
    (h : ClearsUnscissored n l) (hs : scissorTest l = some false) :
    ClearsUnscissored n (l ++ [GLCall.clear]) := by
  intro i hi hget
  by_cases hlt : i < l.length
  · rw [List.get?_eq_getElem?, List.getElem?_append_left hlt, ← List.get?_eq_getElem?] at hget
    rw [List.take_append_of_le_length (Nat.le_of_lt hlt)]
    exact h i hi hget
  · have hge : l.length ≤ i := Nat.le_of_not_lt hlt
    by_cases heq : i = l.length
    · rw [heq, List.take_left']
      · exact hs
      · rfl
    · exfalso
      rw [List.get?_eq_getElem?, List.getElem?_append_right hge] at hget
      have hpos : 0 < i - l.length := by omega
      obtain ⟨k, hk⟩ : ∃ k, i - l.length = k + 1 := ⟨i - l.length - 1, by omega⟩
      rw [hk] at hget
      simp at hget

theorem ne_clear_of_isClip {c : GLCall} (h : c.isClip = false) : c ≠ GLCall.clear := by
  intro hc
  rw [hc] at h
  exact absurd h (by decide)

/-- The invariant of claim C25 passes along every step that appends calls of
no concern to clipping and keeps the two scissor flags. -/
theorem GLES2_RenderData.ScissorSync.of_step {n : Nat} {a b : GLES2_RenderData}
    (cs : List GLCall) (hlog : b.gl.log = a.gl.log ++ cs) (hq : ∀ c ∈ cs, c.isClip = false)
    (hd : b.drawstate.cliprect_enabled_dirty = a.drawstate.cliprect_enabled_dirty)
    (he : b.drawstate.cliprect_enabled = a.drawstate.cliprect_enabled)
    (h : a.ScissorSync ∧ ClearsUnscissored n a.gl.log) :
    b.ScissorSync ∧ ClearsUnscissored n b.gl.log := by
  constructor
  · intro hb
    rw [hlog, scissorTest_append_quiet _ _ hq, he]
    exact h.1 (hd ▸ hb)
  · rw [hlog]
    exact h.2.append cs (fun c hc => ne_clear_of_isClip (hq c hc))

theorem GLES2_RenderData.Quiet.sync {n : Nat} {a b : GLES2_RenderData} (hq : a.Quiet b)
    (h : a.ScissorSync ∧ ClearsUnscissored n a.gl.log) :
    b.ScissorSync ∧ ClearsUnscissored n b.gl.log := by
  obtain ⟨hview, cs, hlog, hcs⟩ := hq
  simp only [GLES2_DrawStateCache.view, Prod.mk.injEq] at hview
  exact GLES2_RenderData.ScissorSync.of_step cs hlog hcs hview.2.2.1 hview.2.2.2.1 h

theorem SetDrawState_viewport_sync {n : Nat} (env : Env) (data : GLES2_RenderData)
    (h : data.ScissorSync ∧ ClearsUnscissored n data.gl.log) :
    (SetDrawState_viewport env data).ScissorSync
      ∧ ClearsUnscissored n (SetDrawState_viewport env data).gl.log := by
  unfold SetDrawState_viewport
  split
  · exact GLES2_RenderData.ScissorSync.of_step _ rfl
      (by intro c hc; rw [List.mem_singleton.mp hc]; rfl) rfl rfl h
  · exact h

/-- The clip stage of `SetDrawState` leaves the scissor test of the driver as
`cliprect_enabled` says, with the flag off. -/
theorem SetDrawState_cliprect_sync {n : Nat} (data : GLES2_RenderData)
    (h : data.ScissorSync ∧ ClearsUnscissored n data.gl.log) :
    (SetDrawState_cliprect data).drawstate.cliprect_enabled_dirty = false ∧
    (SetDrawState_cliprect data).drawstate.cliprect_enabled = data.drawstate.cliprect_enabled ∧
    scissorTest (SetDrawState_cliprect data).gl.log = some data.drawstate.cliprect_enabled ∧
    ClearsUnscissored n (SetDrawState_cliprect data).gl.log := by
  obtain ⟨d1, hd1⟩ : ∃ d1, d1 = (if data.drawstate.cliprect_enabled_dirty then
        { data.call [if data.drawstate.cliprect_enabled = false
                     then GLCall.disable GLCap.SCISSOR_TEST
                     else GLCall.enable GLCap.SCISSOR_TEST] with
          drawstate := { data.drawstate with cliprect_enabled_dirty := false } }
      else data) := ⟨_, rfl⟩
  have h1 : d1.drawstate.cliprect_enabled_dirty = false ∧
      d1.drawstate.cliprect_enabled = data.drawstate.cliprect_enabled ∧
      scissorTest d1.gl.log = some data.drawstate.cliprect_enabled ∧
      ClearsUnscissored n d1.gl.log := by
    rw [hd1]
    by_cases hdirty : data.drawstate.cliprect_enabled_dirty = true
    · rw [if_pos hdirty]
      refine ⟨rfl, rfl, scissorTest_append_toggle _ _, h.2.append _ ?_⟩
      intro c hc
      rw [List.mem_singleton.mp hc]
      split <;> simp
    · rw [if_neg hdirty]
      simp only [Bool.not_eq_true] at hdirty
      exact ⟨hdirty, rfl, h.1 hdirty, h.2⟩
  have h2 : SetDrawState_cliprect data
      = (if d1.drawstate.cliprect_enabled ∧ d1.drawstate.cliprect_dirty then
          { d1.call
              [GLCall.scissor (int_wrap (d1.drawstate.viewport.x + d1.drawstate.cliprect.x))
                 (if d1.drawstate.target ≠ 0 then
                    int_wrap (d1.drawstate.viewport.y + d1.drawstate.cliprect.y)
                  else int_wrap (d1.drawstate.drawableh - d1.drawstate.viewport.y
                    - d1.drawstate.cliprect.y - d1.drawstate.cliprect.h))
                 d1.drawstate.cliprect.w d1.drawstate.cliprect.h] with
            drawstate := { d1.drawstate with cliprect_dirty := false } }
        else d1) := by
    rw [hd1]
    rfl
  rw [h2]
  split
  · refine ⟨h1.1, h1.2.1, ?_, h1.2.2.2.append _ ?_⟩
    · show scissorTest (d1.gl.log ++ [_]) = _
      rw [scissorTest_append_scissor]
      exact h1.2.2.1
    · intro c hc
      rw [List.mem_singleton.mp hc]
      simp
  · exact h1

theorem SetDrawState_sync {n : Nat} (env : Env) (data data' : GLES2_RenderData)
    (cmd : SDL_RenderCommand) (imgsrc : GLES2_ImageSource) (vertices : Nat) (r : Bool)
    (hinv : data.ScissorSync ∧ ClearsUnscissored n data.gl.log)
    (h : SetDrawState env data cmd imgsrc vertices = some (r, data')) :
    data'.drawstate.cliprect_enabled_dirty = false ∧
    data'.drawstate.cliprect_enabled = data.drawstate.cliprect_enabled ∧
    scissorTest data'.gl.log = some data.drawstate.cliprect_enabled ∧
    ClearsUnscissored n data'.gl.log := by
  have hv := SetDrawState_viewport_sync env data hinv
  obtain ⟨c1, c2, c3, c4⟩ := SetDrawState_cliprect_sync (SetDrawState_viewport env data) hv
  have hve : (SetDrawState_viewport env data).drawstate.cliprect_enabled
      = data.drawstate.cliprect_enabled := by
    have hx := congrArg GLES2_DrawStateCache.cliprect_enabled
      (SetDrawState_viewport_flags env data).2.2.2.2
    exact hx
  obtain ⟨hview, cs, hlog, hcs⟩ := SetDrawState_quiet_after env data data' cmd imgsrc vertices r h
  simp only [GLES2_DrawStateCache.view, Prod.mk.injEq] at hview
  refine ⟨hview.2.2.1.trans c1, (hview.2.2.2.1.trans c2).trans hve, ?_, ?_⟩
  · rw [hlog, scissorTest_append_quiet _ _ hcs, c3, hve]
  · rw [hlog]
    exact c4.append cs (fun c hc => ne_clear_of_isClip (hcs c hc))

/-- A state setup keeps the invariant, and one that returns `true` leaves the
scissor test of the driver as `cliprect_enabled` says. -/
theorem GLES2_RunCommandQueue_setup_sync {n : Nat} (env : Env) (renderer : SDL_Renderer)
    (data data' : GLES2_RenderData) (cmd : SDL_RenderCommand) (vertices : Nat) (r : Bool)
    (hinv : data.ScissorSync ∧ ClearsUnscissored n data.gl.log)
    (h : GLES2_RunCommandQueue_setup env renderer data cmd vertices = some (r, data')) :
    (data'.ScissorSync ∧ ClearsUnscissored n data'.gl.log) ∧
    data'.drawstate.cliprect_enabled = data.drawstate.cliprect_enabled ∧
    (r = true → data'.drawstate.cliprect_enabled_dirty = false ∧
      scissorTest data'.gl.log = some data.drawstate.cliprect_enabled) := by
  unfold GLES2_RunCommandQueue_setup at h
  split at h
  · unfold SetCopyState at h
    simp only [Option.bind_eq_some] at h
    obtain ⟨tex, _, tf, _, h⟩ := h
    split at h
    · simp only [Option.some.injEq, Prod.mk.injEq] at h
      rw [← h.1, ← h.2]
      exact ⟨hinv, rfl, fun hr => absurd hr (by simp)⟩
    · simp only [Option.bind_eq_some] at h
      obtain ⟨⟨r1, d1⟩, hds, h⟩ := h
      obtain ⟨s1, s2, s3, s4⟩ := SetDrawState_sync env _ _ _ _ _ _ hinv hds
      have hq := SetCopyState_after_quiet _ _ _ _ _ _ h
      have hsync1 : d1.ScissorSync ∧ ClearsUnscissored n d1.gl.log :=
        ⟨fun _ => by rw [s3, s2], s4⟩
      obtain ⟨hview, cs, hlog, hcs⟩ := hq
      simp only [GLES2_DrawStateCache.view, Prod.mk.injEq] at hview
      refine ⟨GLES2_RenderData.Quiet.sync ⟨by simp [GLES2_DrawStateCache.view, hview], cs, hlog,
        hcs⟩ hsync1, hview.2.2.2.1.trans s2, fun _ => ⟨hview.2.2.1.trans s1, ?_⟩⟩
      rw [hlog, scissorTest_append_quiet _ _ hcs, s3]
  · obtain ⟨s1, s2, s3, s4⟩ := SetDrawState_sync env _ _ _ _ _ _ hinv h
    exact ⟨⟨fun _ => by rw [s3, s2], s4⟩, s2, fun _ => ⟨s1, s3⟩⟩

theorem GLES2_RunCommandQueue_setviewport_sync {n : Nat} (data : GLES2_RenderData)
    (cmd : SDL_RenderCommand) (h : data.ScissorSync ∧ ClearsUnscissored n data.gl.log) :
    (GLES2_RunCommandQueue_setviewport data cmd).ScissorSync
      ∧ ClearsUnscissored n (GLES2_RunCommandQueue_setviewport data cmd).gl.log := by
  unfold GLES2_RunCommandQueue_setviewport
  split
  · exact GLES2_RenderData.ScissorSync.of_step [] (by simp) (by simp) rfl rfl h
  · exact h

theorem GLES2_RunCommandQueue_setcliprect_sync {n : Nat} (data : GLES2_RenderData)
    (cmd : SDL_RenderCommand) (h : data.ScissorSync ∧ ClearsUnscissored n data.gl.log) :
    (GLES2_RunCommandQueue_setcliprect data cmd).ScissorSync
      ∧ ClearsUnscissored n (GLES2_RunCommandQueue_setcliprect data cmd).gl.log := by
  obtain ⟨d1, hd1⟩ : ∃ d1, d1 = (if data.drawstate.cliprect_enabled ≠ cmd.cliprect_enabled then
        ({ data with drawstate :=
            { data.drawstate with
              cliprect_enabled := cmd.cliprect_enabled, cliprect_enabled_dirty := true } } :
          GLES2_RenderData)
      else data) := ⟨_, rfl⟩
  have h1 : d1.ScissorSync ∧ ClearsUnscissored n d1.gl.log := by
    rw [hd1]
    split
    · exact ⟨fun hb => absurd hb (by simp), h.2⟩
    · exact h
  have h2 : GLES2_RunCommandQueue_setcliprect data cmd
      = (if d1.drawstate.cliprect ≠ cmd.cliprect_rect then
          { d1 with drawstate :=
              { d1.drawstate with cliprect := cmd.cliprect_rect, cliprect_dirty := true } }
        else d1) := by
    rw [hd1]
    rfl
  rw [h2]
  split
  · exact GLES2_RenderData.ScissorSync.of_step [] (by simp) (by simp) rfl rfl h1
  · exact h1

/-- The case `SDL_RENDERCMD_CLEAR` keeps the invariant and issues its `glClear`
with the scissor test disabled. -/
theorem GLES2_RunCommandQueue_clear_sync {n : Nat} (env : Env) (colorswap : Bool)
    (data : GLES2_RenderData) (cmd : SDL_RenderCommand)
    (h : data.ScissorSync ∧ ClearsUnscissored n data.gl.log) :
    ((GLES2_RunCommandQueue_clear env colorswap data cmd).ScissorSync
      ∧ ClearsUnscissored n (GLES2_RunCommandQueue_clear env colorswap data cmd).gl.log) ∧
    (GLES2_RunCommandQueue_clear env colorswap data cmd).drawstate.cliprect_enabled
      = data.drawstate.cliprect_enabled ∧
    (data.drawstate.cliprect_enabled = true →
      (GLES2_RunCommandQueue_clear env colorswap data cmd).drawstate.cliprect_enabled_dirty
        = true) ∧
    ∃ d : GLES2_RenderData,
      (GLES2_RunCommandQueue_clear env colorswap data cmd).gl.log = d.gl.log ++ [GLCall.clear]
      ∧ scissorTest d.gl.log = some false := by
  obtain ⟨d1, hd1⟩ : ∃ d1, d1 = GLES2_RunCommandQueue_clear_color env colorswap data cmd :=
    ⟨_, rfl⟩
  have h1 : (d1.ScissorSync ∧ ClearsUnscissored n d1.gl.log) ∧
      d1.drawstate.cliprect_enabled = data.drawstate.cliprect_enabled := by
    have key : ∀ (cond : Prop) [Decidable cond] (r g b a : GLfloat),
        let d : GLES2_RenderData :=
          if cond then
            { data.call [GLCall.clearColor r g b a] with
              drawstate := { data.drawstate with clear_color := ⟨r, g, b, a⟩,
                                                 clear_color_dirty := false } }
          else data
        (d.ScissorSync ∧ ClearsUnscissored n d.gl.log) ∧
          d.drawstate.cliprect_enabled = data.drawstate.cliprect_enabled := by
      intro cond _ r g b a
      dsimp only
      by_cases hc : cond
      · rw [if_pos hc]
        exact ⟨GLES2_RenderData.ScissorSync.of_step _ rfl
          (by intro c hc; rw [List.mem_singleton.mp hc]; rfl) rfl rfl h, rfl⟩
      · rw [if_neg hc]
        exact ⟨h, rfl⟩
    rw [hd1]
    unfold GLES2_RunCommandQueue_clear_color
    exact key _ _ _ _ _
  obtain ⟨d2, hd2⟩ : ∃ d2, d2 = GLES2_RunCommandQueue_clear_scissor d1 := ⟨_, rfl⟩
  have h2 : (d2.ScissorSync ∧ ClearsUnscissored n d2.gl.log) ∧
      d2.drawstate.cliprect_enabled = d1.drawstate.cliprect_enabled ∧
      (d1.drawstate.cliprect_enabled = true → d2.drawstate.cliprect_enabled_dirty = true) ∧
      scissorTest d2.gl.log = some false := by
    rw [hd2]
    unfold GLES2_RunCommandQueue_clear_scissor
    by_cases hc : d1.drawstate.cliprect_enabled = true ∨ d1.drawstate.cliprect_enabled_dirty = true
    · rw [if_pos hc]
      have hs : scissorTest (d1.gl.log ++ [GLCall.disable GLCap.SCISSOR_TEST]) = some false :=
        scissorTest_append_toggle d1.gl.log false
      refine ⟨⟨?_, h1.1.2.append _ (by intro c hc; rw [List.mem_singleton.mp hc]; simp)⟩,
        rfl, fun he => he, hs⟩
      intro hb
      have hb' : d1.drawstate.cliprect_enabled = false := hb
      show scissorTest (d1.gl.log ++ [GLCall.disable GLCap.SCISSOR_TEST])
        = some d1.drawstate.cliprect_enabled
      rw [hs, hb']
    · rw [if_neg hc]
      simp only [not_or, Bool.not_eq_true] at hc
      refine ⟨h1.1, rfl, fun he => absurd (hc.1 ▸ he) (by simp), ?_⟩
      rw [h1.1.1 hc.2, hc.1]
  have hfinal : GLES2_RunCommandQueue_clear env colorswap data cmd = d2.call [GLCall.clear] := by
    rw [hd2, hd1]
    rfl
  rw [hfinal]
  refine ⟨⟨?_, h2.1.2.append_clear h2.2.2.2⟩, h2.2.1.trans h1.2,
    fun he => h2.2.2.1 (h1.2.trans he), d2, rfl, h2.2.2.2⟩
  intro hb
  show scissorTest (d2.gl.log ++ [GLCall.clear]) = some d2.drawstate.cliprect_enabled
  rw [scissorTest_append]
  exact h2.1.1 hb

theorem GLES2_RunCommandQueue_draw_sync {n : Nat} (mode : GLPrim) (cmd : SDL_RenderCommand)
    (rest : List SDL_RenderCommand) (ret : Bool) (data : GLES2_RenderData)
    (h : data.ScissorSync ∧ ClearsUnscissored n data.gl.log) :
    (GLES2_RunCommandQueue_draw mode cmd rest ret data).ScissorSync
      ∧ ClearsUnscissored n (GLES2_RunCommandQueue_draw mode cmd rest ret data).gl.log := by
  unfold GLES2_RunCommandQueue_draw
  split
  · exact GLES2_RenderData.ScissorSync.of_step _ rfl
      (by intro c hc; rw [List.mem_singleton.mp hc]; rfl) rfl rfl h
  · exact h

/-- The command loop keeps the invariant of claim C25. -/
theorem GLES2_RunCommandQueue_loop_sync {n : Nat} (env : Env) (renderer : SDL_Renderer)
    (colorswap : Bool) (vertices : Nat) :
    ∀ (cmds : List SDL_RenderCommand) (skip : Nat) (data data' : GLES2_RenderData)
      (setups : List Bool),
      (data.ScissorSync ∧ ClearsUnscissored n data.gl.log) →
      GLES2_RunCommandQueue_loop env renderer colorswap vertices skip data cmds
        = some (data', setups) →
      data'.ScissorSync ∧ ClearsUnscissored n data'.gl.log
  | [], skip, data, data', setups, hinv, h => by
    cases skip <;>
    · simp only [GLES2_RunCommandQueue_loop, Option.some.injEq, Prod.mk.injEq] at h
      rw [← h.1]
      exact hinv
  | _ :: rest, skip + 1, data, data', setups, hinv, h => by
    rw [GLES2_RunCommandQueue_loop] at h
    exact GLES2_RunCommandQueue_loop_sync env renderer colorswap vertices rest skip data data'
      setups hinv h
  | cmd :: rest, 0, data, data', setups, hinv, h => by
    have ih := @GLES2_RunCommandQueue_loop_sync n env renderer colorswap vertices rest
    have stepDraw : ∀ (mode : GLPrim) (k : Nat),
        ((GLES2_RunCommandQueue_setup env renderer data cmd vertices).bind (fun s =>
          (GLES2_RunCommandQueue_loop env renderer colorswap vertices k
            (GLES2_RunCommandQueue_draw mode cmd rest s.1 s.2) rest).map
            (fun r => (r.1, s.1 :: r.2)))) = some (data', setups) →
        data'.ScissorSync ∧ ClearsUnscissored n data'.gl.log := by
      intro mode k hl
      simp only [Option.bind_eq_some, Option.map_eq_some', Prod.mk.injEq] at hl
      obtain ⟨s, hs, r, hr, hd, _⟩ := hl
      have h1 := (GLES2_RunCommandQueue_setup_sync env renderer data s.2 cmd vertices s.1
        hinv hs).1
      have h2 := GLES2_RunCommandQueue_draw_sync mode cmd rest s.1 s.2 h1
      rw [← hd]
      exact ih k _ r.1 r.2 h2 hr
    rw [GLES2_RunCommandQueue_loop] at h
    split at h
    · exact ih 0 _ _ _ hinv h
    · exact ih 0 _ _ _ (GLES2_RunCommandQueue_setviewport_sync data cmd hinv) h
    · exact ih 0 _ _ _ (GLES2_RunCommandQueue_setcliprect_sync data cmd hinv) h
    · exact ih 0 _ _ _ (GLES2_RunCommandQueue_clear_sync env colorswap data cmd hinv).1 h
    · exact ih 0 _ _ _ hinv h
    · exact ih 0 _ _ _ hinv h
    · exact ih 0 _ _ _ hinv h
    · exact ih 0 _ _ _ hinv h
    · simp only [Option.bind_eq_some] at h
      obtain ⟨s, hs, h⟩ := h
      obtain ⟨s1, s2, s3, s4⟩ := SetDrawState_sync env data s.2 cmd GLES2_ImageSource.SOLID
        vertices s.1 hinv hs
      have h1 : s.2.ScissorSync ∧ ClearsUnscissored n s.2.gl.log :=
        ⟨fun _ => by rw [s3, s2], s4⟩
      split at h
      · simp only [Option.map_eq_some', Prod.mk.injEq] at h
        obtain ⟨r, hr, hd, _⟩ := h
        rw [← hd]
        exact ih 0 _ r.1 r.2 h1 hr
      · split at h
        all_goals
          simp only [Option.map_eq_some', Prod.mk.injEq] at h
          obtain ⟨r, hr, hd, _⟩ := h
          rw [← hd]
          refine ih _ _ r.1 r.2 ?_ hr
          exact GLES2_RenderData.ScissorSync.of_step _ rfl
            (by intro c hc; rw [List.mem_singleton.mp hc]; rfl) rfl rfl h1
    · exact stepDraw _ _ h
    · exact stepDraw _ _ h

theorem ClearsUnscissored.of_length (log : List GLCall) : ClearsUnscissored log.length log := by
  intro i hi hget
  rw [List.get?_eq_getElem?, List.getElem?_eq_none hi] at hget
  exact absurd hget (by simp)

theorem GLES2_InvalidateCachedState_sync (data : GLES2_RenderData) :
    (GLES2_InvalidateCachedState data).ScissorSync
      ∧ ClearsUnscissored data.gl.log.length (GLES2_InvalidateCachedState data).gl.log :=
  ⟨fun hb => absurd hb (by simp [GLES2_InvalidateCachedState]),
   ClearsUnscissored.of_length data.gl.log⟩

/-- Claim C25.  From an invalidated draw-state cache, after every command list
the loop has run through: when `cliprect_enabled_dirty` is off the scissor test
of the driver is what `cliprect_enabled` says; every `glClear` issued since
was issued with the scissor test disabled; a state setup that returns `true`
leaves the scissor test as `cliprect_enabled` says; and with an enabled clip
rectangle a `CLEAR` switches the test off and sets the flag, and the state
setup of the draw behind it switches the test on again. -/
theorem GLES2_RunCommandQueue_scissor_test_synced (env : Env) (renderer : SDL_Renderer)
    (colorswap : Bool) (vertices : Nat) (cmds : List SDL_RenderCommand)
    (data0 data' : GLES2_RenderData) (setups : List Bool)
    (h : GLES2_RunCommandQueue_loop env renderer colorswap vertices 0
      (GLES2_InvalidateCachedState data0) cmds = some (data', setups)) :
    data'.ScissorSync ∧
    ClearsUnscissored data0.gl.log.length data'.gl.log ∧
    (∀ (cmd : SDL_RenderCommand) (d2 : GLES2_RenderData),
      GLES2_RunCommandQueue_setup env renderer data' cmd vertices = some (true, d2) →
      d2.drawstate.cliprect_enabled_dirty = false ∧
      scissorTest d2.gl.log = some data'.drawstate.cliprect_enabled) ∧
    (∀ (clearCmd drawCmd : SDL_RenderCommand) (d2 : GLES2_RenderData),
      data'.drawstate.cliprect_enabled = true →
      GLES2_RunCommandQueue_setup env renderer
        (GLES2_RunCommandQueue_clear env colorswap data' clearCmd) drawCmd vertices
        = some (true, d2) →
      scissorTest (GLES2_RunCommandQueue_clear env colorswap data' clearCmd).gl.log
        = some false ∧
      (GLES2_RunCommandQueue_clear env colorswap data' clearCmd).drawstate.cliprect_enabled_dirty
        = true ∧
      scissorTest d2.gl.log = some true) := by
  have hinv := GLES2_RunCommandQueue_loop_sync env renderer colorswap vertices cmds 0 _ data'
    setups (GLES2_InvalidateCachedState_sync data0) h
  refine ⟨hinv.1, hinv.2, ?_, ?_⟩
  · intro cmd d2 hs
    exact (GLES2_RunCommandQueue_setup_sync env renderer data' d2 cmd vertices true hinv
      hs).2.2 rfl
  · intro clearCmd drawCmd d2 hen hs
    obtain ⟨hc1, hc2, hc3, d, hlog, hd⟩ :=
      GLES2_RunCommandQueue_clear_sync env colorswap data' clearCmd hinv
    have hs2 := (GLES2_RunCommandQueue_setup_sync env renderer _ d2 drawCmd vertices true hc1
      hs).2.2 rfl
    refine ⟨?_, hc3 hen, ?_⟩
    · rw [hlog, scissorTest_append]
      exact hd
    · rw [hs2.2, hc2, hen]

set_option maxRecDepth 100000 in
theorem GLES2_RunCommandQueue_scissor_test_synced_witness :
    ∃ data',
      GLES2_RunCommandQueue_loop Env.plain SDL_Renderer.window false 0 0
        (GLES2_InvalidateCachedState GLES2_RenderData.ready)
        [SDL_RenderCommand.setClipRect true ⟨10, 20, 100, 50⟩, SDL_RenderCommand.clear,
         SDL_RenderCommand.geometry 0 3 0] = some (data', [true]) ∧
      data'.ScissorSync ∧ ClearsUnscissored 0 data'.gl.log := by
  have hfst : (GLES2_RunCommandQueue_loop Env.plain SDL_Renderer.window false 0 0
      (GLES2_InvalidateCachedState GLES2_RenderData.ready)
      [SDL_RenderCommand.setClipRect true ⟨10, 20, 100, 50⟩, SDL_RenderCommand.clear,
       SDL_RenderCommand.geometry 0 3 0]).map Prod.snd = some [true] := by decide
  cases hrun : GLES2_RunCommandQueue_loop Env.plain SDL_Renderer.window false 0 0
      (GLES2_InvalidateCachedState GLES2_RenderData.ready)
      [SDL_RenderCommand.setClipRect true ⟨10, 20, 100, 50⟩, SDL_RenderCommand.clear,
       SDL_RenderCommand.geometry 0 3 0] with
  | none => rw [hrun] at hfst; simp at hfst
  | some rd =>
    obtain ⟨d, ss⟩ := rd
    rw [hrun] at hfst
    simp only [Option.map_some', Option.some.injEq] at hfst
    subst hfst
    obtain ⟨h1, h2, _, _⟩ := GLES2_RunCommandQueue_scissor_test_synced Env.plain
      SDL_Renderer.window false 0 _ GLES2_RenderData.ready d [true] hrun
    exact ⟨d, rfl, h1, h2⟩

/-! ## WGL: extension strings and pixel formats -/

/-- Claim C27 fails on the code.  The extension `ab` is not one of the
space-separated tokens of the string `abab`, whose only token is `abab`, but
`HasExtension` returns `true`: the second occurrence starts where the search
was resumed, and `where == start` accepts it without a look at the character
before it. -/
theorem HasExtension_fooled_by_substring :
    List.splitOn ' ' ['a', 'b', 'a', 'b'] = [['a', 'b', 'a', 'b']] ∧
    HasExtension ['a', 'b'] (some ['a', 'b', 'a', 'b']) = some true ∧
    HasExtension ['a', 'b'] (some ['a', 'b', 'a', 'b', 'c']) = some false ∧
    HasExtension ['a', 'b'] (some ['x', 'a', 'b', ' ', 'a', 'b']) = some true := by
  refine ⟨by decide, by decide, by decide, by decide⟩

set_option maxRecDepth 100000 in
/-- Claim C28 fails on the code.  Of two formats the first has too few color
bits and the second is the target itself: the loop ends with `best = 2`, but
the function is declared `bool`, returns `true`, and the caller passes the
index `1`, that of the format that does not qualify, to `SetPixelFormat`. -/
theorem WIN_GL_ChoosePixelFormat_returns_bool :
    (PIXELFORMATDESCRIPTOR.simple 16 0 0).qualifies (PIXELFORMATDESCRIPTOR.simple 32 24 8)
      = false ∧
    WIN_GL_ChoosePixelFormat_best
        [some (PIXELFORMATDESCRIPTOR.simple 16 0 0), some (PIXELFORMATDESCRIPTOR.simple 32 24 8)]
        (PIXELFORMATDESCRIPTOR.simple 32 24 8) = 2 ∧
    WIN_GL_ChoosePixelFormat
        [some (PIXELFORMATDESCRIPTOR.simple 16 0 0), some (PIXELFORMATDESCRIPTOR.simple 32 24 8)]
        (PIXELFORMATDESCRIPTOR.simple 32 24 8) = true ∧
    (WIN_GL_SetupWindowInternal_pixel_format 0 0 1
        [some (PIXELFORMATDESCRIPTOR.simple 16 0 0), some (PIXELFORMATDESCRIPTOR.simple 32 24 8)]
        (PIXELFORMATDESCRIPTOR.simple 32 24 8)).toOption = some 1 := by
  refine ⟨by decide, by decide, by decide, by decide⟩

/-! ## Directory enumeration and XSettings -/

/-- Claim C29 fails on the code.  For the root directory `/` the loop that
trims the separators leaves nothing: `opendir` is given the empty name, which
no directory has, and the call fails without a callback.  The path `/tmp//`
is handled as meant: `/tmp` is opened and the callback gets the prefix
`/tmp/`. -/
theorem SDL_SYS_EnumerateDirectory_root_opens_empty_name :
    SDL_SYS_EnumerateDirectory true sampleOpendir
        (fun _ _ => SDL_EnumerationResult.SDL_ENUM_CONTINUE) ['/']
      = { result := false, opened := some [], calls := [] } ∧
    SDL_SYS_EnumerateDirectory true sampleOpendir
        (fun _ _ => SDL_EnumerationResult.SDL_ENUM_CONTINUE) ['/', '/']
      = { result := false, opened := some [], calls := [] } ∧
    SDL_SYS_EnumerateDirectory true sampleOpendir
        (fun _ _ => SDL_EnumerationResult.SDL_ENUM_CONTINUE) ['/', 't', 'm', 'p', '/', '/']
      = { result := true, opened := some ['/', 't', 'm', 'p'],
          calls := [(['/', 't', 'm', 'p', '/'], ['a'])] } := by
  refine ⟨by decide, by decide, by decide⟩

theorem SDL_XSETTINGS_names_differ :
    SDL_XSETTINGS_GDK_WINDOW_SCALING_FACTOR ≠ SDL_XSETTINGS_XFT_DPI := by
  decide

/-- Claim C30 fails on the code.  The first test of `X11_XsettingsNotify`
returns when the name differs from `Gdk/WindowScalingFactor` or differs from
`Xft/DPI`, and every name differs from one of the two: whatever the name, the
action and the setting, the function returns at once and the content scale of
no display is changed. -/
theorem X11_XsettingsNotify_sets_nothing (env : Env) (name : String)
    (action : XSettingsAction) (setting : XSettingsSetting) (data : Option SDL_VideoDevice) :
    X11_XsettingsNotify env name action setting data = data := by
  unfold X11_XsettingsNotify
  by_cases h : name = SDL_XSETTINGS_GDK_WINDOW_SCALING_FACTOR
  · rw [if_pos (Or.inr (by rw [h]; exact SDL_XSETTINGS_names_differ))]
  · rw [if_pos (Or.inl h)]

/-! ## What the loop of `WIN_GL_ChoosePixelFormat` computes -/

/-- The loop ends with the index of the first format of least distance below
`best_dist`, and with the `best` it began with when there is none. -/
theorem WIN_GL_ChoosePixelFormat_loop_spec (target : PIXELFORMATDESCRIPTOR) :
    ∀ (fs : List (Option PIXELFORMATDESCRIPTOR)) (i b bd : Nat),
      (WIN_GL_ChoosePixelFormat_loop target fs i b bd = b ∧
        ∀ j pfd d, fs.get? j = some (some pfd) →
          WIN_GL_ChoosePixelFormat_dist pfd target = some d → bd ≤ d) ∨
      (∃ k pfd d, WIN_GL_ChoosePixelFormat_loop target fs i b bd = i + k ∧
        fs.get? k = some (some pfd) ∧ WIN_GL_ChoosePixelFormat_dist pfd target = some d ∧
        d < bd ∧
        ∀ j pfd' d', fs.get? j = some (some pfd') →
          WIN_GL_ChoosePixelFormat_dist pfd' target = some d' → d ≤ d' ∧ (j < k → d < d'))
  | [], i, b, bd => by
    left
    exact ⟨rfl, fun j pfd d h => by simp at h⟩
  | none :: rest, i, b, bd => by
    rw [WIN_GL_ChoosePixelFormat_loop]
    rcases WIN_GL_ChoosePixelFormat_loop_spec target rest (i + 1) b bd with
      ⟨hr, hall⟩ | ⟨k, pfd, d, hr, hk, hd, hlt, hmin⟩
    · left
      refine ⟨hr, fun j pfd d hj hdist => ?_⟩
      cases j with
      | zero => simp at hj
      | succ j => exact hall j pfd d (by simpa using hj) hdist
    · right
      refine ⟨k + 1, pfd, d, by rw [hr]; omega, by simpa using hk, hd, hlt, ?_⟩
      intro j pfd' d' hj hdist
      cases j with
      | zero => simp at hj
      | succ j =>
        obtain ⟨h1, h2⟩ := hmin j pfd' d' (by simpa using hj) hdist
        exact ⟨h1, fun hjk => h2 (by omega)⟩
  | some p :: rest, i, b, bd => by
    rw [WIN_GL_ChoosePixelFormat_loop]
    cases hp : WIN_GL_ChoosePixelFormat_dist p target with
    | none =>
      simp only
      rcases WIN_GL_ChoosePixelFormat_loop_spec target rest (i + 1) b bd with
        ⟨hr, hall⟩ | ⟨k, pfd, d, hr, hk, hd, hlt, hmin⟩
      · left
        refine ⟨hr, fun j pfd d hj hdist => ?_⟩
        cases j with
        | zero =>
          simp only [List.get?_cons_zero, Option.some.injEq] at hj
          rw [← hj, hp] at hdist
          exact absurd hdist (by simp)
        | succ j => exact hall j pfd d (by simpa using hj) hdist
      · right
        refine ⟨k + 1, pfd, d, by rw [hr]; omega, by simpa using hk, hd, hlt, ?_⟩
        intro j pfd' d' hj hdist
        cases j with
        | zero =>
          simp only [List.get?_cons_zero, Option.some.injEq] at hj
          rw [← hj, hp] at hdist
          exact absurd hdist (by simp)
        | succ j =>
          obtain ⟨h1, h2⟩ := hmin j pfd' d' (by simpa using hj) hdist
          exact ⟨h1, fun hjk => h2 (by omega)⟩
    | some d0 =>
      simp only
      by_cases hlt0 : d0 < bd
      · rw [if_pos hlt0]
        right
        rcases WIN_GL_ChoosePixelFormat_loop_spec target rest (i + 1) i d0 with
          ⟨hr, hall⟩ | ⟨k, pfd, d, hr, hk, hd, hlt, hmin⟩
        · refine ⟨0, p, d0, by rw [hr]; rfl, rfl, hp, hlt0, ?_⟩
          intro j pfd' d' hj hdist
          cases j with
          | zero =>
            simp only [List.get?_cons_zero, Option.some.injEq] at hj
            rw [← hj, hp] at hdist
            simp only [Option.some.injEq] at hdist
            exact ⟨by omega, fun h => absurd h (by omega)⟩
          | succ j =>
            exact ⟨hall j pfd' d' (by simpa using hj) hdist, fun h => absurd h (by omega)⟩
        · refine ⟨k + 1, pfd, d, by rw [hr]; omega, by simpa using hk, hd, by omega, ?_⟩
          intro j pfd' d' hj hdist
          cases j with
          | zero =>
            simp only [List.get?_cons_zero, Option.some.injEq] at hj
            rw [← hj, hp] at hdist
            simp only [Option.some.injEq] at hdist
            exact ⟨by omega, fun _ => by omega⟩
          | succ j =>
            obtain ⟨h1, h2⟩ := hmin j pfd' d' (by simpa using hj) hdist
            exact ⟨h1, fun hjk => h2 (by omega)⟩
      · rw [if_neg hlt0]
        rcases WIN_GL_ChoosePixelFormat_loop_spec target rest (i + 1) b bd with
          ⟨hr, hall⟩ | ⟨k, pfd, d, hr, hk, hd, hlt, hmin⟩
        · left
          refine ⟨hr, fun j pfd d hj hdist => ?_⟩
          cases j with
          | zero =>
            simp only [List.get?_cons_zero, Option.some.injEq] at hj
            rw [← hj, hp] at hdist
            simp only [Option.some.injEq] at hdist
            omega
          | succ j => exact hall j pfd d (by simpa using hj) hdist
        · right
          refine ⟨k + 1, pfd, d, by rw [hr]; omega, by simpa using hk, hd, hlt, ?_⟩
          intro j pfd' d' hj hdist
          cases j with
          | zero =>
            simp only [List.get?_cons_zero, Option.some.injEq] at hj
            rw [← hj, hp] at hdist
            simp only [Option.some.injEq] at hdist
            exact ⟨by omega, fun _ => by omega⟩
          | succ j =>
            obtain ⟨h1, h2⟩ := hmin j pfd' d' (by simpa using hj) hdist
            exact ⟨h1, fun hjk => h2 (by omega)⟩

theorem WIN_GL_ChoosePixelFormat_add_some (x : Option Nat) (h w v : Nat)
    (hv : WIN_GL_ChoosePixelFormat_add x h w = some v) :
    ∃ d, x = some d ∧ w ≤ h ∧ v = (d + (h - w)) % 2 ^ 32 := by
  unfold WIN_GL_ChoosePixelFormat_add at hv
  cases x with
  | none => simp at hv
  | some d =>
    simp only at hv
    split at hv
    · simp at hv
    · simp only [Option.some.injEq] at hv
      exact ⟨d, rfl, by omega, hv.symm⟩

theorem WIN_GL_ChoosePixelFormat_add_of_le (d h w : Nat) (hle : w ≤ h) :
    WIN_GL_ChoosePixelFormat_add (some d) h w = some ((d + (h - w)) % 2 ^ 32) := by
  unfold WIN_GL_ChoosePixelFormat_add
  simp only
  rw [if_neg (by omega)]

/-- The distance the loop body computes: defined exactly for the formats that
qualify, and then the total excess as an `unsigned int`. -/
theorem WIN_GL_ChoosePixelFormat_dist_iff (pfd target : PIXELFORMATDESCRIPTOR) (d : Nat) :
    WIN_GL_ChoosePixelFormat_dist pfd target = some d
      ↔ pfd.qualifies target = true ∧ d = pfd.excess target % 2 ^ 32 := by
  constructor
  · intro h
    unfold WIN_GL_ChoosePixelFormat_dist at h
    split at h
    · simp at h
    · rename_i hflags
      split at h
      · simp at h
      · rename_i hlayer
        split at h
        · simp at h
        · rename_i htype
          obtain ⟨d11, h11, l12, e12⟩ := WIN_GL_ChoosePixelFormat_add_some _ _ _ _ h
          obtain ⟨d10, h10, l11, e11⟩ := WIN_GL_ChoosePixelFormat_add_some _ _ _ _ h11
          obtain ⟨d9, h9, l10, e10⟩ := WIN_GL_ChoosePixelFormat_add_some _ _ _ _ h10
          obtain ⟨d8, h8, l9, e9⟩ := WIN_GL_ChoosePixelFormat_add_some _ _ _ _ h9
          obtain ⟨d7, h7, l8, e8⟩ := WIN_GL_ChoosePixelFormat_add_some _ _ _ _ h8
          obtain ⟨d6, h6, l7, e7⟩ := WIN_GL_ChoosePixelFormat_add_some _ _ _ _ h7
          obtain ⟨d5, h5, l6, e6⟩ := WIN_GL_ChoosePixelFormat_add_some _ _ _ _ h6
          obtain ⟨d4, h4, l5, e5⟩ := WIN_GL_ChoosePixelFormat_add_some _ _ _ _ h5
          obtain ⟨d3, h3, l4, e4⟩ := WIN_GL_ChoosePixelFormat_add_some _ _ _ _ h4
          obtain ⟨d2, h2, l3, e3⟩ := WIN_GL_ChoosePixelFormat_add_some _ _ _ _ h3
          obtain ⟨d1, h1, l2, e2⟩ := WIN_GL_ChoosePixelFormat_add_some _ _ _ _ h2
          obtain ⟨d0, h0, l1, e1⟩ := WIN_GL_ChoosePixelFormat_add_some _ _ _ _ h1
          simp only [Option.some.injEq] at h0
          subst h0
          simp only [ne_eq, not_not] at hflags hlayer htype
          refine ⟨?_, ?_⟩
          · simp [PIXELFORMATDESCRIPTOR.qualifies, hflags, hlayer, htype, l1, l2, l3, l4, l5,
              l6, l7, l8, l9, l10, l11, l12]
          · unfold PIXELFORMATDESCRIPTOR.excess
            omega
  · rintro ⟨hq, hd⟩
    simp only [PIXELFORMATDESCRIPTOR.qualifies, Bool.and_eq_true, decide_eq_true_eq] at hq
    obtain ⟨⟨⟨⟨⟨⟨⟨⟨⟨⟨⟨⟨⟨⟨hflags, hlayer⟩, htype⟩, l1⟩, l2⟩, l3⟩, l4⟩, l5⟩, l6⟩, l7⟩, l8⟩, l9⟩,
      l10⟩, l11⟩, l12⟩ := hq
    unfold WIN_GL_ChoosePixelFormat_dist
    rw [if_neg (by simp [hflags]), if_neg (by simp [hlayer]), if_neg (by simp [htype]),
      WIN_GL_ChoosePixelFormat_add_of_le _ _ _ l1, WIN_GL_ChoosePixelFormat_add_of_le _ _ _ l2,
      WIN_GL_ChoosePixelFormat_add_of_le _ _ _ l3, WIN_GL_ChoosePixelFormat_add_of_le _ _ _ l4,
      WIN_GL_ChoosePixelFormat_add_of_le _ _ _ l5, WIN_GL_ChoosePixelFormat_add_of_le _ _ _ l6,
      WIN_GL_ChoosePixelFormat_add_of_le _ _ _ l7, WIN_GL_ChoosePixelFormat_add_of_le _ _ _ l8,
      WIN_GL_ChoosePixelFormat_add_of_le _ _ _ l9, WIN_GL_ChoosePixelFormat_add_of_le _ _ _ l10,
      WIN_GL_ChoosePixelFormat_add_of_le _ _ _ l11, WIN_GL_ChoosePixelFormat_add_of_le _ _ _ l12]
    rw [hd]
    unfold PIXELFORMATDESCRIPTOR.excess
    congr 1
    omega

/-- The variable `best` of `WIN_GL_ChoosePixelFormat` is what the function is
meant to yield: `0` exactly when no described format qualifies, and otherwise
the index of the first format among those that qualify with the least total
excess.  The excess of a qualifying format is taken to be below `2^32 - 1`, as
it is for `BYTE` fields. -/
theorem WIN_GL_ChoosePixelFormat_best_spec (formats : List (Option PIXELFORMATDESCRIPTOR))
    (target : PIXELFORMATDESCRIPTOR)
    (hsmall : ∀ pfd, some pfd ∈ formats → pfd.qualifies target = true →
      pfd.excess target < 2 ^ 32 - 1) :
    (WIN_GL_ChoosePixelFormat_best formats target = 0
      ↔ ∀ pfd, some pfd ∈ formats → pfd.qualifies target = false) ∧
    (WIN_GL_ChoosePixelFormat_best formats target ≠ 0 →
      ∃ pfd, formats.get? (WIN_GL_ChoosePixelFormat_best formats target - 1) = some (some pfd) ∧
        pfd.qualifies target = true ∧
        ∀ j pfd', formats.get? j = some (some pfd') → pfd'.qualifies target = true →
          pfd.excess target ≤ pfd'.excess target ∧
          (j < WIN_GL_ChoosePixelFormat_best formats target - 1 →
            pfd.excess target < pfd'.excess target)) := by
  have hdist : ∀ pfd, some pfd ∈ formats → pfd.qualifies target = true →
      WIN_GL_ChoosePixelFormat_dist pfd target = some (pfd.excess target) := by
    intro pfd hm hq
    rw [WIN_GL_ChoosePixelFormat_dist_iff]
    refine ⟨hq, ?_⟩
    have := hsmall pfd hm hq
    rw [Nat.mod_eq_of_lt (by omega)]
  unfold WIN_GL_ChoosePixelFormat_best
  rcases WIN_GL_ChoosePixelFormat_loop_spec target formats 1 0 (2 ^ 32 - 1) with
    ⟨hr, hall⟩ | ⟨k, pfd, d, hr, hk, hd, hlt, hmin⟩
  · have hnone : ∀ pfd, some pfd ∈ formats → pfd.qualifies target = false := by
      intro pfd hm
      cases hq : pfd.qualifies target
      · rfl
      · exfalso
        obtain ⟨j, hj⟩ := List.mem_iff_get?.1 hm
        have := hall j pfd _ hj (hdist pfd hm hq)
        have := hsmall pfd hm hq
        omega
    rw [hr]
    exact ⟨⟨fun _ => hnone, fun _ => rfl⟩, fun h => absurd rfl h⟩
  · have hm : some pfd ∈ formats := List.get?_mem hk
    have hq := ((WIN_GL_ChoosePixelFormat_dist_iff pfd target d).1 hd).1
    have hde : d = pfd.excess target := by
      have h1 := hdist pfd hm hq
      rw [hd] at h1
      exact Option.some.inj h1
    rw [hr]
    refine ⟨⟨fun h0 => absurd h0 (by omega), fun hnone => ?_⟩, fun _ => ⟨pfd, ?_, hq, ?_⟩⟩
    · rw [hnone pfd hm] at hq
      exact absurd hq (by simp)
    · rw [show 1 + k - 1 = k by omega]
      exact hk
    · intro j pfd' hj hq'
      have hm' : some pfd' ∈ formats := List.get?_mem hj
      obtain ⟨h1, h2⟩ := hmin j pfd' _ hj (hdist pfd' hm' hq')
      rw [show 1 + k - 1 = k by omega, ← hde]
      exact ⟨h1, h2⟩

/-- What the caller gets from `WIN_GL_ChoosePixelFormat`: `1` when some format
qualifies, whatever its index. -/
theorem WIN_GL_SetupWindowInternal_pixel_format_one
    (formats : List (Option PIXELFORMATDESCRIPTOR)) (target : PIXELFORMATDESCRIPTOR)
    (accelerated : Int)
    (h : WIN_GL_ChoosePixelFormat_best formats target ≠ 0) :
    WIN_GL_SetupWindowInternal_pixel_format 0 0 accelerated formats target = .ok 1 := by
  unfold WIN_GL_SetupWindowInternal_pixel_format WIN_GL_ChoosePixelFormat
  simp [h]

/-! ## The trimming loop of `SDL_SYS_EnumerateDirectory` -/

theorem List.get?_append_cons_length {α : Type} (l : List α) (a : α) (tail : List α) :
    (l ++ a :: tail).get? l.length = some a := by
  induction l with
  | nil => rfl
  | cons x l ih => simpa using ih

theorem List.set_append_cons_length {α : Type} (l : List α) (a b : α) (tail : List α) :
    (l ++ a :: tail).set l.length b = l ++ b :: tail := by
  induction l with
  | nil => rfl
  | cons x l ih => simp [ih]

/-- The trimming loop on a buffer that holds `pre`, then `k` separators, then
`tail`, for `pre` empty or ending in another character: the separators are
overwritten and `pathwithseplen` ends as the index of the last character of
`pre`, `-1` for an empty `pre`. -/
theorem SDL_SYS_EnumerateDirectory_trim_spec (pre : List Char)
    (hpre : ∀ c, pre.getLast? = some c → c ≠ '/') :
    ∀ (k : Nat) (tail : List Char),
      SDL_SYS_EnumerateDirectory_trim (pre ++ List.replicate k '/' ++ tail) (pre.length + k)
        = (pre ++ List.replicate k NUL ++ tail, (pre.length : Int) - 1)
  | 0, tail => by
    simp only [List.replicate_zero, List.append_nil, Nat.add_zero]
    rcases List.eq_nil_or_concat pre with hnil | ⟨q, c, hq⟩
    · subst hnil
      rfl
    · rw [List.concat_eq_append] at hq
      subst hq
      have hc : c ≠ '/' := hpre c (by simp)
      have hlen : (q ++ [c]).length = q.length + 1 := by simp
      rw [hlen, SDL_SYS_EnumerateDirectory_trim]
      have hget : (q ++ [c] ++ tail).get? q.length = some c := by
        rw [List.append_assoc]
        exact List.get?_append_cons_length q c tail
      rw [hget, if_neg (by simpa using hc)]
      simp
  | k + 1, tail => by
    have hshape : pre ++ List.replicate (k + 1) '/' ++ tail
        = (pre ++ List.replicate k '/') ++ '/' :: tail := by
      rw [List.replicate_succ']
      simp
    have hlen : (pre ++ List.replicate k '/').length = pre.length + k := by simp
    rw [show pre.length + (k + 1) = (pre.length + k) + 1 from rfl,
      SDL_SYS_EnumerateDirectory_trim, hshape]
    have hget := List.get?_append_cons_length (pre ++ List.replicate k '/') '/' tail
    rw [hlen] at hget
    rw [hget, if_pos rfl]
    have hset := List.set_append_cons_length (pre ++ List.replicate k '/') '/' NUL tail
    rw [hlen] at hset
    rw [hset, SDL_SYS_EnumerateDirectory_trim_spec pre hpre k (NUL :: tail)]
    congr 1
    rw [List.replicate_succ']
    simp

theorem cstring_append_NUL (s tail : List Char) (hs : ∀ c ∈ s, c ≠ NUL) :
    cstring (s ++ NUL :: tail) = s := by
  unfold cstring
  induction s with
  | nil => simp [List.takeWhile]
  | cons x s ih =>
    have hx : x ≠ NUL := hs x (List.mem_cons_self _ _)
    simp only [List.cons_append, List.takeWhile_cons, hx, ne_eq, not_false_eq_true,
      decide_True, if_true]
    rw [ih (fun c hc => hs c (List.mem_cons_of_mem _ hc))]

/-- For a path of separators only, the root directory among them, the name
given to `opendir` is empty. -/
theorem SDL_SYS_EnumerateDirectory_separators_only
    (opendir : List Char → Option (List (List Char)))
    (cb : List Char → List Char → SDL_EnumerationResult) (n : Nat) :
    (SDL_SYS_EnumerateDirectory true opendir cb (List.replicate (n + 1) '/')).opened
      = some [] := by
  have ht := SDL_SYS_EnumerateDirectory_trim_spec [] (by simp) (n + 2) [NUL]
  have hbuf : List.replicate (n + 1) '/' ++ ['/', NUL]
      = [] ++ List.replicate (n + 2) '/' ++ [NUL] := by
    rw [List.replicate_succ' (n + 1)]
    simp
  have hc : cstring ([] ++ List.replicate (n + 2) NUL ++ [NUL]) = [] := by
    rw [List.replicate_succ]
    exact cstring_append_NUL [] _ (by simp)
  unfold SDL_SYS_EnumerateDirectory
  simp only [Bool.true_eq_false, if_false, List.length_replicate]
  rw [hbuf]
  have ht' : SDL_SYS_EnumerateDirectory_trim ([] ++ List.replicate (n + 2) '/' ++ [NUL])
      (n + 1 + 1) = ([] ++ List.replicate (n + 2) NUL ++ [NUL], -1) := by
    have := ht
    simpa using this
  rw [ht']
  simp only
  rw [hc]
  cases opendir [] <;> rfl

/-- For a path with a last character other than the separator in front of any
number of separators, the name given to `opendir` is the path without those
separators, and the callback gets that name with one separator behind it. -/
theorem SDL_SYS_EnumerateDirectory_trims_separators
    (opendir : List Char → Option (List (List Char)))
    (cb : List Char → List Char → SDL_EnumerationResult) (pre : List Char) (m : Nat)
    (hne : pre ≠ []) (hpre : ∀ c, pre.getLast? = some c → c ≠ '/')
    (hnul : ∀ c ∈ pre, c ≠ NUL) :
    (SDL_SYS_EnumerateDirectory true opendir cb (pre ++ List.replicate m '/')).opened
      = some pre ∧
    ∀ entries, opendir pre = some entries →
      (SDL_SYS_EnumerateDirectory true opendir cb (pre ++ List.replicate m '/')).calls
        = (SDL_SYS_EnumerateDirectory_entries cb (pre ++ ['/']) entries).2 := by
  have ht := SDL_SYS_EnumerateDirectory_trim_spec pre hpre (m + 1) [NUL]
  have hbuf : pre ++ List.replicate m '/' ++ ['/', NUL]
      = pre ++ List.replicate (m + 1) '/' ++ [NUL] := by
    rw [List.replicate_succ']
    simp
  have hshape : pre ++ List.replicate (m + 1) NUL ++ [NUL]
      = pre ++ NUL :: NUL :: List.replicate m NUL := by
    rw [List.append_assoc, ← List.replicate_succ', List.replicate_succ, List.replicate_succ]
  have hlen : (pre ++ List.replicate m '/').length + 1 = pre.length + (m + 1) := by
    simp
    omega
  have hc1 : cstring (pre ++ NUL :: NUL :: List.replicate m NUL) = pre :=
    cstring_append_NUL pre _ hnul
  have hpos : 0 < pre.length := List.length_pos.2 hne
  have hi1 : ((pre.length : Int) - 1 + 1).toNat = pre.length := by omega
  have hi2 : ((pre.length : Int) - 1 + 2).toNat = (pre ++ ['/']).length := by
    simp
    omega
  have hset1 : (pre ++ NUL :: NUL :: List.replicate m NUL).set pre.length '/'
      = (pre ++ ['/']) ++ NUL :: List.replicate m NUL := by
    rw [List.set_append_cons_length]
    simp
  have hset2 : ((pre ++ ['/']) ++ NUL :: List.replicate m NUL).set (pre ++ ['/']).length NUL
      = (pre ++ ['/']) ++ NUL :: List.replicate m NUL :=
    List.set_append_cons_length _ _ _ _
  have hc2 : cstring ((pre ++ ['/']) ++ NUL :: List.replicate m NUL) = pre ++ ['/'] := by
    refine cstring_append_NUL _ _ ?_
    intro c hc
    rcases List.mem_append.1 hc with h | h
    · exact hnul c h
    · rw [List.mem_singleton.1 h]
      decide
  unfold SDL_SYS_EnumerateDirectory
  simp only [Bool.true_eq_false, if_false]
  rw [hbuf, hlen, ht, hshape]
  simp only
  rw [hc1]
  cases hop : opendir pre with
  | none => exact ⟨rfl, fun entries he => absurd he (by simp)⟩
  | some es =>
    refine ⟨rfl, fun entries he => ?_⟩
    simp only [Option.some.injEq] at he
    subst he
    simp only
    rw [hi1, hi2, hset1, hset2, hc2]

/-! ## `HasExtension` returns -/

theorem startsWith_length : ∀ (s needle : List Char), startsWith s needle = true →
    needle.length ≤ s.length
  | _, [], _ => by simp
  | [], _ :: _, h => by simp [startsWith] at h
  | c :: s, d :: needle, h => by
    simp only [startsWith, Bool.and_eq_true, decide_eq_true_eq] at h
    have := startsWith_length s needle h.2
    simp only [List.length_cons]
    omega

theorem SDL_strstr_bound : ∀ (haystack needle : List Char) (offset : Nat),
    SDL_strstr haystack needle = some offset → offset + needle.length ≤ haystack.length
  | [], needle, offset, h => by
    unfold SDL_strstr at h
    split at h
    · rename_i hn
      simp only [Option.some.injEq] at h
      rw [hn, ← h]
      simp
    · simp at h
  | c :: haystack, needle, offset, h => by
    unfold SDL_strstr at h
    split at h
    · rename_i hs
      simp only [Option.some.injEq] at h
      rw [← h]
      simpa using startsWith_length _ _ hs
    · simp only [Option.map_eq_some'] at h
      obtain ⟨k, hk, hko⟩ := h
      have := SDL_strstr_bound haystack needle k hk
      simp only [List.length_cons]
      omega

/-- The passes allowed to the loop of `HasExtension` are enough: for a
non-empty extension it returns whenever more passes are left than characters
behind `start`. -/
theorem HasExtension_loop_returns (extension extensions : List Char)
    (hne : extension ≠ []) :
    ∀ (fuel start : Nat), start ≤ extensions.length → extensions.length - start < fuel →
      (HasExtension_loop extension extensions fuel start).isSome = true
  | 0, _, _, h => by omega
  | fuel + 1, start, hs, hf => by
    unfold HasExtension_loop
    cases hstr : SDL_strstr (extensions.drop start) extension with
    | none => rfl
    | some offset =>
      simp only
      split
      · rfl
      · have hb := SDL_strstr_bound _ _ _ hstr
        rw [List.length_drop] at hb
        have hl : 0 < extension.length := List.length_pos.2 hne
        exact HasExtension_loop_returns extension extensions hne fuel _ (by omega) (by omega)

theorem HasExtension_returns (extension : List Char) (extensions : Option (List Char)) :
    (HasExtension extension extensions).isSome = true := by
  unfold HasExtension
  split
  · rfl
  · rename_i h
    simp only [not_or] at h
    cases extensions with
    | none => rfl
    | some exts =>
      exact HasExtension_loop_returns extension exts h.2 _ 0 (Nat.zero_le _) (by omega)

/-! ## A renderer that exists compiles no shader -/

/-! ## Steps that compile nothing -/

theorem GLES2_RenderData.NoCompile.nc_refl (data : GLES2_RenderData) : data.NoCompile data :=
  ⟨rfl, fun _ => rfl, [], by simp, by simp⟩

theorem GLES2_RenderData.NoCompile.nc_trans {a b c : GLES2_RenderData}
    (h1 : a.NoCompile b) (h2 : b.NoCompile c) : a.NoCompile c := by
  obtain ⟨hd1, ht1, l1, hl1, hp1⟩ := h1
  obtain ⟨hd2, ht2, l2, hl2, hp2⟩ := h2
  refine ⟨hd2.trans hd1, fun q => (ht2 q).trans (ht1 q), l1 ++ l2,
    by rw [hl2, hl1, List.append_assoc], ?_⟩
  intro x hx
  rcases List.mem_append.mp hx with h | h
  · exact hp1 x h
  · exact hp2 x h

/-- A step that keeps the state of the shaders and the formats of the
textures, and appends the calls `cs`. -/
theorem GLES2_RenderData.NoCompile.nc_of_log {a b : GLES2_RenderData}
    (cs : List GLCall) (hd : b.shaderState = a.shaderState)
    (ht : ∀ q, (b.textures q).map SDL_Texture.format = (a.textures q).map SDL_Texture.format)
    (hl : b.gl.log = a.gl.log ++ cs) (hp : ∀ c ∈ cs, c.isCompile = false) : a.NoCompile b :=
  ⟨hd, ht, cs, hl, hp⟩

theorem GLES2_RenderData.NoCompile.nc_of_same {a b : GLES2_RenderData}
    (hd : b.shaderState = a.shaderState)
    (ht : ∀ q, (b.textures q).map SDL_Texture.format = (a.textures q).map SDL_Texture.format)
    (hl : b.gl.log = a.gl.log) : a.NoCompile b :=
  ⟨hd, ht, [], by simp [hl], by simp⟩

theorem GLES2_CacheProgram_hit_nocompile (data data' : GLES2_RenderData)
    (entry : Nat) (h : GLES2_CacheProgram_hit data entry = some data') : data.NoCompile data' := by
  unfold GLES2_CacheProgram_hit at h
  split at h
  · simp only [Option.some.injEq] at h
    subst h
    exact GLES2_RenderData.NoCompile.nc_refl data
  · simp only [Option.bind_eq_bind, Option.bind_eq_some] at h
    obtain ⟨_, _, _, _, _, _, _, _, _, _, _, _, h⟩ := h
    simp only [Option.some.injEq] at h
    subst h
    exact GLES2_RenderData.NoCompile.nc_of_same rfl (fun _ => rfl) rfl

theorem GLES2_CacheProgram_evict_nocompile (data data' : GLES2_RenderData)
    (h : GLES2_CacheProgram_evict data = some data') : data.NoCompile data' := by
  unfold GLES2_CacheProgram_evict at h
  split at h
  · simp only [Option.bind_eq_bind, Option.bind_eq_some] at h
    obtain ⟨t, _, _, _, h⟩ := h
    simp only [Option.some.injEq] at h
    subst h
    exact GLES2_RenderData.NoCompile.nc_of_log [GLCall.deleteProgram t.id] rfl (fun _ => rfl) rfl
      (by intro c hc; rw [List.mem_singleton.mp hc]; rfl)
  · simp only [Option.some.injEq] at h
    subst h
    exact GLES2_RenderData.NoCompile.nc_refl data

theorem isCompile_getUniformLocation (id : Nat) (us : List Nat) :
    ∀ c ∈ us.map (GLCall.getUniformLocation id), c.isCompile = false := by
  intro c hc
  obtain ⟨u, _, rfl⟩ := List.mem_map.mp hc
  rfl

theorem isCompile_defaults (id : Nat) (locs : List Int) (m : List GLfloat) :
    ∀ c ∈ GLES2_CacheProgram_defaults id locs m, c.isCompile = false := by
  intro c hc
  unfold GLES2_CacheProgram_defaults at hc
  simp only [List.mem_append, List.mem_singleton] at hc
  rcases hc with (((hc | hc) | hc) | hc) | hc
  · rw [hc]; rfl
  all_goals
    split at hc
    · rw [List.mem_singleton.mp hc]; rfl
    · simp at hc

theorem isCompile_build (id vertex fragment : Nat) :
    ∀ c ∈ GLES2_CacheProgram_build id vertex fragment, c.isCompile = false := by
  intro c hc
  simp only [GLES2_CacheProgram_build, List.mem_cons, List.mem_singleton, List.not_mem_nil,
    or_false] at hc
  rcases hc with h | h | h | h | h | h | h | h <;> rw [h] <;> rfl

theorem GLES2_CacheProgram_insert_nocompile (env : Env) (data data' : GLES2_RenderData)
    (entry n : Nat) (h : GLES2_CacheProgram_insert env data entry n = some data') :
    data.NoCompile data' := by
  unfold GLES2_CacheProgram_insert at h
  simp only [Option.bind_eq_some] at h
  obtain ⟨e, _, h3, _, h⟩ := h
  simp only [Option.some.injEq] at h
  subst h
  refine GLES2_RenderData.NoCompile.nc_of_log _ rfl (fun _ => rfl) rfl ?_
  intro c hc
  rcases List.mem_append.mp hc with hc | hc
  · exact isCompile_getUniformLocation _ _ c hc
  · exact isCompile_defaults _ _ _ c hc

theorem GLES2_CacheProgram_create_nocompile (env : Env) (data : GLES2_RenderData)
    (vertex fragment : Nat) : data.NoCompile (GLES2_CacheProgram_create env data vertex fragment) :=
  GLES2_RenderData.NoCompile.nc_of_log _ rfl (fun _ => rfl) rfl (isCompile_build _ _ _)

theorem GLES2_CacheProgram_miss_nocompile (env : Env) (data data' : GLES2_RenderData)
    (vertex fragment r : Nat)
    (h : GLES2_CacheProgram_miss env data vertex fragment = some (r, data')) :
    data.NoCompile data' := by
  unfold GLES2_CacheProgram_miss at h
  split at h
  · simp only [Option.some.injEq, Prod.mk.injEq] at h
    rw [← h.2]
    exact GLES2_RenderData.NoCompile.nc_of_same rfl (fun _ => rfl) rfl
  · simp only at h
    split at h
    · simp only [Option.bind_eq_some] at h
      obtain ⟨hp, _, h⟩ := h
      simp only [Option.some.injEq, Prod.mk.injEq] at h
      rw [← h.2]
      refine (GLES2_CacheProgram_create_nocompile env data vertex fragment).nc_trans ?_
      exact GLES2_RenderData.NoCompile.nc_of_log [GLCall.deleteProgram _] rfl (fun _ => rfl) rfl
        (by intro c hc; rw [List.mem_singleton.mp hc]; rfl)
    · simp only [Option.bind_eq_some] at h
      obtain ⟨d3, h3, d4, h4, h⟩ := h
      simp only [Option.some.injEq, Prod.mk.injEq] at h
      rw [← h.2]
      exact ((GLES2_CacheProgram_create_nocompile env data vertex fragment).nc_trans
        (GLES2_CacheProgram_insert_nocompile env _ _ _ _ h3)).nc_trans
        (GLES2_CacheProgram_evict_nocompile _ _ h4)

theorem GLES2_CacheProgram_nocompile (env : Env) (data data' : GLES2_RenderData)
    (vertex fragment r : Nat)
    (h : GLES2_CacheProgram env data vertex fragment = some (r, data')) :
    data.NoCompile data' := by
  unfold GLES2_CacheProgram at h
  simp only [Option.bind_eq_some] at h
  obtain ⟨entry, _, h⟩ := h
  split at h
  · simp only [Option.bind_eq_some, Option.some.injEq, Prod.mk.injEq] at h
    obtain ⟨d1, hd1, _, h⟩ := h
    rw [← h]
    exact GLES2_CacheProgram_hit_nocompile _ _ _ hd1
  · exact GLES2_CacheProgram_miss_nocompile env _ _ _ _ _ h

theorem GLES2_SelectProgram_fault_nocompile (data data' : GLES2_RenderData) (r : Bool)
    (h : GLES2_SelectProgram_fault data = some (r, data')) : data.NoCompile data' := by
  simp only [GLES2_SelectProgram_fault, Option.some.injEq, Prod.mk.injEq] at h
  rw [← h.2]
  exact GLES2_RenderData.NoCompile.nc_of_same rfl (fun _ => rfl) rfl

theorem GLES2_SelectProgram_params_nocompile (data : GLES2_RenderData) (program : Nat)
    (p : GLES2_ProgramCacheEntry) (ftype : GLES2_ShaderType) (shader_params : ShaderParams) :
    data.NoCompile (GLES2_SelectProgram_params data program p ftype shader_params) := by
  unfold GLES2_SelectProgram_params
  split
  · refine GLES2_RenderData.NoCompile.nc_of_log _ rfl (fun _ => rfl) rfl ?_
    intro c hc
    simp only at hc
    split at hc
    · simp only [List.mem_append] at hc
      rcases hc with hc | hc <;>
      · split at hc
        · rw [List.mem_singleton.mp hc]; rfl
        · simp at hc
    · split at hc
      · rw [List.mem_singleton.mp hc]; rfl
      · simp at hc
  · exact GLES2_RenderData.NoCompile.nc_refl data

theorem GLES2_SelectProgram_use_nocompile (env : Env) (data data' : GLES2_RenderData)
    (vertex fragment : Nat) (ftype : GLES2_ShaderType) (shader_params : ShaderParams) (r : Bool)
    (h : GLES2_SelectProgram_use env data vertex fragment ftype shader_params = some (r, data')) :
    data.NoCompile data' := by
  unfold GLES2_SelectProgram_use at h
  simp only [Option.bind_eq_some] at h
  obtain ⟨⟨program, d3⟩, hcp, h⟩ := h
  have h3 := GLES2_CacheProgram_nocompile env _ _ _ _ _ hcp
  split at h
  · exact h3.nc_trans (GLES2_SelectProgram_fault_nocompile _ _ _ h)
  · simp only [Option.bind_eq_some, Option.some.injEq, Prod.mk.injEq] at h
    obtain ⟨p, _, _, h⟩ := h
    rw [← h]
    refine h3.nc_trans ?_
    have h4 : d3.NoCompile (d3.call [GLCall.useProgram p.id]) :=
      GLES2_RenderData.NoCompile.nc_of_log _ rfl (fun _ => rfl) rfl
        (by intro c hc; rw [List.mem_singleton.mp hc]; rfl)
    have h5 := GLES2_SelectProgram_params_nocompile (d3.call [GLCall.useProgram p.id]) program p
      ftype shader_params
    exact (h4.nc_trans h5).nc_trans (GLES2_RenderData.NoCompile.nc_of_same rfl (fun _ => rfl) rfl)

theorem SetDrawState_viewport_nocompile (env : Env) (data : GLES2_RenderData) :
    data.NoCompile (SetDrawState_viewport env data) := by
  unfold SetDrawState_viewport
  split
  · exact GLES2_RenderData.NoCompile.nc_of_log _ rfl (fun _ => rfl) rfl
      (by intro c hc; rw [List.mem_singleton.mp hc]; rfl)
  · exact GLES2_RenderData.NoCompile.nc_refl data

theorem GLES2_RenderData.NoCompile.nc_call_ds (data : GLES2_RenderData) (cs : List GLCall)
    (ds : GLES2_DrawStateCache) (h : ∀ c ∈ cs, c.isCompile = false) :
    data.NoCompile { data.call cs with drawstate := ds } :=
  GLES2_RenderData.NoCompile.nc_of_log cs rfl (fun _ => rfl) rfl h

theorem SetDrawState_cliprect_nocompile (data : GLES2_RenderData) :
    data.NoCompile (SetDrawState_cliprect data) := by
  have h1 : data.NoCompile
      (if data.drawstate.cliprect_enabled_dirty then
        { data.call [if data.drawstate.cliprect_enabled = false
                     then GLCall.disable GLCap.SCISSOR_TEST
                     else GLCall.enable GLCap.SCISSOR_TEST] with
          drawstate := { data.drawstate with cliprect_enabled_dirty := false } }
      else data) := by
    split
    · refine GLES2_RenderData.NoCompile.nc_call_ds _ _ _ ?_
      intro c hc
      rw [List.mem_singleton.mp hc]
      split <;> rfl
    · exact GLES2_RenderData.NoCompile.nc_refl data
  have key : ∀ d1 : GLES2_RenderData, d1.NoCompile
      (if d1.drawstate.cliprect_enabled ∧ d1.drawstate.cliprect_dirty then
        { d1.call
            [GLCall.scissor (int_wrap (d1.drawstate.viewport.x + d1.drawstate.cliprect.x))
               (if d1.drawstate.target ≠ 0 then
                  int_wrap (d1.drawstate.viewport.y + d1.drawstate.cliprect.y)
                else int_wrap (d1.drawstate.drawableh - d1.drawstate.viewport.y
                  - d1.drawstate.cliprect.y - d1.drawstate.cliprect.h))
               d1.drawstate.cliprect.w d1.drawstate.cliprect.h] with
          drawstate := { d1.drawstate with cliprect_dirty := false } }
      else d1) := by
    intro d1
    split
    · exact GLES2_RenderData.NoCompile.nc_call_ds _ _ _
        (by intro c hc; rw [List.mem_singleton.mp hc]; rfl)
    · exact GLES2_RenderData.NoCompile.nc_refl d1
  exact h1.nc_trans (key _)

theorem SetDrawState_texturing_nocompile (data : GLES2_RenderData) (texture : Nat) :
    data.NoCompile (SetDrawState_texturing data texture) := by
  unfold SetDrawState_texturing
  split
  · split
    · exact GLES2_RenderData.NoCompile.nc_of_log _ rfl (fun _ => rfl) rfl
        (by intro c hc; rw [List.mem_singleton.mp hc]; rfl)
    · exact GLES2_RenderData.NoCompile.nc_of_log _ rfl (fun _ => rfl) rfl
        (by intro c hc; rw [List.mem_singleton.mp hc]; rfl)
  · exact GLES2_RenderData.NoCompile.nc_refl data

theorem SetDrawState_projection_nocompile (data data' : GLES2_RenderData)
    (h : SetDrawState_projection data = some data') : data.NoCompile data' := by
  unfold SetDrawState_projection at h
  split at h
  · exact absurd h (by simp)
  · split at h
    · simp only [Option.some.injEq] at h
      rw [← h]
      exact GLES2_RenderData.NoCompile.nc_of_log _ rfl (fun _ => rfl) rfl
        (by intro c hc; rw [List.mem_singleton.mp hc]; rfl)
    · simp only [Option.some.injEq] at h
      rw [← h]
      exact GLES2_RenderData.NoCompile.nc_refl data

theorem SetDrawState_blend_nocompile (env : Env) (data : GLES2_RenderData) (blend : SDL_BlendMode) :
    data.NoCompile (SetDrawState_blend env data blend) := by
  unfold SetDrawState_blend
  split
  · refine GLES2_RenderData.NoCompile.nc_of_log _ rfl (fun _ => rfl) rfl ?_
    intro c hc
    split at hc
    · rw [List.mem_singleton.mp hc]; rfl
    · simp only [List.mem_cons, List.mem_singleton, List.not_mem_nil, or_false] at hc
      rcases hc with h | h | h <;> rw [h] <;> rfl
  · exact GLES2_RenderData.NoCompile.nc_refl data

theorem SetTextureScaleMode_nocompile (data : GLES2_RenderData) (textype : Nat)
    (mode : SDL_ScaleMode) : data.NoCompile (SetTextureScaleMode data textype mode).2 := by
  unfold SetTextureScaleMode
  cases mode
  · exact GLES2_RenderData.NoCompile.nc_of_same rfl (fun _ => rfl) rfl
  all_goals
    refine GLES2_RenderData.NoCompile.nc_of_log _ rfl (fun _ => rfl) rfl ?_
    intro c hc
    simp only [List.mem_cons, List.mem_singleton, List.not_mem_nil, or_false] at hc
    rcases hc with h | h <;> rw [h] <;> rfl

theorem GLES2_RenderData.NoCompile.nc_call_one (data : GLES2_RenderData) (c : GLCall)
    (hc : c.isCompile = false) : data.NoCompile (data.call [c]) :=
  GLES2_RenderData.NoCompile.nc_of_log _ rfl (fun _ => rfl) rfl
    (by intro x hx; rw [List.mem_singleton.mp hx]; exact hc)

theorem SetCopyState_scaleUnits_nocompile (textype : Nat) (mode : SDL_ScaleMode) :
    ∀ (us : List Nat) (data : GLES2_RenderData),
      data.NoCompile (SetCopyState_scaleUnits textype mode data us).2
  | [], data => GLES2_RenderData.NoCompile.nc_refl data
  | u :: us, data => by
    have h1 := (GLES2_RenderData.NoCompile.nc_call_one data (GLCall.activeTexture u) rfl).nc_trans
      (SetTextureScaleMode_nocompile (data.call [GLCall.activeTexture u]) textype mode)
    unfold SetCopyState_scaleUnits
    split
    · exact h1
    · exact h1.nc_trans (SetCopyState_scaleUnits_nocompile textype mode us _)

theorem GLES2_RenderData.NoCompile.nc_setTexture {a : GLES2_RenderData} (b : GLES2_RenderData)
    (texture : Nat) (t t' : SDL_Texture) (hab : a.NoCompile b)
    (ht : a.texture? texture = some t) (hf : t'.format = t.format) :
    a.NoCompile (b.setTexture texture t') := by
  obtain ⟨hd, htx, l, hl, hp⟩ := hab
  refine ⟨hd, ?_, l, hl, hp⟩
  intro q
  have ht0 : texture ≠ 0 := by
    intro h0
    simp [GLES2_RenderData.texture?, h0] at ht
  have htc : a.textures texture = some t := by
    simpa [GLES2_RenderData.texture?, ht0] using ht
  by_cases hq : q = texture
  · subst hq
    simp [GLES2_RenderData.setTexture, htc, hf]
  · simp only [GLES2_RenderData.setTexture, if_neg hq]
    exact htx q

theorem SetCopyState_scale_nocompile (data : GLES2_RenderData) (texture : Nat) (t : SDL_Texture)
    (mode : SDL_ScaleMode) (ht : data.texture? texture = some t) :
    data.NoCompile (SetCopyState_scale data texture t mode).2 := by
  unfold SetCopyState_scale
  by_cases hm : mode ≠ t.texture_scale_mode
  · rw [if_pos hm]
    dsimp only
    have h1 := SetCopyState_scaleUnits_nocompile t.texture_type mode (SetCopyState_units t) data
    by_cases h1f : (SetCopyState_scaleUnits t.texture_type mode data (SetCopyState_units t)).1
        = false
    · rw [if_pos h1f]
      exact h1
    · rw [if_neg h1f]
      obtain ⟨d2, hd2⟩ : ∃ d2, d2 = (if SetCopyState_units t = [] then
             (SetCopyState_scaleUnits t.texture_type mode data (SetCopyState_units t)).2
           else (SetCopyState_scaleUnits t.texture_type mode data (SetCopyState_units t)).2.call
                  [GLCall.activeTexture 0]) := ⟨_, rfl⟩
      rw [← hd2]
      have h2 : (SetCopyState_scaleUnits t.texture_type mode data
          (SetCopyState_units t)).2.NoCompile d2 := by
        rw [hd2]
        split
        · exact GLES2_RenderData.NoCompile.nc_refl _
        · exact GLES2_RenderData.NoCompile.nc_call_one _ _ rfl
      have h3 := (h1.nc_trans h2).nc_trans (SetTextureScaleMode_nocompile d2 t.texture_type mode)
      split
      · exact h3
      · exact GLES2_RenderData.NoCompile.nc_setTexture _ texture t _ h3 ht rfl
  · rw [if_neg hm]
    exact GLES2_RenderData.NoCompile.nc_refl data

theorem SetTextureAddressMode_nocompile (data : GLES2_RenderData) (textype : Nat)
    (u v : SDL_TextureAddressMode) : data.NoCompile (SetTextureAddressMode data textype u v) := by
  refine GLES2_RenderData.NoCompile.nc_of_log _ rfl (fun _ => rfl) rfl ?_
  intro c hc
  simp only [List.mem_cons, List.mem_singleton, List.not_mem_nil, or_false] at hc
  rcases hc with h | h <;> rw [h] <;> split <;> rfl

theorem SetCopyState_address_units_nocompile (textype : Nat) (u v : SDL_TextureAddressMode) :
    ∀ (us : List Nat) (data : GLES2_RenderData),
      data.NoCompile (us.foldl
        (fun d unit => SetTextureAddressMode (d.call [GLCall.activeTexture unit]) textype u v)
        data)
  | [], data => GLES2_RenderData.NoCompile.nc_refl data
  | x :: us, data => by
    simp only [List.foldl_cons]
    exact ((GLES2_RenderData.NoCompile.nc_call_one data (GLCall.activeTexture x) rfl).nc_trans
      (SetTextureAddressMode_nocompile _ textype u v)).nc_trans
      (SetCopyState_address_units_nocompile textype u v us _)

theorem SetCopyState_address_nocompile (data : GLES2_RenderData) (texture : Nat) (t : SDL_Texture)
    (u v : SDL_TextureAddressMode) (ht : data.texture? texture = some t) :
    data.NoCompile (SetCopyState_address data texture t u v) := by
  unfold SetCopyState_address
  split
  · dsimp only
    obtain ⟨d1, hd1⟩ : ∃ d1, d1 = (SetCopyState_units t).foldl
        (fun d unit => SetTextureAddressMode (d.call [GLCall.activeTexture unit])
                         t.texture_type u v) data := ⟨_, rfl⟩
    have h1 : data.NoCompile d1 := by
      rw [hd1]
      exact SetCopyState_address_units_nocompile t.texture_type u v (SetCopyState_units t) data
    rw [← hd1]
    obtain ⟨d2, hd2⟩ : ∃ d2, d2 = (if SetCopyState_units t = [] then d1
        else d1.call [GLCall.activeTexture 0]) := ⟨_, rfl⟩
    have h2 : d1.NoCompile d2 := by
      rw [hd2]
      split
      · exact GLES2_RenderData.NoCompile.nc_refl _
      · exact GLES2_RenderData.NoCompile.nc_call_one _ _ rfl
    rw [← hd2]
    have h3 : d2.NoCompile (SetTextureAddressMode d2 t.texture_type u v) :=
      SetTextureAddressMode_nocompile d2 t.texture_type u v
    exact GLES2_RenderData.NoCompile.nc_setTexture _ texture t _
      ((h1.nc_trans h2).nc_trans h3) ht rfl
  · exact GLES2_RenderData.NoCompile.nc_refl data

theorem SetCopyState_bind_nocompile (data : GLES2_RenderData) (texture : Nat) (t : SDL_Texture) :
    data.NoCompile (SetCopyState_bind data texture t) := by
  unfold SetCopyState_bind
  split
  · refine GLES2_RenderData.NoCompile.nc_of_log _ rfl (fun _ => rfl) rfl ?_
    intro c hc
    simp only [List.mem_append, List.mem_singleton] at hc
    rcases hc with hc | hc
    · split at hc
      · simp only [List.mem_cons, List.mem_singleton, List.not_mem_nil, or_false] at hc
        rcases hc with h | h | h | h | h <;> rw [h] <;> rfl
      · split at hc
        · simp only [List.mem_cons, List.mem_singleton, List.not_mem_nil, or_false] at hc
          rcases hc with h | h | h <;> rw [h] <;> rfl
        · simp at hc
    · rw [hc]; rfl
  · exact GLES2_RenderData.NoCompile.nc_refl data

theorem SetCopyState_after_nocompile (data data' : GLES2_RenderData) (cmd : SDL_RenderCommand)
    (tex : SDL_Texture) (ret r : Bool)
    (h : SetCopyState_after data cmd tex ret = some (r, data')) : data.NoCompile data' := by
  unfold SetCopyState_after at h
  simp only [Option.bind_eq_some] at h
  obtain ⟨t2, ht2, h⟩ := h
  have h1 := (SetCopyState_bind_nocompile data cmd.texture tex).nc_trans
    (SetCopyState_scale_nocompile _ cmd.texture t2 cmd.texture_scale_mode ht2)
  split at h
  · simp only [Option.some.injEq, Prod.mk.injEq] at h
    rw [← h.2]
    exact h1
  · simp only [Option.bind_eq_some, Option.some.injEq, Prod.mk.injEq] at h
    obtain ⟨t3, ht3, _, h⟩ := h
    rw [← h]
    exact h1.nc_trans (SetCopyState_address_nocompile _ _ _ _ _ ht3)


theorem GLES2_ActivateRenderer_nocompile (renderer : SDL_Renderer) (data : GLES2_RenderData) :
    data.NoCompile (GLES2_ActivateRenderer renderer data).2 := by
  unfold GLES2_ActivateRenderer
  split
  · exact GLES2_RenderData.NoCompile.nc_of_same rfl (fun _ => rfl) rfl
  · exact GLES2_RenderData.NoCompile.nc_refl data

theorem GLES2_RunCommandQueue_target_nocompile (renderer : SDL_Renderer)
    (data : GLES2_RenderData) : data.NoCompile (GLES2_RunCommandQueue_target renderer data) := by
  unfold GLES2_RunCommandQueue_target
  dsimp only
  split
  · exact GLES2_RenderData.NoCompile.nc_of_same rfl (fun _ => rfl) rfl
  · exact GLES2_RenderData.NoCompile.nc_of_same rfl (fun _ => rfl) rfl

theorem GL_CheckAllErrors_nocompile (data : GLES2_RenderData) (pending : List Nat) :
    data.NoCompile (GL_CheckAllErrors data pending).2 := by
  unfold GL_CheckAllErrors
  split
  · exact GLES2_RenderData.NoCompile.nc_refl data
  · split
    · exact GLES2_RenderData.NoCompile.nc_refl data
    · exact GLES2_RenderData.NoCompile.nc_of_same rfl (fun _ => rfl) rfl
theorem GLES2_RunCommandQueue_setviewport_nocompile (data : GLES2_RenderData)
    (cmd : SDL_RenderCommand) : data.NoCompile (GLES2_RunCommandQueue_setviewport data cmd) := by
  unfold GLES2_RunCommandQueue_setviewport
  split
  · exact GLES2_RenderData.NoCompile.nc_of_same rfl (fun _ => rfl) rfl
  · exact GLES2_RenderData.NoCompile.nc_refl data

theorem GLES2_RunCommandQueue_setcliprect_nocompile (data : GLES2_RenderData)
    (cmd : SDL_RenderCommand) : data.NoCompile (GLES2_RunCommandQueue_setcliprect data cmd) := by
  unfold GLES2_RunCommandQueue_setcliprect
  dsimp only
  split <;> split <;> exact GLES2_RenderData.NoCompile.nc_of_same rfl (fun _ => rfl) rfl

theorem GLES2_RenderData.NoCompile.nc_ite_call_ds (d : GLES2_RenderData) (c : Prop) [Decidable c]
    (call : GLCall) (ds : GLES2_DrawStateCache) (hcall : call.isCompile = false) :
    d.NoCompile (if c then { d.call [call] with drawstate := ds } else d) := by
  split
  · exact GLES2_RenderData.NoCompile.nc_call_ds _ _ _
      (by intro x hx; rw [List.mem_singleton.mp hx]; exact hcall)
  · exact GLES2_RenderData.NoCompile.nc_refl d

theorem GLES2_RunCommandQueue_clear_nocompile (env : Env) (colorswap : Bool)
    (data : GLES2_RenderData) (cmd : SDL_RenderCommand) :
    data.NoCompile (GLES2_RunCommandQueue_clear env colorswap data cmd) := by
  have h1 : data.NoCompile (GLES2_RunCommandQueue_clear_color env colorswap data cmd) := by
    unfold GLES2_RunCommandQueue_clear_color
    dsimp only
    refine GLES2_RenderData.NoCompile.nc_ite_call_ds data _ _ _ ?_
    rfl
  have h2 : ∀ d : GLES2_RenderData, d.NoCompile (GLES2_RunCommandQueue_clear_scissor d) := by
    intro d
    unfold GLES2_RunCommandQueue_clear_scissor
    refine GLES2_RenderData.NoCompile.nc_ite_call_ds d _ _ _ ?_
    rfl
  exact (h1.nc_trans (h2 _)).nc_trans (GLES2_RenderData.NoCompile.nc_call_one _ GLCall.clear rfl)
/-! ## A renderer that exists compiles no shader -/

theorem GLES2_RenderData.Live.of_nocompile {a b : GLES2_RenderData} (hl : a.Live)
    (h : a.NoCompile b) : b.Live := by
  obtain ⟨hs, ht, _⟩ := h
  have hsh : b.shader_id_cache = a.shader_id_cache := by
    have hx := congrArg (fun s => s.1) hs
    exact hx
  have hext : b.GL_OES_EGL_image_external_supported = a.GL_OES_EGL_image_external_supported := by
    have hx := congrArg (fun s => s.2.2) hs
    exact hx
  refine ⟨?_, ?_, ?_⟩
  · rw [hsh]
    exact hl.1
  · rw [hsh, hext]
    exact hl.2.1
  · intro p t hp
    have h1 := ht p
    rw [hp] at h1
    cases ha : a.textures p with
    | none => rw [ha] at h1; simp at h1
    | some t0 =>
      rw [ha] at h1
      simp only [Option.map_some', Option.some.injEq] at h1
      have h2 := hl.2.2 p t0 ha
      rw [h1]
      cases hf : t0.format <;> rw [hf] at h2 <;>
        first
        | rfl
        | (simp only [GLES2_CreateTexture_format] at h2 ⊢; rw [hext]; exact h2)
        | exact h2

theorem GLES2_SelectProgram_variant_external (env : Env) (texture : Nat)
    (source : GLES2_ImageSource) (scale_mode : SDL_ScaleMode) (colorspace : SDL_Colorspace)
    (params : ShaderParams)
    (h : GLES2_SelectProgram_variant env texture source scale_mode colorspace
      = .ok (GLES2_ShaderType.FRAGMENT_TEXTURE_EXTERNAL_OES, params)) :
    source = GLES2_ImageSource.TEXTURE_EXTERNAL_OES := by
  cases source <;> cases hn : env.nv12_rg_hint <;>
    cases hm : env.conversionMatrix colorspace <;>
    by_cases hs : scale_mode = SDL_ScaleMode.PIXELART <;>
    simp [GLES2_SelectProgram_variant, hn, hm, hs] at h ⊢

/-- In a renderer that exists, the shaders of every request that
`GLES2_CreateTexture` makes possible are compiled. -/
theorem GLES2_RenderData.Live.compiled {data : GLES2_RenderData} (hl : data.Live)
    (env : Env) (texture : Nat) (source : GLES2_ImageSource) (scale_mode : SDL_ScaleMode)
    (colorspace : SDL_Colorspace)
    (hsrc : source = GLES2_ImageSource.TEXTURE_EXTERNAL_OES →
      data.GL_OES_EGL_image_external_supported = true) :
    data.shader_id_cache GLES2_ShaderType.VERTEX_DEFAULT ≠ 0 ∧
    ∀ ftype params,
      GLES2_SelectProgram_variant env texture source scale_mode colorspace
        = .ok (ftype, params) → data.shader_id_cache ftype ≠ 0 := by
  refine ⟨hl.1 _ (by decide), ?_⟩
  intro ftype params hvar
  by_cases he : ftype = GLES2_ShaderType.FRAGMENT_TEXTURE_EXTERNAL_OES
  · subst he
    exact hl.2.1 (hsrc (GLES2_SelectProgram_variant_external env _ _ _ _ _ hvar))
  · exact hl.1 ftype he

theorem GLES2_SelectProgram_nocompile (env : Env) (data data' : GLES2_RenderData)
    (texture : Nat) (source : GLES2_ImageSource) (scale_mode : SDL_ScaleMode)
    (colorspace : SDL_Colorspace) (r : Bool)
    (hv : data.shader_id_cache GLES2_ShaderType.VERTEX_DEFAULT ≠ 0)
    (hf : ∀ ftype params,
      GLES2_SelectProgram_variant env texture source scale_mode colorspace
        = .ok (ftype, params) → data.shader_id_cache ftype ≠ 0)
    (h : GLES2_SelectProgram env data texture source scale_mode colorspace = some (r, data')) :
    data.NoCompile data' := by
  unfold GLES2_SelectProgram at h
  split at h
  · exact GLES2_SelectProgram_fault_nocompile _ _ _ h
  · rename_i msg _
    have h0 : data.NoCompile (SDL_SetError data msg) :=
      GLES2_RenderData.NoCompile.nc_of_same rfl (fun _ => rfl) rfl
    exact h0.nc_trans (GLES2_SelectProgram_fault_nocompile _ _ _ h)
  · rename_i variant hvar
    obtain ⟨ftype, params⟩ := variant
    rw [GLES2_SelectProgram_load_cached env data ftype params hv (hf ftype params hvar)] at h
    simp only [Option.bind_eq_some] at h
    obtain ⟨current, _, h⟩ := h
    cases current
    · simp only [Bool.false_eq_true, if_false] at h
      exact GLES2_SelectProgram_use_nocompile env _ _ _ _ _ _ _ h
    · simp only [if_true, Option.some.injEq, Prod.mk.injEq] at h
      rw [← h.2]
      exact GLES2_RenderData.NoCompile.nc_refl data

theorem SetDrawState_before_nocompile (env : Env) (data : GLES2_RenderData)
    (cmd : SDL_RenderCommand) (vertices : Nat) :
    data.NoCompile (SetDrawState_before env data cmd vertices) := by
  unfold SetDrawState_before
  refine (((SetDrawState_viewport_nocompile env data).nc_trans
    (SetDrawState_cliprect_nocompile _)).nc_trans
    (SetDrawState_texturing_nocompile _ cmd.texture)).nc_trans ?_
  refine GLES2_RenderData.NoCompile.nc_of_log _ rfl (fun _ => rfl) rfl ?_
  intro c hc
  split at hc
  · rw [List.mem_singleton.mp hc]; rfl
  · simp at hc

theorem SetDrawState_nocompile (env : Env) (data data' : GLES2_RenderData)
    (cmd : SDL_RenderCommand) (imgsrc : GLES2_ImageSource) (vertices : Nat) (r : Bool)
    (hl : data.Live)
    (hsrc : imgsrc = GLES2_ImageSource.TEXTURE_EXTERNAL_OES →
      data.GL_OES_EGL_image_external_supported = true)
    (h : SetDrawState env data cmd imgsrc vertices = some (r, data')) :
    data.NoCompile data' := by
  have hb := SetDrawState_before_nocompile env data cmd vertices
  have hlb := hl.of_nocompile hb
  have hextb : (SetDrawState_before env data cmd vertices).GL_OES_EGL_image_external_supported
      = data.GL_OES_EGL_image_external_supported := by
    have hx := congrArg (fun s => s.2.2) hb.1
    exact hx
  unfold SetDrawState at h
  simp only [Option.bind_eq_some] at h
  obtain ⟨cs, _, ⟨r3, d3⟩, hsel, h⟩ := h
  obtain ⟨hv, hf⟩ := hlb.compiled env cmd.texture imgsrc cmd.texture_scale_mode cs
    (fun he => by rw [hextb]; exact hsrc he)
  have h2 := hb.nc_trans (GLES2_SelectProgram_nocompile env _ d3 _ _ _ _ r3 hv hf hsel)
  simp only at h
  split at h
  · simp only [Option.some.injEq, Prod.mk.injEq] at h
    rw [← h.2]
    exact h2
  · simp only [Option.bind_eq_some, Option.some.injEq, Prod.mk.injEq] at h
    obtain ⟨d4, hproj, _, h⟩ := h
    rw [← h]
    refine ((h2.nc_trans (SetDrawState_projection_nocompile _ _ hproj)).nc_trans
      (SetDrawState_blend_nocompile env d4 cmd.blend)).nc_trans ?_
    refine GLES2_RenderData.NoCompile.nc_of_log _ rfl (fun _ => rfl) rfl ?_
    intro c hc
    simp only [SetDrawState_pointers, List.mem_cons, List.mem_singleton, List.not_mem_nil,
      or_false] at hc
    rcases hc with h | h <;> rw [h] <;> rfl

theorem SetCopyState_source_external (tf : Option SDL_PixelFormat) (format : SDL_PixelFormat)
    (h : SetCopyState_source tf format = some GLES2_ImageSource.TEXTURE_EXTERNAL_OES) :
    format = SDL_PixelFormat.EXTERNAL_OES := by
  unfold SetCopyState_source at h
  cases tf with
  | none => cases format <;> first | rfl | (simp at h)
  | some tf =>
    simp only at h
    split at h
    · cases format <;> first | rfl | (cases tf <;> simp at h)
    · simp at h

/-- In a renderer that exists, a state setup asks for the external shader only
when the extension is there. -/
theorem GLES2_RunCommandQueue_setup_source_live (renderer : SDL_Renderer)
    (data : GLES2_RenderData) (cmd : SDL_RenderCommand) (hl : data.Live)
    (colorspace : SDL_Colorspace)
    (h : GLES2_RunCommandQueue_setup_source renderer data cmd
      = some (GLES2_ImageSource.TEXTURE_EXTERNAL_OES, colorspace)) :
    data.GL_OES_EGL_image_external_supported = true := by
  unfold GLES2_RunCommandQueue_setup_source at h
  split at h
  · rename_i ht
    simp only [Option.bind_eq_some, Option.map_eq_some', Prod.mk.injEq] at h
    obtain ⟨tex, htex, tf, _, src, hsrc, hs, _⟩ := h
    subst hs
    have hfmt := SetCopyState_source_external tf tex.format hsrc
    have htc : data.textures cmd.texture = some tex := by
      simpa [GLES2_RenderData.texture?, ht] using htex
    have := hl.2.2 _ _ htc
    rw [hfmt] at this
    exact this
  · simp at h

theorem SetCopyState_nocompile (env : Env) (renderer : SDL_Renderer)
    (data data' : GLES2_RenderData) (cmd : SDL_RenderCommand) (vertices : Nat) (r : Bool)
    (hl : data.Live)
    (h : SetCopyState env renderer data cmd vertices = some (r, data')) :
    data.NoCompile data' := by
  unfold SetCopyState at h
  simp only [Option.bind_eq_some] at h
  obtain ⟨tex, htex, tf, htf, h⟩ := h
  have ht0 : cmd.texture ≠ 0 := by
    intro h0
    simp [GLES2_RenderData.texture?, h0] at htex
  split at h
  · simp only [Option.some.injEq, Prod.mk.injEq] at h
    rw [← h.2]
    exact GLES2_RenderData.NoCompile.nc_of_same rfl (fun _ => rfl) rfl
  · rename_i srcType hsrc
    simp only [Option.bind_eq_some] at h
    obtain ⟨⟨r1, d1⟩, hds, hafter⟩ := h
    have h1 := SetDrawState_nocompile env data d1 cmd srcType vertices r1 hl
      (fun he => GLES2_RunCommandQueue_setup_source_live renderer data cmd hl tex.colorspace
        (by simp [GLES2_RunCommandQueue_setup_source, ht0, htex, htf, hsrc, he])) hds
    exact h1.nc_trans (SetCopyState_after_nocompile _ _ _ _ _ _ hafter)

/-- A state setup in a renderer that exists compiles nothing and leaves a
renderer that exists. -/
theorem GLES2_RunCommandQueue_setup_nocompile (env : Env) (renderer : SDL_Renderer)
    (data data' : GLES2_RenderData) (cmd : SDL_RenderCommand) (vertices : Nat) (r : Bool)
    (hl : data.Live)
    (h : GLES2_RunCommandQueue_setup env renderer data cmd vertices = some (r, data')) :
    data.NoCompile data' := by
  unfold GLES2_RunCommandQueue_setup at h
  split at h
  · exact SetCopyState_nocompile env renderer _ _ _ _ _ hl h
  · exact SetDrawState_nocompile env _ _ _ _ _ _ hl (fun he => by cases he) h

theorem GLES2_RunCommandQueue_draw_nocompile (mode : GLPrim) (cmd : SDL_RenderCommand)
    (rest : List SDL_RenderCommand) (ret : Bool) (data1 : GLES2_RenderData) :
    data1.NoCompile (GLES2_RunCommandQueue_draw mode cmd rest ret data1) := by
  unfold GLES2_RunCommandQueue_draw
  split
  · exact GLES2_RenderData.NoCompile.nc_call_one _ _ rfl
  · exact GLES2_RenderData.NoCompile.nc_refl _

/-- The loop of `GLES2_RunCommandQueue` in a renderer that exists compiles
nothing, whatever the commands. -/
theorem GLES2_RunCommandQueue_loop_nocompile (env : Env) (renderer : SDL_Renderer)
    (colorswap : Bool) (vertices : Nat) :
    ∀ (cmds : List SDL_RenderCommand) (skip : Nat) (data data' : GLES2_RenderData)
      (setups : List Bool), data.Live →
      GLES2_RunCommandQueue_loop env renderer colorswap vertices skip data cmds
        = some (data', setups) → data.NoCompile data'
  | [], skip, data, data', setups, _, h => by
    simp only [GLES2_RunCommandQueue_loop, Option.some.injEq, Prod.mk.injEq] at h
    rw [← h.1]
    exact GLES2_RenderData.NoCompile.nc_refl data
  | cmd :: rest, skip + 1, data, data', setups, hl, h => by
    rw [GLES2_RunCommandQueue_loop] at h
    exact GLES2_RunCommandQueue_loop_nocompile env renderer colorswap vertices rest skip data
      data' setups hl h
  | cmd :: rest, 0, data, data', setups, hl, h => by
    have ih := GLES2_RunCommandQueue_loop_nocompile env renderer colorswap vertices rest
    have step : ∀ (d : GLES2_RenderData) (k : Nat) (s : List Bool), data.NoCompile d →
        GLES2_RunCommandQueue_loop env renderer colorswap vertices k d rest = some (data', s) →
        data.NoCompile data' :=
      fun d k s hd hloop => hd.nc_trans (ih k d data' s (hl.of_nocompile hd) hloop)
    have draws : ∀ (mode : GLPrim),
        ((GLES2_RunCommandQueue_setup env renderer data cmd vertices).bind (fun s =>
          (GLES2_RunCommandQueue_loop env renderer colorswap vertices
            (rest.takeWhile (GLES2_RunCommandQueue_joinsDraw cmd)).length
            (GLES2_RunCommandQueue_draw mode cmd rest s.1 s.2) rest).map
            (fun r => (r.1, s.1 :: r.2)))) = some (data', setups) →
        data.NoCompile data' := by
      intro mode hl2
      simp only [Option.bind_eq_some, Option.map_eq_some', Prod.mk.injEq] at hl2
      obtain ⟨⟨s1, s2⟩, hs, r, hr, hd, _⟩ := hl2
      exact step _ _ r.2
        ((GLES2_RunCommandQueue_setup_nocompile env renderer data s2 cmd vertices s1 hl hs).nc_trans
          (GLES2_RunCommandQueue_draw_nocompile mode cmd rest s1 s2))
        (by rw [hr, ← hd])
    rw [GLES2_RunCommandQueue_loop] at h
    split at h
    · exact step data 0 setups (GLES2_RenderData.NoCompile.nc_refl data) h
    · exact step _ 0 setups (GLES2_RunCommandQueue_setviewport_nocompile data cmd) h
    · exact step _ 0 setups (GLES2_RunCommandQueue_setcliprect_nocompile data cmd) h
    · exact step _ 0 setups (GLES2_RunCommandQueue_clear_nocompile env colorswap data cmd) h
    · exact step data 0 setups (GLES2_RenderData.NoCompile.nc_refl data) h
    · exact step data 0 setups (GLES2_RenderData.NoCompile.nc_refl data) h
    · exact step data 0 setups (GLES2_RenderData.NoCompile.nc_refl data) h
    · exact step data 0 setups (GLES2_RenderData.NoCompile.nc_refl data) h
    · simp only [Option.bind_eq_some] at h
      obtain ⟨⟨s1, s2⟩, hs, h⟩ := h
      have hset := SetDrawState_nocompile env data s2 cmd GLES2_ImageSource.SOLID vertices s1 hl
        (fun he => by cases he) hs
      simp only at h
      split at h
      · simp only [Option.map_eq_some', Prod.mk.injEq] at h
        obtain ⟨r, hr, hd, _⟩ := h
        exact step _ _ r.2 hset (by rw [hr, ← hd])
      · split at h
        · simp only [Option.map_eq_some', Prod.mk.injEq] at h
          obtain ⟨r, hr, hd, _⟩ := h
          exact step _ _ r.2
            (hset.nc_trans (GLES2_RenderData.NoCompile.nc_call_one s2
              (GLCall.drawArrays GLPrim.LINE_STRIP 0 (GLsizei_of_size_t cmd.count)) rfl))
            (by rw [hr, ← hd])
        · simp only [Option.map_eq_some', Prod.mk.injEq] at h
          obtain ⟨r, hr, hd, _⟩ := h
          exact step _ _ r.2
            (hset.nc_trans (GLES2_RenderData.NoCompile.nc_call_one s2
              (GLCall.drawArrays GLPrim.LINES 0 (GLsizei_of_size_t (cmd.count
                + drawCount (rest.takeWhile (GLES2_RunCommandQueue_joinsLines cmd.blend)))))
              rfl))
            (by rw [hr, ← hd])
    · exact draws _ h
    · exact draws _ h

/-- A run of `GLES2_RunCommandQueue` in a renderer that exists compiles
nothing and leaves a renderer that exists, whatever the commands and whatever
it returns. -/
theorem GLES2_RunCommandQueue_nocompile (env : Env) (renderer : SDL_Renderer)
    (data data' : GLES2_RenderData) (cmds : List SDL_RenderCommand) (vertices : Nat)
    (pending : List Nat) (ok : Bool) (hl : data.Live)
    (h : GLES2_RunCommandQueue env renderer data cmds vertices pending = some (ok, data')) :
    data.NoCompile data' ∧ data'.Live := by
  have key : data.NoCompile data' := by
    unfold GLES2_RunCommandQueue at h
    simp only [Option.bind_eq_some] at h
    obtain ⟨colorswap, _, h⟩ := h
    have ha := GLES2_ActivateRenderer_nocompile renderer data
    split at h
    · simp only [Option.some.injEq, Prod.mk.injEq] at h
      rw [← h.2]
      exact ha
    · simp only [Option.bind_eq_some, Option.some.injEq] at h
      obtain ⟨⟨d1, s1⟩, hloop, h⟩ := h
      have ht := ha.nc_trans (GLES2_RunCommandQueue_target_nocompile renderer _)
      have hlp := GLES2_RunCommandQueue_loop_nocompile env renderer colorswap vertices cmds 0 _
        d1 s1 (hl.of_nocompile ht) hloop
      have hc := GL_CheckAllErrors_nocompile d1 pending
      have hd : data' = (GL_CheckAllErrors d1 pending).2 := by
        have hx := congrArg Prod.snd h
        exact hx.symm
      rw [hd]
      exact (ht.nc_trans hlp).nc_trans hc
  exact ⟨key, hl.of_nocompile key⟩

theorem GLES2_InvalidateCachedState_nocompile (data : GLES2_RenderData) :
    data.NoCompile (GLES2_InvalidateCachedState data) :=
  GLES2_RenderData.NoCompile.nc_of_same rfl (fun _ => rfl) rfl

theorem GLES2_SetRenderTarget_nocompile (data data' : GLES2_RenderData) (texture : Nat)
    (complete r : Bool) (h : GLES2_SetRenderTarget data texture complete = some (r, data')) :
    data.NoCompile data' := by
  unfold GLES2_SetRenderTarget at h
  dsimp only at h
  split at h
  · simp only [Option.some.injEq, Prod.mk.injEq] at h
    rw [← h.2]
    refine GLES2_RenderData.NoCompile.nc_of_log _ rfl (fun _ => rfl) rfl ?_
    intro c hc
    rw [List.mem_singleton.mp hc]; rfl
  · simp only [Option.bind_eq_some] at h
    obtain ⟨t, _, h⟩ := h
    split at h
    · simp only [Option.some.injEq, Prod.mk.injEq] at h
      rw [← h.2]
      refine GLES2_RenderData.NoCompile.nc_of_log
        [GLCall.bindFramebuffer t.fbo, GLCall.framebufferTexture2D t.texture_type t.texture,
         GLCall.checkFramebufferStatus] rfl (fun _ => rfl) rfl ?_
      intro c hc
      simp only [List.mem_cons, List.mem_singleton, List.not_mem_nil, or_false] at hc
      rcases hc with h | h | h <;> rw [h] <;> rfl
    · simp only [Option.some.injEq, Prod.mk.injEq] at h
      rw [← h.2]
      refine GLES2_RenderData.NoCompile.nc_of_log
        [GLCall.bindFramebuffer t.fbo, GLCall.framebufferTexture2D t.texture_type t.texture,
         GLCall.checkFramebufferStatus] rfl (fun _ => rfl) rfl ?_
      intro c hc
      simp only [List.mem_cons, List.mem_singleton, List.not_mem_nil, or_false] at hc
      rcases hc with h | h | h <;> rw [h] <;> rfl
/-! ## The shaders of `GLES2_CreateRenderer` -/

/-- A `GLES2_CacheShader` that succeeds stores the name of the new shader, and
touches neither the other names nor the textures nor the extension flag. -/
theorem GLES2_CacheShader_stores (env : Env) (data : GLES2_RenderData)
    (type : GLES2_ShaderType) (fragment : Bool)
    (hnames : ∀ n, env.compileStatus n = true → env.shaderName n ≠ 0)
    (hok : (GLES2_CacheShader env data type fragment).1 = true) :
    (GLES2_CacheShader env data type fragment).2.shader_id_cache type ≠ 0 ∧
    (∀ t, t ≠ type → (GLES2_CacheShader env data type fragment).2.shader_id_cache t
      = data.shader_id_cache t) ∧
    (GLES2_CacheShader env data type fragment).2.textures = data.textures ∧
    (GLES2_CacheShader env data type fragment).2.GL_OES_EGL_image_external_supported
      = data.GL_OES_EGL_image_external_supported := by
  unfold GLES2_CacheShader at hok ⊢
  split
  · rename_i hb
    rw [if_pos hb] at hok
    exact absurd hok (by simp [SDL_SetError])
  · rename_i hb
    rw [if_neg hb] at hok
    dsimp only at hok ⊢
    split
    · rename_i h0
      refine ⟨?_, fun t ht => ?_, rfl, rfl⟩
      · simp only [if_true]
        exact hnames _ h0
      · simp only [if_neg ht]
        rfl
    · rename_i h0
      rw [if_neg h0] at hok
      split
      · rename_i h1
        refine ⟨?_, fun t ht => ?_, rfl, rfl⟩
        · simp only [if_true]
          exact hnames _ h1
        · simp only [if_neg ht]
          rfl
      · rename_i h1
        rw [if_neg h1] at hok
        exact absurd hok (by simp [GLES2_CacheShader_fail])

theorem GLES2_CacheShaders_loop_stores (env : Env)
    (hnames : ∀ n, env.compileStatus n = true → env.shaderName n ≠ 0) :
    ∀ (types : List GLES2_ShaderType) (data : GLES2_RenderData),
      (GLES2_CacheShaders_loop env data types).1 = true →
      (∀ t ∈ types, (GLES2_CacheShaders_loop env data types).2.shader_id_cache t ≠ 0) ∧
      (∀ t, data.shader_id_cache t ≠ 0 →
        (GLES2_CacheShaders_loop env data types).2.shader_id_cache t ≠ 0) ∧
      (GLES2_CacheShaders_loop env data types).2.textures = data.textures ∧
      (GLES2_CacheShaders_loop env data types).2.GL_OES_EGL_image_external_supported
        = data.GL_OES_EGL_image_external_supported
  | [], data, _ => ⟨fun t ht => absurd ht (by simp), fun _ h => h, rfl, rfl⟩
  | shader :: rest, data, hok => by
    unfold GLES2_CacheShaders_loop at hok ⊢
    by_cases hf : (GLES2_CacheShader env data shader
        (decide (shader ≠ GLES2_ShaderType.VERTEX_DEFAULT))).1 = false
    · rw [if_pos hf] at hok
      exact absurd hok (by simp)
    · rw [if_neg hf] at hok ⊢
      have hs : (GLES2_CacheShader env data shader
          (decide (shader ≠ GLES2_ShaderType.VERTEX_DEFAULT))).1 = true := by
        simpa using hf
      obtain ⟨s1, s2, s3, s4⟩ := GLES2_CacheShader_stores env data shader _ hnames hs
      obtain ⟨i1, i2, i3, i4⟩ := GLES2_CacheShaders_loop_stores env hnames rest _ hok
      refine ⟨?_, ?_, i3.trans s3, i4.trans s4⟩
      · intro t ht
        rcases List.mem_cons.mp ht with ht | ht
        · rw [ht]
          exact i2 _ s1
        · exact i1 t ht
      · intro t ht
        by_cases hts : t = shader
        · rw [hts]
          exact i2 _ s1
        · exact i2 t (by rw [s2 t hts]; exact ht)

/-- When the shader part of `GLES2_CreateRenderer` succeeds, on a driver that
gives the shaders it compiles names other than zero, the renderer exists: no
compilation has failed in both attempts, for that would have been the jump to
`error`. -/
theorem GLES2_CreateRenderer_shaders_live (env : Env) (ext : Bool)
    (data data' : GLES2_RenderData)
    (hnames : ∀ n, env.compileStatus n = true → env.shaderName n ≠ 0)
    (htex : ∀ p, data.textures p = none)
    (hflag : data.GL_OES_EGL_image_external_supported = false)
    (h : GLES2_CreateRenderer_shaders env ext data = (true, data')) :
    data'.Live ∧ data'.GL_OES_EGL_image_external_supported = ext := by
  unfold GLES2_CreateRenderer_shaders at h
  by_cases hc : (GLES2_CacheShaders env data).1 = false
  · rw [if_pos hc] at h
    cases h
  · rw [if_neg hc] at h
    have hc1 : (GLES2_CacheShaders env data).1 = true := by simpa using hc
    obtain ⟨i1, _, i3, i4⟩ := GLES2_CacheShaders_loop_stores env hnames _ data hc1
    have hall : ∀ t, t ≠ GLES2_ShaderType.FRAGMENT_TEXTURE_EXTERNAL_OES →
        (GLES2_CacheShaders env data).2.shader_id_cache t ≠ 0 := by
      intro t ht
      refine i1 t ?_
      cases t <;> first | exact absurd rfl ht | simp
    have htex1 : ∀ p, (GLES2_CacheShaders env data).2.textures p = none := by
      intro p
      have hx := congrFun i3 p
      exact hx.trans (htex p)
    cases ext
    · simp only [Bool.false_eq_true, if_false, Prod.mk.injEq, true_and] at h
      subst h
      refine ⟨⟨hall, ?_, ?_⟩, ?_⟩
      · intro hx
        have : (GLES2_CacheShaders env data).2.GL_OES_EGL_image_external_supported = false :=
          i4.trans hflag
        rw [this] at hx
        exact absurd hx (by simp)
      · intro p t hp
        rw [htex1 p] at hp
        cases hp
      · exact i4.trans hflag
    · simp only [if_true] at h
      have hok : (GLES2_CacheShader env
          { (GLES2_CacheShaders env data).2 with GL_OES_EGL_image_external_supported := true }
          GLES2_ShaderType.FRAGMENT_TEXTURE_EXTERNAL_OES true).1 = true := by
        rw [h]
      obtain ⟨s1, s2, s3, s4⟩ := GLES2_CacheShader_stores env _ _ _ hnames hok
      have hd : data' = (GLES2_CacheShader env
          { (GLES2_CacheShaders env data).2 with GL_OES_EGL_image_external_supported := true }
          GLES2_ShaderType.FRAGMENT_TEXTURE_EXTERNAL_OES true).2 := by
        rw [h]
      rw [hd]
      refine ⟨⟨?_, fun _ => s1, ?_⟩, s4⟩
      · intro t ht
        rw [s2 t ht]
        exact hall t ht
      · intro p t hp
        rw [s3] at hp
        have := htex1 p
        rw [this] at hp
        cases hp

theorem GLES2_QueueDrawLines_loop_length (env : Env) (color : SDL_FColor) :
    ∀ (points : List SDL_FPoint) (prevx prevy : GLfloat),
      (GLES2_QueueDrawLines_loop env color prevx prevy points).length = points.length
  | [], _, _ => rfl
  | _ :: points, _, _ => by
    simp only [GLES2_QueueDrawLines_loop, List.length_cons]
    rw [GLES2_QueueDrawLines_loop_length env color points]

/-- Every vertex the loop of `GLES2_QueueDrawLines` writes is the center of its
point, moved by a quarter along the direction in which the center lies from
the vertex written before. -/
theorem GLES2_QueueDrawLines_loop_spec (env : Env) (color : SDL_FColor) :
    ∀ (points : List SDL_FPoint) (before : SDL_VertexSolid) (i : Nat)
      (prev v : SDL_VertexSolid) (point : SDL_FPoint),
      (before :: GLES2_QueueDrawLines_loop env color before.position.x before.position.y
        points).get? i = some prev →
      points.get? i = some point →
      (GLES2_QueueDrawLines_loop env color before.position.x before.position.y points).get? i
        = some v →
      v.color = color ∧
      v.position.x = env.fadd (env.fadd point.x GLfloat.half)
        (env.fmul (env.cosf (env.atan2f
          (env.fsub (env.fadd point.y GLfloat.half) prev.position.y)
          (env.fsub (env.fadd point.x GLfloat.half) prev.position.x))) GLfloat.quarter) ∧
      v.position.y = env.fadd (env.fadd point.y GLfloat.half)
        (env.fmul (env.sinf (env.atan2f
          (env.fsub (env.fadd point.y GLfloat.half) prev.position.y)
          (env.fsub (env.fadd point.x GLfloat.half) prev.position.x))) GLfloat.quarter)
  | [], _, _, _, _, _, _, hp, _ => by simp at hp
  | p :: points, before, 0, prev, v, point, hprev, hp, hv => by
    simp only [List.get?_cons_zero, Option.some.injEq] at hprev hp
    simp only [GLES2_QueueDrawLines_loop, List.get?_cons_zero, Option.some.injEq] at hv
    subst hprev hp
    rw [← hv]
    exact ⟨rfl, rfl, rfl⟩
  | p :: points, before, i + 1, prev, v, point, hprev, hp, hv => by
    simp only [List.get?_cons_succ] at hprev hp
    simp only [GLES2_QueueDrawLines_loop, List.get?_cons_succ] at hv hprev
    exact GLES2_QueueDrawLines_loop_spec env color points
      { position :=
          { x := env.fadd (env.fadd p.x GLfloat.half)
              (env.fmul (env.cosf (env.atan2f
                (env.fsub (env.fadd p.y GLfloat.half) before.position.y)
                (env.fsub (env.fadd p.x GLfloat.half) before.position.x))) GLfloat.quarter),
            y := env.fadd (env.fadd p.y GLfloat.half)
              (env.fmul (env.sinf (env.atan2f
                (env.fsub (env.fadd p.y GLfloat.half) before.position.y)
                (env.fsub (env.fadd p.x GLfloat.half) before.position.x))) GLfloat.quarter) },
        color := color } i prev v point hprev hp hv

theorem Env.binary32_exactOnLine : Env.binary32.ExactOnLine := by
  unfold Env.ExactOnLine
  decide

/-- Claim C19.  Given the memory for the vertices and a render target that is a
window or a texture of the renderer, `GLES2_QueueDrawLines` on at least two
points returns `true` and writes one vertex for each point and the number of
points to the command.  The first vertex is the first point plus a half in
either coordinate.  Every later vertex is its point plus a half in either
coordinate, plus a quarter of the cosine and of the sine of the angle
`SDL_atan2f (deltay, deltax)` of the segment that arrives at it, which is the
segment from the vertex written before to the point plus a half: the unit
vector of the direction of that segment.  The float operations are those of
the environment.  Where they have the values of IEEE 754 arithmetic that
`Env.ExactOnLine` lists, the second vertex of the points (0, 0) and (10, 0) is
(10.75, 0.5). -/
theorem GLES2_QueueDrawLines_vertices (env : Env) (data : GLES2_RenderData)
    (renderer : SDL_Renderer) (first : Nat) (cmd : SDL_RenderCommand)
    (points : List SDL_FPoint) (hcount : 2 ≤ points.length)
    (htarget : renderer.target = 0 ∨ (data.textures renderer.target).isSome = true) :
    ∃ (cmd' : SDL_RenderCommand) (verts : List SDL_VertexSolid),
      GLES2_QueueDrawLines env data renderer (some first) cmd points
        = some (true, cmd', verts) ∧
      verts.length = points.length ∧ cmd'.count = points.length ∧ cmd'.first = first ∧
      (∀ point v, points.get? 0 = some point → verts.get? 0 = some v →
        v.position.x = env.fadd GLfloat.half point.x ∧
        v.position.y = env.fadd GLfloat.half point.y) ∧
      (∀ i prev point v, verts.get? i = some prev → points.get? (i + 1) = some point →
        verts.get? (i + 1) = some v →
        v.position.x = env.fadd (env.fadd point.x GLfloat.half)
          (env.fmul (env.cosf (env.atan2f
            (env.fsub (env.fadd point.y GLfloat.half) prev.position.y)
            (env.fsub (env.fadd point.x GLfloat.half) prev.position.x))) GLfloat.quarter) ∧
        v.position.y = env.fadd (env.fadd point.y GLfloat.half)
          (env.fmul (env.sinf (env.atan2f
            (env.fsub (env.fadd point.y GLfloat.half) prev.position.y)
            (env.fsub (env.fadd point.x GLfloat.half) prev.position.x))) GLfloat.quarter)) ∧
      (env.ExactOnLine → points = [⟨⟨0⟩, ⟨0⟩⟩, ⟨⟨0x41200000⟩, ⟨0⟩⟩] →
        verts.map SDL_VertexSolid.position
          = [⟨GLfloat.half, GLfloat.half⟩, ⟨⟨0x412C0000⟩, GLfloat.half⟩]) := by
  obtain ⟨swap, hswap⟩ : ∃ swap, GLES2_QueueDraw_colorswap data renderer = some swap := by
    unfold GLES2_QueueDraw_colorswap
    rcases htarget with h | h
    · exact ⟨false, by rw [if_neg (by simp [h])]⟩
    · by_cases h0 : renderer.target = 0
      · exact ⟨false, by rw [if_neg (by simp [h0])]⟩
      · obtain ⟨t, ht⟩ := Option.isSome_iff_exists.1 h
        rw [if_pos h0]
        simp only [GLES2_RenderData.texture?, if_neg h0, ht, Option.some_bind]
        exact ⟨_, rfl⟩
  match points, hcount with
  | p0 :: rest, _ =>
    refine ⟨{ cmd with first := first, count := (p0 :: rest).length },
      { position := { x := env.fadd GLfloat.half p0.x, y := env.fadd GLfloat.half p0.y },
        color := GLES2_QueueDraw_color env swap cmd } ::
        GLES2_QueueDrawLines_loop env (GLES2_QueueDraw_color env swap cmd)
          (env.fadd GLfloat.half p0.x) (env.fadd GLfloat.half p0.y) rest, ?_, ?_, rfl, rfl, ?_, ?_, ?_⟩
    · simp only [GLES2_QueueDrawLines, hswap, Option.some_bind]
    · simp only [List.length_cons, GLES2_QueueDrawLines_loop_length]
    · intro point v hp hv
      simp only [List.get?_cons_zero, Option.some.injEq] at hp hv
      subst hp
      rw [← hv]
      exact ⟨rfl, rfl⟩
    · intro i prev point v hprev hp hv
      simp only [List.get?_cons_succ] at hp hv
      exact (GLES2_QueueDrawLines_loop_spec env (GLES2_QueueDraw_color env swap cmd) rest
        { position := { x := env.fadd GLfloat.half p0.x, y := env.fadd GLfloat.half p0.y },
          color := GLES2_QueueDraw_color env swap cmd } i prev v point hprev hp hv).2
    · intro hx hpts
      obtain ⟨e1, e2, e3, e4, e5, e6, e7, e8, e9, e10, e11⟩ := hx
      simp only [List.cons.injEq] at hpts
      obtain ⟨hp0, hrest⟩ := hpts
      subst hp0 hrest
      simp only [GLES2_QueueDrawLines_loop, List.map_cons, List.map_nil, e1, e2, e3, e4, e5, e6,
        e7, e8, e9, e10, e11]

theorem GLES2_QueueDrawLines_vertices_witness :
    Env.binary32.ExactOnLine ∧
    (GLES2_QueueDrawLines Env.binary32 GLES2_RenderData.live
        SDL_Renderer.window (some 0) (SDL_RenderCommand.lines 0 0 SDL_BLENDMODE_NONE)
        [⟨⟨0⟩, ⟨0⟩⟩, ⟨⟨0x41200000⟩, ⟨0⟩⟩]).map (fun r => r.2.2.map SDL_VertexSolid.position)
      = some [⟨GLfloat.half, GLfloat.half⟩, ⟨⟨0x412C0000⟩, GLfloat.half⟩] := by
  obtain ⟨cmd', verts, hrun, _, _, _, _, _, hex⟩ :=
    GLES2_QueueDrawLines_vertices Env.binary32 GLES2_RenderData.live
      SDL_Renderer.window 0 (SDL_RenderCommand.lines 0 0 SDL_BLENDMODE_NONE) [⟨⟨0⟩, ⟨0⟩⟩, ⟨⟨0x41200000⟩, ⟨0⟩⟩] (by decide) (Or.inl rfl)
  refine ⟨Env.binary32_exactOnLine, ?_⟩
  rw [hrun]
  simp only [Option.map_some']
  rw [hex Env.binary32_exactOnLine rfl]
